import Mathlib

/-!
# vulkan_test: GPU resource and frame-synchronisation engine

A shallow embedding of the parts of `vulkan_context.cpp`, `vulkan_image.cpp`,
`model.cpp` and `renderer.cpp` that decide the frame loop, the staged upload,
the image layout transitions and the swapchain selection policy, followed by
the theorems about them.

Conventions of the embedding:
* Vulkan handles are natural numbers, `VK_NULL_HANDLE` is `0`.
* Vulkan enumerations and flag words are numbers carrying the values of the
  Vulkan headers; `uint32_t` arithmetic is reduced modulo `2 ^ 32`.
* The Vulkan driver is an explicit world `Gpu` (call log, command buffers
  being recorded, buffers and device memory) threaded through every function;
  the result codes the driver hands back are explicit arguments.
-/

namespace VulkanTest

/-! ## Vulkan vocabulary -/

abbrev Handle := Nat
abbrev VK_NULL_HANDLE : Handle := 0
abbrev Byte := Nat

abbrev VkResult := Int
abbrev VK_SUCCESS : VkResult := 0
abbrev VK_NOT_READY : VkResult := 1
abbrev VK_TIMEOUT : VkResult := 2
abbrev VK_SUBOPTIMAL_KHR : VkResult := 1000001003
abbrev VK_ERROR_OUT_OF_HOST_MEMORY : VkResult := -1
abbrev VK_ERROR_OUT_OF_DEVICE_MEMORY : VkResult := -2
abbrev VK_ERROR_DEVICE_LOST : VkResult := -4
abbrev VK_ERROR_SURFACE_LOST_KHR : VkResult := -1000000000
abbrev VK_ERROR_OUT_OF_DATE_KHR : VkResult := -1000001004

abbrev VkFormat := Nat
abbrev VK_FORMAT_UNDEFINED : VkFormat := 0
abbrev VK_FORMAT_R8G8B8A8_UNORM : VkFormat := 37
abbrev VK_FORMAT_B8G8R8A8_UNORM : VkFormat := 44
abbrev VK_FORMAT_D32_SFLOAT : VkFormat := 126
abbrev VK_FORMAT_D24_UNORM_S8_UINT : VkFormat := 129
abbrev VK_FORMAT_D32_SFLOAT_S8_UINT : VkFormat := 130

abbrev VkColorSpaceKHR := Nat
abbrev VK_COLOR_SPACE_SRGB_NONLINEAR_KHR : VkColorSpaceKHR := 0

abbrev VkPresentModeKHR := Nat
abbrev VK_PRESENT_MODE_IMMEDIATE_KHR : VkPresentModeKHR := 0
abbrev VK_PRESENT_MODE_MAILBOX_KHR : VkPresentModeKHR := 1
abbrev VK_PRESENT_MODE_FIFO_KHR : VkPresentModeKHR := 2

abbrev VkImageLayout := Nat
abbrev VK_IMAGE_LAYOUT_UNDEFINED : VkImageLayout := 0
abbrev VK_IMAGE_LAYOUT_GENERAL : VkImageLayout := 1
abbrev VK_IMAGE_LAYOUT_COLOR_ATTACHMENT_OPTIMAL : VkImageLayout := 2
abbrev VK_IMAGE_LAYOUT_DEPTH_STENCIL_ATTACHMENT_OPTIMAL : VkImageLayout := 3
abbrev VK_IMAGE_LAYOUT_SHADER_READ_ONLY_OPTIMAL : VkImageLayout := 5
abbrev VK_IMAGE_LAYOUT_TRANSFER_SRC_OPTIMAL : VkImageLayout := 6
abbrev VK_IMAGE_LAYOUT_TRANSFER_DST_OPTIMAL : VkImageLayout := 7

abbrev VK_IMAGE_ASPECT_COLOR_BIT : Nat := 0x1
abbrev VK_IMAGE_ASPECT_DEPTH_BIT : Nat := 0x2
abbrev VK_IMAGE_ASPECT_STENCIL_BIT : Nat := 0x4

abbrev VK_ACCESS_SHADER_READ_BIT : Nat := 0x20
abbrev VK_ACCESS_DEPTH_STENCIL_ATTACHMENT_READ_BIT : Nat := 0x200
abbrev VK_ACCESS_DEPTH_STENCIL_ATTACHMENT_WRITE_BIT : Nat := 0x400
abbrev VK_ACCESS_TRANSFER_WRITE_BIT : Nat := 0x1000

abbrev VK_PIPELINE_STAGE_TOP_OF_PIPE_BIT : Nat := 0x1
abbrev VK_PIPELINE_STAGE_FRAGMENT_SHADER_BIT : Nat := 0x80
abbrev VK_PIPELINE_STAGE_EARLY_FRAGMENT_TESTS_BIT : Nat := 0x100
abbrev VK_PIPELINE_STAGE_COLOR_ATTACHMENT_OUTPUT_BIT : Nat := 0x400
abbrev VK_PIPELINE_STAGE_TRANSFER_BIT : Nat := 0x1000

abbrev VK_BUFFER_USAGE_TRANSFER_SRC_BIT : Nat := 0x1
abbrev VK_BUFFER_USAGE_TRANSFER_DST_BIT : Nat := 0x2
abbrev VK_BUFFER_USAGE_UNIFORM_BUFFER_BIT : Nat := 0x10
abbrev VK_BUFFER_USAGE_INDEX_BUFFER_BIT : Nat := 0x40
abbrev VK_BUFFER_USAGE_VERTEX_BUFFER_BIT : Nat := 0x80

abbrev VK_IMAGE_USAGE_TRANSFER_DST_BIT : Nat := 0x2
abbrev VK_IMAGE_USAGE_SAMPLED_BIT : Nat := 0x4
abbrev VK_IMAGE_USAGE_DEPTH_STENCIL_ATTACHMENT_BIT : Nat := 0x20

abbrev VK_MEMORY_PROPERTY_DEVICE_LOCAL_BIT : Nat := 0x1
abbrev VK_MEMORY_PROPERTY_HOST_VISIBLE_BIT : Nat := 0x2
abbrev VK_MEMORY_PROPERTY_HOST_COHERENT_BIT : Nat := 0x4

abbrev VK_FORMAT_FEATURE_DEPTH_STENCIL_ATTACHMENT_BIT : Nat := 0x200

abbrev VK_COMMAND_BUFFER_USAGE_ONE_TIME_SUBMIT_BIT : Nat := 0x1

/-- The constant `MAX_FRAMES_IN_FLIGHT` of `vulkan_context.cpp`. -/
abbrev MAX_FRAMES_IN_FLIGHT : Nat := 2

/-- The largest `uint32_t`, `std::numeric_limits<uint32_t>::max()`. -/
abbrev UINT32_MAX : Nat := 2 ^ 32 - 1

structure VkSurfaceFormatKHR where
  format : VkFormat
  colorSpace : VkColorSpaceKHR
deriving DecidableEq, Repr

structure VkExtent2D where
  width : Nat
  height : Nat
deriving DecidableEq, Repr

/-- The fields of `VkSurfaceCapabilitiesKHR` that the code reads. -/
structure VkSurfaceCapabilitiesKHR where
  minImageCount : Nat
  maxImageCount : Nat
  currentExtent : VkExtent2D
  minImageExtent : VkExtent2D
  maxImageExtent : VkExtent2D
  currentTransform : Nat
deriving DecidableEq, Repr

/-- The fields of `VkSwapchainCreateInfoKHR` that `createSwapChain` computes. -/
structure VkSwapchainCreateInfoKHR where
  minImageCount : Nat
  imageFormat : VkFormat
  imageColorSpace : VkColorSpaceKHR
  imageExtent : VkExtent2D
  concurrentSharing : Bool
  preTransform : Nat
  presentMode : VkPresentModeKHR
deriving DecidableEq, Repr

/-- The fields of `VkImageMemoryBarrier` that `transitionImageLayout` sets to
something other than a fixed constant. -/
structure VkImageMemoryBarrier where
  oldLayout : VkImageLayout
  newLayout : VkImageLayout
  srcAccessMask : Nat
  dstAccessMask : Nat
  image : Handle
  aspectMask : Nat
deriving DecidableEq, Repr

abbrev VkDescriptorType := Nat
abbrev VK_DESCRIPTOR_TYPE_COMBINED_IMAGE_SAMPLER : VkDescriptorType := 1
abbrev VK_DESCRIPTOR_TYPE_UNIFORM_BUFFER : VkDescriptorType := 6

abbrev VK_SHADER_STAGE_VERTEX_BIT : Nat := 0x1
abbrev VK_SHADER_STAGE_FRAGMENT_BIT : Nat := 0x10

/-- The fields of `VkDescriptorSetLayoutBinding` that the code sets. -/
structure VkDescriptorSetLayoutBinding where
  binding : Nat
  descriptorType : VkDescriptorType
  descriptorCount : Nat
  stageFlags : Nat
deriving DecidableEq, Repr

/-- One entry `VkDescriptorPoolSize` of a descriptor pool. -/
structure VkDescriptorPoolSize where
  type : VkDescriptorType
  descriptorCount : Nat
deriving DecidableEq, Repr

structure VkDescriptorBufferInfo where
  buffer : Handle
  offset : Nat
  range : Nat
deriving DecidableEq, Repr

structure VkDescriptorImageInfo where
  sampler : Handle
  imageView : Handle
  imageLayout : VkImageLayout
deriving DecidableEq, Repr

/-- The fields of `VkWriteDescriptorSet` that the code sets; the two pointers
are null in a zero-initialised structure. -/
structure VkWriteDescriptorSet where
  dstSet : Handle
  dstBinding : Nat
  dstArrayElement : Nat
  descriptorCount : Nat
  descriptorType : VkDescriptorType
  pImageInfo : Option VkDescriptorImageInfo
  pBufferInfo : Option VkDescriptorBufferInfo
deriving DecidableEq, Repr

/-- Commands that the code records into command buffers. -/
inductive Cmd where
  | vkCmdPipelineBarrier (srcStage dstStage : Nat) (barrier : VkImageMemoryBarrier)
  | vkCmdCopyBuffer (src dst : Handle) (size : Nat)
  | vkCmdCopyBufferToImage (buffer image : Handle) (layout : VkImageLayout)
      (width height : Nat)
  | vkCmdBeginRenderPass (renderPass framebuffer : Handle) (extent : VkExtent2D)
  | vkCmdBindPipeline (pipeline : Handle)
  | vkCmdBindVertexBuffers (buffer : Handle)
  | vkCmdBindIndexBuffer (buffer : Handle)
  | vkCmdBindDescriptorSets (layout descriptorSet : Handle)
  | vkCmdDrawIndexed (indexCount : Nat)
  | vkCmdEndRenderPass
deriving DecidableEq, Repr

/-- Calls into the Vulkan API, as a mock driver would log them. -/
inductive Call where
  | vkAllocateCommandBuffers (cbs : List Handle)
  | vkBeginCommandBuffer (cb : Handle) (flags : Nat)
  | vkCmd (cb : Handle) (cmd : Cmd)
  | vkEndCommandBuffer (cb : Handle)
  | vkQueueSubmit (cb waitSemaphore : Handle) (waitStage : Nat)
      (signalSemaphore fence : Handle)
  | vkQueueWaitIdle
  | vkFreeCommandBuffers (cbs : List Handle)
  | vkCreateBuffer (buffer : Handle) (size usage : Nat)
  | vkAllocateMemory (memory : Handle) (size typeIndex : Nat)
  | vkBindBufferMemory (buffer memory : Handle)
  | vkMapMemory (memory : Handle) (size : Nat)
  | memcpy (memory : Handle) (size : Nat)
  | vkUnmapMemory (memory : Handle)
  | vkDestroyBuffer (buffer : Handle)
  | vkFreeMemory (memory : Handle)
  | vkCreateImage (image : Handle) (format : VkFormat) (width height usage : Nat)
  | vkBindImageMemory (image memory : Handle)
  | vkCreateImageView (view image : Handle) (format : VkFormat) (aspect : Nat)
  | vkDestroySampler (sampler : Handle)
  | vkDestroyImageView (view : Handle)
  | vkDestroyImage (image : Handle)
  | vkCreateSwapchainKHR (swapchain : Handle) (info : VkSwapchainCreateInfoKHR)
  | vkGetSwapchainImagesKHR (swapchain : Handle) (count : Nat)
  | vkDestroySwapchainKHR (swapchain : Handle)
  | vkDeviceWaitIdle
  | querySurface
  | vkWaitForFences (fence : Handle)
  | vkResetFences (fence : Handle)
  | vkAcquireNextImageKHR (swapchain semaphore : Handle)
  | vkQueuePresentKHR (swapchain waitSemaphore : Handle) (imageIndex : Nat)
  | vkCreateRenderPass (renderPass : Handle) (colorFormat depthFormat : VkFormat)
  | vkCreatePipelineLayout (layout setLayout : Handle)
  | vkCreateGraphicsPipelines (pipeline layout renderPass : Handle) (extent : VkExtent2D)
  | vkCreateFramebuffer (framebuffer renderPass colorView depthView : Handle)
      (extent : VkExtent2D)
  | vkDestroyFramebuffer (framebuffer : Handle)
  | vkDestroyPipeline (pipeline : Handle)
  | vkDestroyPipelineLayout (layout : Handle)
  | vkDestroyRenderPass (renderPass : Handle)
  | vkCreateShaderModule (module : Handle) (filename : String)
  | vkDestroyShaderModule (module : Handle)
  | vkCreateSemaphore (semaphore : Handle)
  | vkCreateFence (fence : Handle) (signalled : Bool)
  | vkCreateDescriptorSetLayout (layout : Handle)
      (bindings : List VkDescriptorSetLayoutBinding)
  | vkCreateDescriptorPool (pool : Handle) (maxSets : Nat)
      (poolSizes : List VkDescriptorPoolSize)
  | vkAllocateDescriptorSets (pool : Handle) (layouts : List Handle)
  | vkUpdateDescriptorSets (writes : List VkWriteDescriptorSet)
deriving DecidableEq, Repr

/-- The driver-side world: the next unused handle, the log of API calls
(oldest first), the commands recorded per command buffer, the buffers with
the device memory bound to them, the fences that are in the signalled state,
and the frame submissions the graphics queue has not completed yet, each as
the pair of its command buffer and the fence it signals on completion. -/
structure Gpu where
  next : Handle
  log : List Call
  recorded : List (Handle × Cmd)
  bufferSize : List (Handle × Nat)
  bufferMemory : List (Handle × Handle)
  memory : List (Handle × List Byte)
  signalled : List Handle
  pending : List (Handle × Handle)
deriving DecidableEq, Repr

/-- A driver on which nothing has been created yet. -/
def Gpu.fresh : Gpu :=
  { next := 1, log := [], recorded := [], bufferSize := [], bufferMemory := [],
    memory := [], signalled := [], pending := [] }

def Gpu.call (g : Gpu) (c : Call) : Gpu :=
  { g with log := g.log ++ [c] }

/-- The bytes of a device memory allocation (empty when there is none). -/
def Gpu.readMemory (g : Gpu) (memory : Handle) : List Byte :=
  (g.memory.lookup memory).getD []

/-- Overwrite the first `size` bytes of an allocation with the first `size`
bytes of `src`, as `memcpy` and a copy region at offset 0 do. -/
def Gpu.writeMemory (g : Gpu) (memory : Handle) (src : List Byte) (size : Nat) : Gpu :=
  { g with memory := (memory, src.take size ++ (g.readMemory memory).drop size)
                       :: g.memory }

/-- The bytes a buffer exposes: the first `size` bytes of the memory bound to
it at offset 0. -/
def Gpu.bufferContents (g : Gpu) (buffer : Handle) : List Byte :=
  (g.readMemory ((g.bufferMemory.lookup buffer).getD VK_NULL_HANDLE)).take
    ((g.bufferSize.lookup buffer).getD 0)

/-- What the queue does when it executes one recorded command. Only the buffer
copy changes device memory in this model. -/
def Cmd.execute (g : Gpu) : Cmd → Gpu
  | .vkCmdCopyBuffer src dst size =>
      g.writeMemory ((g.bufferMemory.lookup dst).getD VK_NULL_HANDLE)
        (g.readMemory ((g.bufferMemory.lookup src).getD VK_NULL_HANDLE)) size
  | _ => g

/-- The result codes of the five fallible calls of one one-shot command buffer
(`beginSingleTimeCommands` followed by `endSingleTimeCommands`). The code
discards all five. -/
structure OneShotResults where
  vkAllocateCommandBuffers : VkResult
  vkBeginCommandBuffer : VkResult
  vkEndCommandBuffer : VkResult
  vkQueueSubmit : VkResult
  vkQueueWaitIdle : VkResult
deriving DecidableEq, Repr

/-- All five calls of a one-shot command buffer succeed. -/
def OneShotResults.ok : OneShotResults :=
  { vkAllocateCommandBuffers := VK_SUCCESS, vkBeginCommandBuffer := VK_SUCCESS,
    vkEndCommandBuffer := VK_SUCCESS, vkQueueSubmit := VK_SUCCESS,
    vkQueueWaitIdle := VK_SUCCESS }

/-- The queue has executed the one-shot command buffer when control returns
from `endSingleTimeCommands` exactly when none of the five calls failed. -/
def OneShotResults.executed (r : OneShotResults) : Bool :=
  r.vkAllocateCommandBuffers == VK_SUCCESS && r.vkBeginCommandBuffer == VK_SUCCESS &&
  r.vkEndCommandBuffer == VK_SUCCESS && r.vkQueueSubmit == VK_SUCCESS &&
  r.vkQueueWaitIdle == VK_SUCCESS

/-! ## `vulkan_context.cpp`: one-shot command helper -/

/-- `VulkanContext::beginSingleTimeCommands`: allocate one primary command
buffer and begin it for one-time submission. The local `command_buffer` is
returned whatever the two calls answered; when the allocation failed it was
never written and is modelled as `VK_NULL_HANDLE`. Beginning a command buffer
starts it with no recorded command. -/
def beginSingleTimeCommands (g : Gpu) (r : OneShotResults) : Handle × Gpu :=
  let command_buffer := if r.vkAllocateCommandBuffers = VK_SUCCESS then g.next else VK_NULL_HANDLE
  let g := { g with next := g.next + 1 }
  let g := g.call (.vkAllocateCommandBuffers [command_buffer])
  let g := { g with recorded := g.recorded.filter (fun p => p.1 ≠ command_buffer) }
  let g := g.call (.vkBeginCommandBuffer command_buffer VK_COMMAND_BUFFER_USAGE_ONE_TIME_SUBMIT_BIT)
  (command_buffer, g)

/-- Record one `vkCmd...` call into a command buffer. -/
def Gpu.record (g : Gpu) (command_buffer : Handle) (cmd : Cmd) : Gpu :=
  { g.call (.vkCmd command_buffer cmd) with recorded := g.recorded ++ [(command_buffer, cmd)] }

/-- `VulkanContext::endSingleTimeCommands`: end the command buffer, submit it
to the graphics queue without a fence, wait for the queue to go idle, free the
command buffer. No result is looked at. -/
def endSingleTimeCommands (g : Gpu) (r : OneShotResults) (command_buffer : Handle) : Gpu :=
  let g := g.call (.vkEndCommandBuffer command_buffer)
  let g := g.call (.vkQueueSubmit command_buffer VK_NULL_HANDLE 0 VK_NULL_HANDLE VK_NULL_HANDLE)
  let g := g.call .vkQueueWaitIdle
  let g := if r.executed then
      ((g.recorded.filter (fun p => p.1 = command_buffer)).map Prod.snd).foldl Cmd.execute g
    else g
  let g := g.call (.vkFreeCommandBuffers [command_buffer])
  { g with recorded := g.recorded.filter (fun p => p.1 ≠ command_buffer) }

/-! ## `vulkan_image.cpp` -/

/-- The data members of `VulkanImage`. -/
structure VulkanImage where
  m_image : Handle
  m_image_memory : Handle
  m_image_view : Handle
  m_sampler : Handle
  m_format : VkFormat
  m_width : Nat
  m_height : Nat
deriving DecidableEq, Repr

/-- `VulkanImage::transitionImageLayout`. The barrier is filled in first; the
chain of three `if`s picks the access masks and stages, and its final `else`
returns before any command buffer is begun. -/
def transitionImageLayout (img : VulkanImage) (g : Gpu) (r : OneShotResults)
    (old_layout new_layout : VkImageLayout) : Gpu :=
  let aspectMask :=
    if new_layout = VK_IMAGE_LAYOUT_DEPTH_STENCIL_ATTACHMENT_OPTIMAL then
      if img.m_format = VK_FORMAT_D32_SFLOAT_S8_UINT ∨
          img.m_format = VK_FORMAT_D24_UNORM_S8_UINT then
        VK_IMAGE_ASPECT_DEPTH_BIT ||| VK_IMAGE_ASPECT_STENCIL_BIT
      else VK_IMAGE_ASPECT_DEPTH_BIT
    else VK_IMAGE_ASPECT_COLOR_BIT
  let barrier (srcAccessMask dstAccessMask : Nat) : VkImageMemoryBarrier :=
    { oldLayout := old_layout, newLayout := new_layout, srcAccessMask := srcAccessMask,
      dstAccessMask := dstAccessMask, image := img.m_image, aspectMask := aspectMask }
  let issue (source_stage destination_stage : Nat) (b : VkImageMemoryBarrier) : Gpu :=
    let (command_buffer, g) := beginSingleTimeCommands g r
    let g := g.record command_buffer (.vkCmdPipelineBarrier source_stage destination_stage b)
    endSingleTimeCommands g r command_buffer
  if old_layout = VK_IMAGE_LAYOUT_UNDEFINED ∧
      new_layout = VK_IMAGE_LAYOUT_TRANSFER_DST_OPTIMAL then
    issue VK_PIPELINE_STAGE_TOP_OF_PIPE_BIT VK_PIPELINE_STAGE_TRANSFER_BIT
      (barrier 0 VK_ACCESS_TRANSFER_WRITE_BIT)
  else if old_layout = VK_IMAGE_LAYOUT_TRANSFER_DST_OPTIMAL ∧
      new_layout = VK_IMAGE_LAYOUT_SHADER_READ_ONLY_OPTIMAL then
    issue VK_PIPELINE_STAGE_TRANSFER_BIT VK_PIPELINE_STAGE_FRAGMENT_SHADER_BIT
      (barrier VK_ACCESS_TRANSFER_WRITE_BIT VK_ACCESS_SHADER_READ_BIT)
  else if old_layout = VK_IMAGE_LAYOUT_UNDEFINED ∧
      new_layout = VK_IMAGE_LAYOUT_DEPTH_STENCIL_ATTACHMENT_OPTIMAL then
    issue VK_PIPELINE_STAGE_TOP_OF_PIPE_BIT VK_PIPELINE_STAGE_EARLY_FRAGMENT_TESTS_BIT
      (barrier 0 (VK_ACCESS_DEPTH_STENCIL_ATTACHMENT_READ_BIT |||
                  VK_ACCESS_DEPTH_STENCIL_ATTACHMENT_WRITE_BIT))
  else
    g

/-- The three edges of the layout state machine that `transitionImageLayout`
knows. -/
def definedEdge (old_layout new_layout : VkImageLayout) : Bool :=
  (old_layout == VK_IMAGE_LAYOUT_UNDEFINED &&
    new_layout == VK_IMAGE_LAYOUT_TRANSFER_DST_OPTIMAL) ||
  (old_layout == VK_IMAGE_LAYOUT_TRANSFER_DST_OPTIMAL &&
    new_layout == VK_IMAGE_LAYOUT_SHADER_READ_ONLY_OPTIMAL) ||
  (old_layout == VK_IMAGE_LAYOUT_UNDEFINED &&
    new_layout == VK_IMAGE_LAYOUT_DEPTH_STENCIL_ATTACHMENT_OPTIMAL)

def Call.isPipelineBarrier : Call → Bool
  | .vkCmd _ (.vkCmdPipelineBarrier _ _ _) => true
  | _ => false

def Call.isBeginCommandBuffer : Call → Bool
  | .vkBeginCommandBuffer _ _ => true
  | _ => false

/-- The calls that a function issued, given the world before and after it. -/
def Gpu.callsSince (after before : Gpu) : List Call :=
  after.log.drop before.log.length

/-! ## `vulkan_context.cpp`: memory types, buffers -/

/-- The memory-type search that `createBuffer` and `createImage` both spell
out: `for (i = 0; i < memoryTypeCount; i++)`, taking the first `i` with bit `i`
set in `type_filter` and all of `properties` among the type's flags. The answer
is `UINT32_MAX` when the loop ends without a match. `memoryTypes` lists the
`propertyFlags` of the `memoryTypeCount` types, `i` is the index of its head. -/
def findMemoryType (type_filter properties : Nat) : Nat → List Nat → Nat
  | _, [] => UINT32_MAX
  | i, propertyFlags :: rest =>
      if (type_filter &&& (1 <<< i)) ≠ 0 ∧ (propertyFlags &&& properties) = properties then i
      else findMemoryType type_filter properties (i + 1) rest

/-- The constant `VK_MAX_MEMORY_TYPES`, the length of the array `memoryTypes` of
`VkPhysicalDeviceMemoryProperties`. -/
abbrev VK_MAX_MEMORY_TYPES : Nat := 32

/-- Memory type `i` of the table can back a resource: it exists, bit `i` of the
filter is set, and every bit of the requested property flags is among the
property flags of the type. -/
def memoryTypeSuitable (type_filter properties : Nat) (memoryTypes : List Nat) (i : Nat) :
    Prop :=
  ∃ propertyFlags, memoryTypes[i]? = some propertyFlags ∧ type_filter.testBit i = true ∧
    ∀ k, properties.testBit k = true → propertyFlags.testBit k = true

/-- What the driver answers while one buffer is created: the result of
`vkCreateBuffer`, the memory requirements of the new buffer and the result of
the allocation. The required size is the size of the buffer plus `padding`. -/
structure CreateBufferResults where
  vkCreateBuffer : VkResult
  padding : Nat
  memoryTypeBits : Nat
  vkAllocateMemory : VkResult
deriving DecidableEq, Repr

/-- What the driver answers while one image is created: the result of
`vkCreateImage`, the memory requirements of the new image and the result of the
allocation. -/
structure CreateImageResults where
  vkCreateImage : VkResult
  size : Nat
  memoryTypeBits : Nat
  vkAllocateMemory : VkResult
deriving DecidableEq, Repr

/-- `VulkanContext::createBuffer`. Returns the success flag, the two output
handles `buffer` and `buffer_memory`, and the driver. An output handle that was
not written keeps the value the caller passed in. New memory is zero-filled. -/
def createBuffer (memoryTypes : List Nat) (g : Gpu) (r : CreateBufferResults)
    (size usage properties : Nat) (buffer buffer_memory : Handle) :
    Bool × Handle × Handle × Gpu :=
  let created := g.next
  let g := (g.call (.vkCreateBuffer created size usage))
  if r.vkCreateBuffer ≠ VK_SUCCESS then (false, buffer, buffer_memory, g) else
  let buffer := created
  let g := { g with next := g.next + 1, bufferSize := (buffer, size) :: g.bufferSize }
  let memory_type_index := findMemoryType r.memoryTypeBits properties 0 memoryTypes
  if memory_type_index = UINT32_MAX then (false, buffer, buffer_memory, g) else
  let allocated := g.next
  let g := g.call (.vkAllocateMemory allocated (size + r.padding) memory_type_index)
  if r.vkAllocateMemory ≠ VK_SUCCESS then (false, buffer, buffer_memory, g) else
  let buffer_memory := allocated
  let g := { g with next := g.next + 1,
                    memory := (buffer_memory, List.replicate (size + r.padding) 0) :: g.memory }
  let g := g.call (.vkBindBufferMemory buffer buffer_memory)
  let g := { g with bufferMemory := (buffer, buffer_memory) :: g.bufferMemory }
  (true, buffer, buffer_memory, g)

/-- `VulkanContext::copyBuffer`: one one-shot command buffer holding a single
copy of `size` bytes from offset 0 to offset 0. -/
def copyBuffer (g : Gpu) (r : OneShotResults) (src_buffer dst_buffer : Handle) (size : Nat) :
    Gpu :=
  let (command_buffer, g) := beginSingleTimeCommands g r
  let g := g.record command_buffer (.vkCmdCopyBuffer src_buffer dst_buffer size)
  endSingleTimeCommands g r command_buffer

/-! ## `vulkan_image.cpp`: images -/

/-- The constructor `VulkanImage::VulkanImage`. -/
def VulkanImage.new (format : VkFormat) (width height : Nat) : VulkanImage :=
  { m_image := VK_NULL_HANDLE, m_image_memory := VK_NULL_HANDLE,
    m_image_view := VK_NULL_HANDLE, m_sampler := VK_NULL_HANDLE,
    m_format := format, m_width := width, m_height := height }

/-- The destructor `VulkanImage::~VulkanImage`: each of the four handles is
destroyed when it is not `VK_NULL_HANDLE`. -/
def VulkanImage.delete (img : VulkanImage) (g : Gpu) : Gpu :=
  let g := if img.m_sampler ≠ VK_NULL_HANDLE then g.call (.vkDestroySampler img.m_sampler) else g
  let g := if img.m_image_view ≠ VK_NULL_HANDLE then g.call (.vkDestroyImageView img.m_image_view)
    else g
  let g := if img.m_image ≠ VK_NULL_HANDLE then g.call (.vkDestroyImage img.m_image) else g
  if img.m_image_memory ≠ VK_NULL_HANDLE then g.call (.vkFreeMemory img.m_image_memory) else g

/-- `VulkanImage::createImage`: create the image, look for a device-local
memory type, allocate and bind. -/
def createImage (memoryTypes : List Nat) (img : VulkanImage) (g : Gpu)
    (r : CreateImageResults) (usage : Nat) : Bool × VulkanImage × Gpu :=
  let created := g.next
  let g := g.call (.vkCreateImage created img.m_format img.m_width img.m_height usage)
  if r.vkCreateImage ≠ VK_SUCCESS then (false, img, g) else
  let img := { img with m_image := created }
  let g := { g with next := g.next + 1 }
  let memory_type_index :=
    findMemoryType r.memoryTypeBits VK_MEMORY_PROPERTY_DEVICE_LOCAL_BIT 0 memoryTypes
  if memory_type_index = UINT32_MAX then (false, img, g) else
  let allocated := g.next
  let g := g.call (.vkAllocateMemory allocated r.size memory_type_index)
  if r.vkAllocateMemory ≠ VK_SUCCESS then (false, img, g) else
  let img := { img with m_image_memory := allocated }
  let g := { g with next := g.next + 1 }
  let g := g.call (.vkBindImageMemory img.m_image img.m_image_memory)
  (true, img, g)

/-- `VulkanImage::createImageView`. -/
def createImageView (img : VulkanImage) (g : Gpu) (result : VkResult) (aspect_flags : Nat) :
    Bool × VulkanImage × Gpu :=
  let created := g.next
  let g := g.call (.vkCreateImageView created img.m_image img.m_format aspect_flags)
  if result = VK_SUCCESS then
    (true, { img with m_image_view := created }, { g with next := g.next + 1 })
  else (false, img, g)

/-- `VulkanImage::copyBufferToImage`. -/
def copyBufferToImage (img : VulkanImage) (g : Gpu) (r : OneShotResults) (buffer : Handle) :
    Gpu :=
  let (command_buffer, g) := beginSingleTimeCommands g r
  let g := g.record command_buffer
    (.vkCmdCopyBufferToImage buffer img.m_image VK_IMAGE_LAYOUT_TRANSFER_DST_OPTIMAL
      img.m_width img.m_height)
  endSingleTimeCommands g r command_buffer

/-! ## `model.cpp` and `vulkan_image.cpp`: staged uploads -/

/-- Destroying a buffer: the call, and the buffer is gone from the driver. -/
def Gpu.destroyBuffer (g : Gpu) (buffer : Handle) : Gpu :=
  { g.call (.vkDestroyBuffer buffer) with
    bufferSize := g.bufferSize.filter (fun p => p.1 ≠ buffer),
    bufferMemory := g.bufferMemory.filter (fun p => p.1 ≠ buffer) }

/-- Freeing device memory: the call, and the allocation is gone. -/
def Gpu.freeMemory (g : Gpu) (memory : Handle) : Gpu :=
  { g.call (.vkFreeMemory memory) with memory := g.memory.filter (fun p => p.1 ≠ memory) }

/-- `vkMapMemory`, `memcpy` of `size` host bytes to the mapped pointer, and
`vkUnmapMemory`. The mapping is taken to succeed: the code does not look at
its result and a failed mapping leaves the pointer without a value. -/
def mapAndCopy (g : Gpu) (memory : Handle) (host : List Byte) (size : Nat) : Gpu :=
  let g := g.call (.vkMapMemory memory size)
  let g := (g.writeMemory memory host size).call (.memcpy memory size)
  g.call (.vkUnmapMemory memory)

/-- The four bytes of a 32-bit word in memory, least significant first. -/
def bytesOfWord (w : Nat) : List Byte :=
  [w % 256, w / 256 % 256, w / 65536 % 256, w / 16777216 % 256]

/-- The struct `Vertex` of `model.hpp`: eight `float`s, each held as its 32-bit
pattern. -/
structure Vertex where
  pos : Nat × Nat × Nat
  color : Nat × Nat × Nat
  tex_coord : Nat × Nat
deriving DecidableEq, Repr

/-- The value of `sizeof(Vertex)`: eight 4-byte floats without padding. -/
abbrev sizeof_Vertex : Nat := 32

/-- The value of `sizeof(uint32_t)`. -/
abbrev sizeof_uint32_t : Nat := 4

/-- The object representation of a `Vertex`. -/
def Vertex.bytes (v : Vertex) : List Byte :=
  bytesOfWord v.pos.1 ++ bytesOfWord v.pos.2.1 ++ bytesOfWord v.pos.2.2 ++
  bytesOfWord v.color.1 ++ bytesOfWord v.color.2.1 ++ bytesOfWord v.color.2.2 ++
  bytesOfWord v.tex_coord.1 ++ bytesOfWord v.tex_coord.2

/-- The bytes found at `&m_vertices[0]`: the vertices one after the other. -/
def vertexData (m_vertices : List Vertex) : List Byte :=
  (m_vertices.map Vertex.bytes).flatten

/-- The bytes found at `&m_indices[0]`. -/
def indexData (m_indices : List Nat) : List Byte :=
  (m_indices.map bytesOfWord).flatten

/-- The data members of `Model`. -/
structure Model where
  m_name : String
  m_vertices : List Vertex
  m_indices : List Nat
  m_tex_name : String
  m_vertex_buffer : Handle
  m_vertex_buffer_memory : Handle
  m_index_buffer : Handle
  m_index_buffer_memory : Handle
  m_descriptor_sets : List Handle
deriving DecidableEq, Repr

/-- The constructor `Model::Model`. -/
def Model.new (name : String) (vertices : List Vertex) (indices : List Nat)
    (tex_name : String) : Model :=
  { m_name := name, m_vertices := vertices, m_indices := indices, m_tex_name := tex_name,
    m_vertex_buffer := VK_NULL_HANDLE, m_vertex_buffer_memory := VK_NULL_HANDLE,
    m_index_buffer := VK_NULL_HANDLE, m_index_buffer_memory := VK_NULL_HANDLE,
    m_descriptor_sets := [] }

/-- What the driver answers during one staged upload of a buffer. -/
structure UploadResults where
  staging : CreateBufferResults
  destination : CreateBufferResults
  copy : OneShotResults
deriving DecidableEq, Repr

/-- `Model::createVertexBuffer`. -/
def Model.createVertexBuffer (m : Model) (memoryTypes : List Nat) (g : Gpu)
    (r : UploadResults) : Bool × Model × Gpu :=
  let buffer_size := sizeof_Vertex * m.m_vertices.length
  let (success, staging_buffer, staging_buffer_memory, g) :=
    createBuffer memoryTypes g r.staging buffer_size VK_BUFFER_USAGE_TRANSFER_SRC_BIT
      (VK_MEMORY_PROPERTY_HOST_VISIBLE_BIT ||| VK_MEMORY_PROPERTY_HOST_COHERENT_BIT)
      VK_NULL_HANDLE VK_NULL_HANDLE
  if !success then (false, m, g) else
  let g := mapAndCopy g staging_buffer_memory (vertexData m.m_vertices) buffer_size
  let (success, vertex_buffer, vertex_buffer_memory, g) :=
    createBuffer memoryTypes g r.destination buffer_size
      (VK_BUFFER_USAGE_TRANSFER_DST_BIT ||| VK_BUFFER_USAGE_VERTEX_BUFFER_BIT)
      VK_MEMORY_PROPERTY_DEVICE_LOCAL_BIT m.m_vertex_buffer m.m_vertex_buffer_memory
  let m := { m with m_vertex_buffer := vertex_buffer,
                    m_vertex_buffer_memory := vertex_buffer_memory }
  if !success then
    let g := g.destroyBuffer staging_buffer
    let g := g.freeMemory staging_buffer_memory
    (false, m, g)
  else
  let g := copyBuffer g r.copy staging_buffer m.m_vertex_buffer buffer_size
  let g := g.destroyBuffer staging_buffer
  let g := g.freeMemory staging_buffer_memory
  (true, m, g)

/-- `Model::createIndexBuffer`. -/
def Model.createIndexBuffer (m : Model) (memoryTypes : List Nat) (g : Gpu)
    (r : UploadResults) : Bool × Model × Gpu :=
  let buffer_size := sizeof_uint32_t * m.m_indices.length
  let (success, staging_buffer, staging_buffer_memory, g) :=
    createBuffer memoryTypes g r.staging buffer_size VK_BUFFER_USAGE_TRANSFER_SRC_BIT
      (VK_MEMORY_PROPERTY_HOST_VISIBLE_BIT ||| VK_MEMORY_PROPERTY_HOST_COHERENT_BIT)
      VK_NULL_HANDLE VK_NULL_HANDLE
  if !success then (false, m, g) else
  let g := mapAndCopy g staging_buffer_memory (indexData m.m_indices) buffer_size
  let (success, index_buffer, index_buffer_memory, g) :=
    createBuffer memoryTypes g r.destination buffer_size
      (VK_BUFFER_USAGE_TRANSFER_DST_BIT ||| VK_BUFFER_USAGE_INDEX_BUFFER_BIT)
      VK_MEMORY_PROPERTY_DEVICE_LOCAL_BIT m.m_index_buffer m.m_index_buffer_memory
  let m := { m with m_index_buffer := index_buffer,
                    m_index_buffer_memory := index_buffer_memory }
  if !success then
    let g := g.destroyBuffer staging_buffer
    let g := g.freeMemory staging_buffer_memory
    (false, m, g)
  else
  let g := copyBuffer g r.copy staging_buffer m.m_index_buffer buffer_size
  let g := g.destroyBuffer staging_buffer
  let g := g.freeMemory staging_buffer_memory
  (true, m, g)

/-- What the driver answers during `createTextureImage`. -/
structure TextureResults where
  staging : CreateBufferResults
  image : CreateImageResults
  toTransferDst : OneShotResults
  copy : OneShotResults
  toShaderReadOnly : OneShotResults
deriving DecidableEq, Repr

/-- `VulkanImage::createTextureImage`. `none` is the abort of
`assert(channels == 4)`; `image_size` is computed in `unsigned int`. -/
def createTextureImage (memoryTypes : List Nat) (img : VulkanImage) (g : Gpu)
    (r : TextureResults) (texture_data : List Byte) (channels : Nat) :
    Option (Bool × VulkanImage × Gpu) :=
  if channels ≠ 4 then none else
  let image_size := (img.m_width * img.m_height * channels) % 2 ^ 32
  let (success, staging_buffer, staging_buffer_memory, g) :=
    createBuffer memoryTypes g r.staging image_size VK_BUFFER_USAGE_TRANSFER_SRC_BIT
      (VK_MEMORY_PROPERTY_HOST_VISIBLE_BIT ||| VK_MEMORY_PROPERTY_HOST_COHERENT_BIT)
      VK_NULL_HANDLE VK_NULL_HANDLE
  if !success then some (false, img, g) else
  let g := mapAndCopy g staging_buffer_memory texture_data image_size
  let (success, img, g) := createImage memoryTypes img g r.image
    (VK_IMAGE_USAGE_TRANSFER_DST_BIT ||| VK_IMAGE_USAGE_SAMPLED_BIT)
  if !success then some (false, img, g) else
  let g := transitionImageLayout img g r.toTransferDst VK_IMAGE_LAYOUT_UNDEFINED
    VK_IMAGE_LAYOUT_TRANSFER_DST_OPTIMAL
  let g := copyBufferToImage img g r.copy staging_buffer
  let g := transitionImageLayout img g r.toShaderReadOnly VK_IMAGE_LAYOUT_TRANSFER_DST_OPTIMAL
    VK_IMAGE_LAYOUT_SHADER_READ_ONLY_OPTIMAL
  let g := g.destroyBuffer staging_buffer
  let g := g.freeMemory staging_buffer_memory
  some (true, img, g)


/-! ## `vulkan_context.cpp`: swapchain policy -/

/-- The loop of `createSwapChain` over `m_surface_formats`: the first entry that
is `B8G8R8A8_UNORM` with `SRGB_NONLINEAR` replaces `surface_format` and ends the
loop. -/
def createSwapChain_format_loop (surface_format : VkSurfaceFormatKHR) :
    List VkSurfaceFormatKHR → VkSurfaceFormatKHR
  | [] => surface_format
  | available_format :: rest =>
      if available_format.format = VK_FORMAT_B8G8R8A8_UNORM ∧
          available_format.colorSpace = VK_COLOR_SPACE_SRGB_NONLINEAR_KHR then
        available_format
      else createSwapChain_format_loop surface_format rest

/-- Lines 356-374 of `createSwapChain`: the choice of `surface_format`.
`m_surface_formats[0]` of an empty vector has no defined value; the embedding
reads a zeroed struct there. -/
def createSwapChain_surface_format (m_surface_formats : List VkSurfaceFormatKHR) :
    VkSurfaceFormatKHR :=
  let surface_format := m_surface_formats.headD ⟨VK_FORMAT_UNDEFINED, 0⟩
  if m_surface_formats.length = 1 ∧
      (m_surface_formats.headD ⟨VK_FORMAT_UNDEFINED, 0⟩).format = VK_FORMAT_UNDEFINED then
    ⟨VK_FORMAT_B8G8R8A8_UNORM, VK_COLOR_SPACE_SRGB_NONLINEAR_KHR⟩
  else
    createSwapChain_format_loop surface_format m_surface_formats

/-- The loop of `createSwapChain` over `m_present_modes`: `MAILBOX` is taken and
ends the loop, `IMMEDIATE` is taken and the loop goes on. -/
def createSwapChain_mode_loop (present_mode : VkPresentModeKHR) :
    List VkPresentModeKHR → VkPresentModeKHR
  | [] => present_mode
  | available_mode :: rest =>
      if available_mode = VK_PRESENT_MODE_MAILBOX_KHR then available_mode
      else if available_mode = VK_PRESENT_MODE_IMMEDIATE_KHR then
        createSwapChain_mode_loop available_mode rest
      else createSwapChain_mode_loop present_mode rest

/-- Lines 376-389 of `createSwapChain`: the choice of `present_mode`. -/
def createSwapChain_present_mode (m_present_modes : List VkPresentModeKHR) :
    VkPresentModeKHR :=
  createSwapChain_mode_loop VK_PRESENT_MODE_FIFO_KHR m_present_modes

/-- Lines 391-404 of `createSwapChain`: the choice of `image_extent`. -/
def createSwapChain_image_extent (caps : VkSurfaceCapabilitiesKHR)
    (m_drawable_width m_drawable_height : Nat) : VkExtent2D :=
  if caps.currentExtent.width = UINT32_MAX then
    { width := max (min m_drawable_width caps.maxImageExtent.width) caps.minImageExtent.width,
      height := max (min m_drawable_height caps.maxImageExtent.height)
        caps.minImageExtent.height }
  else caps.currentExtent

/-- Lines 406-412 of `createSwapChain`: the value given to
`m_swap_chain_images_count` before the swapchain is created, in `unsigned int`
arithmetic. It becomes `create_info.minImageCount`. -/
def createSwapChain_images_count (caps : VkSurfaceCapabilitiesKHR) : Nat :=
  let m_swap_chain_images_count := (caps.minImageCount + 1) % 2 ^ 32
  if caps.maxImageCount > 0 then min m_swap_chain_images_count caps.maxImageCount
  else m_swap_chain_images_count


/-! ## `vulkan_context.cpp`: the context -/

/-- The extension name `VK_KHR_SWAPCHAIN_EXTENSION_NAME`. -/
abbrev VK_KHR_SWAPCHAIN_EXTENSION_NAME : String := "VK_KHR_swapchain"

abbrev VK_QUEUE_GRAPHICS_BIT : Nat := 0x1

/-- The data members of `VulkanContext` that the embedded functions touch.
`m_depth_image` is a pointer: `none` is `nullptr`; `delete m_depth_image` does
not reset it, so after a `delete` the field still holds the old value. -/
structure VulkanContext where
  m_physical_device : Handle
  m_device_extensions : List String
  m_surface_capabilities : VkSurfaceCapabilitiesKHR
  m_surface_formats : List VkSurfaceFormatKHR
  m_present_modes : List VkPresentModeKHR
  m_swap_chain : Handle
  m_swap_chain_images : List Handle
  m_swap_chain_image_format : VkFormat
  m_swap_chain_extent : VkExtent2D
  m_swap_chain_image_views : List Handle
  m_depth_image : Option VulkanImage
  m_command_pool : Handle
  m_command_buffers : List Handle
  m_image_available_semaphores : List Handle
  m_render_finished_semaphores : List Handle
  m_in_flight_fences : List Handle
  m_current_frame : Nat
  m_swap_chain_images_count : Nat
  m_image_index : Nat
  m_graphics_family : Nat
  m_present_family : Nat
  m_drawable_width : Nat
  m_drawable_height : Nat
deriving DecidableEq, Repr

/-- The state the constructor `VulkanContext::VulkanContext` leaves; the
members it does not initialise are empty or zero. -/
def VulkanContext.new (drawable_width drawable_height : Nat) : VulkanContext :=
  { m_physical_device := VK_NULL_HANDLE,
    m_device_extensions := [VK_KHR_SWAPCHAIN_EXTENSION_NAME],
    m_surface_capabilities := ⟨0, 0, ⟨0, 0⟩, ⟨0, 0⟩, ⟨0, 0⟩, 0⟩,
    m_surface_formats := [], m_present_modes := [],
    m_swap_chain := VK_NULL_HANDLE, m_swap_chain_images := [],
    m_swap_chain_image_format := VK_FORMAT_UNDEFINED, m_swap_chain_extent := ⟨0, 0⟩,
    m_swap_chain_image_views := [], m_depth_image := none,
    m_command_pool := VK_NULL_HANDLE, m_command_buffers := [],
    m_image_available_semaphores := [], m_render_finished_semaphores := [],
    m_in_flight_fences := [], m_current_frame := 0, m_swap_chain_images_count := 0,
    m_image_index := 0, m_graphics_family := 0, m_present_family := 0,
    m_drawable_width := drawable_width, m_drawable_height := drawable_height }

/-- What the driver answers during initialisation and during a rebuild of the
swapchain. The answers are a fixed function of the request, so two rebuilds
against the same `Driver` see the same surface and the same result codes. -/
structure Driver where
  /-- `propertyFlags` of the memory types of the physical device. -/
  memoryTypes : List Nat
  /-- `optimalTilingFeatures` per format. -/
  optimalTilingFeatures : VkFormat → Nat
  surfaceCapabilities : VkSurfaceCapabilitiesKHR
  surfaceFormats : List VkSurfaceFormatKHR
  presentModes : List VkPresentModeKHR
  vkCreateSwapchainKHR : VkResult
  /-- Number of images of the swapchain created from a `create_info`. -/
  swapchainImages : VkSwapchainCreateInfoKHR → Nat
  /-- Result of creating the view of swapchain image `i`. -/
  vkCreateImageView : Nat → VkResult
  vkAllocateCommandBuffers : VkResult
  depthImage : CreateImageResults
  depthImageView : VkResult
  oneShot : OneShotResults
  vkCreateRenderPass : VkResult
  vkCreatePipelineLayout : VkResult
  /-- Whether `FileManager::loadFile` finds the shader file. -/
  loadFile : String → Bool
  vkCreateShaderModule : String → VkResult
  vkCreateGraphicsPipelines : VkResult
  /-- Result of creating framebuffer `i`. -/
  vkCreateFramebuffer : Nat → VkResult
  /-- Results of beginning and ending the recording of command buffer `i`. -/
  vkBeginCommandBuffer : Nat → VkResult
  vkEndCommandBuffer : Nat → VkResult

/-- `count` new handles, numbered from the next unused one. -/
def Gpu.newHandles (g : Gpu) (count : Nat) : List Handle :=
  (List.range count).map (fun i => g.next + i)

/-- The creation loop at the end of `createSwapChain`: one view per swapchain
image, pushed onto `m_swap_chain_image_views`; the first failure returns
false. `i` is the index of the head of the remaining images. -/
def createSwapChain_view_loop (d : Driver) (format : VkFormat) :
    Nat → List Handle → List Handle → Gpu → Bool × List Handle × Gpu
  | _, [], m_swap_chain_image_views, g => (true, m_swap_chain_image_views, g)
  | i, image :: rest, m_swap_chain_image_views, g =>
      let swap_chain_image_view := g.next
      let g := g.call (.vkCreateImageView swap_chain_image_view image format
        VK_IMAGE_ASPECT_COLOR_BIT)
      if d.vkCreateImageView i ≠ VK_SUCCESS then (false, m_swap_chain_image_views, g)
      else createSwapChain_view_loop d format (i + 1) rest
        (m_swap_chain_image_views ++ [swap_chain_image_view]) { g with next := g.next + 1 }

/-- Lines 414-440 of `createSwapChain`: the `create_info` handed to
`vkCreateSwapchainKHR`, from the seven members of the context that
`createSwapChain` reads and the choices made above it. -/
def createSwapChain_create_info_of (m_surface_capabilities : VkSurfaceCapabilitiesKHR)
    (m_surface_formats : List VkSurfaceFormatKHR) (m_present_modes : List VkPresentModeKHR)
    (m_drawable_width m_drawable_height m_graphics_family m_present_family : Nat) :
    VkSwapchainCreateInfoKHR :=
  let surface_format := createSwapChain_surface_format m_surface_formats
  let present_mode := createSwapChain_present_mode m_present_modes
  let image_extent := createSwapChain_image_extent m_surface_capabilities
    m_drawable_width m_drawable_height
  { minImageCount := createSwapChain_images_count m_surface_capabilities,
    imageFormat := surface_format.format,
    imageColorSpace := surface_format.colorSpace,
    imageExtent := image_extent,
    concurrentSharing := decide (m_graphics_family ≠ m_present_family),
    preTransform := m_surface_capabilities.currentTransform,
    presentMode := present_mode }

/-- The `create_info` that `createSwapChain` builds in a given context. -/
def createSwapChain_create_info (ctx : VulkanContext) : VkSwapchainCreateInfoKHR :=
  createSwapChain_create_info_of ctx.m_surface_capabilities ctx.m_surface_formats
    ctx.m_present_modes ctx.m_drawable_width ctx.m_drawable_height ctx.m_graphics_family
    ctx.m_present_family

/-- `VulkanContext::createSwapChain`. -/
def createSwapChain (ctx : VulkanContext) (g : Gpu) (d : Driver) :
    Bool × VulkanContext × Gpu :=
  let surface_format := createSwapChain_surface_format ctx.m_surface_formats
  let image_extent := createSwapChain_image_extent ctx.m_surface_capabilities
    ctx.m_drawable_width ctx.m_drawable_height
  let create_info := createSwapChain_create_info ctx
  let ctx := { ctx with
    m_swap_chain_images_count := createSwapChain_images_count ctx.m_surface_capabilities }
  let created := g.next
  let g := g.call (.vkCreateSwapchainKHR created create_info)
  if d.vkCreateSwapchainKHR ≠ VK_SUCCESS then (false, ctx, g) else
  let ctx := { ctx with m_swap_chain := created }
  let g := { g with next := g.next + 1 }
  let ctx := { ctx with m_swap_chain_images_count := d.swapchainImages create_info }
  let g := g.call (.vkGetSwapchainImagesKHR ctx.m_swap_chain ctx.m_swap_chain_images_count)
  let ctx := { ctx with m_swap_chain_images := g.newHandles ctx.m_swap_chain_images_count }
  let g := { g with next := g.next + ctx.m_swap_chain_images_count }
  let ctx := { ctx with m_swap_chain_image_format := surface_format.format,
                        m_swap_chain_extent := image_extent }
  let (ok, views, g) := createSwapChain_view_loop d ctx.m_swap_chain_image_format 0
    ctx.m_swap_chain_images ctx.m_swap_chain_image_views g
  (ok, { ctx with m_swap_chain_image_views := views }, g)

/-- `VulkanContext::createSyncObjects`, one iteration for each of the
`MAX_FRAMES_IN_FLIGHT` slots: two semaphores and a fence created in the
signalled state; the three handles are pushed only when all three calls
succeeded. `results i` holds the three result codes of iteration `i`. -/
def createSyncObjects_loop (results : Nat → VkResult × VkResult × VkResult) :
    Nat → Nat → VulkanContext → Gpu → Bool × VulkanContext × Gpu
  | 0, _, ctx, g => (true, ctx, g)
  | remaining + 1, i, ctx, g =>
      let image_available_semaphore := g.next
      let g := g.call (.vkCreateSemaphore image_available_semaphore)
      if (results i).1 ≠ VK_SUCCESS then (false, ctx, g) else
      let g := { g with next := g.next + 1 }
      let render_finished_semaphore := g.next
      let g := g.call (.vkCreateSemaphore render_finished_semaphore)
      if (results i).2.1 ≠ VK_SUCCESS then (false, ctx, g) else
      let g := { g with next := g.next + 1 }
      let in_flight_fence := g.next
      let g := g.call (.vkCreateFence in_flight_fence true)
      if (results i).2.2 ≠ VK_SUCCESS then (false, ctx, g) else
      let g := { g with next := g.next + 1, signalled := in_flight_fence :: g.signalled }
      let ctx := { ctx with
        m_image_available_semaphores :=
          ctx.m_image_available_semaphores ++ [image_available_semaphore],
        m_render_finished_semaphores :=
          ctx.m_render_finished_semaphores ++ [render_finished_semaphore],
        m_in_flight_fences := ctx.m_in_flight_fences ++ [in_flight_fence] }
      createSyncObjects_loop results remaining (i + 1) ctx g

/-- `VulkanContext::createSyncObjects`. -/
def createSyncObjects (ctx : VulkanContext) (g : Gpu)
    (results : Nat → VkResult × VkResult × VkResult) : Bool × VulkanContext × Gpu :=
  createSyncObjects_loop results MAX_FRAMES_IN_FLIGHT 0 ctx g

/-- `VulkanContext::createCommandBuffers`: one primary command buffer per
swapchain image; `m_command_buffers` is assigned only on success. -/
def createCommandBuffers (ctx : VulkanContext) (g : Gpu) (d : Driver) :
    Bool × VulkanContext × Gpu :=
  let command_buffers := g.newHandles ctx.m_swap_chain_images.length
  let g := g.call (.vkAllocateCommandBuffers command_buffers)
  if d.vkAllocateCommandBuffers ≠ VK_SUCCESS then (false, ctx, g) else
  (true, { ctx with m_command_buffers := command_buffers },
    { g with next := g.next + ctx.m_swap_chain_images.length })

/-- The loop of `createDepthBuffer` over its three candidate formats: the first
one whose optimal-tiling features contain all of `features` is taken. -/
def createDepthBuffer_format_loop (optimalTilingFeatures : VkFormat → Nat) (features : Nat)
    (depth_format : VkFormat) : List VkFormat → VkFormat
  | [] => depth_format
  | format :: rest =>
      if (optimalTilingFeatures format &&& features) = features then format
      else createDepthBuffer_format_loop optimalTilingFeatures features depth_format rest

/-- Lines 561-578 of `createDepthBuffer`: the choice of `depth_format`. -/
def createDepthBuffer_depth_format (optimalTilingFeatures : VkFormat → Nat) : VkFormat :=
  createDepthBuffer_format_loop optimalTilingFeatures
    VK_FORMAT_FEATURE_DEPTH_STENCIL_ATTACHMENT_BIT VK_FORMAT_UNDEFINED
    [VK_FORMAT_D32_SFLOAT, VK_FORMAT_D32_SFLOAT_S8_UINT, VK_FORMAT_D24_UNORM_S8_UINT]

/-- `VulkanContext::createDepthBuffer`. -/
def createDepthBuffer (ctx : VulkanContext) (g : Gpu) (d : Driver) :
    Bool × VulkanContext × Gpu :=
  let depth_format := createDepthBuffer_depth_format d.optimalTilingFeatures
  if depth_format = VK_FORMAT_UNDEFINED then (false, ctx, g) else
  let img := VulkanImage.new depth_format ctx.m_swap_chain_extent.width
    ctx.m_swap_chain_extent.height
  let (success, img, g) := createImage d.memoryTypes img g d.depthImage
    VK_IMAGE_USAGE_DEPTH_STENCIL_ATTACHMENT_BIT
  if !success then (false, { ctx with m_depth_image := some img }, g) else
  let (success, img, g) := createImageView img g d.depthImageView VK_IMAGE_ASPECT_DEPTH_BIT
  if !success then (false, { ctx with m_depth_image := some img }, g) else
  let g := transitionImageLayout img g d.oneShot VK_IMAGE_LAYOUT_UNDEFINED
    VK_IMAGE_LAYOUT_DEPTH_STENCIL_ATTACHMENT_OPTIMAL
  (true, { ctx with m_depth_image := some img }, g)

/-- The accessor `VulkanContext::getSwapChainImagesCount`, the image count that
`createUniformBuffers`, `createDescriptorPool` and `Model::createDescriptorSets`
read. -/
def getSwapChainImagesCount (ctx : VulkanContext) : Nat :=
  ctx.m_swap_chain_images_count

/-- `VulkanContext::updateSurfaceInformation`: nothing is written when the
surface reports no format or no present mode. -/
def updateSurfaceInformation (ctx : VulkanContext) (g : Gpu) (d : Driver) :
    Bool × VulkanContext × Gpu :=
  let g := g.call .querySurface
  if d.surfaceFormats.length < 1 then (false, ctx, g)
  else if d.presentModes.length < 1 then (false, ctx, g)
  else (true, { ctx with m_surface_capabilities := d.surfaceCapabilities,
                         m_surface_formats := d.surfaceFormats,
                         m_present_modes := d.presentModes }, g)

/-- `VulkanContext::recreateSwapChain`. `delete m_depth_image` leaves the
pointer as it is, and only a `createDepthBuffer` that gets as far as its `new`
stores another one. So when the function returns false before that,
`m_depth_image` still holds the address of the image that was deleted: the
pointer dangles, and a further `recreateSwapChain`, which deletes it again, has
no defined behaviour in the code. The definition keeps the old value in that
case; it is the value of the pointer, not a live image, and what it computes
for a call that follows such a failed rebuild stands for no behaviour of the
code. -/
def VulkanContext.recreateSwapChain (ctx : VulkanContext) (g : Gpu) (d : Driver)
    (drawable_width drawable_height : Nat) : Bool × VulkanContext × Gpu :=
  let g := match ctx.m_depth_image with
    | some img => img.delete g
    | none => g
  let g := g.call (.vkFreeCommandBuffers ctx.m_command_buffers)
  let ctx := { ctx with m_command_buffers := [] }
  let g := ctx.m_swap_chain_image_views.foldl (fun g v => g.call (.vkDestroyImageView v)) g
  let ctx := { ctx with m_swap_chain_image_views := [] }
  let g := g.call (.vkDestroySwapchainKHR ctx.m_swap_chain)
  let ctx := { ctx with m_drawable_width := drawable_width,
                        m_drawable_height := drawable_height }
  let (success, ctx, g) := updateSurfaceInformation ctx g d
  if !success then (false, ctx, g) else
  let (success, ctx, g) := createSwapChain ctx g d
  if !success then (false, ctx, g) else
  let (success, ctx, g) := createCommandBuffers ctx g d
  if !success then (false, ctx, g) else
  let (success, ctx, g) := createDepthBuffer ctx g d
  if !success then (false, ctx, g) else
  (true, ctx, g)

/-- `VulkanContext::waitIdle`: when `vkDeviceWaitIdle` returns, every pending
submission has completed and has signalled its fence. -/
def waitIdle (g : Gpu) : Gpu :=
  let g := g.call .vkDeviceWaitIdle
  { g with signalled := g.pending.map Prod.snd ++ g.signalled, pending := [] }

/-- The nine stages of `VulkanContext::init` as functions of a state `σ`, each
returning its success flag and the new state. -/
structure InitStages (σ : Type) where
  createInstance : σ → Bool × σ
  createSurface : σ → Bool × σ
  findPhysicalDevice : σ → Bool × σ
  createDevice : σ → Bool × σ
  createSwapChain : σ → Bool × σ
  createSyncObjects : σ → Bool × σ
  createCommandPool : σ → Bool × σ
  createCommandBuffers : σ → Bool × σ
  createDepthBuffer : σ → Bool × σ

/-- `VulkanContext::init`: the stages in order; the first one that fails prints
its message and ends `init` with false. The third component is what was
printed. -/
def init {σ : Type} (st : InitStages σ) (s : σ) : Bool × σ × List String :=
  let (success, s) := st.createInstance s
  if !success then (false, s, ["Error: Couldn't create instance\n"]) else
  let (success, s) := st.createSurface s
  if !success then (false, s, ["Error: Couldn't create surface\n"]) else
  let (success, s) := st.findPhysicalDevice s
  if !success then (false, s, ["Error: Couldn't find physical device\n"]) else
  let (success, s) := st.createDevice s
  if !success then (false, s, ["Error: Couldn't create vulkan device\n"]) else
  let (success, s) := st.createSwapChain s
  if !success then (false, s, ["Error: Couldn't create swap chain\n"]) else
  let (success, s) := st.createSyncObjects s
  if !success then (false, s, ["Error: Couldn't create sync objects\n"]) else
  let (success, s) := st.createCommandPool s
  if !success then (false, s, ["Error: Couldn't create command pool\n"]) else
  let (success, s) := st.createCommandBuffers s
  if !success then (false, s, ["Error: Couldn't create command buffers\n"]) else
  let (success, s) := st.createDepthBuffer s
  if !success then (false, s, ["Error: Couldn't create depth buffer\n"]) else
  (true, s, [])


/-! ## `vulkan_context.cpp`: choice of the physical device -/

/-- The fields of `VkQueueFamilyProperties` that the code reads. -/
structure VkQueueFamilyProperties where
  queueCount : Nat
  queueFlags : Nat
deriving DecidableEq, Repr

/-- What the driver reports about one enumerated physical device: its handle,
its queue families, whether family `i` can present to the surface, the names
of its device extensions, its surface information and whether it supports
sampler anisotropy. -/
structure PhysicalDevice where
  handle : Handle
  queueFamilies : List VkQueueFamilyProperties
  presentSupport : Nat → Bool
  extensions : List String
  surfaceCapabilities : VkSurfaceCapabilitiesKHR
  surfaceFormats : List VkSurfaceFormatKHR
  presentModes : List VkPresentModeKHR
  samplerAnisotropy : Bool

/-- The first loop of `findQueueFamilies`: the index of the first family that
has a queue and the graphics bit; `i` is the index of the head of the
remaining families. -/
def findQueueFamilies_graphics_loop : Nat → List VkQueueFamilyProperties → Option Nat
  | _, [] => none
  | i, family :: rest =>
      if family.queueCount > 0 ∧ (family.queueFlags &&& VK_QUEUE_GRAPHICS_BIT) ≠ 0 then some i
      else findQueueFamilies_graphics_loop (i + 1) rest

/-- The second loop of `findQueueFamilies`: the index of the first family that
has a queue and can present to the surface. -/
def findQueueFamilies_present_loop (presentSupport : Nat → Bool) :
    Nat → List VkQueueFamilyProperties → Option Nat
  | _, [] => none
  | i, family :: rest =>
      if family.queueCount > 0 ∧ presentSupport i = true then some i
      else findQueueFamilies_present_loop presentSupport (i + 1) rest

/-- `VulkanContext::findQueueFamilies`: the success flag and the values left in
`*graphics_family` and `*present_family`, which keep the value passed in when
no family is found. -/
def findQueueFamilies (device : PhysicalDevice) (graphics_family present_family : Nat) :
    Bool × Nat × Nat :=
  let found_graphics := findQueueFamilies_graphics_loop 0 device.queueFamilies
  let found_present := findQueueFamilies_present_loop device.presentSupport 0
    device.queueFamilies
  (found_graphics.isSome && found_present.isSome,
    found_graphics.getD graphics_family, found_present.getD present_family)

/-- `VulkanContext::checkDeviceExtensions`: the set of required names, from
which the name of every extension of the device is erased, is empty at the
end. -/
def checkDeviceExtensions (m_device_extensions : List String) (device : PhysicalDevice) :
    Bool :=
  (device.extensions.foldl (fun required_extensions extension =>
      required_extensions.filter (fun name => name ≠ extension))
    m_device_extensions).isEmpty

/-- `VulkanContext::updateSurfaceInformation` with the device and the three
output pointers explicit: the success flag and the values left behind the
pointers, which are not written when the device reports no surface format or
no present mode. -/
def updateSurfaceInformation_for (device : PhysicalDevice)
    (surface_capabilities : VkSurfaceCapabilitiesKHR)
    (surface_formats : List VkSurfaceFormatKHR) (present_modes : List VkPresentModeKHR) :
    Bool × VkSurfaceCapabilitiesKHR × List VkSurfaceFormatKHR × List VkPresentModeKHR :=
  if device.surfaceFormats.length < 1 then
    (false, surface_capabilities, surface_formats, present_modes)
  else if device.presentModes.length < 1 then
    (false, surface_capabilities, surface_formats, present_modes)
  else (true, device.surfaceCapabilities, device.surfaceFormats, device.presentModes)

/-- The loop of `findPhysicalDevice` over the enumerated devices: a device that
fails one of the four checks is skipped with `continue`; the first one that
passes them all is recorded in the context and ends the loop. -/
def findPhysicalDevice_loop (ctx : VulkanContext) : List PhysicalDevice → VulkanContext
  | [] => ctx
  | device :: rest =>
      let (success, graphics_family, present_family) := findQueueFamilies device 0 0
      if !success then findPhysicalDevice_loop ctx rest else
      let success := checkDeviceExtensions ctx.m_device_extensions device
      if !success then findPhysicalDevice_loop ctx rest else
      let (success, surface_capabilities, surface_formats, present_modes) :=
        updateSurfaceInformation_for device ⟨0, 0, ⟨0, 0⟩, ⟨0, 0⟩, ⟨0, 0⟩, 0⟩ [] []
      if !success then findPhysicalDevice_loop ctx rest else
      if !device.samplerAnisotropy then findPhysicalDevice_loop ctx rest else
      { ctx with m_graphics_family := graphics_family,
                 m_present_family := present_family,
                 m_surface_capabilities := surface_capabilities,
                 m_surface_formats := surface_formats,
                 m_present_modes := present_modes,
                 m_physical_device := device.handle }

/-- `VulkanContext::findPhysicalDevice` on the list of devices that
`vkEnumeratePhysicalDevices` reports. -/
def findPhysicalDevice (ctx : VulkanContext) (devices : List PhysicalDevice) :
    Bool × VulkanContext :=
  if devices.length < 1 then (false, ctx) else
  let ctx := findPhysicalDevice_loop ctx devices
  (decide (ctx.m_physical_device ≠ VK_NULL_HANDLE), ctx)

/-- A queue family supports graphics: it has a queue and the graphics bit. -/
def VkQueueFamilyProperties.graphics (family : VkQueueFamilyProperties) : Prop :=
  0 < family.queueCount ∧ family.queueFlags.testBit 0 = true

/-- Family `i` of a device is the first of its families that satisfies `p`
(given the index and the family). -/
def PhysicalDevice.firstFamily (device : PhysicalDevice)
    (p : Nat → VkQueueFamilyProperties → Prop) (i : Nat) : Prop :=
  (∃ family, device.queueFamilies[i]? = some family ∧ p i family) ∧
  ∀ j family, j < i → device.queueFamilies[j]? = some family → ¬ p j family

/-- The four conditions on a physical device: (a) a queue family with graphics
support and a queue family with present support, (b) every required device
extension, (c) sampler anisotropy, (d) at least one surface format and one
present mode. -/
def PhysicalDevice.qualifies (device : PhysicalDevice) (required : List String) : Prop :=
  ((∃ i : Nat, ∃ family : VkQueueFamilyProperties,
      device.queueFamilies[i]? = some family ∧ family.graphics) ∧
    (∃ i : Nat, ∃ family : VkQueueFamilyProperties,
      device.queueFamilies[i]? = some family ∧ 0 < family.queueCount ∧
        device.presentSupport i = true)) ∧
  (∀ name ∈ required, name ∈ device.extensions) ∧
  device.samplerAnisotropy = true ∧
  (device.surfaceFormats ≠ [] ∧ device.presentModes ≠ [])

/-! ## `vulkan_context.cpp`: the frame loop -/

abbrev VK_COMMAND_BUFFER_USAGE_SIMULTANEOUS_USE_BIT : Nat := 0x4

/-- What the driver answers during one frame: the result of the acquisition
together with the value the call leaves in `m_image_index`, the result of the
submission and the result of the presentation. -/
structure FrameResults where
  vkAcquireNextImageKHR : VkResult
  imageIndex : Nat
  vkQueueSubmit : VkResult
  vkQueuePresentKHR : VkResult
deriving DecidableEq, Repr

/-- The GPU completes the pending submission that signals `fence` (if there is
one): the submission leaves the queue and the fence becomes signalled. -/
def Gpu.complete (g : Gpu) (fence : Handle) : Gpu :=
  if fence ∈ g.pending.map Prod.snd then
    { g with pending := g.pending.filter (fun p => p.2 ≠ fence),
             signalled := fence :: g.signalled }
  else g

/-- `vkWaitForFences` on one fence with an unbounded timeout, against a queue
on which a submission stays pending until its fence is signalled: the call
returns at once when the fence is signalled; otherwise it returns when the
pending submission that signals the fence has completed; when the fence is
neither signalled nor awaited by a pending submission the call never returns
(`none`). -/
def vkWaitForFences (g : Gpu) (fence : Handle) : Option Gpu :=
  let g := g.call (.vkWaitForFences fence)
  if fence ∈ g.signalled then some g
  else if fence ∈ g.pending.map Prod.snd then some (g.complete fence)
  else none

/-- `VulkanContext::beginFrame`; `none` when the wait on the fence never
returns. Reading past the end of one of the three sync-object vectors is
modelled as reading `VK_NULL_HANDLE`. -/
def beginFrame (ctx : VulkanContext) (g : Gpu) (r : FrameResults) :
    Option (Bool × VulkanContext × Gpu) :=
  let fence := ctx.m_in_flight_fences.getD ctx.m_current_frame VK_NULL_HANDLE
  match vkWaitForFences g fence with
  | none => none
  | some g =>
    let g := { g.call (.vkResetFences fence) with
               signalled := g.signalled.filter (fun f => f ≠ fence) }
    let semaphore := ctx.m_image_available_semaphores.getD ctx.m_current_frame VK_NULL_HANDLE
    let g := g.call (.vkAcquireNextImageKHR ctx.m_swap_chain semaphore)
    let ctx := { ctx with m_image_index := r.imageIndex }
    some (decide (r.vkAcquireNextImageKHR ≠ VK_ERROR_OUT_OF_DATE_KHR), ctx, g)

/-- The accessor `VulkanContext::getImageIndex`. -/
def getImageIndex (ctx : VulkanContext) : Nat :=
  ctx.m_image_index

/-- `VulkanContext::submitCommandBuffer`: a submission that the queue accepted
is pending until the GPU completes it. -/
def submitCommandBuffer (ctx : VulkanContext) (g : Gpu) (r : FrameResults) : Bool × Gpu :=
  let wait_semaphore := ctx.m_image_available_semaphores.getD ctx.m_current_frame VK_NULL_HANDLE
  let signal_semaphore :=
    ctx.m_render_finished_semaphores.getD ctx.m_current_frame VK_NULL_HANDLE
  let command_buffer := ctx.m_command_buffers.getD ctx.m_image_index VK_NULL_HANDLE
  let fence := ctx.m_in_flight_fences.getD ctx.m_current_frame VK_NULL_HANDLE
  let g := g.call (.vkQueueSubmit command_buffer wait_semaphore
    VK_PIPELINE_STAGE_COLOR_ATTACHMENT_OUTPUT_BIT signal_semaphore fence)
  if r.vkQueueSubmit = VK_SUCCESS then
    (true, { g with pending := g.pending ++ [(command_buffer, fence)] })
  else (false, g)

/-- `VulkanContext::endFrame`: the slot index is advanced before the present
call is made. -/
def endFrame (ctx : VulkanContext) (g : Gpu) (r : FrameResults) :
    Bool × VulkanContext × Gpu :=
  let semaphore := ctx.m_render_finished_semaphores.getD ctx.m_current_frame VK_NULL_HANDLE
  let image_index := ctx.m_image_index
  let ctx := { ctx with m_current_frame := (ctx.m_current_frame + 1) % MAX_FRAMES_IN_FLIGHT }
  let g := g.call (.vkQueuePresentKHR ctx.m_swap_chain semaphore image_index)
  (decide (r.vkQueuePresentKHR ≠ VK_ERROR_OUT_OF_DATE_KHR ∧
      r.vkQueuePresentKHR ≠ VK_SUBOPTIMAL_KHR), ctx, g)

/-! ## `renderer.cpp` -/

/-- The data members of `Renderer`. -/
structure Renderer where
  m_render_pass : Handle
  m_pipeline_layout : Handle
  m_graphics_pipeline : Handle
  m_swap_chain_framebuffers : List Handle
  m_uniform_buffers : List Handle
  m_uniform_buffers_memory : List Handle
  m_descriptor_pool : Handle
  m_descriptor_set_layout : Handle
  m_models : List Model
deriving DecidableEq, Repr

/-- The constructor `Renderer::Renderer`. -/
def Renderer.new : Renderer :=
  { m_render_pass := VK_NULL_HANDLE, m_pipeline_layout := VK_NULL_HANDLE,
    m_graphics_pipeline := VK_NULL_HANDLE, m_swap_chain_framebuffers := [],
    m_uniform_buffers := [], m_uniform_buffers_memory := [],
    m_descriptor_pool := VK_NULL_HANDLE, m_descriptor_set_layout := VK_NULL_HANDLE,
    m_models := [] }

/-- The value of `sizeof(UniformBufferObject)`: three 4 x 4 float matrices. -/
abbrev sizeof_UniformBufferObject : Nat := 192

/-- `Renderer::updateUniformBuffer`. `ubo` is the object representation of the
local `ubo`, built from the identity and the two camera matrices. -/
def updateUniformBuffer (rd : Renderer) (g : Gpu) (ubo : List Byte) (current_image : Nat) :
    Gpu :=
  mapAndCopy g (rd.m_uniform_buffers_memory.getD current_image VK_NULL_HANDLE) ubo
    sizeof_UniformBufferObject

/-- `Renderer::drawFrame`; `none` when `beginFrame` never returns. The result
of `submitCommandBuffer` is discarded. -/
def drawFrame (rd : Renderer) (ctx : VulkanContext) (g : Gpu) (r : FrameResults)
    (ubo : List Byte) : Option (Bool × VulkanContext × Gpu) :=
  match beginFrame ctx g r with
  | none => none
  | some (success, ctx, g) =>
    if !success then some (false, ctx, g) else
    let g := updateUniformBuffer rd g ubo (getImageIndex ctx)
    let g := (submitCommandBuffer ctx g r).2
    let (success, ctx, g) := endFrame ctx g r
    if !success then some (false, ctx, g) else
    some (true, ctx, g)

/-- `Renderer::createRenderPass`. The depth format is read through
`getDepthImage()`; without a depth image the read has no defined value and is
modelled as `VK_FORMAT_UNDEFINED`. -/
def createRenderPass (rd : Renderer) (ctx : VulkanContext) (g : Gpu) (d : Driver) :
    Bool × Renderer × Gpu :=
  let created := g.next
  let g := g.call (.vkCreateRenderPass created ctx.m_swap_chain_image_format
    ((ctx.m_depth_image.map VulkanImage.m_format).getD VK_FORMAT_UNDEFINED))
  if d.vkCreateRenderPass = VK_SUCCESS then
    (true, { rd with m_render_pass := created }, { g with next := g.next + 1 })
  else (false, rd, g)

/-- `Renderer::createPipelineLayout`. -/
def createPipelineLayout (rd : Renderer) (g : Gpu) (d : Driver) : Bool × Renderer × Gpu :=
  let created := g.next
  let g := g.call (.vkCreatePipelineLayout created rd.m_descriptor_set_layout)
  if d.vkCreatePipelineLayout = VK_SUCCESS then
    (true, { rd with m_pipeline_layout := created }, { g with next := g.next + 1 })
  else (false, rd, g)

/-- `Renderer::createShaderModule`: false without any call when the file
cannot be loaded. -/
def createShaderModule (g : Gpu) (d : Driver) (filename : String) : Bool × Handle × Gpu :=
  if !d.loadFile filename then (false, VK_NULL_HANDLE, g) else
  let created := g.next
  let g := g.call (.vkCreateShaderModule created filename)
  if d.vkCreateShaderModule filename = VK_SUCCESS then
    (true, created, { g with next := g.next + 1 })
  else (false, VK_NULL_HANDLE, g)

/-- `Renderer::createGraphicsPipeline`, reduced to its calls that create or
destroy an object. -/
def createGraphicsPipeline (rd : Renderer) (ctx : VulkanContext) (g : Gpu) (d : Driver) :
    Bool × Renderer × Gpu :=
  let (success, shader_module_vert, g) := createShaderModule g d "draw_vert.spv"
  if !success then (false, rd, g) else
  let (success, shader_module_frag, g) := createShaderModule g d "draw_frag.spv"
  if !success then (false, rd, g.call (.vkDestroyShaderModule shader_module_vert)) else
  let created := g.next
  let g := g.call (.vkCreateGraphicsPipelines created rd.m_pipeline_layout rd.m_render_pass
    ctx.m_swap_chain_extent)
  let (rd, g) := if d.vkCreateGraphicsPipelines = VK_SUCCESS then
      ({ rd with m_graphics_pipeline := created }, { g with next := g.next + 1 })
    else (rd, g)
  let g := g.call (.vkDestroyShaderModule shader_module_frag)
  let g := g.call (.vkDestroyShaderModule shader_module_vert)
  (decide (d.vkCreateGraphicsPipelines = VK_SUCCESS), rd, g)

/-- The loop of `Renderer::createFramebuffers` over the swapchain image views;
`i` is the index of the head of the remaining views. -/
def createFramebuffers_loop (d : Driver) (m_render_pass depth_view : Handle)
    (extent : VkExtent2D) :
    Nat → List Handle → List Handle → Gpu → Bool × List Handle × Gpu
  | _, [], m_swap_chain_framebuffers, g => (true, m_swap_chain_framebuffers, g)
  | i, image_view :: rest, m_swap_chain_framebuffers, g =>
      let swap_chain_framebuffer := g.next
      let g := g.call (.vkCreateFramebuffer swap_chain_framebuffer m_render_pass image_view
        depth_view extent)
      if d.vkCreateFramebuffer i ≠ VK_SUCCESS then (false, m_swap_chain_framebuffers, g)
      else createFramebuffers_loop d m_render_pass depth_view extent (i + 1) rest
        (m_swap_chain_framebuffers ++ [swap_chain_framebuffer]) { g with next := g.next + 1 }

/-- `Renderer::createFramebuffers`. -/
def createFramebuffers (rd : Renderer) (ctx : VulkanContext) (g : Gpu) (d : Driver) :
    Bool × Renderer × Gpu :=
  let (ok, framebuffers, g) := createFramebuffers_loop d rd.m_render_pass
    ((ctx.m_depth_image.map VulkanImage.m_image_view).getD VK_NULL_HANDLE)
    ctx.m_swap_chain_extent 0 ctx.m_swap_chain_image_views rd.m_swap_chain_framebuffers g
  (ok, { rd with m_swap_chain_framebuffers := framebuffers }, g)

/-- The inner loop of `buildCommandBuffers`: the four commands recorded for
one model into command buffer number `i`. `getDescriptorSets()[i]` is an
unchecked `operator[]`: it is defined in the code only for
`i < m_descriptor_sets.size()`. Past the end the code reads whatever word lies
there; the embedding has `VK_NULL_HANDLE` at that place, which stands for no
value of the code, and statements about the descriptor set bound assume the
index in bounds. -/
def buildCommandBuffers_models (rd : Renderer) (command_buffer : Handle) (i : Nat) :
    List Model → Gpu → Gpu
  | [], g => g
  | model :: rest, g =>
      let g := g.record command_buffer (.vkCmdBindVertexBuffers model.m_vertex_buffer)
      let g := g.record command_buffer (.vkCmdBindIndexBuffer model.m_index_buffer)
      let g := g.record command_buffer (.vkCmdBindDescriptorSets rd.m_pipeline_layout
        (model.m_descriptor_sets.getD i VK_NULL_HANDLE))
      let g := g.record command_buffer (.vkCmdDrawIndexed (model.m_indices.length % 2 ^ 32))
      buildCommandBuffers_models rd command_buffer i rest g

/-- The outer loop of `buildCommandBuffers` over the command buffers; `i` is
the index of the head of the remaining command buffers.
`m_swap_chain_framebuffers[i]` is an unchecked `operator[]`: it is defined in
the code only for `i < m_swap_chain_framebuffers.size()`. Past the end the code
has no defined behaviour; the embedding has `VK_NULL_HANDLE` at that place,
which stands for no value of the code, and statements about the framebuffer of
the render pass assume the index in bounds. -/
def buildCommandBuffers_loop (rd : Renderer) (ctx : VulkanContext) (d : Driver) :
    Nat → List Handle → Gpu → Bool × Gpu
  | _, [], g => (true, g)
  | i, command_buffer :: rest, g =>
      let g := g.call (.vkBeginCommandBuffer command_buffer
        VK_COMMAND_BUFFER_USAGE_SIMULTANEOUS_USE_BIT)
      let g := { g with recorded := g.recorded.filter (fun p => p.1 ≠ command_buffer) }
      if d.vkBeginCommandBuffer i ≠ VK_SUCCESS then (false, g) else
      let g := g.record command_buffer (.vkCmdBeginRenderPass rd.m_render_pass
        (rd.m_swap_chain_framebuffers.getD i VK_NULL_HANDLE) ctx.m_swap_chain_extent)
      let g := g.record command_buffer (.vkCmdBindPipeline rd.m_graphics_pipeline)
      let g := buildCommandBuffers_models rd command_buffer i rd.m_models g
      let g := g.record command_buffer .vkCmdEndRenderPass
      let g := g.call (.vkEndCommandBuffer command_buffer)
      if d.vkEndCommandBuffer i ≠ VK_SUCCESS then (false, g) else
      buildCommandBuffers_loop rd ctx d (i + 1) rest g

/-- `Renderer::buildCommandBuffers`. -/
def buildCommandBuffers (rd : Renderer) (ctx : VulkanContext) (g : Gpu) (d : Driver)
    (models : List Model) : Bool × Renderer × Gpu :=
  let rd := { rd with m_models := models }
  let (ok, g) := buildCommandBuffers_loop rd ctx d 0 ctx.m_command_buffers g
  (ok, rd, g)

/-- `Renderer::recreateSwapChain`. The results of the five calls after the
rebuild of the context are discarded. -/
def Renderer.recreateSwapChain (rd : Renderer) (ctx : VulkanContext) (g : Gpu) (d : Driver)
    (drawable_width drawable_height : Nat) : Bool × Renderer × VulkanContext × Gpu :=
  let g := waitIdle g
  let g := rd.m_swap_chain_framebuffers.foldl
    (fun g framebuffer => g.call (.vkDestroyFramebuffer framebuffer)) g
  let rd := { rd with m_swap_chain_framebuffers := [] }
  let g := g.call (.vkDestroyPipeline rd.m_graphics_pipeline)
  let g := g.call (.vkDestroyPipelineLayout rd.m_pipeline_layout)
  let g := g.call (.vkDestroyRenderPass rd.m_render_pass)
  let (success, ctx, g) := ctx.recreateSwapChain g d drawable_width drawable_height
  if !success then (false, rd, ctx, g) else
  let (_, rd, g) := createRenderPass rd ctx g d
  let (_, rd, g) := createPipelineLayout rd g d
  let (_, rd, g) := createGraphicsPipeline rd ctx g d
  let (_, rd, g) := createFramebuffers rd ctx g d
  let (_, rd, g) := buildCommandBuffers rd ctx g d rd.m_models
  (true, rd, ctx, g)

/-- What the claims about a rebuild observe of the swapchain and of the
objects built per swapchain image. -/
structure SwapchainShape where
  extent : VkExtent2D
  format : VkFormat
  imageCount : Nat
  imageViews : Nat
  commandBuffers : Nat
  framebuffers : Nat
deriving DecidableEq, Repr

def swapchainShape (rd : Renderer) (ctx : VulkanContext) : SwapchainShape :=
  { extent := ctx.m_swap_chain_extent,
    format := ctx.m_swap_chain_image_format,
    imageCount := ctx.m_swap_chain_images_count,
    imageViews := ctx.m_swap_chain_image_views.length,
    commandBuffers := ctx.m_command_buffers.length,
    framebuffers := rd.m_swap_chain_framebuffers.length }

/-- Whether the `n` results from index `i` on are all `VK_SUCCESS`. -/
def allSucceed (results : Nat → VkResult) : Nat → Nat → Bool
  | _, 0 => true
  | i, n + 1 => if results i ≠ VK_SUCCESS then false else allSucceed results (i + 1) n

/-- How many of the `n` results from index `i` on come before the first one
that is not `VK_SUCCESS`. -/
def succeededBeforeFailure (results : Nat → VkResult) : Nat → Nat → Nat
  | _, 0 => 0
  | i, n + 1 =>
      if results i ≠ VK_SUCCESS then 0 else succeededBeforeFailure results (i + 1) n + 1

/-- Whether `createImage` succeeds: the image is created, a device-local memory
type is found and the allocation succeeds. -/
def createImageOk (memoryTypes : List Nat) (r : CreateImageResults) : Bool :=
  decide (r.vkCreateImage = VK_SUCCESS) &&
  decide (findMemoryType r.memoryTypeBits VK_MEMORY_PROPERTY_DEVICE_LOCAL_BIT 0 memoryTypes ≠
    UINT32_MAX) &&
  decide (r.vkAllocateMemory = VK_SUCCESS)

/-- Whether `createDepthBuffer` succeeds against a driver: a depth format is
found, the image and its view are created. The outcome does not depend on the
context or on the state of the driver. -/
def depthBufferOk (d : Driver) : Bool :=
  decide (createDepthBuffer_depth_format d.optimalTilingFeatures ≠ VK_FORMAT_UNDEFINED) &&
  createImageOk d.memoryTypes d.depthImage &&
  decide (d.depthImageView = VK_SUCCESS)

/-- The outcome of one rebuild read off the driver alone: the success flag and
the shape of the swapchain objects that `Renderer::recreateSwapChain` leaves,
stage by stage in the order in which the rebuild can fail. Only a rebuild
that fails before the swapchain exists keeps the extent and format (and, when
the surface query fails, the image count) found in `ctx`. -/
def rebuiltShape (d : Driver) (drawable_width drawable_height : Nat) (ctx : VulkanContext) :
    Bool × SwapchainShape :=
  if d.surfaceFormats.length < 1 ∨ d.presentModes.length < 1 then
    (false, ⟨ctx.m_swap_chain_extent, ctx.m_swap_chain_image_format,
      ctx.m_swap_chain_images_count, 0, 0, 0⟩)
  else
    let info := createSwapChain_create_info_of d.surfaceCapabilities d.surfaceFormats
      d.presentModes drawable_width drawable_height ctx.m_graphics_family ctx.m_present_family
    if d.vkCreateSwapchainKHR ≠ VK_SUCCESS then
      (false, ⟨ctx.m_swap_chain_extent, ctx.m_swap_chain_image_format, info.minImageCount,
        0, 0, 0⟩)
    else
      let n := d.swapchainImages info
      let views := succeededBeforeFailure d.vkCreateImageView 0 n
      if !allSucceed d.vkCreateImageView 0 n then
        (false, ⟨info.imageExtent, info.imageFormat, n, views, 0, 0⟩)
      else if d.vkAllocateCommandBuffers ≠ VK_SUCCESS then
        (false, ⟨info.imageExtent, info.imageFormat, n, views, 0, 0⟩)
      else if !depthBufferOk d then
        (false, ⟨info.imageExtent, info.imageFormat, n, views, n, 0⟩)
      else
        (true, ⟨info.imageExtent, info.imageFormat, n, views, n,
          succeededBeforeFailure d.vkCreateFramebuffer 0 views⟩)

/-- What happens between two calls of the host in the frame loop: the GPU
completes a pending submission, or the host draws a frame. -/
inductive FrameEvent where
  | complete (fence : Handle)
  | drawFrame (r : FrameResults) (ubo : List Byte)
deriving DecidableEq, Repr

/-- The invariant of the frame loop on the fences of the context, its slot
index, and the pending submissions and signalled fences of the driver: there
are `MAX_FRAMES_IN_FLIGHT` distinct fences, the slot index is in range, no two
pending submissions signal the same fence, every pending submission signals a
fence of the context, and that fence is not signalled. -/
def FramesInvariant (ctx : VulkanContext) (g : Gpu) : Prop :=
  ctx.m_in_flight_fences.length = MAX_FRAMES_IN_FLIGHT ∧
  ctx.m_in_flight_fences.Nodup ∧
  ctx.m_current_frame < MAX_FRAMES_IN_FLIGHT ∧
  (g.pending.map Prod.snd).Nodup ∧
  (∀ f ∈ g.pending.map Prod.snd, f ∈ ctx.m_in_flight_fences) ∧
  (∀ f ∈ g.pending.map Prod.snd, f ∉ g.signalled)

/-- The driver worlds that a sequence of events goes through, the first being
the one it starts from. A frame whose wait on the fence never returns ends the
sequence. Within a frame the pending submissions only shrink (in the wait) and
then grow by the one submission, so the world after the frame carries the
largest number of pending submissions seen during it. -/
def frameWorlds (rd : Renderer) : VulkanContext → Gpu → List FrameEvent → List Gpu
  | _, g, [] => [g]
  | ctx, g, .complete fence :: rest => g :: frameWorlds rd ctx (g.complete fence) rest
  | ctx, g, .drawFrame r ubo :: rest =>
      match drawFrame rd ctx g r ubo with
      | none => [g]
      | some (_, ctx, g1) => g :: frameWorlds rd ctx g1 rest


/-- The names of the nine stages of `VulkanContext::init`. -/
inductive Stage where
  | createInstance
  | createSurface
  | findPhysicalDevice
  | createDevice
  | createSwapChain
  | createSyncObjects
  | createCommandPool
  | createCommandBuffers
  | createDepthBuffer
deriving DecidableEq, Repr

/-- The nine stages in the order of the claim: instance, surface, physical
device, logical device, swapchain, sync objects, command pool, command buffers,
depth buffer. -/
def Stage.all : List Stage :=
  [.createInstance, .createSurface, .findPhysicalDevice, .createDevice, .createSwapChain,
   .createSyncObjects, .createCommandPool, .createCommandBuffers, .createDepthBuffer]

/-- The line that `init` prints when a stage fails. -/
def Stage.message : Stage → String
  | .createInstance => "Error: Couldn't create instance\n"
  | .createSurface => "Error: Couldn't create surface\n"
  | .findPhysicalDevice => "Error: Couldn't find physical device\n"
  | .createDevice => "Error: Couldn't create vulkan device\n"
  | .createSwapChain => "Error: Couldn't create swap chain\n"
  | .createSyncObjects => "Error: Couldn't create sync objects\n"
  | .createCommandPool => "Error: Couldn't create command pool\n"
  | .createCommandBuffers => "Error: Couldn't create command buffers\n"
  | .createDepthBuffer => "Error: Couldn't create depth buffer\n"

/-- A stage that also notes, in a journal carried next to the state, that it
ran and what it returned. -/
def journalled {σ : Type} (stage : Stage) (run : σ → Bool × σ) (s : σ × List (Stage × Bool)) :
    Bool × σ × List (Stage × Bool) :=
  ((run s.1).1, (run s.1).2, s.2 ++ [(stage, (run s.1).1)])

/-- The nine stages, each keeping the journal of the stages that ran. -/
def InitStages.journalled {σ : Type} (st : InitStages σ) : InitStages (σ × List (Stage × Bool)) :=
  { createInstance := VulkanTest.journalled .createInstance st.createInstance,
    createSurface := VulkanTest.journalled .createSurface st.createSurface,
    findPhysicalDevice := VulkanTest.journalled .findPhysicalDevice st.findPhysicalDevice,
    createDevice := VulkanTest.journalled .createDevice st.createDevice,
    createSwapChain := VulkanTest.journalled .createSwapChain st.createSwapChain,
    createSyncObjects := VulkanTest.journalled .createSyncObjects st.createSyncObjects,
    createCommandPool := VulkanTest.journalled .createCommandPool st.createCommandPool,
    createCommandBuffers := VulkanTest.journalled .createCommandBuffers st.createCommandBuffers,
    createDepthBuffer := VulkanTest.journalled .createDepthBuffer st.createDepthBuffer }

/-- Stages that do nothing but answer as `outcome` says. -/
def InitStages.scripted (outcome : Stage → Bool) : InitStages Unit :=
  { createInstance := fun s => (outcome .createInstance, s),
    createSurface := fun s => (outcome .createSurface, s),
    findPhysicalDevice := fun s => (outcome .findPhysicalDevice, s),
    createDevice := fun s => (outcome .createDevice, s),
    createSwapChain := fun s => (outcome .createSwapChain, s),
    createSyncObjects := fun s => (outcome .createSyncObjects, s),
    createCommandPool := fun s => (outcome .createCommandPool, s),
    createCommandBuffers := fun s => (outcome .createCommandBuffers, s),
    createDepthBuffer := fun s => (outcome .createDepthBuffer, s) }

/-! ## `renderer.cpp`: descriptor set layout and descriptor pool -/

/-- The two bindings that `createDescriptorSetLayout` declares. -/
def createDescriptorSetLayout_bindings : List VkDescriptorSetLayoutBinding :=
  [ { binding := 0, descriptorType := VK_DESCRIPTOR_TYPE_UNIFORM_BUFFER, descriptorCount := 1,
      stageFlags := VK_SHADER_STAGE_VERTEX_BIT },
    { binding := 1, descriptorType := VK_DESCRIPTOR_TYPE_COMBINED_IMAGE_SAMPLER,
      descriptorCount := 1, stageFlags := VK_SHADER_STAGE_FRAGMENT_BIT } ]

/-- `Renderer::createDescriptorSetLayout`. -/
def createDescriptorSetLayout (rd : Renderer) (g : Gpu) (result : VkResult) :
    Bool × Renderer × Gpu :=
  let created := g.next
  let g := g.call (.vkCreateDescriptorSetLayout created createDescriptorSetLayout_bindings)
  if result = VK_SUCCESS then
    (true, { rd with m_descriptor_set_layout := created }, { g with next := g.next + 1 })
  else (false, rd, g)

/-- The loop of `createUniformBuffers`, `remaining` iterations from index `i`:
each creates one host-visible, host-coherent buffer of the size of a
`UniformBufferObject` and pushes the buffer and its memory; the first failure
returns false. `results i` holds what the driver answers in iteration `i`. -/
def createUniformBuffers_loop (memoryTypes : List Nat) (results : Nat → CreateBufferResults) :
    Nat → Nat → Renderer → Gpu → Bool × Renderer × Gpu
  | 0, _, rd, g => (true, rd, g)
  | remaining + 1, i, rd, g =>
      let (success, uniform_buffer, uniform_buffer_memory, g) :=
        createBuffer memoryTypes g (results i) sizeof_UniformBufferObject
          VK_BUFFER_USAGE_UNIFORM_BUFFER_BIT
          (VK_MEMORY_PROPERTY_HOST_VISIBLE_BIT ||| VK_MEMORY_PROPERTY_HOST_COHERENT_BIT)
          VK_NULL_HANDLE VK_NULL_HANDLE
      if !success then (false, rd, g) else
      let rd := { rd with
        m_uniform_buffers := rd.m_uniform_buffers ++ [uniform_buffer],
        m_uniform_buffers_memory := rd.m_uniform_buffers_memory ++ [uniform_buffer_memory] }
      createUniformBuffers_loop memoryTypes results remaining (i + 1) rd g

/-- `Renderer::createUniformBuffers`: one iteration for each of the `count`
images that `getSwapChainImagesCount` reports when it is called. -/
def createUniformBuffers (rd : Renderer) (ctx : VulkanContext) (memoryTypes : List Nat)
    (g : Gpu) (results : Nat → CreateBufferResults) : Bool × Renderer × Gpu :=
  let count := getSwapChainImagesCount ctx
  createUniformBuffers_loop memoryTypes results count 0 rd g

/-- `Renderer::createDescriptorPool`: `descriptor_count` is the product of two
`unsigned int`s held in a `uint32_t`. -/
def createDescriptorPool (rd : Renderer) (ctx : VulkanContext) (g : Gpu) (models_count : Nat)
    (result : VkResult) : Bool × Renderer × Gpu :=
  let descriptor_count := (models_count * getSwapChainImagesCount ctx) % 2 ^ 32
  let pool_sizes : List VkDescriptorPoolSize :=
    [ { type := VK_DESCRIPTOR_TYPE_UNIFORM_BUFFER, descriptorCount := descriptor_count },
      { type := VK_DESCRIPTOR_TYPE_COMBINED_IMAGE_SAMPLER,
        descriptorCount := descriptor_count } ]
  let created := g.next
  let g := g.call (.vkCreateDescriptorPool created descriptor_count pool_sizes)
  if result = VK_SUCCESS then
    (true, { rd with m_descriptor_pool := created }, { g with next := g.next + 1 })
  else (false, rd, g)

/-- The number of descriptors of one type that a set of a layout with these
bindings takes from its pool. -/
def descriptorsPerSet (bindings : List VkDescriptorSetLayoutBinding)
    (type : VkDescriptorType) : Nat :=
  ((bindings.filter (fun b => b.descriptorType = type)).map
    (fun b => b.descriptorCount)).sum

/-! ## `texture_manager.hpp` -/

/-- The struct `Texture`. -/
structure Texture where
  vulkan_image : VulkanImage
  width : Nat
  height : Nat
  channels : Nat
deriving DecidableEq, Repr

/-- The member `m_textures` of `TextureManager`: a map from names to pointers
to textures, `none` for a null pointer. -/
structure TextureManager where
  m_textures : List (String × Option Texture)
deriving DecidableEq, Repr

/-- `TextureManager::getTexture`, which is `m_textures[name]`: a name that is
not in the map is inserted with a null pointer. -/
def TextureManager.getTexture (tm : TextureManager) (name : String) :
    Option Texture × TextureManager :=
  match tm.m_textures.lookup name with
  | some texture => (texture, tm)
  | none => (none, { m_textures := tm.m_textures ++ [(name, none)] })

/-! ## `model.cpp`: descriptor sets -/

/-- The two writes that `createDescriptorSets` hands to
`vkUpdateDescriptorSets` for descriptor set number `i`. -/
def Model.createDescriptorSets_writes (uniform_buffers : List Handle)
    (vulkan_image : VulkanImage) (i : Nat) (descriptor_set : Handle) :
    List VkWriteDescriptorSet :=
  let buffer_info : VkDescriptorBufferInfo :=
    { buffer := uniform_buffers.getD i VK_NULL_HANDLE, offset := 0,
      range := sizeof_UniformBufferObject }
  let image_info : VkDescriptorImageInfo :=
    { imageLayout := VK_IMAGE_LAYOUT_SHADER_READ_ONLY_OPTIMAL,
      imageView := vulkan_image.m_image_view, sampler := vulkan_image.m_sampler }
  [ { dstSet := descriptor_set, dstBinding := 0, dstArrayElement := 0,
      descriptorType := VK_DESCRIPTOR_TYPE_UNIFORM_BUFFER, descriptorCount := 1,
      pBufferInfo := some buffer_info, pImageInfo := none },
    { dstSet := descriptor_set, dstBinding := 1, dstArrayElement := 0,
      descriptorType := VK_DESCRIPTOR_TYPE_COMBINED_IMAGE_SAMPLER, descriptorCount := 1,
      pBufferInfo := none, pImageInfo := some image_info } ]

/-- The loop of `createDescriptorSets` over `m_descriptor_sets`; `i` is the
index of the head of the remaining sets. Reading `uniform_buffers[i]` past the
end is modelled as reading `VK_NULL_HANDLE`. -/
def Model.createDescriptorSets_loop (uniform_buffers : List Handle)
    (vulkan_image : VulkanImage) : Nat → List Handle → Gpu → Gpu
  | _, [], g => g
  | i, descriptor_set :: rest, g =>
      Model.createDescriptorSets_loop uniform_buffers vulkan_image (i + 1) rest
        (g.call (.vkUpdateDescriptorSets
          (Model.createDescriptorSets_writes uniform_buffers vulkan_image i descriptor_set)))

/-- `Model::createDescriptorSets`, with what it prints. `result` is the answer
of `vkAllocateDescriptorSets`, which on success writes one new handle per
requested layout. -/
def Model.createDescriptorSets (m : Model) (rd : Renderer) (ctx : VulkanContext)
    (tm : TextureManager) (g : Gpu) (result : VkResult) :
    Bool × Model × TextureManager × Gpu × List String :=
  let count := getSwapChainImagesCount ctx
  let descriptor_sets := g.newHandles count
  let layout := rd.m_descriptor_set_layout
  let layouts := List.replicate count layout
  let g := g.call (.vkAllocateDescriptorSets rd.m_descriptor_pool layouts)
  if result ≠ VK_SUCCESS then (false, m, tm, g, []) else
  let g := { g with next := g.next + count }
  let m := { m with m_descriptor_sets := descriptor_sets }
  match tm.getTexture m.m_tex_name with
  | (none, tm) => (false, m, tm, g, ["Error: Missing texture: " ++ m.m_tex_name ++ "\n"])
  | (some texture, tm) =>
    let vulkan_image := texture.vulkan_image
    let uniform_buffers := rd.m_uniform_buffers
    let g := Model.createDescriptorSets_loop uniform_buffers vulkan_image 0
      m.m_descriptor_sets g
    (true, m, tm, g, [])

/-- What the driver answers while one model is initialised. -/
structure ModelResults where
  vertex : UploadResults
  index : UploadResults
  vkAllocateDescriptorSets : VkResult
deriving DecidableEq, Repr

/-- `Model::init`, with what it prints. -/
def Model.init (m : Model) (memoryTypes : List Nat) (rd : Renderer) (ctx : VulkanContext)
    (tm : TextureManager) (g : Gpu) (r : ModelResults) :
    Bool × Model × TextureManager × Gpu × List String :=
  let (success, m, g) := m.createVertexBuffer memoryTypes g r.vertex
  if !success then (false, m, tm, g, ["Error: Couldn't create vertex buffer\n"]) else
  let (success, m, g) := m.createIndexBuffer memoryTypes g r.index
  if !success then (false, m, tm, g, ["Error: Couldn't create index buffer\n"]) else
  let (success, m, tm, g, printed) := m.createDescriptorSets rd ctx tm g r.vkAllocateDescriptorSets
  if !success then
    (false, m, tm, g, printed ++ ["Error: Couldn't create descriptor sets\n"])
  else (true, m, tm, g, printed)

/-! ## `model_manager.cpp` -/

/-- The loop `for (Model* model : m_models)` of `ModelManager::init`; `i` is
the index of the head of the remaining models and `results i` is what the
driver answers while model `i` is initialised. -/
def ModelManager.init_loop (memoryTypes : List Nat) (rd : Renderer) (ctx : VulkanContext)
    (results : Nat → ModelResults) :
    Nat → List Model → TextureManager → Gpu →
      Bool × List Model × TextureManager × Gpu × List String
  | _, [], tm, g => (true, [], tm, g, [])
  | i, model :: rest, tm, g =>
      let (success, model, tm, g, printed) := model.init memoryTypes rd ctx tm g (results i)
      if !success then
        (false, model :: rest, tm, g,
          printed ++ ["Error: Couldn't create model: " ++ model.m_name ++ "\n"])
      else
        let (success, rest, tm, g, printed1) :=
          ModelManager.init_loop memoryTypes rd ctx results (i + 1) rest tm g
        (success, model :: rest, tm, g, printed ++ printed1)

/-- `ModelManager::init` from the point where the models of the asset files
have been constructed into `m_models`: the descriptor pool is created for
`m_models.size()` models (converted to `unsigned int`), every model is
initialised, and the command buffers are recorded. -/
def ModelManager.init (m_models : List Model) (rd : Renderer) (ctx : VulkanContext)
    (tm : TextureManager) (g : Gpu) (d : Driver) (vkCreateDescriptorPool : VkResult)
    (results : Nat → ModelResults) :
    Bool × List Model × Renderer × TextureManager × Gpu × List String :=
  let (success, rd, g) :=
    createDescriptorPool rd ctx g (m_models.length % 2 ^ 32) vkCreateDescriptorPool
  if !success then
    (false, m_models, rd, tm, g, ["Error: Couldn't create descriptor pool\n"])
  else
  let (success, m_models, tm, g, printed) :=
    ModelManager.init_loop d.memoryTypes rd ctx results 0 m_models tm g
  if !success then (false, m_models, rd, tm, g, printed) else
  let (success, rd, g) := buildCommandBuffers rd ctx g d m_models
  if !success then
    (false, m_models, rd, tm, g, printed ++ ["Error: Couldn't build command buffers\n"])
  else (true, m_models, rd, tm, g, printed)

/-- The calls on descriptor set layouts, descriptor pools and descriptor sets. -/
def Call.isDescriptor : Call → Bool
  | .vkCreateDescriptorSetLayout _ _ => true
  | .vkCreateDescriptorPool _ _ _ => true
  | .vkAllocateDescriptorSets _ _ => true
  | .vkUpdateDescriptorSets _ => true
  | _ => false

/-- Every call but the descriptor calls. -/
def Call.notDescriptor (c : Call) : Bool := !c.isDescriptor

/-- The requests for descriptor sets among some calls: the pool and the
layouts of every `vkAllocateDescriptorSets`. -/
def allocationRequests (calls : List Call) : List (Handle × List Handle) :=
  calls.filterMap (fun c =>
    match c with
    | .vkAllocateDescriptorSets pool layouts => some (pool, layouts)
    | _ => none)

/-- The total number of descriptor sets requested from `pool` by some calls. -/
def setsRequested (calls : List Call) (pool : Handle) : Nat :=
  (((allocationRequests calls).filter (fun request => request.1 = pool)).map
    (fun request => request.2.length)).sum

/-! ## Objects that do not depend on the swapchain -/

/-- The swapchain-independent members of the context: the image-available
semaphores, the render-finished semaphores, the in-flight fences, the command
pool and the index of the current frame-sync slot. -/
def VulkanContext.swapchainIndependent (ctx : VulkanContext) :
    List Handle × List Handle × List Handle × Handle × Nat :=
  (ctx.m_image_available_semaphores, ctx.m_render_finished_semaphores, ctx.m_in_flight_fences,
    ctx.m_command_pool, ctx.m_current_frame)

/-- The swapchain-independent members of the renderer: the uniform buffers,
their memory, the descriptor pool and the descriptor set layout. -/
def Renderer.swapchainIndependent (rd : Renderer) :
    List Handle × List Handle × Handle × Handle :=
  (rd.m_uniform_buffers, rd.m_uniform_buffers_memory, rd.m_descriptor_pool,
    rd.m_descriptor_set_layout)

/-- The calls that allocate, record, submit or free command buffers, or wait
for the queue. -/
def Call.isCommand : Call → Bool
  | .vkAllocateCommandBuffers _ => true
  | .vkBeginCommandBuffer _ _ => true
  | .vkCmd _ _ => true
  | .vkEndCommandBuffer _ => true
  | .vkQueueSubmit _ _ _ _ _ => true
  | .vkQueueWaitIdle => true
  | .vkFreeCommandBuffers _ => true
  | _ => false

/-- The calls that a rebuild of the swapchain may make: waiting for the
device, destroying and creating the swapchain, its image views, the depth
image, the command buffers, the render pass, the pipeline with its layout and
shader modules and the framebuffers, recording and submitting commands, and
freeing device memory only if it is `depth_memory`, the memory of the depth
image that the rebuild replaces. Every other call is excluded: creating a
semaphore or a fence, creating, binding, mapping or destroying a buffer, and
every call on descriptor set layouts, pools or sets. -/
def Call.rebuildMay (depth_memory : Option Handle) : Call → Bool
  | .vkDeviceWaitIdle => true
  | .vkDestroyFramebuffer _ => true
  | .vkDestroyPipeline _ => true
  | .vkDestroyPipelineLayout _ => true
  | .vkDestroyRenderPass _ => true
  | .vkDestroySampler _ => true
  | .vkDestroyImageView _ => true
  | .vkDestroyImage _ => true
  | .vkFreeMemory memory => decide (depth_memory = some memory)
  | .vkFreeCommandBuffers _ => true
  | .vkDestroySwapchainKHR _ => true
  | .querySurface => true
  | .vkCreateSwapchainKHR _ _ => true
  | .vkGetSwapchainImagesKHR _ _ => true
  | .vkCreateImageView _ _ _ _ => true
  | .vkAllocateCommandBuffers _ => true
  | .vkCreateImage _ _ _ _ _ => true
  | .vkAllocateMemory _ _ _ => true
  | .vkBindImageMemory _ _ => true
  | .vkBeginCommandBuffer _ _ => true
  | .vkCmd _ _ => true
  | .vkEndCommandBuffer _ => true
  | .vkQueueSubmit _ _ _ _ _ => true
  | .vkQueueWaitIdle => true
  | .vkCreateRenderPass _ _ _ => true
  | .vkCreatePipelineLayout _ _ => true
  | .vkCreateShaderModule _ _ => true
  | .vkDestroyShaderModule _ => true
  | .vkCreateGraphicsPipelines _ _ _ _ => true
  | .vkCreateFramebuffer _ _ _ _ _ => true
  | _ => false

/-- Every call logged in `g` after the calls logged in `g0` satisfies `P`, and
the log of `g` extends the log of `g0`. -/
def Gpu.since (P : Call → Bool) (g0 g : Gpu) : Prop :=
  ∃ calls, g.log = g0.log ++ calls ∧ ∀ c ∈ calls, P c = true

/-- What may happen to a context once `createSyncObjects` has run: the two
stages of `init` that follow it, the three steps of a frame, a whole frame,
and a rebuild of the swapchain by the context alone or through the renderer. -/
inductive ReachableFrom (start : VulkanContext) : VulkanContext → Prop where
  | start : ReachableFrom start start
  | createCommandBuffers {ctx : VulkanContext} (g : Gpu) (d : Driver) :
      ReachableFrom start ctx → ReachableFrom start (createCommandBuffers ctx g d).2.1
  | createDepthBuffer {ctx : VulkanContext} (g : Gpu) (d : Driver) :
      ReachableFrom start ctx → ReachableFrom start (createDepthBuffer ctx g d).2.1
  | beginFrame {ctx ctx1 : VulkanContext} (g g1 : Gpu) (r : FrameResults) (success : Bool) :
      ReachableFrom start ctx → beginFrame ctx g r = some (success, ctx1, g1) →
      ReachableFrom start ctx1
  | endFrame {ctx : VulkanContext} (g : Gpu) (r : FrameResults) :
      ReachableFrom start ctx → ReachableFrom start (endFrame ctx g r).2.1
  | drawFrame {ctx ctx1 : VulkanContext} (rd : Renderer) (g g1 : Gpu) (r : FrameResults)
      (ubo : List Byte) (success : Bool) :
      ReachableFrom start ctx → drawFrame rd ctx g r ubo = some (success, ctx1, g1) →
      ReachableFrom start ctx1
  | recreateSwapChain {ctx : VulkanContext} (g : Gpu) (d : Driver) (w h : Nat) :
      ReachableFrom start ctx → ReachableFrom start (ctx.recreateSwapChain g d w h).2.1
  | rendererRecreateSwapChain {ctx : VulkanContext} (rd : Renderer) (g : Gpu) (d : Driver)
      (w h : Nat) :
      ReachableFrom start ctx → ReachableFrom start (rd.recreateSwapChain ctx g d w h).2.2.1

/-! ## `main.cpp`: the loop of `main` -/

/-- What the loop of `main` carries from one iteration to the next: the
renderer, the Vulkan context, the driver world and the local
`recreate_swapchain`. -/
structure MainLoop where
  renderer : Renderer
  vulkan_context : VulkanContext
  gpu : Gpu
  recreate_swapchain : Bool

/-- What one iteration of the loop reads from outside the program: the result
of `processEvents`, the size of the window, the answers of the driver to a
rebuild and to the frame, and the uniform payload the camera holds after
`camera->update`. -/
structure Iteration where
  processEvents : Bool
  windowWidth : Nat
  windowHeight : Nat
  driver : Driver
  frame : FrameResults
  ubo : List Byte

/-- How one iteration of the loop ends: the loop goes on to the next
iteration, `main` returns with an exit code after printing some messages, or
the iteration never ends. -/
inductive Outcome where
  | next (s : MainLoop)
  | returned (code : Int) (printed : List String) (s : MainLoop)
  | blocked

/-- The block `if (w != getDrawableWidth() || h != getDrawableHeight() ||
recreate_swapchain)` of the loop: the success flag of the rebuild (true when
the block is skipped) and the state after the block. -/
def main_rebuild (s : MainLoop) (w h : Nat) (d : Driver) : Bool × MainLoop :=
  if w ≠ s.vulkan_context.m_drawable_width ∨ h ≠ s.vulkan_context.m_drawable_height ∨
      s.recreate_swapchain = true then
    let (success, rd, ctx, g) := s.renderer.recreateSwapChain s.vulkan_context s.gpu d w h
    (success, { renderer := rd, vulkan_context := ctx, gpu := g, recreate_swapchain := false })
  else (true, s)

/-- One iteration of the `while` loop of `main`, with what follows the loop
when the iteration leaves it. -/
def main_iteration (s : MainLoop) (it : Iteration) : Outcome :=
  let quit := !it.processEvents
  if quit then .returned 0 [] { s with gpu := waitIdle s.gpu } else
  let w := it.windowWidth
  let h := it.windowHeight
  let (success, s) := main_rebuild s w h it.driver
  if !success then .returned 1 ["Error: Couldn't recreate swap chain"] s else
  match drawFrame s.renderer s.vulkan_context s.gpu it.frame it.ubo with
  | none => .blocked
  | some (success, ctx, g) =>
    let s := { s with vulkan_context := ctx, gpu := g }
    if !success then .next { s with recreate_swapchain := true } else
    .next s

/-- The `while` loop of `main` over the iterations that the outside world
allows: the loop goes from one iteration to the next until an iteration leaves
it or never ends; `.next s` when the iterations are used up with the loop
still running in state `s`. -/
def main_loop : MainLoop → List Iteration → Outcome
  | s, [] => .next s
  | s, it :: rest =>
      match main_iteration s it with
      | .next s1 => main_loop s1 rest
      | .returned code printed s1 => .returned code printed s1
      | .blocked => .blocked

/-- The commands recorded in a command buffer, in the order of recording. -/
def Gpu.commandsOf (g : Gpu) (command_buffer : Handle) : List Cmd :=
  (g.recorded.filter (fun p => p.1 = command_buffer)).map Prod.snd

/-! ## Order of the calls of a rebuild -/

/-- The calls of the destructor `VulkanImage::~VulkanImage`, in order: one per
handle that is not `VK_NULL_HANDLE`. -/
def VulkanImage.deleteCalls (img : VulkanImage) : List Call :=
  (if img.m_sampler ≠ VK_NULL_HANDLE then [Call.vkDestroySampler img.m_sampler] else []) ++
  (if img.m_image_view ≠ VK_NULL_HANDLE then [Call.vkDestroyImageView img.m_image_view]
    else []) ++
  (if img.m_image ≠ VK_NULL_HANDLE then [Call.vkDestroyImage img.m_image] else []) ++
  (if img.m_image_memory ≠ VK_NULL_HANDLE then [Call.vkFreeMemory img.m_image_memory] else [])

/-- The calls that create a swapchain and fetch its images. -/
def Call.ofSwapchain : Call → Bool
  | .vkCreateSwapchainKHR _ _ => true
  | .vkGetSwapchainImagesKHR _ _ => true
  | _ => false

/-- The creation of a colour image view, as made for each swapchain image. -/
def Call.ofSwapchainView : Call → Bool
  | .vkCreateImageView _ _ _ aspect => decide (aspect = VK_IMAGE_ASPECT_COLOR_BIT)
  | _ => false

/-- The allocation of command buffers. -/
def Call.isAllocateCommandBuffers : Call → Bool
  | .vkAllocateCommandBuffers _ => true
  | _ => false

/-- The calls that set up the depth image: creating the image, allocating and
binding its memory, creating its depth view, and the one-time command buffer of
its layout transition. -/
def Call.ofDepthImage : Call → Bool
  | .vkCreateImage _ _ _ _ _ => true
  | .vkAllocateMemory _ _ _ => true
  | .vkBindImageMemory _ _ => true
  | .vkCreateImageView _ _ _ aspect => decide (aspect = VK_IMAGE_ASPECT_DEPTH_BIT)
  | c => c.isCommand

/-- The calls with which the renderer builds its swapchain-dependent objects:
render pass, pipeline layout, shader modules, pipeline, framebuffers, and the
recording of the command buffers. -/
def Call.ofRenderer : Call → Bool
  | .vkCreateRenderPass _ _ _ => true
  | .vkCreatePipelineLayout _ _ => true
  | .vkCreateShaderModule _ _ => true
  | .vkDestroyShaderModule _ => true
  | .vkCreateGraphicsPipelines _ _ _ _ => true
  | .vkCreateFramebuffer _ _ _ _ _ => true
  | c => c.isCommand

/-- Whether a list of calls can be cut into consecutive runs, possibly empty,
one per predicate of `phases` and in that order, so that every call of the
k-th run satisfies the k-th predicate: for each call the phases that reject it
are passed over for good. -/
def inPhases : List (Call → Bool) → List Call → Bool
  | _, [] => true
  | phases, c :: cs =>
      match phases.dropWhile (fun P => !P c) with
      | [] => false
      | P :: rest => inPhases (P :: rest) cs

/-- The five phases in which a rebuild creates objects after it has queried the
surface: the swapchain, its image views, the command buffers, the depth image,
the objects of the renderer. -/
def creationPhases : List (Call → Bool) :=
  [Call.ofSwapchain, Call.ofSwapchainView, Call.isAllocateCommandBuffers, Call.ofDepthImage,
    Call.ofRenderer]

/-- The log of `g` extends the log of `g0` by calls that run through `phases`
in order. -/
def Gpu.staged (phases : List (Call → Bool)) (g0 g : Gpu) : Prop :=
  ∃ calls, g.log = g0.log ++ calls ∧ inPhases phases calls = true

/-! ## Layout of a texture image -/

/-- What a call tells about the layout of an image: its creation, which leaves
it in `VK_IMAGE_LAYOUT_UNDEFINED`, a barrier that moves it from one layout to
another, or a buffer-to-image copy that declares the layout it writes in. -/
inductive LayoutEvent where
  | created
  | transition (oldLayout newLayout : VkImageLayout)
  | copy (declared : VkImageLayout)
deriving DecidableEq, Repr

/-- The layout event of a call for `image`, if it has one. -/
def Call.layoutEvent (image : Handle) : Call → Option LayoutEvent
  | .vkCreateImage created _ _ _ _ => if created = image then some .created else none
  | .vkCmd _ (.vkCmdPipelineBarrier _ _ barrier) =>
      if barrier.image = image then some (.transition barrier.oldLayout barrier.newLayout)
      else none
  | .vkCmd _ (.vkCmdCopyBufferToImage _ dst layout _ _) =>
      if dst = image then some (.copy layout) else none
  | _ => none

/-- The layout events for `image` among the calls made between two worlds. -/
def Gpu.layoutEvents (image : Handle) (after before : Gpu) : List LayoutEvent :=
  (after.callsSince before).filterMap (Call.layoutEvent image)

/-- Tracking the layout of an image along its events, from the layout it is in
(`none` before it exists): a creation leaves it undefined, a barrier must start
from the tracked layout and leaves its new layout, a copy must find the image in
`VK_IMAGE_LAYOUT_TRANSFER_DST_OPTIMAL` and declare that layout. The result is
`none` as soon as an event does not fit. -/
def trackLayout : Option VkImageLayout → List LayoutEvent → Option VkImageLayout
  | layout, [] => layout
  | _, .created :: rest => trackLayout (some VK_IMAGE_LAYOUT_UNDEFINED) rest
  | some layout, .transition oldLayout newLayout :: rest =>
      if oldLayout = layout then trackLayout (some newLayout) rest else none
  | some layout, .copy declared :: rest =>
      if layout = VK_IMAGE_LAYOUT_TRANSFER_DST_OPTIMAL ∧
          declared = VK_IMAGE_LAYOUT_TRANSFER_DST_OPTIMAL then
        trackLayout (some layout) rest
      else none
  | none, _ :: _ => none

/-- Whether every image descriptor that a call writes declares
`VK_IMAGE_LAYOUT_SHADER_READ_ONLY_OPTIMAL`. -/
def Call.samplesShaderReadOnly : Call → Bool
  | .vkUpdateDescriptorSets writes =>
      writes.all (fun w => match w.pImageInfo with
        | some info => decide (info.imageLayout = VK_IMAGE_LAYOUT_SHADER_READ_ONLY_OPTIMAL)
        | none => true)
  | _ => true

/-- The calls on buffers and their memory. -/
def Call.ofBuffer : Call → Bool
  | .vkCreateBuffer _ _ _ => true
  | .vkAllocateMemory _ _ _ => true
  | .vkBindBufferMemory _ _ => true
  | .vkMapMemory _ _ => true
  | .memcpy _ _ => true
  | .vkUnmapMemory _ => true
  | .vkDestroyBuffer _ => true
  | .vkFreeMemory _ => true
  | _ => false

/-! ## `model_manager.cpp`: the vertices of a mesh -/

/-- The members of `tinyobj::mesh_t` that `ModelManager::init` reads. A `float`
is held as its 32-bit pattern, an index is an `unsigned int`. -/
structure Mesh where
  positions : List Nat
  texcoords : List Nat
  indices : List Nat
deriving DecidableEq, Repr

/-- Whether the 32-bit pattern of a `float` is a NaN: exponent all ones and a
mantissa that is not zero. -/
def float_isNaN (x : Nat) : Bool :=
  x / 2 ^ 23 % 256 == 255 && x % 2 ^ 23 != 0

/-- The comparison `a == b` of two `float`s given by their patterns: false when
one of them is a NaN, true for two zeros of either sign, otherwise true exactly
for equal patterns. -/
def float_eq (a b : Nat) : Bool :=
  !float_isNaN a && !float_isNaN b && (a == b || (a % 2 ^ 31 == 0 && b % 2 ^ 31 == 0))

/-- The pattern of `1.0f`. -/
abbrev float_one : Nat := 0x3F800000

/-- The test of the inner loop of `ModelManager::init`:
`vertex.pos == vertices[j].pos && vertex.color == vertices[j].color &&
vertex.tex_coord == vertices[j].tex_coord`, each `==` of `glm` comparing
component by component. -/
def ModelManager.init_equal (vertex other : Vertex) : Bool :=
  (float_eq vertex.pos.1 other.pos.1 && float_eq vertex.pos.2.1 other.pos.2.1 &&
    float_eq vertex.pos.2.2 other.pos.2.2) &&
  (float_eq vertex.color.1 other.color.1 && float_eq vertex.color.2.1 other.color.2.1 &&
    float_eq vertex.color.2.2 other.color.2.2) &&
  (float_eq vertex.tex_coord.1 other.tex_coord.1 &&
    float_eq vertex.tex_coord.2 other.tex_coord.2)

/-- The vertex that `ModelManager::init` builds for one entry of
`mesh.indices`. `index * 3` and `index * 2` are computed in `unsigned int`;
`oneMinus` is the `float` operation `1.0f - x`; an element read past the end of
`positions` or `texcoords` has no defined value and is read as zero here. -/
def ModelManager.init_vertex (oneMinus : Nat → Nat) (mesh : Mesh) (index : Nat) : Vertex :=
  { pos := (mesh.positions.getD ((index * 3 + 0) % 2 ^ 32) 0,
            mesh.positions.getD ((index * 3 + 1) % 2 ^ 32) 0,
            mesh.positions.getD ((index * 3 + 2) % 2 ^ 32) 0),
    tex_coord :=
      if mesh.texcoords.length > 0 then
        (mesh.texcoords.getD ((index * 2) % 2 ^ 32) 0,
         oneMinus (mesh.texcoords.getD ((index * 2 + 1) % 2 ^ 32) 0))
      else (0, 0),
    color := (float_one, float_one, float_one) }

/-- The inner loop `for (unsigned int j = 0; j < vertices.size(); j++)`: the
first `j` whose vertex compares equal to `vertex`; `j` is the index of the head
of the remaining vertices. -/
def ModelManager.init_find (vertex : Vertex) : Nat → List Vertex → Option Nat
  | _, [] => none
  | j, other :: rest =>
      if ModelManager.init_equal vertex other then some j
      else ModelManager.init_find vertex (j + 1) rest

/-- One iteration of the loop over `mesh.indices` once the vertex is built:
`vertex_id` is the first matching `j`, or `vertices.size()` when there is
none, in which case the vertex is pushed; `vertex_id` is pushed onto
`indices`. `vertex_id` and `j` are `unsigned int`: with `2^32` vertices or more
and no match among the first `2^32` of them, `j` wraps around and the inner
loop never ends, which is `none`. -/
def ModelManager.init_add (vertex : Vertex) (vertices : List Vertex) (indices : List Nat) :
    Option (List Vertex × List Nat) :=
  match ModelManager.init_find vertex 0 vertices with
  | some j => if j < 2 ^ 32 then some (vertices, indices ++ [j]) else none
  | none =>
      if vertices.length < 2 ^ 32 then some (vertices ++ [vertex], indices ++ [vertices.length])
      else none

/-- The loop `for (auto index : mesh.indices)` of `ModelManager::init`. -/
def ModelManager.init_indices (oneMinus : Nat → Nat) (mesh : Mesh) :
    List Nat → List Vertex → List Nat → Option (List Vertex × List Nat)
  | [], vertices, indices => some (vertices, indices)
  | index :: rest, vertices, indices =>
      match ModelManager.init_add (ModelManager.init_vertex oneMinus mesh index)
          vertices indices with
      | some (vertices, indices) => ModelManager.init_indices oneMinus mesh rest vertices indices
      | none => none

/-- The `vertices` and `indices` that `ModelManager::init` hands to the
constructor of `Model` for one mesh. -/
def ModelManager.init_mesh (oneMinus : Nat → Nat) (mesh : Mesh) :
    Option (List Vertex × List Nat) :=
  ModelManager.init_indices oneMinus mesh mesh.indices [] []

/-- What holds of `vertices` and `indices` after the entries `done` of
`mesh.indices` have been processed, `build` being the vertex built for an
index. -/
structure Deduplicated (build : Nat → Vertex) (vertices : List Vertex) (indices done : List Nat) :
    Prop where
  length_eq : indices.length = done.length
  length_le : vertices.length ≤ done.length
  bound : ∀ id ∈ indices, id < vertices.length
  value : ∀ (k id index : Nat), indices[k]? = some id → done[k]? = some index →
    ∃ vertex, vertices[id]? = some vertex ∧
      (vertex = build index ∨ ModelManager.init_equal (build index) vertex = true)
  distinct : vertices.Pairwise (fun earlier later => ModelManager.init_equal later earlier = false)
  built : ∀ vertex ∈ vertices, ∃ index ∈ done, vertex = build index

/-! ## `texture_manager.cpp`: pixel data handed to the upload -/

/-- The struct `Image` of `image_loader.hpp`; `data` holds the bytes that
`image->data` points to. -/
structure Image where
  width : Int
  height : Int
  channels : Int
  data : List Byte
deriving DecidableEq, Repr

/-- A driver on which every call succeeds: a device-local and a host-visible
coherent memory type, `D32_SFLOAT` usable as depth attachment, a surface of
800 x 600 with 2 to 8 images, and a swapchain that holds exactly the number of
images asked for. -/
def Driver.nominal : Driver :=
  { memoryTypes := [VK_MEMORY_PROPERTY_DEVICE_LOCAL_BIT,
      VK_MEMORY_PROPERTY_HOST_VISIBLE_BIT ||| VK_MEMORY_PROPERTY_HOST_COHERENT_BIT],
    optimalTilingFeatures := fun format =>
      if format = VK_FORMAT_D32_SFLOAT then VK_FORMAT_FEATURE_DEPTH_STENCIL_ATTACHMENT_BIT
      else 0,
    surfaceCapabilities := ⟨2, 8, ⟨800, 600⟩, ⟨1, 1⟩, ⟨4096, 4096⟩, 1⟩,
    surfaceFormats := [⟨VK_FORMAT_B8G8R8A8_UNORM, VK_COLOR_SPACE_SRGB_NONLINEAR_KHR⟩],
    presentModes := [VK_PRESENT_MODE_FIFO_KHR],
    vkCreateSwapchainKHR := VK_SUCCESS,
    swapchainImages := fun info => info.minImageCount,
    vkCreateImageView := fun _ => VK_SUCCESS,
    vkAllocateCommandBuffers := VK_SUCCESS,
    depthImage := ⟨VK_SUCCESS, 800 * 600 * 4, 3, VK_SUCCESS⟩,
    depthImageView := VK_SUCCESS,
    oneShot := OneShotResults.ok,
    vkCreateRenderPass := VK_SUCCESS,
    vkCreatePipelineLayout := VK_SUCCESS,
    loadFile := fun _ => true,
    vkCreateShaderModule := fun _ => VK_SUCCESS,
    vkCreateGraphicsPipelines := VK_SUCCESS,
    vkCreateFramebuffer := fun _ => VK_SUCCESS,
    vkBeginCommandBuffer := fun _ => VK_SUCCESS,
    vkEndCommandBuffer := fun _ => VK_SUCCESS }

/-- The context after `findPhysicalDevice` stored the surface information of
`d`, for a drawable of 800 x 600. -/
def VulkanContext.onSurface (d : Driver) : VulkanContext :=
  { VulkanContext.new 800 600 with
    m_surface_capabilities := d.surfaceCapabilities,
    m_surface_formats := d.surfaceFormats,
    m_present_modes := d.presentModes }

/-- A staged upload during which every call of the driver succeeds. -/
def UploadResults.ok : UploadResults :=
  { staging := ⟨VK_SUCCESS, 0, 3, VK_SUCCESS⟩,
    destination := ⟨VK_SUCCESS, 0, 3, VK_SUCCESS⟩,
    copy := OneShotResults.ok }

/-- A staged upload during which only the `vkQueueSubmit` of the one-shot copy
fails, with `VK_ERROR_OUT_OF_HOST_MEMORY`. -/
def UploadResults.submitFails : UploadResults :=
  { UploadResults.ok with
    copy := { OneShotResults.ok with vkQueueSubmit := VK_ERROR_OUT_OF_HOST_MEMORY } }

/-- A staged upload during which the creation of the destination buffer fails
with `VK_ERROR_OUT_OF_DEVICE_MEMORY`. -/
def UploadResults.destinationFails : UploadResults :=
  { UploadResults.ok with
    destination := ⟨VK_ERROR_OUT_OF_DEVICE_MEMORY, 0, 3, VK_SUCCESS⟩ }

/-- A texture upload during which `vkCreateImage` fails with
`VK_ERROR_OUT_OF_DEVICE_MEMORY` and every other call succeeds. -/
def TextureResults.imageFails : TextureResults :=
  { staging := ⟨VK_SUCCESS, 0, 3, VK_SUCCESS⟩,
    image := ⟨VK_ERROR_OUT_OF_DEVICE_MEMORY, 16, 3, VK_SUCCESS⟩,
    toTransferDst := OneShotResults.ok,
    copy := OneShotResults.ok,
    toShaderReadOnly := OneShotResults.ok }

/-- A model of one vertex and one index, not yet initialised. -/
def Model.example : Model :=
  Model.new "model" [⟨(1, 2, 3), (4, 5, 6), (7, 8)⟩] [9] "texture"

/-- The three result codes of every iteration of `createSyncObjects` when all
calls succeed. -/
def syncResultsOk (_ : Nat) : VkResult × VkResult × VkResult :=
  (VK_SUCCESS, VK_SUCCESS, VK_SUCCESS)

/-- The context and driver after `createSyncObjects` succeeded on a new
context and a fresh driver, with three command buffers standing for those of
a three-image swapchain. -/
def readyContext : VulkanContext :=
  { (createSyncObjects (VulkanContext.new 800 600) Gpu.fresh syncResultsOk).2.1 with
    m_command_buffers := [100, 101, 102] }

def readyGpu : Gpu :=
  (createSyncObjects (VulkanContext.new 800 600) Gpu.fresh syncResultsOk).2.2

/-- A renderer with three uniform buffers. -/
def Renderer.example : Renderer :=
  { Renderer.new with m_uniform_buffers := [200, 202, 204],
                      m_uniform_buffers_memory := [201, 203, 205] }

/-- A frame in which image `i` is acquired and every call succeeds. -/
def FrameResults.ok (i : Nat) : FrameResults :=
  { vkAcquireNextImageKHR := VK_SUCCESS, imageIndex := i, vkQueueSubmit := VK_SUCCESS,
    vkQueuePresentKHR := VK_SUCCESS }

/-- The stage `createDepthBuffer` of `init` on the state made of the context
and the driver. -/
def createDepthBufferStage (d : Driver) (s : VulkanContext × Gpu) :
    Bool × VulkanContext × Gpu :=
  createDepthBuffer s.1 s.2 d


/-- An integrated device without sampler anisotropy and a discrete device
whose family 0 can only present and whose family 1 has the graphics bit. -/
def PhysicalDevice.examples : List PhysicalDevice :=
  [ { handle := 7,
      queueFamilies := [⟨1, VK_QUEUE_GRAPHICS_BIT⟩],
      presentSupport := fun _ => true,
      extensions := [VK_KHR_SWAPCHAIN_EXTENSION_NAME],
      surfaceCapabilities := ⟨2, 8, ⟨800, 600⟩, ⟨1, 1⟩, ⟨4096, 4096⟩, 1⟩,
      surfaceFormats := [⟨VK_FORMAT_B8G8R8A8_UNORM, VK_COLOR_SPACE_SRGB_NONLINEAR_KHR⟩],
      presentModes := [VK_PRESENT_MODE_FIFO_KHR],
      samplerAnisotropy := false },
    { handle := 8,
      queueFamilies := [⟨1, 0⟩, ⟨4, VK_QUEUE_GRAPHICS_BIT⟩],
      presentSupport := fun i => decide (i = 0),
      extensions := ["VK_KHR_maintenance1", VK_KHR_SWAPCHAIN_EXTENSION_NAME],
      surfaceCapabilities := ⟨3, 0, ⟨640, 480⟩, ⟨1, 1⟩, ⟨4096, 4096⟩, 1⟩,
      surfaceFormats := [⟨VK_FORMAT_B8G8R8A8_UNORM, VK_COLOR_SPACE_SRGB_NONLINEAR_KHR⟩],
      presentModes := [VK_PRESENT_MODE_MAILBOX_KHR, VK_PRESENT_MODE_FIFO_KHR],
      samplerAnisotropy := true } ]

/-- The state of the loop of `main` when it is entered after a load that left
`readyContext`, `readyGpu` and `Renderer.example`, with a drawable of
800 x 600. -/
def MainLoop.example : MainLoop :=
  { renderer := Renderer.example, vulkan_context := readyContext, gpu := readyGpu,
    recreate_swapchain := false }

/-- An iteration in which the window is open and 800 x 600 wide, and the
frame gets the results `frame`. -/
def Iteration.example (frame : FrameResults) : Iteration :=
  { processEvents := true, windowWidth := 800, windowHeight := 600,
    driver := Driver.nominal, frame := frame, ubo := [] }

/-- A frame in which image `i` is acquired and only the presentation reports
"suboptimal". -/
def FrameResults.suboptimalPresent (i : Nat) : FrameResults :=
  { FrameResults.ok i with vkQueuePresentKHR := VK_SUBOPTIMAL_KHR }

/-- The nominal driver, except that `vkCreateRenderPass` fails with
`VK_ERROR_OUT_OF_HOST_MEMORY`. -/
def Driver.renderPassFails : Driver :=
  { Driver.nominal with vkCreateRenderPass := VK_ERROR_OUT_OF_HOST_MEMORY }

/-- The renderer of `Renderer.example` with a descriptor pool and a descriptor
set layout. -/
def Renderer.withDescriptors : Renderer :=
  { Renderer.example with m_descriptor_pool := 300, m_descriptor_set_layout := 301 }

/-- The ready context with a swapchain of three images. -/
def readyContext3 : VulkanContext :=
  { readyContext with m_swap_chain_images_count := 3 }

/-- A texture manager that holds one texture, under the name `texture`. -/
def TextureManager.example : TextureManager :=
  { m_textures := [("texture",
      some { vulkan_image := { VulkanImage.new VK_FORMAT_R8G8B8A8_UNORM 2 2 with
                               m_image := 400, m_image_memory := 401, m_image_view := 402,
                               m_sampler := 403 },
             width := 2, height := 2, channels := 4 })] }

/-- Every call of the driver succeeds while a model is initialised. -/
def ModelResults.ok : ModelResults :=
  { vertex := UploadResults.ok, index := UploadResults.ok, vkAllocateDescriptorSets := VK_SUCCESS }

/-- An iteration in which `processEvents` reports that the window was closed. -/
def Iteration.windowClosed : Iteration :=
  { Iteration.example (FrameResults.ok 0) with processEvents := false }

/-- A model whose texture name is not in `TextureManager.example`. -/
def Model.untextured : Model :=
  Model.new "bare" [⟨(1, 2, 3), (4, 5, 6), (7, 8)⟩] [9] "absent.png"

/-- A frame in which the acquisition reports "out of date". -/
def FrameResults.outOfDate : FrameResults :=
  { FrameResults.ok 0 with vkAcquireNextImageKHR := VK_ERROR_OUT_OF_DATE_KHR }

/-- The nominal driver on a surface that asks for at least three images, so
that a swapchain of four images is created. -/
def Driver.fourImages : Driver :=
  { Driver.nominal with surfaceCapabilities := ⟨3, 8, ⟨800, 600⟩, ⟨1, 1⟩, ⟨4096, 4096⟩, 1⟩ }

/-- The state after a load of one model against a swapchain of three images
and a renderer with three uniform buffers. -/
def loadedWorld : Bool × List Model × Renderer × TextureManager × Gpu × List String :=
  ModelManager.init [Model.example] Renderer.withDescriptors readyContext3
    TextureManager.example readyGpu Driver.nominal VK_SUCCESS (fun _ => ModelResults.ok)

/-- The state after a rebuild of the swapchain of `loadedWorld` on a surface
that now asks for at least three images. -/
def rebuiltWorld : Bool × Renderer × VulkanContext × Gpu :=
  Renderer.recreateSwapChain loadedWorld.2.2.1 readyContext3 loadedWorld.2.2.2.2.1
    Driver.fourImages 800 600

/-- A driver on which every call of a texture upload succeeds. -/
def TextureResults.ok : TextureResults :=
  { TextureResults.imageFails with image := ⟨VK_SUCCESS, 16, 3, VK_SUCCESS⟩ }

/-- A mesh of three indices over two positions that differ only in the sign of
a zero: the second position compares equal to the first. -/
def Mesh.example : Mesh :=
  { positions := [0, 0x3F800000, 0x40000000, 0x80000000, 0x3F800000, 0x40000000,
                  0x40400000, 0, 0],
    texcoords := [],
    indices := [0, 1, 2, 0] }

/-- A three-channel image of two pixels. -/
def Image.example : Image :=
  { width := 2, height := 1, channels := 3, data := [10, 20, 30, 40, 50, 60] }

/-- A mesh of one index whose position holds a NaN. -/
def Mesh.notANumber : Mesh :=
  { positions := [0x7FC00000, 0, 0], texcoords := [], indices := [0] }

/-- A mesh of `2^32 + 1` indices, all zero, whose position holds a NaN: no
vertex built from it compares equal to any vertex. -/
def Mesh.endless : Mesh :=
  { positions := [0x7FC00000, 0, 0], texcoords := [],
    indices := List.replicate (2 ^ 32 + 1) 0 }

/-- A renderer whose render pass, pipeline layout and pipeline exist, with
one framebuffer for each of the three command buffers of `readyContext`. -/
def Renderer.recording : Renderer :=
  { Renderer.withDescriptors with
    m_render_pass := 500, m_pipeline_layout := 501, m_graphics_pipeline := 502,
    m_swap_chain_framebuffers := [510, 511, 512] }

/-- A model of one index whose buffers and three descriptor sets exist. -/
def Model.first : Model :=
  { Model.example with
    m_vertex_buffer := 600, m_vertex_buffer_memory := 601,
    m_index_buffer := 602, m_index_buffer_memory := 603,
    m_descriptor_sets := [610, 611, 612] }

/-- A model of three indices whose buffers and three descriptor sets exist. -/
def Model.second : Model :=
  { Model.example with
    m_indices := [0, 0, 0],
    m_vertex_buffer := 620, m_vertex_buffer_memory := 621,
    m_index_buffer := 622, m_index_buffer_memory := 623,
    m_descriptor_sets := [630, 631, 632] }

/-- A model of `2^32` indices, all zero, whose buffers and three descriptor
sets exist. -/
def Model.overlong : Model :=
  { Model.example with
    m_indices := List.replicate (2 ^ 32) 0,
    m_vertex_buffer := 640, m_vertex_buffer_memory := 641,
    m_index_buffer := 642, m_index_buffer_memory := 643,
    m_descriptor_sets := [650, 651, 652] }

/-- A surface that reports the largest `minImageCount` a `uint32_t` holds and
no upper limit. -/
def VkSurfaceCapabilitiesKHR.unbounded : VkSurfaceCapabilitiesKHR :=
  { Driver.nominal.surfaceCapabilities with minImageCount := 2 ^ 32 - 1, maxImageCount := 0 }

/-- The creation of a buffer in which every call of the driver succeeds. -/
def CreateBufferResults.ok : CreateBufferResults :=
  ⟨VK_SUCCESS, 0, 3, VK_SUCCESS⟩

/-- The context and the driver after `createSwapChain` on the nominal
surface. -/
def swapchainWorld : Bool × VulkanContext × Gpu :=
  createSwapChain (VulkanContext.onSurface Driver.nominal) Gpu.fresh Driver.nominal

/-- The renderer and the driver after a descriptor set layout and the uniform
buffers were created in `swapchainWorld`. -/
def uniformWorld : Bool × Renderer × Gpu :=
  createUniformBuffers
    (createDescriptorSetLayout Renderer.new swapchainWorld.2.2 VK_SUCCESS).2.1
    swapchainWorld.2.1 Driver.nominal.memoryTypes
    (createDescriptorSetLayout Renderer.new swapchainWorld.2.2 VK_SUCCESS).2.2
    (fun _ => CreateBufferResults.ok)

/-- The renderer and the driver after the descriptor pool for two models was
created in `uniformWorld`. -/
def pooledWorld : Bool × Renderer × Gpu :=
  createDescriptorPool uniformWorld.2.1 swapchainWorld.2.1 uniformWorld.2.2 2 VK_SUCCESS

theorem Cmd.execute_log (c : Cmd) (g : Gpu) : (c.execute g).log = g.log := by
  cases c <;> simp [Cmd.execute, Gpu.writeMemory]

theorem foldl_execute_log (cs : List Cmd) (g : Gpu) :
    (cs.foldl Cmd.execute g).log = g.log := by
  induction cs generalizing g with
  | nil => rfl
  | cons c cs ih => simp [List.foldl, ih, Cmd.execute_log]

/-- The calls of one one-shot command buffer that records a single command. -/
theorem issue_callsSince (g : Gpu) (r : OneShotResults) (cmd : Cmd) :
    (endSingleTimeCommands ((beginSingleTimeCommands g r).2.record
        (beginSingleTimeCommands g r).1 cmd) r (beginSingleTimeCommands g r).1).callsSince g =
      [ .vkAllocateCommandBuffers [(beginSingleTimeCommands g r).1],
        .vkBeginCommandBuffer (beginSingleTimeCommands g r).1
          VK_COMMAND_BUFFER_USAGE_ONE_TIME_SUBMIT_BIT,
        .vkCmd (beginSingleTimeCommands g r).1 cmd,
        .vkEndCommandBuffer (beginSingleTimeCommands g r).1,
        .vkQueueSubmit (beginSingleTimeCommands g r).1 VK_NULL_HANDLE 0 VK_NULL_HANDLE
          VK_NULL_HANDLE,
        .vkQueueWaitIdle,
        .vkFreeCommandBuffers [(beginSingleTimeCommands g r).1] ] := by
  simp only [Gpu.callsSince, endSingleTimeCommands, beginSingleTimeCommands, Gpu.record,
    Gpu.call]
  split <;> simp [foldl_execute_log, Cmd.execute_log]

/-- C1: for every image and every pair of layouts, `transitionImageLayout`
issues, on one of the three defined edges, the calls of exactly one one-shot
command buffer with exactly one pipeline barrier recorded between its begin
and its end; on every other pair it leaves the driver untouched, so no barrier
is recorded and no command buffer is begun. -/
theorem transitionImageLayout_barriers (img : VulkanImage) (g : Gpu) (r : OneShotResults)
    (old_layout new_layout : VkImageLayout) :
    if definedEdge old_layout new_layout = true then
      ∃ cb srcStage dstStage srcAccess dstAccess aspect,
        (transitionImageLayout img g r old_layout new_layout).callsSince g =
          [ .vkAllocateCommandBuffers [cb],
            .vkBeginCommandBuffer cb VK_COMMAND_BUFFER_USAGE_ONE_TIME_SUBMIT_BIT,
            .vkCmd cb (.vkCmdPipelineBarrier srcStage dstStage
              { oldLayout := old_layout, newLayout := new_layout,
                srcAccessMask := srcAccess, dstAccessMask := dstAccess,
                image := img.m_image, aspectMask := aspect }),
            .vkEndCommandBuffer cb,
            .vkQueueSubmit cb VK_NULL_HANDLE 0 VK_NULL_HANDLE VK_NULL_HANDLE,
            .vkQueueWaitIdle,
            .vkFreeCommandBuffers [cb] ] ∧
        (((transitionImageLayout img g r old_layout new_layout).callsSince g).filter
          Call.isPipelineBarrier).length = 1 ∧
        (((transitionImageLayout img g r old_layout new_layout).callsSince g).filter
          Call.isBeginCommandBuffer).length = 1
    else
      transitionImageLayout img g r old_layout new_layout = g := by
  by_cases h1 : old_layout = VK_IMAGE_LAYOUT_UNDEFINED ∧
      new_layout = VK_IMAGE_LAYOUT_TRANSFER_DST_OPTIMAL
  · obtain ⟨rfl, rfl⟩ := h1
    simp [definedEdge, transitionImageLayout, issue_callsSince, List.filter,
        Call.isPipelineBarrier, Call.isBeginCommandBuffer]
  · by_cases h2 : old_layout = VK_IMAGE_LAYOUT_TRANSFER_DST_OPTIMAL ∧
        new_layout = VK_IMAGE_LAYOUT_SHADER_READ_ONLY_OPTIMAL
    · obtain ⟨rfl, rfl⟩ := h2
      simp [definedEdge, transitionImageLayout, issue_callsSince, List.filter,
        Call.isPipelineBarrier, Call.isBeginCommandBuffer]
    · by_cases h3 : old_layout = VK_IMAGE_LAYOUT_UNDEFINED ∧
          new_layout = VK_IMAGE_LAYOUT_DEPTH_STENCIL_ATTACHMENT_OPTIMAL
      · obtain ⟨rfl, rfl⟩ := h3
        simp [definedEdge, transitionImageLayout, issue_callsSince, List.filter,
        Call.isPipelineBarrier, Call.isBeginCommandBuffer]
      · have hd : definedEdge old_layout new_layout = false := by
          simp only [definedEdge, Bool.or_eq_false_iff, Bool.and_eq_false_iff, beq_eq_false_iff_ne]
          refine ⟨⟨?_, ?_⟩, ?_⟩
          · by_cases h : old_layout = VK_IMAGE_LAYOUT_UNDEFINED
            · exact Or.inr (fun h' => h1 ⟨h, h'⟩)
            · exact Or.inl h
          · by_cases h : old_layout = VK_IMAGE_LAYOUT_TRANSFER_DST_OPTIMAL
            · exact Or.inr (fun h' => h2 ⟨h, h'⟩)
            · exact Or.inl h
          · by_cases h : old_layout = VK_IMAGE_LAYOUT_UNDEFINED
            · exact Or.inr (fun h' => h3 ⟨h, h'⟩)
            · exact Or.inl h
        simp only [hd, Bool.false_eq_true, if_false]
        simp only [transitionImageLayout, if_neg h1, if_neg h2, if_neg h3]

/-! ### Swapchain selection policy -/

theorem createSwapChain_format_loop_spec (surface_format : VkSurfaceFormatKHR)
    (formats : List VkSurfaceFormatKHR) :
    createSwapChain_format_loop surface_format formats =
      if (⟨VK_FORMAT_B8G8R8A8_UNORM, VK_COLOR_SPACE_SRGB_NONLINEAR_KHR⟩ :
          VkSurfaceFormatKHR) ∈ formats then
        ⟨VK_FORMAT_B8G8R8A8_UNORM, VK_COLOR_SPACE_SRGB_NONLINEAR_KHR⟩
      else surface_format := by
  induction formats with
  | nil => simp [createSwapChain_format_loop]
  | cons f rest ih =>
    obtain ⟨fmt, cs⟩ := f
    by_cases h : fmt = VK_FORMAT_B8G8R8A8_UNORM ∧ cs = VK_COLOR_SPACE_SRGB_NONLINEAR_KHR
    · obtain ⟨rfl, rfl⟩ := h
      simp [createSwapChain_format_loop]
    · have hne : (⟨VK_FORMAT_B8G8R8A8_UNORM, VK_COLOR_SPACE_SRGB_NONLINEAR_KHR⟩ :
          VkSurfaceFormatKHR) ≠ ⟨fmt, cs⟩ := by
        intro heq
        injection heq with h1 h2
        exact h ⟨h1.symm, h2.symm⟩
      simp only [createSwapChain_format_loop, if_neg h, ih, List.mem_cons, hne, false_or]

/-- C7: for every non-empty list of surface formats, the format that
`createSwapChain` selects and puts into `create_info` is
`{B8G8R8A8_UNORM, SRGB_NONLINEAR}` when the list contains that exact pair or
is a single entry of format `UNDEFINED` (whatever its colour space), and the
first entry of the list in every other case. -/
theorem createSwapChain_selects_surface_format (ctx : VulkanContext)
    (first : VkSurfaceFormatKHR) (rest : List VkSurfaceFormatKHR) :
    createSwapChain_surface_format (first :: rest) =
      (if (⟨VK_FORMAT_B8G8R8A8_UNORM, VK_COLOR_SPACE_SRGB_NONLINEAR_KHR⟩ :
            VkSurfaceFormatKHR) ∈ first :: rest ∨
          (rest = [] ∧ first.format = VK_FORMAT_UNDEFINED) then
        ⟨VK_FORMAT_B8G8R8A8_UNORM, VK_COLOR_SPACE_SRGB_NONLINEAR_KHR⟩
      else first) ∧
    (createSwapChain_create_info { ctx with m_surface_formats := first :: rest }).imageFormat =
      (createSwapChain_surface_format (first :: rest)).format ∧
    (createSwapChain_create_info { ctx with m_surface_formats := first :: rest }).imageColorSpace =
      (createSwapChain_surface_format (first :: rest)).colorSpace := by
  refine ⟨?_, rfl, rfl⟩
  unfold createSwapChain_surface_format
  by_cases hs : rest = [] ∧ first.format = VK_FORMAT_UNDEFINED
  · obtain ⟨rfl, hf⟩ := hs
    simp [hf]
  · have hs2 : ¬ ((first :: rest).length = 1 ∧
        ((first :: rest).headD ⟨VK_FORMAT_UNDEFINED, 0⟩).format = VK_FORMAT_UNDEFINED) := by
      intro h
      apply hs
      refine ⟨?_, by simpa using h.2⟩
      have := h.1
      simp only [List.length_cons, Nat.add_left_eq_self, List.length_eq_zero] at this
      exact this
    simp only [List.headD_cons] at hs2
    simp only [if_neg hs2, createSwapChain_format_loop_spec, List.headD_cons, hs, or_false]

theorem createSwapChain_mode_loop_spec (present_mode : VkPresentModeKHR)
    (modes : List VkPresentModeKHR) :
    createSwapChain_mode_loop present_mode modes =
      if VK_PRESENT_MODE_MAILBOX_KHR ∈ modes then VK_PRESENT_MODE_MAILBOX_KHR
      else if VK_PRESENT_MODE_IMMEDIATE_KHR ∈ modes then VK_PRESENT_MODE_IMMEDIATE_KHR
      else present_mode := by
  induction modes generalizing present_mode with
  | nil => simp [createSwapChain_mode_loop]
  | cons m rest ih =>
    by_cases h1 : m = VK_PRESENT_MODE_MAILBOX_KHR
    · subst h1
      simp [createSwapChain_mode_loop]
    · have h1s : ¬ VK_PRESENT_MODE_MAILBOX_KHR = m := fun h => h1 h.symm
      by_cases h2 : m = VK_PRESENT_MODE_IMMEDIATE_KHR
      · subst h2
        simp only [createSwapChain_mode_loop, if_neg h1, if_true, ih, List.mem_cons, h1s,
          false_or, true_or]
        split <;> simp
      · have h2s : ¬ VK_PRESENT_MODE_IMMEDIATE_KHR = m := fun h => h2 h.symm
        simp only [createSwapChain_mode_loop, if_neg h1, if_neg h2, ih, List.mem_cons, h1s,
          h2s, false_or]

/-- C8: for every list of present modes, in any order and with any
repetitions, the mode that `createSwapChain` selects and puts into
`create_info` is `MAILBOX` if the list contains it, otherwise `IMMEDIATE` if
the list contains it, otherwise `FIFO`. -/
theorem createSwapChain_selects_present_mode (ctx : VulkanContext)
    (modes : List VkPresentModeKHR) :
    createSwapChain_present_mode modes =
      (if VK_PRESENT_MODE_MAILBOX_KHR ∈ modes then VK_PRESENT_MODE_MAILBOX_KHR
       else if VK_PRESENT_MODE_IMMEDIATE_KHR ∈ modes then VK_PRESENT_MODE_IMMEDIATE_KHR
       else VK_PRESENT_MODE_FIFO_KHR) ∧
    (createSwapChain_create_info { ctx with m_present_modes := modes }).presentMode =
      createSwapChain_present_mode modes :=
  ⟨createSwapChain_mode_loop_spec _ _, rfl⟩

/-! ### Depth format -/

theorem createDepthBuffer_image_format (ctx : VulkanContext) (g : Gpu) (d : Driver)
    (h : createDepthBuffer_depth_format d.optimalTilingFeatures ≠ VK_FORMAT_UNDEFINED) :
    (createDepthBuffer ctx g d).2.1.m_depth_image.map VulkanImage.m_format =
      some (createDepthBuffer_depth_format d.optimalTilingFeatures) := by
  simp only [createDepthBuffer, if_neg h]
  simp only [createImage, createImageView, VulkanImage.new]
  repeat' split
  all_goals simp

theorem init_false_of_createDepthBuffer {σ : Type} (st : InitStages σ)
    (h : ∀ s, (st.createDepthBuffer s).1 = false) (s : σ) : (init st s).1 = false := by
  unfold init
  repeat' split
  all_goals first
    | rfl
    | (rename_i s8 _ _ _ _ _ heq hne
       have := h s8
       rw [heq] at this
       simp_all)

/-- C10: whatever optimal-tiling features the device reports per format,
`createDepthBuffer` selects the first of `D32_SFLOAT`, `D32_SFLOAT_S8_UINT`,
`D24_UNORM_S8_UINT` whose features include the depth-stencil-attachment bit
and constructs the depth image with it; when none of the three has the bit it
returns false having created nothing (context and driver untouched), and
`init` with that stage returns false. -/
theorem createDepthBuffer_selects_format (ctx : VulkanContext) (g : Gpu) (d : Driver) :
    match [VK_FORMAT_D32_SFLOAT, VK_FORMAT_D32_SFLOAT_S8_UINT,
        VK_FORMAT_D24_UNORM_S8_UINT].find? (fun format =>
          decide (d.optimalTilingFeatures format &&&
            VK_FORMAT_FEATURE_DEPTH_STENCIL_ATTACHMENT_BIT =
              VK_FORMAT_FEATURE_DEPTH_STENCIL_ATTACHMENT_BIT)) with
    | some format =>
        createDepthBuffer_depth_format d.optimalTilingFeatures = format ∧
        (createDepthBuffer ctx g d).2.1.m_depth_image.map VulkanImage.m_format = some format
    | none =>
        createDepthBuffer ctx g d = (false, ctx, g) ∧
        ∀ (st : InitStages (VulkanContext × Gpu)) (s : VulkanContext × Gpu),
          (init { st with createDepthBuffer := createDepthBufferStage d } s).1 = false := by
  by_cases h1 : d.optimalTilingFeatures VK_FORMAT_D32_SFLOAT &&&
      VK_FORMAT_FEATURE_DEPTH_STENCIL_ATTACHMENT_BIT =
        VK_FORMAT_FEATURE_DEPTH_STENCIL_ATTACHMENT_BIT
  · have hf : createDepthBuffer_depth_format d.optimalTilingFeatures = VK_FORMAT_D32_SFLOAT := by
      simp [createDepthBuffer_depth_format, createDepthBuffer_format_loop, h1]
    simp only [List.find?, h1, decide_True]
    exact ⟨hf, by rw [createDepthBuffer_image_format ctx g d (by rw [hf]; decide), hf]⟩
  · by_cases h2 : d.optimalTilingFeatures VK_FORMAT_D32_SFLOAT_S8_UINT &&&
        VK_FORMAT_FEATURE_DEPTH_STENCIL_ATTACHMENT_BIT =
          VK_FORMAT_FEATURE_DEPTH_STENCIL_ATTACHMENT_BIT
    · have hf : createDepthBuffer_depth_format d.optimalTilingFeatures =
          VK_FORMAT_D32_SFLOAT_S8_UINT := by
        simp [createDepthBuffer_depth_format, createDepthBuffer_format_loop, h1, h2]
      simp only [List.find?, h1, h2, decide_True, decide_False]
      exact ⟨hf, by rw [createDepthBuffer_image_format ctx g d (by rw [hf]; decide), hf]⟩
    · by_cases h3 : d.optimalTilingFeatures VK_FORMAT_D24_UNORM_S8_UINT &&&
          VK_FORMAT_FEATURE_DEPTH_STENCIL_ATTACHMENT_BIT =
            VK_FORMAT_FEATURE_DEPTH_STENCIL_ATTACHMENT_BIT
      · have hf : createDepthBuffer_depth_format d.optimalTilingFeatures =
            VK_FORMAT_D24_UNORM_S8_UINT := by
          simp [createDepthBuffer_depth_format, createDepthBuffer_format_loop, h1, h2, h3]
        simp only [List.find?, h1, h2, h3, decide_True, decide_False]
        exact ⟨hf, by rw [createDepthBuffer_image_format ctx g d (by rw [hf]; decide), hf]⟩
      · have hf : createDepthBuffer_depth_format d.optimalTilingFeatures =
            VK_FORMAT_UNDEFINED := by
          simp [createDepthBuffer_depth_format, createDepthBuffer_format_loop, h1, h2, h3]
        have hfalse : ∀ (c : VulkanContext) (w : Gpu), createDepthBuffer c w d = (false, c, w) := by
          intro c w
          simp [createDepthBuffer, hf]
        simp only [List.find?, h1, h2, h3, decide_False]
        refine ⟨hfalse ctx g, ?_⟩
        intro st s
        exact init_false_of_createDepthBuffer _ (fun x => by
          simp only [createDepthBufferStage, hfalse]) s

/-! ### Staged upload -/

/-- C4, the claim as stated fails: when the `vkQueueSubmit` of the one-shot
copy fails, `createVertexBuffer` and `createIndexBuffer` still return true,
and the device-local buffer does not hold the host data. -/
theorem upload_true_without_copy :
    (Model.example.createVertexBuffer Driver.nominal.memoryTypes Gpu.fresh
      UploadResults.submitFails).1 = true ∧
    (Model.example.createVertexBuffer Driver.nominal.memoryTypes Gpu.fresh
      UploadResults.submitFails).2.2.bufferContents
        (Model.example.createVertexBuffer Driver.nominal.memoryTypes Gpu.fresh
          UploadResults.submitFails).2.1.m_vertex_buffer ≠
      vertexData Model.example.m_vertices ∧
    (Model.example.createIndexBuffer Driver.nominal.memoryTypes Gpu.fresh
      UploadResults.submitFails).1 = true ∧
    (Model.example.createIndexBuffer Driver.nominal.memoryTypes Gpu.fresh
      UploadResults.submitFails).2.2.bufferContents
        (Model.example.createIndexBuffer Driver.nominal.memoryTypes Gpu.fresh
          UploadResults.submitFails).2.1.m_index_buffer ≠
      indexData Model.example.m_indices := by
  decide

/-- What a successful `createBuffer` returns: the two next handles, and the
driver with the new buffer bound to new zero-filled memory. -/
theorem createBuffer_of_true (memoryTypes : List Nat) (g : Gpu) (r : CreateBufferResults)
    (size usage properties : Nat) (buffer buffer_memory : Handle)
    (h : (createBuffer memoryTypes g r size usage properties buffer buffer_memory).1 = true) :
    createBuffer memoryTypes g r size usage properties buffer buffer_memory =
      (true, g.next, g.next + 1,
        { g with
          next := g.next + 2,
          log := g.log ++ [.vkCreateBuffer g.next size usage,
            .vkAllocateMemory (g.next + 1) (size + r.padding)
              (findMemoryType r.memoryTypeBits properties 0 memoryTypes),
            .vkBindBufferMemory g.next (g.next + 1)],
          bufferSize := (g.next, size) :: g.bufferSize,
          bufferMemory := (g.next, g.next + 1) :: g.bufferMemory,
          memory := (g.next + 1, List.replicate (size + r.padding) 0) :: g.memory }) := by
  unfold createBuffer at h ⊢
  by_cases h1 : r.vkCreateBuffer = VK_SUCCESS
  · by_cases h2 : findMemoryType r.memoryTypeBits properties 0 memoryTypes = UINT32_MAX
    · simp [h1, h2] at h
    · by_cases h3 : r.vkAllocateMemory = VK_SUCCESS
      · simp [h1, h2, h3, Gpu.call]
      · simp [h1, h2, h3] at h
  · simp [h1] at h

theorem vertexData_length (vs : List Vertex) :
    (vertexData vs).length = sizeof_Vertex * vs.length := by
  induction vs with
  | nil => rfl
  | cons v vs ih =>
    simp only [vertexData, List.map_cons, List.flatten_cons, List.length_append,
      List.length_cons] at ih ⊢
    rw [ih]
    simp only [Vertex.bytes, bytesOfWord, List.length_append, List.length_cons,
      List.length_nil]
    unfold sizeof_Vertex
    omega

theorem indexData_length (is : List Nat) :
    (indexData is).length = sizeof_uint32_t * is.length := by
  induction is with
  | nil => rfl
  | cons i is ih =>
    simp only [indexData, List.map_cons, List.flatten_cons, List.length_append,
      List.length_cons] at ih ⊢
    rw [ih]
    simp only [bytesOfWord, List.length_cons, List.length_nil]
    unfold sizeof_uint32_t
    omega

theorem createVertexBuffer_contents (m : Model) (memoryTypes : List Nat) (g : Gpu) (r : UploadResults)
    (hexec : r.copy.executed = true)
    (h : (m.createVertexBuffer memoryTypes g r).1 = true) :
    (m.createVertexBuffer memoryTypes g r).2.2.bufferContents
        (m.createVertexBuffer memoryTypes g r).2.1.m_vertex_buffer =
      vertexData m.m_vertices := by
  simp only [Model.createVertexBuffer] at h ⊢
  by_cases hs : (createBuffer memoryTypes g r.staging (sizeof_Vertex * m.m_vertices.length)
    VK_BUFFER_USAGE_TRANSFER_SRC_BIT
    (VK_MEMORY_PROPERTY_HOST_VISIBLE_BIT ||| VK_MEMORY_PROPERTY_HOST_COHERENT_BIT)
    VK_NULL_HANDLE VK_NULL_HANDLE).1 = true
  · rw [createBuffer_of_true _ _ _ _ _ _ _ _ hs] at h ⊢
    simp only [Bool.not_true, Bool.false_eq_true, if_false] at h ⊢
    by_cases hd : (createBuffer memoryTypes
        (mapAndCopy
          { g with
            next := g.next + 2,
            log := g.log ++ [.vkCreateBuffer g.next (sizeof_Vertex * m.m_vertices.length)
                VK_BUFFER_USAGE_TRANSFER_SRC_BIT,
              .vkAllocateMemory (g.next + 1)
                (sizeof_Vertex * m.m_vertices.length + r.staging.padding)
                (findMemoryType r.staging.memoryTypeBits
                  (VK_MEMORY_PROPERTY_HOST_VISIBLE_BIT ||| VK_MEMORY_PROPERTY_HOST_COHERENT_BIT)
                  0 memoryTypes),
              .vkBindBufferMemory g.next (g.next + 1)],
            bufferSize := (g.next, sizeof_Vertex * m.m_vertices.length) :: g.bufferSize,
            bufferMemory := (g.next, g.next + 1) :: g.bufferMemory,
            memory := (g.next + 1,
              List.replicate (sizeof_Vertex * m.m_vertices.length + r.staging.padding) 0) ::
                g.memory }
          (g.next + 1) (vertexData m.m_vertices) (sizeof_Vertex * m.m_vertices.length))
        r.destination (sizeof_Vertex * m.m_vertices.length)
        (VK_BUFFER_USAGE_TRANSFER_DST_BIT ||| VK_BUFFER_USAGE_VERTEX_BUFFER_BIT)
        VK_MEMORY_PROPERTY_DEVICE_LOCAL_BIT m.m_vertex_buffer m.m_vertex_buffer_memory).1 = true
    · rw [createBuffer_of_true _ _ _ _ _ _ _ _ hd]
      simp only [Bool.not_true, Bool.false_eq_true, if_false]
      have n1 : (g.next == g.next + 2) = false := by simp
      have n2 : (g.next + 1 == g.next + 2 + 1) = false := by simp
      have n3 : (g.next + 2 + 1 == g.next + 1) = false := by simp
      rw [← vertexData_length]
      simp [copyBuffer, beginSingleTimeCommands, endSingleTimeCommands, Gpu.record, Gpu.call,
        mapAndCopy, Gpu.writeMemory, Gpu.readMemory, hexec, Gpu.destroyBuffer, Gpu.freeMemory,
        Gpu.bufferContents, Cmd.execute, List.lookup, n1, n2, n3]
    · simp [hd] at h
  · simp [hs] at h

theorem createIndexBuffer_contents (m : Model) (memoryTypes : List Nat) (g : Gpu) (r : UploadResults)
    (hexec : r.copy.executed = true)
    (h : (m.createIndexBuffer memoryTypes g r).1 = true) :
    (m.createIndexBuffer memoryTypes g r).2.2.bufferContents
        (m.createIndexBuffer memoryTypes g r).2.1.m_index_buffer =
      indexData m.m_indices := by
  simp only [Model.createIndexBuffer] at h ⊢
  by_cases hs : (createBuffer memoryTypes g r.staging (sizeof_uint32_t * m.m_indices.length)
    VK_BUFFER_USAGE_TRANSFER_SRC_BIT
    (VK_MEMORY_PROPERTY_HOST_VISIBLE_BIT ||| VK_MEMORY_PROPERTY_HOST_COHERENT_BIT)
    VK_NULL_HANDLE VK_NULL_HANDLE).1 = true
  · rw [createBuffer_of_true _ _ _ _ _ _ _ _ hs] at h ⊢
    simp only [Bool.not_true, Bool.false_eq_true, if_false] at h ⊢
    by_cases hd : (createBuffer memoryTypes
        (mapAndCopy
          { g with
            next := g.next + 2,
            log := g.log ++ [.vkCreateBuffer g.next (sizeof_uint32_t * m.m_indices.length)
                VK_BUFFER_USAGE_TRANSFER_SRC_BIT,
              .vkAllocateMemory (g.next + 1)
                (sizeof_uint32_t * m.m_indices.length + r.staging.padding)
                (findMemoryType r.staging.memoryTypeBits
                  (VK_MEMORY_PROPERTY_HOST_VISIBLE_BIT ||| VK_MEMORY_PROPERTY_HOST_COHERENT_BIT)
                  0 memoryTypes),
              .vkBindBufferMemory g.next (g.next + 1)],
            bufferSize := (g.next, sizeof_uint32_t * m.m_indices.length) :: g.bufferSize,
            bufferMemory := (g.next, g.next + 1) :: g.bufferMemory,
            memory := (g.next + 1,
              List.replicate (sizeof_uint32_t * m.m_indices.length + r.staging.padding) 0) ::
                g.memory }
          (g.next + 1) (indexData m.m_indices) (sizeof_uint32_t * m.m_indices.length))
        r.destination (sizeof_uint32_t * m.m_indices.length)
        (VK_BUFFER_USAGE_TRANSFER_DST_BIT ||| VK_BUFFER_USAGE_INDEX_BUFFER_BIT)
        VK_MEMORY_PROPERTY_DEVICE_LOCAL_BIT m.m_index_buffer m.m_index_buffer_memory).1 = true
    · rw [createBuffer_of_true _ _ _ _ _ _ _ _ hd]
      simp only [Bool.not_true, Bool.false_eq_true, if_false]
      have n1 : (g.next == g.next + 2) = false := by simp
      have n2 : (g.next + 1 == g.next + 2 + 1) = false := by simp
      have n3 : (g.next + 2 + 1 == g.next + 1) = false := by simp
      rw [← indexData_length]
      simp [copyBuffer, beginSingleTimeCommands, endSingleTimeCommands, Gpu.record, Gpu.call,
        mapAndCopy, Gpu.writeMemory, Gpu.readMemory, hexec, Gpu.destroyBuffer, Gpu.freeMemory,
        Gpu.bufferContents, Cmd.execute, List.lookup, n1, n2, n3]
    · simp [hd] at h
  · simp [hs] at h

/-- C4, amended: for every non-empty vertex list and every non-empty index
list, when `createVertexBuffer` (respectively `createIndexBuffer`) returns
true and the queue executed the one-shot copy, that is none of the calls of
the one-shot command buffer failed (the code discards their results), the
device-local destination buffer is byte-identical to the host data: the same
bytes, and so the same length `sizeof(element) * count`. -/
theorem staged_upload_round_trip (m : Model) (memoryTypes : List Nat) (g : Gpu)
    (r : UploadResults) (hexec : r.copy.executed = true) :
    (m.m_vertices ≠ [] → (m.createVertexBuffer memoryTypes g r).1 = true →
      (m.createVertexBuffer memoryTypes g r).2.2.bufferContents
          (m.createVertexBuffer memoryTypes g r).2.1.m_vertex_buffer =
        vertexData m.m_vertices ∧
      ((m.createVertexBuffer memoryTypes g r).2.2.bufferContents
          (m.createVertexBuffer memoryTypes g r).2.1.m_vertex_buffer).length =
        sizeof_Vertex * m.m_vertices.length) ∧
    (m.m_indices ≠ [] → (m.createIndexBuffer memoryTypes g r).1 = true →
      (m.createIndexBuffer memoryTypes g r).2.2.bufferContents
          (m.createIndexBuffer memoryTypes g r).2.1.m_index_buffer =
        indexData m.m_indices ∧
      ((m.createIndexBuffer memoryTypes g r).2.2.bufferContents
          (m.createIndexBuffer memoryTypes g r).2.1.m_index_buffer).length =
        sizeof_uint32_t * m.m_indices.length) := by
  refine ⟨fun _ h => ?_, fun _ h => ?_⟩
  · have e := createVertexBuffer_contents m memoryTypes g r hexec h
    exact ⟨e, by rw [e, vertexData_length]⟩
  · have e := createIndexBuffer_contents m memoryTypes g r hexec h
    exact ⟨e, by rw [e, indexData_length]⟩

/-- The round trip of one vertex and one index on the nominal driver. -/
theorem staged_upload_round_trip_witness :
    UploadResults.ok.copy.executed = true ∧
    Model.example.m_vertices ≠ [] ∧
    (Model.example.createVertexBuffer Driver.nominal.memoryTypes Gpu.fresh
      UploadResults.ok).1 = true ∧
    (Model.example.createVertexBuffer Driver.nominal.memoryTypes Gpu.fresh
        UploadResults.ok).2.2.bufferContents
      (Model.example.createVertexBuffer Driver.nominal.memoryTypes Gpu.fresh
        UploadResults.ok).2.1.m_vertex_buffer = vertexData Model.example.m_vertices ∧
    Model.example.m_indices ≠ [] ∧
    (Model.example.createIndexBuffer Driver.nominal.memoryTypes Gpu.fresh
      UploadResults.ok).1 = true ∧
    (Model.example.createIndexBuffer Driver.nominal.memoryTypes Gpu.fresh
        UploadResults.ok).2.2.bufferContents
      (Model.example.createIndexBuffer Driver.nominal.memoryTypes Gpu.fresh
        UploadResults.ok).2.1.m_index_buffer = indexData Model.example.m_indices :=
  ⟨by decide, by decide, by decide,
    ((staged_upload_round_trip Model.example Driver.nominal.memoryTypes Gpu.fresh
      UploadResults.ok (by decide)).1 (by decide) (by decide)).1,
    by decide, by decide,
    ((staged_upload_round_trip Model.example Driver.nominal.memoryTypes Gpu.fresh
      UploadResults.ok (by decide)).2 (by decide) (by decide)).1⟩

/-- C5, the code at the failing input: when `createImage` fails after the
staging buffer was created, `createTextureImage` returns false and has issued
the creation of the staging buffer (handle 1) and of its memory (handle 2) but
neither `vkDestroyBuffer` nor `vkFreeMemory` for them; `createVertexBuffer`,
when its second `createBuffer` fails, releases both exactly once. -/
theorem createTextureImage_keeps_staging :
    (createTextureImage Driver.nominal.memoryTypes
        (VulkanImage.new VK_FORMAT_R8G8B8A8_UNORM 2 2) Gpu.fresh TextureResults.imageFails
        (List.replicate 16 255) 4).map (fun res => res.1) = some false ∧
    (createTextureImage Driver.nominal.memoryTypes
        (VulkanImage.new VK_FORMAT_R8G8B8A8_UNORM 2 2) Gpu.fresh TextureResults.imageFails
        (List.replicate 16 255) 4).map (fun res => res.2.2.log) =
      some [ .vkCreateBuffer 1 16 VK_BUFFER_USAGE_TRANSFER_SRC_BIT,
             .vkAllocateMemory 2 16 1,
             .vkBindBufferMemory 1 2,
             .vkMapMemory 2 16, .memcpy 2 16, .vkUnmapMemory 2,
             .vkCreateImage 3 VK_FORMAT_R8G8B8A8_UNORM 2 2
               (VK_IMAGE_USAGE_TRANSFER_DST_BIT ||| VK_IMAGE_USAGE_SAMPLED_BIT) ] ∧
    (Model.example.createVertexBuffer Driver.nominal.memoryTypes Gpu.fresh
        UploadResults.destinationFails).1 = false ∧
    (Model.example.createVertexBuffer Driver.nominal.memoryTypes Gpu.fresh
        UploadResults.destinationFails).2.2.log =
      [ .vkCreateBuffer 1 32 VK_BUFFER_USAGE_TRANSFER_SRC_BIT,
        .vkAllocateMemory 2 32 1,
        .vkBindBufferMemory 1 2,
        .vkMapMemory 2 32, .memcpy 2 32, .vkUnmapMemory 2,
        .vkCreateBuffer 3 32
          (VK_BUFFER_USAGE_TRANSFER_DST_BIT ||| VK_BUFFER_USAGE_VERTEX_BUFFER_BIT),
        .vkDestroyBuffer 1,
        .vkFreeMemory 2 ] := by
  decide

/-! ### The frame loop -/

/-- C3: in every call of `drawFrame` in which `beginFrame` returns true, the
image index that `beginFrame` acquired (the value the acquisition left in
`m_image_index`) is the index whose uniform-buffer memory
`updateUniformBuffer` maps and writes, the index that selects the command
buffer handed to `vkQueueSubmit`, and the index handed to `vkQueuePresentKHR`;
these five calls are all that `drawFrame` issues after `beginFrame`. -/
theorem drawFrame_index_consistency (rd : Renderer) (ctx ctx1 : VulkanContext) (g g1 : Gpu)
    (r : FrameResults) (ubo : List Byte)
    (h : beginFrame ctx g r = some (true, ctx1, g1)) :
    getImageIndex ctx1 = r.imageIndex ∧
    ∃ ok ctx2 g2, drawFrame rd ctx g r ubo = some (ok, ctx2, g2) ∧
      g2.callsSince g1 =
        [ .vkMapMemory (rd.m_uniform_buffers_memory.getD r.imageIndex VK_NULL_HANDLE)
            sizeof_UniformBufferObject,
          .memcpy (rd.m_uniform_buffers_memory.getD r.imageIndex VK_NULL_HANDLE)
            sizeof_UniformBufferObject,
          .vkUnmapMemory (rd.m_uniform_buffers_memory.getD r.imageIndex VK_NULL_HANDLE),
          .vkQueueSubmit (ctx.m_command_buffers.getD r.imageIndex VK_NULL_HANDLE)
            (ctx.m_image_available_semaphores.getD ctx.m_current_frame VK_NULL_HANDLE)
            VK_PIPELINE_STAGE_COLOR_ATTACHMENT_OUTPUT_BIT
            (ctx.m_render_finished_semaphores.getD ctx.m_current_frame VK_NULL_HANDLE)
            (ctx.m_in_flight_fences.getD ctx.m_current_frame VK_NULL_HANDLE),
          .vkQueuePresentKHR ctx.m_swap_chain
            (ctx.m_render_finished_semaphores.getD ctx.m_current_frame VK_NULL_HANDLE)
            r.imageIndex ] := by
  have hctx : ctx1 = { ctx with m_image_index := r.imageIndex } := by
    simp only [beginFrame] at h
    split at h
    · exact absurd h (by simp)
    · simp only [Option.some.injEq, Prod.mk.injEq] at h
      exact h.2.1.symm
  subst hctx
  refine ⟨rfl, ?_⟩
  simp only [drawFrame, h, Bool.not_true, Bool.false_eq_true, if_false]
  simp only [endFrame, submitCommandBuffer, updateUniformBuffer, mapAndCopy, getImageIndex]
  split <;> split <;>
    (simp only [Gpu.callsSince, Gpu.call, Gpu.writeMemory, Option.some.injEq, Prod.mk.injEq,
      exists_and_left, exists_eq_left']
     exact ⟨_, _, _, ⟨rfl, rfl, rfl⟩, by simp⟩)

/-- A frame that acquires image 2 in slot 0: memory 205 of uniform buffer 2 is
written, command buffer 102 is submitted, image 2 is presented. -/
theorem drawFrame_index_consistency_witness :
    beginFrame readyContext readyGpu (FrameResults.ok 2) =
      some (true, { readyContext with m_image_index := 2 },
        ((beginFrame readyContext readyGpu (FrameResults.ok 2)).getD
          (false, readyContext, readyGpu)).2.2) ∧
    ∃ ok ctx2 g2, drawFrame Renderer.example readyContext readyGpu (FrameResults.ok 2) [] =
        some (ok, ctx2, g2) ∧
      g2.callsSince ((beginFrame readyContext readyGpu (FrameResults.ok 2)).getD
          (false, readyContext, readyGpu)).2.2 =
        [ .vkMapMemory 205 sizeof_UniformBufferObject,
          .memcpy 205 sizeof_UniformBufferObject,
          .vkUnmapMemory 205,
          .vkQueueSubmit 102 1 VK_PIPELINE_STAGE_COLOR_ATTACHMENT_OUTPUT_BIT 2 3,
          .vkQueuePresentKHR VK_NULL_HANDLE 2 2 ] :=
  ⟨by decide,
    (drawFrame_index_consistency Renderer.example readyContext
      { readyContext with m_image_index := 2 } readyGpu
      ((beginFrame readyContext readyGpu (FrameResults.ok 2)).getD
          (false, readyContext, readyGpu)).2.2
      (FrameResults.ok 2) [] (by decide)).2⟩

theorem FramesInvariant.pending_le {ctx : VulkanContext} {g : Gpu}
    (h : FramesInvariant ctx g) : g.pending.length ≤ MAX_FRAMES_IN_FLIGHT := by
  obtain ⟨hlen, _, _, hnd, hsub, _⟩ := h
  have := (List.Nodup.subperm hnd (fun f hf => hsub f hf)).length_le
  rw [List.length_map, hlen] at this
  exact this

theorem FramesInvariant.complete {ctx : VulkanContext} {g : Gpu}
    (h : FramesInvariant ctx g) (fence : Handle) : FramesInvariant ctx (g.complete fence) := by
  obtain ⟨hlen, hfn, hcur, hnd, hsub, hsig⟩ := h
  unfold Gpu.complete
  split
  · refine ⟨hlen, hfn, hcur, ?_, ?_, ?_⟩
    · exact hnd.sublist ((List.filter_sublist _).map _)
    · intro f hf
      exact hsub f (((List.filter_sublist _).map _).subset hf)
    · intro f hf
      simp only [List.mem_map, List.mem_filter, decide_eq_true_eq] at hf
      obtain ⟨p, ⟨hp, hne⟩, rfl⟩ := hf
      simp only [List.mem_cons, not_or]
      exact ⟨hne, hsig p.2 (List.mem_map.mpr ⟨p, hp, rfl⟩)⟩
  · exact ⟨hlen, hfn, hcur, hnd, hsub, hsig⟩

theorem FramesInvariant.wait {ctx : VulkanContext} {g gw : Gpu} {fence : Handle}
    (h : FramesInvariant ctx g) (hw : vkWaitForFences g fence = some gw) :
    FramesInvariant ctx gw ∧ fence ∉ gw.pending.map Prod.snd := by
  unfold vkWaitForFences at hw
  simp only [Gpu.call] at hw
  by_cases hsig : fence ∈ g.signalled
  · simp only [hsig, if_true, Option.some.injEq] at hw
    subst hw
    exact ⟨h, fun hp => h.2.2.2.2.2 fence hp hsig⟩
  · by_cases hpen : fence ∈ g.pending.map Prod.snd
    · simp only [hsig, hpen, if_true, if_false, Option.some.injEq] at hw
      subst hw
      refine ⟨FramesInvariant.complete (g := { g with log := g.log ++ [.vkWaitForFences fence] })
        h fence, ?_⟩
      simp only [Gpu.complete, hpen, if_true]
      simp [List.mem_map, List.mem_filter]
    · simp only [hsig, hpen, if_false] at hw
      exact absurd hw (by simp)

/-- The rest of a frame after the wait: the fence of the slot is reset, at most
one submission signalling that fence joins the queue, and the slot index stays
in range. -/
theorem FramesInvariant.step {ctx ctx1 : VulkanContext} {g g1 : Gpu} {fence : Handle}
    (h : FramesInvariant ctx g)
    (hf : ctx1.m_in_flight_fences = ctx.m_in_flight_fences)
    (hc : ctx1.m_current_frame < MAX_FRAMES_IN_FLIGHT)
    (hp : g1.pending = g.pending ∨
      ∃ cb, g1.pending = g.pending ++ [(cb, fence)] ∧ fence ∈ ctx.m_in_flight_fences ∧
        fence ∉ g.pending.map Prod.snd)
    (hs : g1.signalled = g.signalled.filter (fun f => f ≠ fence)) :
    FramesInvariant ctx1 g1 := by
  obtain ⟨hlen, hfn, _, hnd, hsub, hsig⟩ := h
  have hsig1 : ∀ f ∈ g.pending.map Prod.snd, f ∉ g1.signalled := by
    intro f hf1 hmem
    rw [hs] at hmem
    exact hsig f hf1 (List.mem_of_mem_filter hmem)
  rcases hp with hp | ⟨cb, hp, hin, hnot⟩
  · refine ⟨hf ▸ hlen, hf ▸ hfn, hc, hp ▸ hnd, ?_, ?_⟩
    · rw [hp, hf]; exact hsub
    · rw [hp]; exact hsig1
  · refine ⟨hf ▸ hlen, hf ▸ hfn, hc, ?_, ?_, ?_⟩
    · rw [hp, List.map_append, List.map_singleton]
      exact List.Nodup.append hnd (List.nodup_singleton _)
        (by simpa [List.disjoint_singleton] using hnot)
    · rw [hp, hf, List.map_append, List.map_singleton]
      intro f hf1
      rcases List.mem_append.mp hf1 with h1 | h1
      · exact hsub f h1
      · rw [List.mem_singleton.mp h1]; exact hin
    · rw [hp, List.map_append, List.map_singleton]
      intro f hf1
      rcases List.mem_append.mp hf1 with h1 | h1
      · exact hsig1 f h1
      · rw [List.mem_singleton.mp h1, hs]
        simp [List.mem_filter]

theorem FramesInvariant.drawFrame {rd : Renderer} {ctx ctx1 : VulkanContext} {g g1 : Gpu}
    {r : FrameResults} {ubo : List Byte} {ok : Bool}
    (h : FramesInvariant ctx g) (hd : drawFrame rd ctx g r ubo = some (ok, ctx1, g1)) :
    FramesInvariant ctx1 g1 := by
  simp only [VulkanTest.drawFrame, beginFrame] at hd
  split at hd
  · exact absurd hd (by simp)
  · rename_i x ok0 ctx0 g0 heq
    split at heq
    · exact absurd heq (by simp)
    · rename_i gw hw
      simp only [Option.some.injEq, Prod.mk.injEq] at heq
      obtain ⟨rfl, rfl, rfl⟩ := heq
      have hwait := h.wait hw
      by_cases hacq : r.vkAcquireNextImageKHR = VK_ERROR_OUT_OF_DATE_KHR
      · simp only [hacq, ne_eq, not_true_eq_false, decide_False, Bool.not_false, if_true,
          Option.some.injEq, Prod.mk.injEq] at hd
        obtain ⟨-, rfl, rfl⟩ := hd
        exact FramesInvariant.step hwait.1 rfl h.2.2.1 (Or.inl rfl) rfl
      · simp only [hacq, ne_eq, not_false_eq_true, decide_True, Bool.not_true,
          Bool.false_eq_true, if_false] at hd
        have hmod : (ctx.m_current_frame + 1) % MAX_FRAMES_IN_FLIGHT < MAX_FRAMES_IN_FLIGHT :=
          Nat.mod_lt _ (by decide)
        have hmem : ctx.m_in_flight_fences.getD ctx.m_current_frame VK_NULL_HANDLE ∈
            ctx.m_in_flight_fences := by
          rw [List.getD_eq_getElem _ _ (by rw [h.1]; exact h.2.2.1)]
          exact List.getElem_mem _
        simp only [endFrame, submitCommandBuffer, updateUniformBuffer, mapAndCopy,
          getImageIndex] at hd
        split at hd <;> split at hd <;>
          (simp only [Option.some.injEq, Prod.mk.injEq] at hd
           obtain ⟨-, rfl, rfl⟩ := hd
           first
            | exact FramesInvariant.step hwait.1 rfl hmod (Or.inl rfl) rfl
            | exact FramesInvariant.step hwait.1 rfl hmod
                (Or.inr ⟨_, rfl, hmem, hwait.2⟩) rfl)

theorem frameWorlds_pending_le (rd : Renderer) (events : List FrameEvent) :
    ∀ (ctx : VulkanContext) (g : Gpu), FramesInvariant ctx g →
      ∀ w ∈ frameWorlds rd ctx g events, w.pending.length ≤ MAX_FRAMES_IN_FLIGHT := by
  induction events with
  | nil =>
    intro ctx g h w hw
    simp only [frameWorlds, List.mem_singleton] at hw
    exact hw ▸ h.pending_le
  | cons e rest ih =>
    intro ctx g h w hw
    cases e with
    | complete fence =>
      simp only [frameWorlds, List.mem_cons] at hw
      rcases hw with rfl | hw
      · exact h.pending_le
      · exact ih ctx _ (h.complete fence) w hw
    | drawFrame r ubo =>
      simp only [frameWorlds] at hw
      split at hw
      · simp only [List.mem_singleton] at hw
        exact hw ▸ h.pending_le
      · rename_i ok ctx1 g1 heq
        simp only [List.mem_cons] at hw
        rcases hw with rfl | hw
        · exact h.pending_le
        · exact ih ctx1 g1 (h.drawFrame heq) w hw

/-- When `createSyncObjects` succeeds on a context that has no sync objects
yet, the context holds `MAX_FRAMES_IN_FLIGHT` distinct fences. -/
theorem createSyncObjects_fences (ctx ctx1 : VulkanContext) (g g1 : Gpu)
    (results : Nat → VkResult × VkResult × VkResult)
    (hnew : ctx.m_in_flight_fences = [])
    (h : createSyncObjects ctx g results = (true, ctx1, g1)) :
    ctx1.m_in_flight_fences.length = MAX_FRAMES_IN_FLIGHT ∧ ctx1.m_in_flight_fences.Nodup ∧
    ctx1.m_current_frame = ctx.m_current_frame ∧ g1.pending = g.pending := by
  simp only [createSyncObjects, createSyncObjects_loop, Gpu.call] at h
  repeat' split at h
  all_goals try (simp only [Prod.mk.injEq, Bool.false_eq_true, false_and] at h)
  simp only [Prod.mk.injEq, true_and] at h
  obtain ⟨rfl, rfl⟩ := h
  simp [hnew]

/-- C2: starting from a context with `MAX_FRAMES_IN_FLIGHT` distinct fences
(what `createSyncObjects` leaves), a slot index in range and an idle graphics
queue, whatever frames are drawn, whatever the acquisition, submission and
presentation answer, and whenever the GPU completes submissions in between,
the number of frame submissions pending on the graphics queue never exceeds
`MAX_FRAMES_IN_FLIGHT = 2`. -/
theorem frames_in_flight_bounded (rd : Renderer) (ctx : VulkanContext) (g : Gpu)
    (events : List FrameEvent)
    (hlen : ctx.m_in_flight_fences.length = MAX_FRAMES_IN_FLIGHT)
    (hnodup : ctx.m_in_flight_fences.Nodup)
    (hslot : ctx.m_current_frame < MAX_FRAMES_IN_FLIGHT)
    (hidle : g.pending = []) :
    ∀ w ∈ frameWorlds rd ctx g events, w.pending.length ≤ MAX_FRAMES_IN_FLIGHT :=
  frameWorlds_pending_le rd events ctx g
    ⟨hlen, hnodup, hslot, by simp [hidle], by simp [hidle], by simp [hidle]⟩

/-- Four frames and one completion on the context that `createSyncObjects`
leaves: the queue holds 0, 1, 2, 2, 1 and 2 pending submissions. -/
theorem frames_in_flight_bounded_witness :
    readyContext.m_in_flight_fences.length = MAX_FRAMES_IN_FLIGHT ∧
    readyContext.m_in_flight_fences.Nodup ∧
    readyContext.m_current_frame < MAX_FRAMES_IN_FLIGHT ∧
    readyGpu.pending = [] ∧
    (frameWorlds Renderer.example readyContext readyGpu
      [.drawFrame (FrameResults.ok 0) [], .drawFrame (FrameResults.ok 1) [],
       .drawFrame (FrameResults.ok 2) [], .complete 6,
       .drawFrame (FrameResults.ok 0) []]).map (fun w => w.pending.length) =
      [0, 1, 2, 2, 1, 2] ∧
    ∀ w ∈ frameWorlds Renderer.example readyContext readyGpu
      [.drawFrame (FrameResults.ok 0) [], .drawFrame (FrameResults.ok 1) [],
       .drawFrame (FrameResults.ok 2) [], .complete 6,
       .drawFrame (FrameResults.ok 0) []], w.pending.length ≤ MAX_FRAMES_IN_FLIGHT :=
  ⟨by decide, by decide, by decide, by decide, by decide,
    frames_in_flight_bounded Renderer.example readyContext readyGpu _
      (by decide) (by decide) (by decide) (by decide)⟩

/-! ### Rebuild of the swapchain -/

theorem createSwapChain_view_loop_spec (d : Driver) (format : VkFormat) (images : List Handle) :
    ∀ (i : Nat) (views : List Handle) (g : Gpu),
      (createSwapChain_view_loop d format i images views g).1 =
        allSucceed d.vkCreateImageView i images.length ∧
      (createSwapChain_view_loop d format i images views g).2.1.length =
        views.length + succeededBeforeFailure d.vkCreateImageView i images.length := by
  induction images with
  | nil => intro i views g; simp [createSwapChain_view_loop, allSucceed, succeededBeforeFailure]
  | cons image rest ih =>
    intro i views g
    simp only [createSwapChain_view_loop, allSucceed, succeededBeforeFailure, List.length_cons]
    split
    · simp
    · rw [(ih _ _ _).1, (ih _ _ _).2]
      simp only [List.length_append, List.length_singleton, true_and]
      omega

theorem createFramebuffers_loop_spec (d : Driver) (m_render_pass depth_view : Handle)
    (extent : VkExtent2D) (views : List Handle) :
    ∀ (i : Nat) (framebuffers : List Handle) (g : Gpu),
      (createFramebuffers_loop d m_render_pass depth_view extent i views framebuffers g).2.1.length =
        framebuffers.length + succeededBeforeFailure d.vkCreateFramebuffer i views.length := by
  induction views with
  | nil => intro i fbs g; simp [createFramebuffers_loop, succeededBeforeFailure]
  | cons view rest ih =>
    intro i fbs g
    simp only [createFramebuffers_loop, succeededBeforeFailure, List.length_cons]
    split
    · simp
    · rw [ih]
      simp only [List.length_append, List.length_singleton]
      omega

theorem createImage_fst (memoryTypes : List Nat) (img : VulkanImage) (g : Gpu)
    (r : CreateImageResults) (usage : Nat) :
    (createImage memoryTypes img g r usage).1 = createImageOk memoryTypes r := by
  unfold createImage createImageOk
  by_cases h1 : r.vkCreateImage = VK_SUCCESS
  · by_cases h2 : findMemoryType r.memoryTypeBits VK_MEMORY_PROPERTY_DEVICE_LOCAL_BIT 0
        memoryTypes = UINT32_MAX
    · simp [h1, h2]
    · by_cases h3 : r.vkAllocateMemory = VK_SUCCESS
      · simp [h1, h2, h3]
      · simp [h1, h2, h3]
  · simp [h1]

theorem createImageView_fst (img : VulkanImage) (g : Gpu) (result : VkResult)
    (aspect_flags : Nat) :
    (createImageView img g result aspect_flags).1 = decide (result = VK_SUCCESS) := by
  unfold createImageView
  by_cases h : result = VK_SUCCESS <;> simp [h]

theorem createDepthBuffer_fst (ctx : VulkanContext) (g : Gpu) (d : Driver) :
    (createDepthBuffer ctx g d).1 = depthBufferOk d := by
  simp only [depthBufferOk, createDepthBuffer]
  by_cases h0 : createDepthBuffer_depth_format d.optimalTilingFeatures = VK_FORMAT_UNDEFINED
  · simp [h0]
  · simp only [if_neg h0, createImage_fst, createImageView_fst]
    cases createImageOk d.memoryTypes d.depthImage
    · simp
    · by_cases h4 : d.depthImageView = VK_SUCCESS <;> simp [h0, h4]

theorem createDepthBuffer_ctx (ctx : VulkanContext) (g : Gpu) (d : Driver) :
    (createDepthBuffer ctx g d).2.1 =
      { ctx with m_depth_image := (createDepthBuffer ctx g d).2.1.m_depth_image } := by
  simp only [createDepthBuffer]
  repeat' split
  all_goals rfl

theorem Gpu.newHandles_length (g : Gpu) (count : Nat) : (g.newHandles count).length = count := by
  simp [Gpu.newHandles]

/-- What `createSwapChain` leaves in the context. -/
theorem createSwapChain_facts (ctx : VulkanContext) (g : Gpu) (d : Driver) :
    (createSwapChain ctx g d).1 =
      (decide (d.vkCreateSwapchainKHR = VK_SUCCESS) &&
        allSucceed d.vkCreateImageView 0 (d.swapchainImages (createSwapChain_create_info ctx))) ∧
    (createSwapChain ctx g d).2.1.m_swap_chain_extent =
      (if d.vkCreateSwapchainKHR = VK_SUCCESS then (createSwapChain_create_info ctx).imageExtent
       else ctx.m_swap_chain_extent) ∧
    (createSwapChain ctx g d).2.1.m_swap_chain_image_format =
      (if d.vkCreateSwapchainKHR = VK_SUCCESS then (createSwapChain_create_info ctx).imageFormat
       else ctx.m_swap_chain_image_format) ∧
    (createSwapChain ctx g d).2.1.m_swap_chain_images_count =
      (if d.vkCreateSwapchainKHR = VK_SUCCESS then
        d.swapchainImages (createSwapChain_create_info ctx)
       else (createSwapChain_create_info ctx).minImageCount) ∧
    (createSwapChain ctx g d).2.1.m_swap_chain_image_views.length =
      (if d.vkCreateSwapchainKHR = VK_SUCCESS then
        ctx.m_swap_chain_image_views.length + succeededBeforeFailure d.vkCreateImageView 0
          (d.swapchainImages (createSwapChain_create_info ctx))
       else ctx.m_swap_chain_image_views.length) ∧
    (createSwapChain ctx g d).2.1.m_swap_chain_images.length =
      (if d.vkCreateSwapchainKHR = VK_SUCCESS then
        d.swapchainImages (createSwapChain_create_info ctx)
       else ctx.m_swap_chain_images.length) ∧
    (createSwapChain ctx g d).2.1.m_command_buffers = ctx.m_command_buffers ∧
    (createSwapChain ctx g d).2.1.m_graphics_family = ctx.m_graphics_family ∧
    (createSwapChain ctx g d).2.1.m_present_family = ctx.m_present_family ∧
    (createSwapChain ctx g d).2.1.m_depth_image = ctx.m_depth_image := by
  by_cases hsc : d.vkCreateSwapchainKHR = VK_SUCCESS
  · simp only [createSwapChain, hsc, ne_eq, not_true_eq_false, if_false, if_true, decide_True,
      Bool.true_and]
    have hl := createSwapChain_view_loop_spec d
    simp only [hl, Gpu.newHandles_length]
    simp [createSwapChain_create_info, createSwapChain_create_info_of, Gpu.newHandles_length]
  · simp [createSwapChain, hsc, createSwapChain_create_info, createSwapChain_create_info_of]

theorem createCommandBuffers_facts (ctx : VulkanContext) (g : Gpu) (d : Driver) :
    (createCommandBuffers ctx g d).1 = decide (d.vkAllocateCommandBuffers = VK_SUCCESS) ∧
    (createCommandBuffers ctx g d).2.1.m_command_buffers.length =
      (if d.vkAllocateCommandBuffers = VK_SUCCESS then ctx.m_swap_chain_images.length
       else ctx.m_command_buffers.length) ∧
    (createCommandBuffers ctx g d).2.1.m_swap_chain_extent = ctx.m_swap_chain_extent ∧
    (createCommandBuffers ctx g d).2.1.m_swap_chain_image_format =
      ctx.m_swap_chain_image_format ∧
    (createCommandBuffers ctx g d).2.1.m_swap_chain_images_count =
      ctx.m_swap_chain_images_count ∧
    (createCommandBuffers ctx g d).2.1.m_swap_chain_image_views = ctx.m_swap_chain_image_views ∧
    (createCommandBuffers ctx g d).2.1.m_graphics_family = ctx.m_graphics_family ∧
    (createCommandBuffers ctx g d).2.1.m_present_family = ctx.m_present_family ∧
    (createCommandBuffers ctx g d).2.1.m_depth_image = ctx.m_depth_image := by
  by_cases h : d.vkAllocateCommandBuffers = VK_SUCCESS <;>
    simp [createCommandBuffers, h, Gpu.newHandles_length]

theorem createDepthBuffer_keeps (ctx : VulkanContext) (g : Gpu) (d : Driver) :
    (createDepthBuffer ctx g d).2.1.m_command_buffers = ctx.m_command_buffers ∧
    (createDepthBuffer ctx g d).2.1.m_swap_chain_extent = ctx.m_swap_chain_extent ∧
    (createDepthBuffer ctx g d).2.1.m_swap_chain_image_format = ctx.m_swap_chain_image_format ∧
    (createDepthBuffer ctx g d).2.1.m_swap_chain_images_count = ctx.m_swap_chain_images_count ∧
    (createDepthBuffer ctx g d).2.1.m_swap_chain_image_views = ctx.m_swap_chain_image_views ∧
    (createDepthBuffer ctx g d).2.1.m_graphics_family = ctx.m_graphics_family ∧
    (createDepthBuffer ctx g d).2.1.m_present_family = ctx.m_present_family := by
  rw [createDepthBuffer_ctx]
  exact ⟨rfl, rfl, rfl, rfl, rfl, rfl, rfl⟩

/-- The context after `VulkanContext::recreateSwapChain`, as `rebuiltShape`
predicts it up to the framebuffers. -/
theorem VulkanContext.recreateSwapChain_facts (ctx : VulkanContext) (g : Gpu) (d : Driver)
    (w h : Nat) :
    (ctx.recreateSwapChain g d w h).1 = (rebuiltShape d w h ctx).1 ∧
    (ctx.recreateSwapChain g d w h).2.1.m_swap_chain_extent = (rebuiltShape d w h ctx).2.extent ∧
    (ctx.recreateSwapChain g d w h).2.1.m_swap_chain_image_format =
      (rebuiltShape d w h ctx).2.format ∧
    (ctx.recreateSwapChain g d w h).2.1.m_swap_chain_images_count =
      (rebuiltShape d w h ctx).2.imageCount ∧
    (ctx.recreateSwapChain g d w h).2.1.m_swap_chain_image_views.length =
      (rebuiltShape d w h ctx).2.imageViews ∧
    (ctx.recreateSwapChain g d w h).2.1.m_command_buffers.length =
      (rebuiltShape d w h ctx).2.commandBuffers ∧
    (ctx.recreateSwapChain g d w h).2.1.m_graphics_family = ctx.m_graphics_family ∧
    (ctx.recreateSwapChain g d w h).2.1.m_present_family = ctx.m_present_family := by
  simp only [VulkanContext.recreateSwapChain, updateSurfaceInformation, rebuiltShape]
  by_cases hs : d.surfaceFormats.length < 1
  · simp [hs]
  · by_cases hm : d.presentModes.length < 1
    · simp [hs, hm]
    · simp only [hs, hm, if_false, or_self, Bool.not_true, Bool.false_eq_true]
      by_cases hsc : d.vkCreateSwapchainKHR = VK_SUCCESS
      · simp only [createSwapChain_facts, createCommandBuffers_facts, createDepthBuffer_keeps,
          createDepthBuffer_fst, createSwapChain_create_info, hsc, decide_True, Bool.true_and,
          if_true, ne_eq, not_true_eq_false, if_false, List.length_nil, Nat.zero_add]
        by_cases hv : allSucceed d.vkCreateImageView 0 (d.swapchainImages
            (createSwapChain_create_info_of d.surfaceCapabilities d.surfaceFormats
              d.presentModes w h ctx.m_graphics_family ctx.m_present_family)) = true
        · by_cases hcb : d.vkAllocateCommandBuffers = VK_SUCCESS
          · by_cases hdb : depthBufferOk d = true
            · simp [hv, hcb, hdb, createSwapChain_facts, createCommandBuffers_facts,
                createDepthBuffer_keeps, createSwapChain_create_info, hsc]
            · simp [hv, hcb, hdb, createSwapChain_facts, createCommandBuffers_facts,
                createDepthBuffer_keeps, createSwapChain_create_info, hsc]
          · simp [hv, hcb, createSwapChain_facts, createCommandBuffers_facts,
              createSwapChain_create_info, hsc]
        · simp [hv, createSwapChain_facts, createSwapChain_create_info, hsc]
      · simp [hsc, createSwapChain_facts, createSwapChain_create_info]

theorem createRenderPass_framebuffers (rd : Renderer) (ctx : VulkanContext) (g : Gpu)
    (d : Driver) :
    (createRenderPass rd ctx g d).2.1.m_swap_chain_framebuffers = rd.m_swap_chain_framebuffers := by
  unfold createRenderPass
  split <;> rfl

theorem createPipelineLayout_framebuffers (rd : Renderer) (g : Gpu) (d : Driver) :
    (createPipelineLayout rd g d).2.1.m_swap_chain_framebuffers = rd.m_swap_chain_framebuffers := by
  unfold createPipelineLayout
  split <;> rfl

theorem createGraphicsPipeline_framebuffers (rd : Renderer) (ctx : VulkanContext) (g : Gpu)
    (d : Driver) :
    (createGraphicsPipeline rd ctx g d).2.1.m_swap_chain_framebuffers =
      rd.m_swap_chain_framebuffers := by
  simp only [createGraphicsPipeline]
  repeat' split
  all_goals rfl

theorem createFramebuffers_length (rd : Renderer) (ctx : VulkanContext) (g : Gpu) (d : Driver) :
    (createFramebuffers rd ctx g d).2.1.m_swap_chain_framebuffers.length =
      rd.m_swap_chain_framebuffers.length +
        succeededBeforeFailure d.vkCreateFramebuffer 0 ctx.m_swap_chain_image_views.length := by
  simp only [createFramebuffers, createFramebuffers_loop_spec]

theorem buildCommandBuffers_framebuffers (rd : Renderer) (ctx : VulkanContext) (g : Gpu)
    (d : Driver) (models : List Model) :
    (buildCommandBuffers rd ctx g d models).2.1.m_swap_chain_framebuffers =
      rd.m_swap_chain_framebuffers := rfl

theorem rebuiltShape_framebuffers (d : Driver) (w h : Nat) (ctx : VulkanContext) :
    (rebuiltShape d w h ctx).2.framebuffers =
      if (rebuiltShape d w h ctx).1 = true then
        succeededBeforeFailure d.vkCreateFramebuffer 0 (rebuiltShape d w h ctx).2.imageViews
      else 0 := by
  simp only [rebuiltShape]
  repeat' split
  all_goals simp_all

/-- One rebuild leaves the success flag and the shape that `rebuiltShape` reads
off the driver, and keeps the queue families of the context. -/
theorem Renderer.recreateSwapChain_shape (rd : Renderer) (ctx : VulkanContext) (g : Gpu)
    (d : Driver) (w h : Nat) :
    (rd.recreateSwapChain ctx g d w h).1 = (rebuiltShape d w h ctx).1 ∧
    swapchainShape (rd.recreateSwapChain ctx g d w h).2.1
      (rd.recreateSwapChain ctx g d w h).2.2.1 = (rebuiltShape d w h ctx).2 ∧
    (rd.recreateSwapChain ctx g d w h).2.2.1.m_graphics_family = ctx.m_graphics_family ∧
    (rd.recreateSwapChain ctx g d w h).2.2.1.m_present_family = ctx.m_present_family := by
  simp only [Renderer.recreateSwapChain, swapchainShape]
  by_cases hok : (rebuiltShape d w h ctx).1 = true
  · simp only [VulkanContext.recreateSwapChain_facts, hok, Bool.not_true, Bool.false_eq_true,
      if_false, buildCommandBuffers_framebuffers, createFramebuffers_length,
      createGraphicsPipeline_framebuffers, createPipelineLayout_framebuffers,
      createRenderPass_framebuffers, List.length_nil, Nat.zero_add, and_true, true_and]
    have hfb := rebuiltShape_framebuffers d w h ctx
    rw [hok] at hfb
    rcases hS : (rebuiltShape d w h ctx).2 with ⟨e, f, c, v, cb, fb⟩
    rw [hS] at hfb
    simp only [if_true] at hfb
    simp only [hfb]
  · simp only [VulkanContext.recreateSwapChain_facts, hok, Bool.not_false, if_true,
      List.length_nil, and_true, true_and]
    have hfb := rebuiltShape_framebuffers d w h ctx
    rw [if_neg (by simpa using hok)] at hfb
    rcases hS : (rebuiltShape d w h ctx).2 with ⟨e, f, c, v, cb, fb⟩
    rw [hS] at hfb
    simp only at hfb
    simp only [hfb]

/-- On the nominal driver a rebuild to 640 x 480 succeeds and leaves three
images, views, command buffers and framebuffers at the extent of the surface;
a rebuild against a driver that cannot create the second image view fails with
one view and nothing built on top. -/
theorem recreateSwapChain_nominal_shape :
    (Renderer.new.recreateSwapChain (VulkanContext.onSurface Driver.nominal) Gpu.fresh
      Driver.nominal 640 480).1 = true ∧
    swapchainShape
      (Renderer.new.recreateSwapChain (VulkanContext.onSurface Driver.nominal) Gpu.fresh
        Driver.nominal 640 480).2.1
      (Renderer.new.recreateSwapChain (VulkanContext.onSurface Driver.nominal) Gpu.fresh
        Driver.nominal 640 480).2.2.1 =
      ⟨⟨800, 600⟩, VK_FORMAT_B8G8R8A8_UNORM, 3, 3, 3, 3⟩ ∧
    swapchainShape
      (Renderer.new.recreateSwapChain (VulkanContext.onSurface Driver.nominal) Gpu.fresh
        { Driver.nominal with
          vkCreateImageView := fun i => if i = 1 then VK_ERROR_OUT_OF_HOST_MEMORY
            else VK_SUCCESS } 640 480).2.1
      (Renderer.new.recreateSwapChain (VulkanContext.onSurface Driver.nominal) Gpu.fresh
        { Driver.nominal with
          vkCreateImageView := fun i => if i = 1 then VK_ERROR_OUT_OF_HOST_MEMORY
            else VK_SUCCESS } 640 480).2.2.1 =
      ⟨⟨800, 600⟩, VK_FORMAT_B8G8R8A8_UNORM, 3, 1, 0, 0⟩ := by
  decide

/-! ### Memory types -/

theorem and_one_shiftLeft_ne_zero (x i : Nat) : (x &&& (1 <<< i)) ≠ 0 ↔ x.testBit i = true := by
  rw [Nat.one_shiftLeft]
  constructor
  · intro h
    obtain ⟨k, hk⟩ := Nat.ne_zero_implies_bit_true h
    rw [Nat.testBit_and, Nat.testBit_two_pow, Bool.and_eq_true, decide_eq_true_eq] at hk
    rw [hk.2]
    exact hk.1
  · intro h hz
    have : (x &&& 2 ^ i).testBit i = true := by
      rw [Nat.testBit_and, Nat.testBit_two_pow_self, h]
      rfl
    rw [hz, Nat.zero_testBit] at this
    exact absurd this (by decide)

theorem and_eq_right_iff_testBit (flags properties : Nat) :
    (flags &&& properties) = properties ↔
      ∀ k, properties.testBit k = true → flags.testBit k = true := by
  constructor
  · intro h k hk
    have := congrArg (fun n => n.testBit k) h
    simp only [Nat.testBit_and, hk, Bool.and_true] at this
    exact this
  · intro h
    apply Nat.eq_of_testBit_eq
    intro k
    rw [Nat.testBit_and]
    cases hp : properties.testBit k
    · simp
    · simp [h k hp]

/-- The loop of `createBuffer` and `createImage` over the memory types, started
at index `i` on the remaining types: either no remaining type passes the test
and the answer is `UINT32_MAX`, or the answer is the index of the first
remaining type that passes it. -/
theorem findMemoryType_loop (type_filter properties : Nat) (rest : List Nat) :
    ∀ i, i + rest.length ≤ UINT32_MAX →
      ((∀ k flags, rest[k]? = some flags →
          ¬ (type_filter.testBit (i + k) = true ∧
            ∀ b, properties.testBit b = true → flags.testBit b = true)) ∧
        findMemoryType type_filter properties i rest = UINT32_MAX) ∨
      ∃ k flags, rest[k]? = some flags ∧
        (type_filter.testBit (i + k) = true ∧
          ∀ b, properties.testBit b = true → flags.testBit b = true) ∧
        (∀ j flags1, j < k → rest[j]? = some flags1 →
          ¬ (type_filter.testBit (i + j) = true ∧
            ∀ b, properties.testBit b = true → flags1.testBit b = true)) ∧
        findMemoryType type_filter properties i rest = i + k ∧ i + k < UINT32_MAX := by
  induction rest with
  | nil =>
    intro i _
    left
    exact ⟨fun k flags h => by simp at h, rfl⟩
  | cons flags0 rest ih =>
    intro i hi
    simp only [List.length_cons] at hi
    by_cases hc : (type_filter &&& (1 <<< i)) ≠ 0 ∧ (flags0 &&& properties) = properties
    · right
      refine ⟨0, flags0, by simp, ?_, ?_, ?_, ?_⟩
      · exact ⟨(and_one_shiftLeft_ne_zero _ _).mp hc.1, (and_eq_right_iff_testBit _ _).mp hc.2⟩
      · intro j _ hj; exact absurd hj (Nat.not_lt_zero j)
      · simp only [findMemoryType, if_pos hc, Nat.add_zero]
      · omega
    · have hc1 : ¬ (type_filter.testBit i = true ∧
          ∀ b, properties.testBit b = true → flags0.testBit b = true) := by
        intro h
        exact hc ⟨(and_one_shiftLeft_ne_zero _ _).mpr h.1, (and_eq_right_iff_testBit _ _).mpr h.2⟩
      have hstep : findMemoryType type_filter properties i (flags0 :: rest) =
          findMemoryType type_filter properties (i + 1) rest := by
        simp only [findMemoryType, if_neg hc]
      rcases ih (i + 1) (by omega) with ⟨hnone, hres⟩ | ⟨k, flags, hk, hcond, hleast, hres, hlt⟩
      · left
        refine ⟨?_, by rw [hstep, hres]⟩
        intro k flags hk
        cases k with
        | zero =>
          simp only [List.getElem?_cons_zero, Option.some.injEq] at hk
          subst hk
          simpa using hc1
        | succ k =>
          simp only [List.getElem?_cons_succ] at hk
          have := hnone k flags hk
          rwa [show i + 1 + k = i + (k + 1) by omega] at this
      · right
        refine ⟨k + 1, flags, by simpa using hk, ?_, ?_, ?_, ?_⟩
        · rwa [show i + 1 + k = i + (k + 1) by omega] at hcond
        · intro j flags1 hj hj1
          cases j with
          | zero =>
            simp only [List.getElem?_cons_zero, Option.some.injEq] at hj1
            subst hj1
            simpa using hc1
          | succ j =>
            simp only [List.getElem?_cons_succ] at hj1
            have := hleast j flags1 (by omega) hj1
            rwa [show i + 1 + j = i + (j + 1) by omega] at this
        · rw [hstep, hres]; omega
        · omega

/-- The memory-type search of `createBuffer`: `UINT32_MAX` when no type of the
table is suitable, the least suitable index otherwise. -/
theorem findMemoryType_spec (type_filter properties : Nat) (memoryTypes : List Nat)
    (hcount : memoryTypes.length ≤ VK_MAX_MEMORY_TYPES) :
    (findMemoryType type_filter properties 0 memoryTypes = UINT32_MAX ∧
      ∀ i, ¬ memoryTypeSuitable type_filter properties memoryTypes i) ∨
    ∃ i, memoryTypeSuitable type_filter properties memoryTypes i ∧
      (∀ j, j < i → ¬ memoryTypeSuitable type_filter properties memoryTypes j) ∧
      findMemoryType type_filter properties 0 memoryTypes = i ∧ i ≠ UINT32_MAX := by
  have hlen : 0 + memoryTypes.length ≤ UINT32_MAX := by
    have : VK_MAX_MEMORY_TYPES ≤ UINT32_MAX := by decide
    omega
  rcases findMemoryType_loop type_filter properties memoryTypes 0 hlen with
    ⟨hnone, hres⟩ | ⟨k, flags, hk, hcond, hleast, hres, hlt⟩
  · left
    refine ⟨hres, ?_⟩
    rintro i ⟨flags, hi, hbit, hinc⟩
    exact hnone i flags hi ⟨by simpa using hbit, hinc⟩
  · right
    refine ⟨k, ⟨flags, hk, by simpa using hcond.1, hcond.2⟩, ?_, by simpa using hres, ?_⟩
    · rintro j hj ⟨flags1, hj1, hbit, hinc⟩
      exact hleast j flags1 hj hj1 ⟨by simpa using hbit, hinc⟩
    · have : 0 + k < UINT32_MAX := hlt
      omega

/-- C11: for every memory-type table (of at most `VK_MAX_MEMORY_TYPES`
entries), filter and requested property flags, `createBuffer` returns true
exactly when the buffer is created, some memory type is suitable (its bit is
set in the filter and its flags include every requested flag) and the
allocation succeeds; and once the buffer is created, the one allocation it
asks for names the least suitable index, the binding following only when the
allocation succeeded. -/
theorem createBuffer_memory_type (memoryTypes : List Nat) (g : Gpu) (r : CreateBufferResults)
    (size usage properties : Nat) (buffer buffer_memory : Handle)
    (hcount : memoryTypes.length ≤ VK_MAX_MEMORY_TYPES) :
    ((createBuffer memoryTypes g r size usage properties buffer buffer_memory).1 = true ↔
      r.vkCreateBuffer = VK_SUCCESS ∧
      (∃ i, memoryTypeSuitable r.memoryTypeBits properties memoryTypes i) ∧
      r.vkAllocateMemory = VK_SUCCESS) ∧
    ∀ i, memoryTypeSuitable r.memoryTypeBits properties memoryTypes i →
      (∀ j, j < i → ¬ memoryTypeSuitable r.memoryTypeBits properties memoryTypes j) →
      r.vkCreateBuffer = VK_SUCCESS →
      (createBuffer memoryTypes g r size usage properties buffer buffer_memory).2.2.2.callsSince
          g =
        .vkCreateBuffer g.next size usage ::
        .vkAllocateMemory (g.next + 1) (size + r.padding) i ::
        (if r.vkAllocateMemory = VK_SUCCESS then [.vkBindBufferMemory g.next (g.next + 1)]
         else []) := by
  rcases findMemoryType_spec r.memoryTypeBits properties memoryTypes hcount with
    ⟨hres, hnone⟩ | ⟨i0, hsuit, hleast, hres, hne⟩
  · refine ⟨?_, fun i hi => absurd hi (hnone i)⟩
    constructor
    · intro h
      exfalso
      by_cases h1 : r.vkCreateBuffer = VK_SUCCESS
      · simp [createBuffer, h1, hres] at h
      · simp [createBuffer, h1] at h
    · rintro ⟨_, ⟨i, hi⟩, _⟩
      exact absurd hi (hnone i)
  · have hmax : ¬ i0 = UINT32_MAX := hne
    constructor
    · constructor
      · intro h
        by_cases h1 : r.vkCreateBuffer = VK_SUCCESS
        · by_cases h3 : r.vkAllocateMemory = VK_SUCCESS
          · exact ⟨h1, ⟨i0, hsuit⟩, h3⟩
          · simp [createBuffer, h1, hres, hmax, h3] at h
        · simp [createBuffer, h1] at h
      · rintro ⟨h1, _, h3⟩
        simp [createBuffer, h1, hres, hmax, h3]
    · intro i hi hil h1
      have hii : i = i0 := by
        rcases Nat.lt_trichotomy i i0 with hlt | heq | hgt
        · exact absurd hi (hleast i hlt)
        · exact heq
        · exact absurd hsuit (hil i0 hgt)
      subst hii
      by_cases h3 : r.vkAllocateMemory = VK_SUCCESS
      · simp [createBuffer, h1, hres, hmax, h3, Gpu.callsSince, Gpu.call]
      · simp [createBuffer, h1, hres, hmax, h3, Gpu.callsSince, Gpu.call]

/-- On the nominal memory table (type 0 device-local, type 1 host-visible and
coherent) with filter `0b11`, a host-visible coherent buffer is allocated from
type 1, the only suitable one. -/
theorem createBuffer_memory_type_witness :
    Driver.nominal.memoryTypes.length ≤ VK_MAX_MEMORY_TYPES ∧
    memoryTypeSuitable 3
      (VK_MEMORY_PROPERTY_HOST_VISIBLE_BIT ||| VK_MEMORY_PROPERTY_HOST_COHERENT_BIT)
      Driver.nominal.memoryTypes 1 ∧
    (createBuffer Driver.nominal.memoryTypes Gpu.fresh ⟨VK_SUCCESS, 0, 3, VK_SUCCESS⟩ 64
      VK_BUFFER_USAGE_TRANSFER_SRC_BIT
      (VK_MEMORY_PROPERTY_HOST_VISIBLE_BIT ||| VK_MEMORY_PROPERTY_HOST_COHERENT_BIT)
      VK_NULL_HANDLE VK_NULL_HANDLE).2.2.2.callsSince Gpu.fresh =
      [ .vkCreateBuffer 1 64 VK_BUFFER_USAGE_TRANSFER_SRC_BIT,
        .vkAllocateMemory 2 64 1,
        .vkBindBufferMemory 1 2 ] := by
  have hsuit : memoryTypeSuitable 3
      (VK_MEMORY_PROPERTY_HOST_VISIBLE_BIT ||| VK_MEMORY_PROPERTY_HOST_COHERENT_BIT)
      Driver.nominal.memoryTypes 1 :=
    ⟨6, by decide, by decide, fun k hk => hk⟩
  have hleast : ∀ j, j < 1 → ¬ memoryTypeSuitable 3
      (VK_MEMORY_PROPERTY_HOST_VISIBLE_BIT ||| VK_MEMORY_PROPERTY_HOST_COHERENT_BIT)
      Driver.nominal.memoryTypes j := by
    rintro j hj ⟨flags, hflags, -, hinc⟩
    have hj0 : j = 0 := by omega
    subst hj0
    have hf : flags = 1 := by
      have : Driver.nominal.memoryTypes[0]? = some 1 := by decide
      rw [this] at hflags
      exact (Option.some.inj hflags).symm
    subst hf
    exact absurd (hinc 1 (by decide)) (by decide)
  exact ⟨by decide, hsuit,
    (createBuffer_memory_type Driver.nominal.memoryTypes Gpu.fresh
      ⟨VK_SUCCESS, 0, 3, VK_SUCCESS⟩ 64 VK_BUFFER_USAGE_TRANSFER_SRC_BIT
      (VK_MEMORY_PROPERTY_HOST_VISIBLE_BIT ||| VK_MEMORY_PROPERTY_HOST_COHERENT_BIT)
      VK_NULL_HANDLE VK_NULL_HANDLE (by decide)).2 1 hsuit hleast rfl⟩

/-! ### Initialisation -/

/-- C12: `init` runs its stages in the order instance, surface, physical
device, logical device, swapchain, sync objects, command pool, command
buffers, depth buffer. With every stage noting in a journal that it ran and
what it returned: the stages that ran are the first `k` of the nine, in order,
and all but the last of them returned true; `init` returns true exactly when
all nine ran and returned true, and then nothing is printed; when it returns
false the last stage that ran is the one that returned false, no later stage
ran, and exactly one line is printed, the message of that stage. The journal
changes neither the result nor the output of `init`. -/
theorem init_stages {σ : Type} (st : InitStages σ) (s : σ) :
    (init st.journalled (s, [])).1 = (init st s).1 ∧
    (init st.journalled (s, [])).2.2 = (init st s).2.2 ∧
    (init st.journalled (s, [])).2.1.1 = (init st s).2.1 ∧
    ∃ k, ((init st.journalled (s, [])).2.1.2).map Prod.fst = Stage.all.take (k + 1) ∧
      k < Stage.all.length ∧
      (((init st.journalled (s, [])).2.1.2).take k).map Prod.snd = List.replicate k true ∧
      ((init st s).1 = true ↔
        ((init st.journalled (s, [])).2.1.2) = Stage.all.map (fun stage => (stage, true))) ∧
      ((init st s).1 = true → (init st s).2.2 = []) ∧
      ((init st s).1 = false →
        ∃ failed, Stage.all[k]? = some failed ∧
          ((init st.journalled (s, [])).2.1.2)[k]? = some (failed, false) ∧
          (init st s).2.2 = [failed.message]) := by
  rcases h1 : st.createInstance s with ⟨_ | _, s1⟩
  · refine ⟨?_, ?_, ?_, 0, ?_⟩ <;>
      simp [init, InitStages.journalled, VulkanTest.journalled, Stage.all, Stage.message,
        h1]
  rcases h2 : st.createSurface s1 with ⟨_ | _, s2⟩
  · refine ⟨?_, ?_, ?_, 1, ?_⟩ <;>
      simp [init, InitStages.journalled, VulkanTest.journalled, Stage.all, Stage.message,
        h1, h2]
  rcases h3 : st.findPhysicalDevice s2 with ⟨_ | _, s3⟩
  · refine ⟨?_, ?_, ?_, 2, ?_⟩ <;>
      simp [init, InitStages.journalled, VulkanTest.journalled, Stage.all, Stage.message,
        h1, h2, h3]
  rcases h4 : st.createDevice s3 with ⟨_ | _, s4⟩
  · refine ⟨?_, ?_, ?_, 3, ?_⟩ <;>
      simp [init, InitStages.journalled, VulkanTest.journalled, Stage.all, Stage.message,
        h1, h2, h3, h4]
  rcases h5 : st.createSwapChain s4 with ⟨_ | _, s5⟩
  · refine ⟨?_, ?_, ?_, 4, ?_⟩ <;>
      simp [init, InitStages.journalled, VulkanTest.journalled, Stage.all, Stage.message,
        h1, h2, h3, h4, h5]
  rcases h6 : st.createSyncObjects s5 with ⟨_ | _, s6⟩
  · refine ⟨?_, ?_, ?_, 5, ?_⟩ <;>
      simp [init, InitStages.journalled, VulkanTest.journalled, Stage.all, Stage.message,
        h1, h2, h3, h4, h5, h6]
  rcases h7 : st.createCommandPool s6 with ⟨_ | _, s7⟩
  · refine ⟨?_, ?_, ?_, 6, ?_⟩ <;>
      simp [init, InitStages.journalled, VulkanTest.journalled, Stage.all, Stage.message,
        h1, h2, h3, h4, h5, h6, h7]
  rcases h8 : st.createCommandBuffers s7 with ⟨_ | _, s8⟩
  · refine ⟨?_, ?_, ?_, 7, ?_⟩ <;>
      simp [init, InitStages.journalled, VulkanTest.journalled, Stage.all, Stage.message,
        h1, h2, h3, h4, h5, h6, h7, h8]
  rcases h9 : st.createDepthBuffer s8 with ⟨_ | _, s9⟩
  · refine ⟨?_, ?_, ?_, 8, ?_⟩ <;>
      simp [init, InitStages.journalled, VulkanTest.journalled, Stage.all, Stage.message,
        h1, h2, h3, h4, h5, h6, h7, h8, h9]
  refine ⟨?_, ?_, ?_, 8, ?_⟩ <;>
    simp [init, InitStages.journalled, VulkanTest.journalled, Stage.all, Stage.message,
      h1, h2, h3, h4, h5, h6, h7, h8, h9]

/-- With stages that only answer, the swapchain stage failing: `init` returns
false after five stages and prints the message of the swapchain stage. -/
theorem init_scripted_swapchain_failure :
    init (InitStages.scripted (fun stage => decide (stage ≠ Stage.createSwapChain))).journalled
      ((), []) =
      (false, ((), [(.createInstance, true), (.createSurface, true),
        (.findPhysicalDevice, true), (.createDevice, true), (.createSwapChain, false)]),
        ["Error: Couldn't create swap chain\n"]) := by
  decide

/-! ### Choice of the physical device -/

theorem findQueueFamilies_graphics_loop_spec (families : List VkQueueFamilyProperties) :
    ∀ i, match findQueueFamilies_graphics_loop i families with
      | none => ∀ (k : Nat) (family : VkQueueFamilyProperties), families[k]? = some family → ¬ family.graphics
      | some r => ∃ (k : Nat) (family : VkQueueFamilyProperties), r = i + k ∧ families[k]? = some family ∧ family.graphics ∧
          ∀ (j : Nat) (family1 : VkQueueFamilyProperties), j < k → families[j]? = some family1 → ¬ family1.graphics := by
  induction families with
  | nil => intro i; simp [findQueueFamilies_graphics_loop]
  | cons family rest ih =>
    intro i
    have hbit : (family.queueFlags &&& VK_QUEUE_GRAPHICS_BIT) ≠ 0 ↔
        family.queueFlags.testBit 0 = true := and_one_shiftLeft_ne_zero family.queueFlags 0
    by_cases hc : family.queueCount > 0 ∧ (family.queueFlags &&& VK_QUEUE_GRAPHICS_BIT) ≠ 0
    · simp only [findQueueFamilies_graphics_loop, if_pos hc]
      exact ⟨0, family, rfl, by simp, ⟨hc.1, hbit.mp hc.2⟩,
        fun j _ hj => absurd hj (Nat.not_lt_zero j)⟩
    · have hng : ¬ family.graphics := fun hg => hc ⟨hg.1, hbit.mpr hg.2⟩
      simp only [findQueueFamilies_graphics_loop, if_neg hc]
      have := ih (i + 1)
      split at this
      · intro k family1 hk
        cases k with
        | zero =>
          simp only [List.getElem?_cons_zero, Option.some.injEq] at hk
          exact hk ▸ hng
        | succ k => exact this k family1 (by simpa using hk)
      · obtain ⟨k, family1, hr, hk, hg, hleast⟩ := this
        refine ⟨k + 1, family1, by omega, by simpa using hk, hg, ?_⟩
        intro j family2 hj hj2
        cases j with
        | zero =>
          simp only [List.getElem?_cons_zero, Option.some.injEq] at hj2
          exact hj2 ▸ hng
        | succ j => exact hleast j family2 (by omega) (by simpa using hj2)

theorem findQueueFamilies_present_loop_spec (presentSupport : Nat → Bool)
    (families : List VkQueueFamilyProperties) :
    ∀ i, match findQueueFamilies_present_loop presentSupport i families with
      | none => ∀ (k : Nat) (family : VkQueueFamilyProperties), families[k]? = some family →
          ¬ (0 < family.queueCount ∧ presentSupport (i + k) = true)
      | some r => ∃ (k : Nat) (family : VkQueueFamilyProperties), r = i + k ∧ families[k]? = some family ∧
          (0 < family.queueCount ∧ presentSupport (i + k) = true) ∧
          ∀ (j : Nat) (family1 : VkQueueFamilyProperties), j < k → families[j]? = some family1 →
            ¬ (0 < family1.queueCount ∧ presentSupport (i + j) = true) := by
  induction families with
  | nil => intro i; simp [findQueueFamilies_present_loop]
  | cons family rest ih =>
    intro i
    by_cases hc : family.queueCount > 0 ∧ presentSupport i = true
    · simp only [findQueueFamilies_present_loop, if_pos hc]
      exact ⟨0, family, rfl, by simp, hc, fun j _ hj => absurd hj (Nat.not_lt_zero j)⟩
    · simp only [findQueueFamilies_present_loop, if_neg hc]
      have := ih (i + 1)
      split at this
      · intro k family1 hk
        cases k with
        | zero =>
          simp only [List.getElem?_cons_zero, Option.some.injEq] at hk
          subst hk
          simpa using hc
        | succ k =>
          have h1 := this k family1 (by simpa using hk)
          rwa [show i + 1 + k = i + (k + 1) by omega] at h1
      · obtain ⟨k, family1, hr, hk, hg, hleast⟩ := this
        refine ⟨k + 1, family1, by omega, by simpa using hk, ?_, ?_⟩
        · rwa [show i + 1 + k = i + (k + 1) by omega] at hg
        · intro j family2 hj hj2
          cases j with
          | zero =>
            simp only [List.getElem?_cons_zero, Option.some.injEq] at hj2
            subst hj2
            simpa using hc
          | succ j =>
            have h1 := hleast j family2 (by omega) (by simpa using hj2)
            rwa [show i + 1 + j = i + (j + 1) by omega] at h1

theorem checkDeviceExtensions_iff (required : List String) (device : PhysicalDevice) :
    checkDeviceExtensions required device = true ↔ ∀ name ∈ required, name ∈ device.extensions := by
  unfold checkDeviceExtensions
  generalize device.extensions = extensions
  induction extensions generalizing required with
  | nil =>
    simp only [List.foldl_nil, List.isEmpty_iff, List.not_mem_nil, imp_false]
    exact ⟨fun h => by simp [h], fun h => List.eq_nil_iff_forall_not_mem.mpr h⟩
  | cons extension rest ih =>
    simp only [List.foldl_cons]
    rw [ih]
    simp only [List.mem_filter, decide_eq_true_eq, List.mem_cons, and_imp]
    constructor
    · intro h name hname
      by_cases hne : name = extension
      · exact Or.inl hne
      · exact Or.inr (h name hname hne)
    · intro h name hname hne
      rcases h name hname with h1 | h1
      · exact absurd h1 hne
      · exact h1

theorem findQueueFamilies_spec (device : PhysicalDevice) (graphics_family present_family : Nat) :
    ((findQueueFamilies device graphics_family present_family).1 = true ↔
      (∃ i : Nat, ∃ family : VkQueueFamilyProperties,
        device.queueFamilies[i]? = some family ∧ family.graphics) ∧
      (∃ i : Nat, ∃ family : VkQueueFamilyProperties,
        device.queueFamilies[i]? = some family ∧ 0 < family.queueCount ∧
          device.presentSupport i = true)) ∧
    ((findQueueFamilies device graphics_family present_family).1 = true →
      device.firstFamily (fun _ family => family.graphics)
        (findQueueFamilies device graphics_family present_family).2.1 ∧
      device.firstFamily
        (fun k family => 0 < family.queueCount ∧ device.presentSupport k = true)
        (findQueueFamilies device graphics_family present_family).2.2) := by
  have hg := findQueueFamilies_graphics_loop_spec device.queueFamilies 0
  have hp := findQueueFamilies_present_loop_spec device.presentSupport device.queueFamilies 0
  simp only [findQueueFamilies, PhysicalDevice.firstFamily]
  cases hgl : findQueueFamilies_graphics_loop 0 device.queueFamilies with
  | none =>
    rw [hgl] at hg
    simp only [Option.isSome_none, Bool.false_and, Bool.false_eq_true, false_iff, not_and,
      false_imp_iff, and_true]
    rintro ⟨i, family, hi, hgr⟩
    exact absurd hgr (hg i family hi)
  | some a =>
    rw [hgl] at hg
    obtain ⟨k, family, hr, hk, hgr, hleast⟩ := hg
    have ha : a = k := by omega
    subst ha
    cases hpl : findQueueFamilies_present_loop device.presentSupport 0 device.queueFamilies with
    | none =>
      rw [hpl] at hp
      simp only [Option.isSome_none, Bool.and_false, Bool.false_eq_true, false_iff, not_and,
        false_imp_iff, and_true]
      rintro _ ⟨i, family1, hi, hq, hs⟩
      exact hp i family1 hi ⟨hq, by simpa using hs⟩
    | some b =>
      rw [hpl] at hp
      obtain ⟨m, family1, hr1, hm, hpr, hleast1⟩ := hp
      have hb : b = m := by omega
      subst hb
      simp only [Option.isSome_some, Bool.and_self, true_iff, Option.getD_some, true_imp_iff]
      refine ⟨⟨⟨a, family, hk, hgr⟩, ⟨b, family1, hm, hpr.1, by simpa using hpr.2⟩⟩,
        ⟨⟨family, hk, hgr⟩, hleast⟩, ⟨⟨family1, hm, hpr.1, by simpa using hpr.2⟩, ?_⟩⟩
      intro j family2 hj hj2
      simpa using hleast1 j family2 hj hj2

theorem updateSurfaceInformation_for_spec (device : PhysicalDevice)
    (surface_capabilities : VkSurfaceCapabilitiesKHR)
    (surface_formats : List VkSurfaceFormatKHR) (present_modes : List VkPresentModeKHR) :
    ((updateSurfaceInformation_for device surface_capabilities surface_formats
        present_modes).1 = true ↔
      device.surfaceFormats ≠ [] ∧ device.presentModes ≠ []) ∧
    ((updateSurfaceInformation_for device surface_capabilities surface_formats
        present_modes).1 = true →
      (updateSurfaceInformation_for device surface_capabilities surface_formats
        present_modes).2 =
        (device.surfaceCapabilities, device.surfaceFormats, device.presentModes)) := by
  unfold updateSurfaceInformation_for
  by_cases hf : device.surfaceFormats.length < 1
  · have : device.surfaceFormats = [] := List.length_eq_zero.mp (by omega)
    simp [hf, this]
  · have hf1 : device.surfaceFormats ≠ [] := fun h => hf (by simp [h])
    by_cases hm : device.presentModes.length < 1
    · have : device.presentModes = [] := List.length_eq_zero.mp (by omega)
      simp [hf, hm, this]
    · have hm1 : device.presentModes ≠ [] := fun h => hm (by simp [h])
      simp [hf, hm, hf1, hm1]

theorem findPhysicalDevice_loop_skip (ctx : VulkanContext) (device : PhysicalDevice)
    (rest : List PhysicalDevice) (h : ¬ device.qualifies ctx.m_device_extensions) :
    findPhysicalDevice_loop ctx (device :: rest) = findPhysicalDevice_loop ctx rest := by
  have hq := (findQueueFamilies_spec device 0 0).1
  have he := checkDeviceExtensions_iff ctx.m_device_extensions device
  have hs := (updateSurfaceInformation_for_spec device ⟨0, 0, ⟨0, 0⟩, ⟨0, 0⟩, ⟨0, 0⟩, 0⟩ [] []).1
  simp only [findPhysicalDevice_loop]
  by_cases h1 : (findQueueFamilies device 0 0).1 = true
  · by_cases h2 : checkDeviceExtensions ctx.m_device_extensions device = true
    · by_cases h3 : (updateSurfaceInformation_for device
          ⟨0, 0, ⟨0, 0⟩, ⟨0, 0⟩, ⟨0, 0⟩, 0⟩ [] []).1 = true
      · by_cases h4 : device.samplerAnisotropy = true
        · exact absurd ⟨hq.mp h1, he.mp h2, h4, hs.mp h3⟩ h
        · simp [h1, h2, h3, h4]
      · simp [h1, h2, h3]
    · simp [h1, h2]
  · simp [h1]

theorem findPhysicalDevice_loop_take (ctx : VulkanContext) (device : PhysicalDevice)
    (rest : List PhysicalDevice) (h : device.qualifies ctx.m_device_extensions) :
    findPhysicalDevice_loop ctx (device :: rest) =
      { ctx with m_graphics_family := (findQueueFamilies device 0 0).2.1,
                 m_present_family := (findQueueFamilies device 0 0).2.2,
                 m_surface_capabilities := device.surfaceCapabilities,
                 m_surface_formats := device.surfaceFormats,
                 m_present_modes := device.presentModes,
                 m_physical_device := device.handle } := by
  have h1 := (findQueueFamilies_spec device 0 0).1.mpr h.1
  have h2 := (checkDeviceExtensions_iff ctx.m_device_extensions device).mpr h.2.1
  have hs := updateSurfaceInformation_for_spec device ⟨0, 0, ⟨0, 0⟩, ⟨0, 0⟩, ⟨0, 0⟩, 0⟩ [] []
  have h3 := hs.1.mpr h.2.2.2
  have h5 := hs.2 h3
  have h4 := h.2.2.1
  simp only [findPhysicalDevice_loop]
  simp [h1, h2, h3, h4, h5]

theorem findPhysicalDevice_loop_none (ctx : VulkanContext) (devices : List PhysicalDevice)
    (h : ∀ device ∈ devices, ¬ device.qualifies ctx.m_device_extensions) :
    findPhysicalDevice_loop ctx devices = ctx := by
  induction devices with
  | nil => rfl
  | cons device rest ih =>
    rw [findPhysicalDevice_loop_skip ctx device rest (h device (List.mem_cons_self _ _))]
    exact ih (fun device1 h1 => h device1 (List.mem_cons_of_mem _ h1))

theorem findPhysicalDevice_loop_least (ctx : VulkanContext) (devices : List PhysicalDevice)
    (i : Nat) (device : PhysicalDevice) (hi : devices[i]? = some device)
    (hq : device.qualifies ctx.m_device_extensions)
    (hleast : ∀ (j : Nat) (device1 : PhysicalDevice), j < i → devices[j]? = some device1 →
      ¬ device1.qualifies ctx.m_device_extensions) :
    findPhysicalDevice_loop ctx devices =
      { ctx with m_graphics_family := (findQueueFamilies device 0 0).2.1,
                 m_present_family := (findQueueFamilies device 0 0).2.2,
                 m_surface_capabilities := device.surfaceCapabilities,
                 m_surface_formats := device.surfaceFormats,
                 m_present_modes := device.presentModes,
                 m_physical_device := device.handle } := by
  induction devices generalizing i with
  | nil => simp at hi
  | cons device0 rest ih =>
    cases i with
    | zero =>
      simp only [List.getElem?_cons_zero, Option.some.injEq] at hi
      subst hi
      exact findPhysicalDevice_loop_take ctx device0 rest hq
    | succ i =>
      rw [findPhysicalDevice_loop_skip ctx device0 rest (hleast 0 device0 (by omega) (by simp))]
      exact ih i (by simpa using hi)
        (fun j device1 hj hj1 => hleast (j + 1) device1 (by omega) (by simpa using hj1))

theorem exists_least_qualifying (required : List String) (devices : List PhysicalDevice)
    (h : ¬ ∀ device ∈ devices, ¬ device.qualifies required) :
    ∃ (i : Nat) (device : PhysicalDevice), devices[i]? = some device ∧
      device.qualifies required ∧
      ∀ (j : Nat) (device1 : PhysicalDevice), j < i → devices[j]? = some device1 →
        ¬ device1.qualifies required := by
  induction devices with
  | nil => simp at h
  | cons device0 rest ih =>
    by_cases h0 : device0.qualifies required
    · exact ⟨0, device0, by simp, h0, fun j _ hj => absurd hj (Nat.not_lt_zero j)⟩
    · have hrest : ¬ ∀ device ∈ rest, ¬ device.qualifies required := by
        intro hall
        apply h
        intro device hmem
        rcases List.mem_cons.mp hmem with h1 | h1
        · exact h1 ▸ h0
        · exact hall device h1
      obtain ⟨i, device, hi, hq, hleast⟩ := ih hrest
      refine ⟨i + 1, device, by simpa using hi, hq, ?_⟩
      intro j device1 hj hj1
      cases j with
      | zero =>
        simp only [List.getElem?_cons_zero, Option.some.injEq] at hj1
        exact hj1 ▸ h0
      | succ j => exact hleast j device1 (by omega) (by simpa using hj1)

/-- C13: starting from a context that holds no physical device, on a list of
enumerated devices with non-null handles, `findPhysicalDevice` returns false
exactly when no device satisfies the four conditions (a queue family with a
queue and the graphics bit and one with a queue and present support, every
required extension, sampler anisotropy, at least one surface format and one
present mode); otherwise it returns true and records the qualifying device of
least index: its handle, the indices of its first graphics family and of its
first present family, and its surface capabilities, formats and present
modes. -/
theorem findPhysicalDevice_selects (ctx : VulkanContext) (devices : List PhysicalDevice)
    (hnull : ctx.m_physical_device = VK_NULL_HANDLE)
    (hhandles : ∀ device ∈ devices, device.handle ≠ VK_NULL_HANDLE) :
    ((findPhysicalDevice ctx devices).1 = false ↔
      ∀ device ∈ devices, ¬ device.qualifies ctx.m_device_extensions) ∧
    ∀ (i : Nat) (device : PhysicalDevice), devices[i]? = some device →
      device.qualifies ctx.m_device_extensions →
      (∀ (j : Nat) (device1 : PhysicalDevice), j < i → devices[j]? = some device1 →
        ¬ device1.qualifies ctx.m_device_extensions) →
      (findPhysicalDevice ctx devices).1 = true ∧
      (findPhysicalDevice ctx devices).2.m_physical_device = device.handle ∧
      device.firstFamily (fun _ family => family.graphics)
        (findPhysicalDevice ctx devices).2.m_graphics_family ∧
      device.firstFamily
        (fun k family => 0 < family.queueCount ∧ device.presentSupport k = true)
        (findPhysicalDevice ctx devices).2.m_present_family ∧
      (findPhysicalDevice ctx devices).2.m_surface_capabilities = device.surfaceCapabilities ∧
      (findPhysicalDevice ctx devices).2.m_surface_formats = device.surfaceFormats ∧
      (findPhysicalDevice ctx devices).2.m_present_modes = device.presentModes := by
  have hsel : ∀ (i : Nat) (device : PhysicalDevice), devices[i]? = some device →
      device.qualifies ctx.m_device_extensions →
      (∀ (j : Nat) (device1 : PhysicalDevice), j < i → devices[j]? = some device1 →
        ¬ device1.qualifies ctx.m_device_extensions) →
      (findPhysicalDevice ctx devices).1 = true ∧
      (findPhysicalDevice ctx devices).2.m_physical_device = device.handle ∧
      device.firstFamily (fun _ family => family.graphics)
        (findPhysicalDevice ctx devices).2.m_graphics_family ∧
      device.firstFamily
        (fun k family => 0 < family.queueCount ∧ device.presentSupport k = true)
        (findPhysicalDevice ctx devices).2.m_present_family ∧
      (findPhysicalDevice ctx devices).2.m_surface_capabilities = device.surfaceCapabilities ∧
      (findPhysicalDevice ctx devices).2.m_surface_formats = device.surfaceFormats ∧
      (findPhysicalDevice ctx devices).2.m_present_modes = device.presentModes := by
    intro i device hi hq hleast
    have hlen : ¬ devices.length < 1 := by
      intro hl
      have : devices = [] := List.length_eq_zero.mp (by omega)
      simp [this] at hi
    have hmem : device ∈ devices := List.mem_iff_getElem?.mpr ⟨i, hi⟩
    have hfam := (findQueueFamilies_spec device 0 0).2
      ((findQueueFamilies_spec device 0 0).1.mpr hq.1)
    simp only [findPhysicalDevice, if_neg hlen,
      findPhysicalDevice_loop_least ctx devices i device hi hq hleast]
    exact ⟨by simpa using hhandles device hmem, trivial, hfam.1, hfam.2, trivial, trivial,
      trivial⟩
  refine ⟨?_, hsel⟩
  constructor
  · intro hfalse
    by_contra hcontra
    obtain ⟨i, device, hi, hq, hleast⟩ :=
      exists_least_qualifying ctx.m_device_extensions devices hcontra
    have htrue := (hsel i device hi hq hleast).1
    rw [hfalse] at htrue
    exact absurd htrue (by decide)
  · intro hall
    by_cases hlen : devices.length < 1
    · simp [findPhysicalDevice, hlen]
    · simp [findPhysicalDevice, hlen, findPhysicalDevice_loop_none ctx devices hall, hnull]

theorem findPhysicalDevice_selects_witness :
    ((VulkanContext.new 800 600).m_physical_device = VK_NULL_HANDLE ∧
      ∀ device ∈ PhysicalDevice.examples, device.handle ≠ VK_NULL_HANDLE) ∧
    (findPhysicalDevice (VulkanContext.new 800 600) PhysicalDevice.examples).1 = true ∧
    (findPhysicalDevice (VulkanContext.new 800 600)
      PhysicalDevice.examples).2.m_physical_device = 8 := by
  have hhandles : ∀ device ∈ PhysicalDevice.examples, device.handle ≠ VK_NULL_HANDLE := by
    intro device hmem
    simp only [PhysicalDevice.examples, List.mem_cons, List.mem_singleton,
      List.not_mem_nil, or_false] at hmem
    rcases hmem with h | h <;> subst h <;> decide
  have hsel := (findPhysicalDevice_selects (VulkanContext.new 800 600)
    PhysicalDevice.examples rfl hhandles).2 1
      { handle := 8,
        queueFamilies := [⟨1, 0⟩, ⟨4, VK_QUEUE_GRAPHICS_BIT⟩],
        presentSupport := fun i => decide (i = 0),
        extensions := ["VK_KHR_maintenance1", VK_KHR_SWAPCHAIN_EXTENSION_NAME],
        surfaceCapabilities := ⟨3, 0, ⟨640, 480⟩, ⟨1, 1⟩, ⟨4096, 4096⟩, 1⟩,
        surfaceFormats := [⟨VK_FORMAT_B8G8R8A8_UNORM, VK_COLOR_SPACE_SRGB_NONLINEAR_KHR⟩],
        presentModes := [VK_PRESENT_MODE_MAILBOX_KHR, VK_PRESENT_MODE_FIFO_KHR],
        samplerAnisotropy := true } rfl
      ⟨⟨⟨1, ⟨4, VK_QUEUE_GRAPHICS_BIT⟩, rfl, by decide, by decide⟩,
          ⟨0, ⟨1, 0⟩, rfl, by decide⟩⟩,
        by simp [VulkanContext.new], rfl, by simp⟩
      (by
        intro j device1 hj hj1 hq
        have hj0 : j = 0 := by omega
        subst hj0
        simp only [PhysicalDevice.examples, List.getElem?_cons_zero, Option.some.injEq] at hj1
        subst hj1
        exact absurd hq.2.2.1 (by decide))
  exact ⟨⟨rfl, hhandles⟩, hsel.1, hsel.2.1⟩

/-! ### Stale swapchain -/

theorem beginFrame_flag (ctx : VulkanContext) (g : Gpu) (r : FrameResults) (success : Bool)
    (ctx1 : VulkanContext) (g1 : Gpu) (h : beginFrame ctx g r = some (success, ctx1, g1)) :
    success = decide (r.vkAcquireNextImageKHR ≠ VK_ERROR_OUT_OF_DATE_KHR) := by
  simp only [beginFrame] at h
  split at h
  · exact absurd h (by simp)
  · simp only [Option.some.injEq, Prod.mk.injEq] at h
    exact h.1.symm

theorem drawFrame_flag (rd : Renderer) (ctx : VulkanContext) (g : Gpu) (r : FrameResults)
    (ubo : List Byte) (success : Bool) (ctx1 : VulkanContext) (g1 : Gpu)
    (h : drawFrame rd ctx g r ubo = some (success, ctx1, g1)) :
    success = false ↔
      (r.vkAcquireNextImageKHR = VK_ERROR_OUT_OF_DATE_KHR ∨
        r.vkQueuePresentKHR = VK_ERROR_OUT_OF_DATE_KHR ∨
        r.vkQueuePresentKHR = VK_SUBOPTIMAL_KHR) := by
  simp only [drawFrame] at h
  cases hb : beginFrame ctx g r with
  | none => rw [hb] at h; exact absurd h (by simp)
  | some res =>
    obtain ⟨ok, ctx2, g2⟩ := res
    have hok := beginFrame_flag ctx g r ok ctx2 g2 hb
    rw [hb] at h
    simp only at h
    by_cases ha : r.vkAcquireNextImageKHR = VK_ERROR_OUT_OF_DATE_KHR
    · simp only [ha, ne_eq, not_true_eq_false, decide_False] at hok
      subst hok
      simp only [Bool.not_false, if_true, Option.some.injEq, Prod.mk.injEq] at h
      simp [← h.1, ha]
    · simp only [ha, ne_eq, not_false_eq_true, decide_True] at hok
      subst hok
      simp only [Bool.not_true, Bool.false_eq_true, if_false, endFrame] at h
      by_cases hp : r.vkQueuePresentKHR ≠ VK_ERROR_OUT_OF_DATE_KHR ∧
          r.vkQueuePresentKHR ≠ VK_SUBOPTIMAL_KHR
      · simp only [hp, ne_eq, not_false_eq_true, and_self, decide_True, Bool.not_true,
          Bool.false_eq_true, if_false, Option.some.injEq, Prod.mk.injEq] at h
        simp [← h.1, ha, hp.1, hp.2]
      · have hd : decide (r.vkQueuePresentKHR ≠ VK_ERROR_OUT_OF_DATE_KHR ∧
            r.vkQueuePresentKHR ≠ VK_SUBOPTIMAL_KHR) = false := by simpa using hp
        simp only [hd, Bool.not_false, if_true, Option.some.injEq, Prod.mk.injEq] at h
        simp only [← h.1, true_iff]
        by_cases h1 : r.vkQueuePresentKHR = VK_ERROR_OUT_OF_DATE_KHR
        · exact Or.inr (Or.inl h1)
        · by_cases h2 : r.vkQueuePresentKHR = VK_SUBOPTIMAL_KHR
          · exact Or.inr (Or.inr h2)
          · exact absurd ⟨h1, h2⟩ hp

/-- C14, the claim as stated fails: in a frame whose acquisition reports
"suboptimal" and whose presentation succeeds, `drawFrame` returns true, and
the iteration of the loop of `main` that draws it goes on to the next
iteration with `recreate_swapchain` still false. -/
theorem drawFrame_true_on_suboptimal_acquire :
    (drawFrame Renderer.example readyContext readyGpu
      { vkAcquireNextImageKHR := VK_SUBOPTIMAL_KHR, imageIndex := 0,
        vkQueueSubmit := VK_SUCCESS, vkQueuePresentKHR := VK_SUCCESS } []).map
      (fun res => res.1) = some true ∧
    (match main_iteration MainLoop.example
        (Iteration.example { vkAcquireNextImageKHR := VK_SUBOPTIMAL_KHR, imageIndex := 0,
                             vkQueueSubmit := VK_SUCCESS, vkQueuePresentKHR := VK_SUCCESS }) with
      | .next s => s.recreate_swapchain
      | _ => true) = false := by
  constructor <;> decide

theorem main_rebuild_flagged (s : MainLoop) (w h : Nat) (d : Driver)
    (hflag : s.recreate_swapchain = true) :
    main_rebuild s w h d =
      ((s.renderer.recreateSwapChain s.vulkan_context s.gpu d w h).1,
        { renderer := (s.renderer.recreateSwapChain s.vulkan_context s.gpu d w h).2.1,
          vulkan_context := (s.renderer.recreateSwapChain s.vulkan_context s.gpu d w h).2.2.1,
          gpu := (s.renderer.recreateSwapChain s.vulkan_context s.gpu d w h).2.2.2,
          recreate_swapchain := false }) := by
  simp [main_rebuild, hflag]

theorem main_rebuild_false (s : MainLoop) (w h : Nat) (d : Driver)
    (hfalse : (main_rebuild s w h d).1 = false) :
    (s.renderer.recreateSwapChain s.vulkan_context s.gpu d w h).1 = false := by
  simp only [main_rebuild] at hfalse
  split at hfalse
  · exact hfalse
  · exact absurd hfalse (by simp)

/-- C14, amended: in a frame whose acquisition reports "out of date" or whose
presentation reports "out of date" or "suboptimal", whenever `drawFrame`
returns it returns false; an iteration of the loop of `main` that draws such a
frame does not leave the loop because of it (`main` returns in that iteration
only when a rebuild made before the draw has failed) and sets
`recreate_swapchain`, and the next iteration, before it draws, calls
`Renderer::recreateSwapChain` on the state the stale frame left: the frame of
the next iteration is drawn in the state the rebuild returns, and `main`
returns 1 when the rebuild fails. -/
theorem stale_frame_rebuilds (s : MainLoop) (it nxt : Iteration)
    (hstale : it.frame.vkAcquireNextImageKHR = VK_ERROR_OUT_OF_DATE_KHR ∨
      it.frame.vkQueuePresentKHR = VK_ERROR_OUT_OF_DATE_KHR ∨
      it.frame.vkQueuePresentKHR = VK_SUBOPTIMAL_KHR)
    (hopen : it.processEvents = true) (hopen1 : nxt.processEvents = true) :
    (∀ (rd : Renderer) (ctx : VulkanContext) (g : Gpu) (success : Bool)
        (ctx1 : VulkanContext) (g1 : Gpu),
      drawFrame rd ctx g it.frame it.ubo = some (success, ctx1, g1) → success = false) ∧
    (∀ (code : Int) (printed : List String) (s1 : MainLoop),
      main_iteration s it = .returned code printed s1 →
        code = 1 ∧
        (s.renderer.recreateSwapChain s.vulkan_context s.gpu it.driver it.windowWidth
          it.windowHeight).1 = false) ∧
    (∀ s1 : MainLoop, main_iteration s it = .next s1 →
      s1.recreate_swapchain = true ∧
      main_iteration s1 nxt =
        match s1.renderer.recreateSwapChain s1.vulkan_context s1.gpu nxt.driver
            nxt.windowWidth nxt.windowHeight with
        | (false, rd, ctx, g) =>
            .returned 1 ["Error: Couldn't recreate swap chain"] ⟨rd, ctx, g, false⟩
        | (true, rd, ctx, g) =>
            match drawFrame rd ctx g nxt.frame nxt.ubo with
            | none => .blocked
            | some (success, ctx1, g1) => .next ⟨rd, ctx1, g1, !success⟩) := by
  have hdraw : ∀ (rd : Renderer) (ctx : VulkanContext) (g : Gpu) (success : Bool)
      (ctx1 : VulkanContext) (g1 : Gpu),
      drawFrame rd ctx g it.frame it.ubo = some (success, ctx1, g1) → success = false :=
    fun rd ctx g success ctx1 g1 h =>
      (drawFrame_flag rd ctx g it.frame it.ubo success ctx1 g1 h).mpr hstale
  refine ⟨hdraw, ?_, ?_⟩
  · intro code printed s1 h
    simp only [main_iteration, hopen, Bool.not_true, Bool.false_eq_true, if_false] at h
    rcases hr : main_rebuild s it.windowWidth it.windowHeight it.driver with ⟨_ | _, s2⟩
    · rw [hr] at h
      simp only [Bool.not_false, if_true, Outcome.returned.injEq] at h
      exact ⟨h.1.symm, main_rebuild_false s _ _ _ (by rw [hr])⟩
    · rw [hr] at h
      simp only [Bool.not_true, Bool.false_eq_true, if_false] at h
      split at h
      · exact absurd h (by simp)
      · split at h <;> exact absurd h (by simp)
  · intro s1 h
    simp only [main_iteration, hopen, Bool.not_true, Bool.false_eq_true, if_false] at h
    rcases hr : main_rebuild s it.windowWidth it.windowHeight it.driver with ⟨_ | _, s2⟩
    · rw [hr] at h
      exact absurd h (by simp)
    · rw [hr] at h
      simp only [Bool.not_true, Bool.false_eq_true, if_false] at h
      cases hd : drawFrame s2.renderer s2.vulkan_context s2.gpu it.frame it.ubo with
      | none => rw [hd] at h; exact absurd h (by simp)
      | some res =>
        obtain ⟨success, ctx1, g1⟩ := res
        have hs := hdraw _ _ _ _ _ _ hd
        subst hs
        rw [hd] at h
        simp only [Bool.not_false, if_true, Outcome.next.injEq] at h
        subst h
        refine ⟨rfl, ?_⟩
        simp only [main_iteration, hopen1, Bool.not_true, Bool.false_eq_true, if_false]
        rw [main_rebuild_flagged _ _ _ _ rfl]
        simp only
        rcases hr1 : s2.renderer.recreateSwapChain ctx1 g1 nxt.driver nxt.windowWidth
          nxt.windowHeight with ⟨_ | _, rd3, ctx3, g3⟩
        · simp
        · simp only [Bool.not_true, Bool.false_eq_true, if_false]
          cases hd1 : drawFrame rd3 ctx3 g3 nxt.frame nxt.ubo with
          | none => rfl
          | some res1 =>
            obtain ⟨success1, ctx4, g4⟩ := res1
            cases success1 <;> simp

theorem stale_frame_rebuilds_witness :
    ((FrameResults.suboptimalPresent 0).vkAcquireNextImageKHR = VK_ERROR_OUT_OF_DATE_KHR ∨
      (FrameResults.suboptimalPresent 0).vkQueuePresentKHR = VK_ERROR_OUT_OF_DATE_KHR ∨
      (FrameResults.suboptimalPresent 0).vkQueuePresentKHR = VK_SUBOPTIMAL_KHR) ∧
    (Iteration.example (FrameResults.suboptimalPresent 0)).processEvents = true ∧
    (Iteration.example (FrameResults.ok 1)).processEvents = true ∧
    (match main_iteration MainLoop.example
        (Iteration.example (FrameResults.suboptimalPresent 0)) with
      | .next _ => true
      | _ => false) = true ∧
    ∀ s1 : MainLoop,
      main_iteration MainLoop.example
        (Iteration.example (FrameResults.suboptimalPresent 0)) = .next s1 →
      s1.recreate_swapchain = true :=
  ⟨Or.inr (Or.inr rfl), rfl, rfl, by decide, fun s1 h =>
    ((stale_frame_rebuilds MainLoop.example
      (Iteration.example (FrameResults.suboptimalPresent 0))
      (Iteration.example (FrameResults.ok 1)) (Or.inr (Or.inr rfl)) rfl rfl).2.2 s1 h).1⟩

/-! ### Objects that do not depend on the swapchain -/

theorem updateSurfaceInformation_independent (ctx : VulkanContext) (g : Gpu) (d : Driver) :
    (updateSurfaceInformation ctx g d).2.1.swapchainIndependent = ctx.swapchainIndependent := by
  simp only [updateSurfaceInformation]
  repeat' split
  all_goals rfl

theorem createSwapChain_independent (ctx : VulkanContext) (g : Gpu) (d : Driver) :
    (createSwapChain ctx g d).2.1.swapchainIndependent = ctx.swapchainIndependent := by
  by_cases hsc : d.vkCreateSwapchainKHR = VK_SUCCESS <;>
    simp [createSwapChain, hsc, VulkanContext.swapchainIndependent]

theorem createCommandBuffers_independent (ctx : VulkanContext) (g : Gpu) (d : Driver) :
    (createCommandBuffers ctx g d).2.1.swapchainIndependent = ctx.swapchainIndependent := by
  by_cases h : d.vkAllocateCommandBuffers = VK_SUCCESS <;>
    simp [createCommandBuffers, h, VulkanContext.swapchainIndependent]

theorem createDepthBuffer_independent (ctx : VulkanContext) (g : Gpu) (d : Driver) :
    (createDepthBuffer ctx g d).2.1.swapchainIndependent = ctx.swapchainIndependent := by
  rw [createDepthBuffer_ctx]
  rfl

theorem VulkanContext.rebuild_independent (ctx : VulkanContext) (g : Gpu)
    (d : Driver) (w h : Nat) :
    (ctx.recreateSwapChain g d w h).2.1.swapchainIndependent = ctx.swapchainIndependent := by
  simp only [VulkanContext.recreateSwapChain]
  repeat' split
  all_goals
    simp only [createDepthBuffer_independent, createCommandBuffers_independent,
      createSwapChain_independent, updateSurfaceInformation_independent]
  all_goals rfl

theorem createRenderPass_independent (rd : Renderer) (ctx : VulkanContext) (g : Gpu)
    (d : Driver) :
    (createRenderPass rd ctx g d).2.1.swapchainIndependent = rd.swapchainIndependent ∧
    (createRenderPass rd ctx g d).2.1.m_models = rd.m_models := by
  unfold createRenderPass
  split <;> exact ⟨rfl, rfl⟩

theorem createPipelineLayout_independent (rd : Renderer) (g : Gpu) (d : Driver) :
    (createPipelineLayout rd g d).2.1.swapchainIndependent = rd.swapchainIndependent ∧
    (createPipelineLayout rd g d).2.1.m_models = rd.m_models := by
  unfold createPipelineLayout
  split <;> exact ⟨rfl, rfl⟩

theorem createGraphicsPipeline_independent (rd : Renderer) (ctx : VulkanContext) (g : Gpu)
    (d : Driver) :
    (createGraphicsPipeline rd ctx g d).2.1.swapchainIndependent = rd.swapchainIndependent ∧
    (createGraphicsPipeline rd ctx g d).2.1.m_models = rd.m_models := by
  simp only [createGraphicsPipeline]
  repeat' split
  all_goals exact ⟨rfl, rfl⟩

theorem createFramebuffers_independent (rd : Renderer) (ctx : VulkanContext) (g : Gpu)
    (d : Driver) :
    (createFramebuffers rd ctx g d).2.1.swapchainIndependent = rd.swapchainIndependent ∧
    (createFramebuffers rd ctx g d).2.1.m_models = rd.m_models := by
  simp only [createFramebuffers]
  exact ⟨rfl, trivial⟩

theorem buildCommandBuffers_independent (rd : Renderer) (ctx : VulkanContext) (g : Gpu)
    (d : Driver) (models : List Model) :
    (buildCommandBuffers rd ctx g d models).2.1.swapchainIndependent =
      rd.swapchainIndependent := by
  simp only [buildCommandBuffers]
  rfl

theorem Renderer.recreateSwapChain_independent (rd : Renderer) (ctx : VulkanContext) (g : Gpu)
    (d : Driver) (w h : Nat) :
    (rd.recreateSwapChain ctx g d w h).2.2.1.swapchainIndependent = ctx.swapchainIndependent ∧
    (rd.recreateSwapChain ctx g d w h).2.1.swapchainIndependent = rd.swapchainIndependent := by
  simp only [Renderer.recreateSwapChain]
  split
  · exact ⟨VulkanContext.rebuild_independent _ _ _ _ _, rfl⟩
  · refine ⟨VulkanContext.rebuild_independent _ _ _ _ _, ?_⟩
    simp only [buildCommandBuffers_independent, createFramebuffers_independent,
      createGraphicsPipeline_independent, createPipelineLayout_independent,
      createRenderPass_independent]
    rfl

/-! ### The frame-sync slot index -/

theorem createSyncObjects_lengths (ctx ctx1 : VulkanContext) (g g1 : Gpu)
    (results : Nat → VkResult × VkResult × VkResult)
    (hia : ctx.m_image_available_semaphores = [])
    (hrf : ctx.m_render_finished_semaphores = [])
    (hf : ctx.m_in_flight_fences = [])
    (h : createSyncObjects ctx g results = (true, ctx1, g1)) :
    ctx1.m_image_available_semaphores.length = MAX_FRAMES_IN_FLIGHT ∧
    ctx1.m_render_finished_semaphores.length = MAX_FRAMES_IN_FLIGHT ∧
    ctx1.m_in_flight_fences.length = MAX_FRAMES_IN_FLIGHT ∧
    ctx1.m_current_frame = ctx.m_current_frame := by
  simp only [createSyncObjects, createSyncObjects_loop, Gpu.call] at h
  repeat' split at h
  all_goals try (simp only [Prod.mk.injEq, Bool.false_eq_true, false_and] at h)
  simp only [Prod.mk.injEq, true_and] at h
  obtain ⟨rfl, rfl⟩ := h
  simp [hia, hrf, hf]

theorem beginFrame_independent (ctx ctx1 : VulkanContext) (g g1 : Gpu) (r : FrameResults)
    (success : Bool) (h : beginFrame ctx g r = some (success, ctx1, g1)) :
    ctx1.swapchainIndependent = ctx.swapchainIndependent := by
  simp only [beginFrame] at h
  split at h
  · exact absurd h (by simp)
  · simp only [Option.some.injEq, Prod.mk.injEq] at h
    rw [← h.2.1]
    rfl

theorem drawFrame_slot (rd : Renderer) (ctx ctx1 : VulkanContext) (g g1 : Gpu)
    (r : FrameResults) (ubo : List Byte) (success : Bool)
    (h : drawFrame rd ctx g r ubo = some (success, ctx1, g1)) :
    ctx1.m_image_available_semaphores = ctx.m_image_available_semaphores ∧
    ctx1.m_render_finished_semaphores = ctx.m_render_finished_semaphores ∧
    ctx1.m_in_flight_fences = ctx.m_in_flight_fences ∧
    ctx1.m_command_pool = ctx.m_command_pool ∧
    (ctx1.m_current_frame = ctx.m_current_frame ∨
      ctx1.m_current_frame = (ctx.m_current_frame + 1) % MAX_FRAMES_IN_FLIGHT) := by
  simp only [drawFrame] at h
  cases hb : beginFrame ctx g r with
  | none => rw [hb] at h; exact absurd h (by simp)
  | some res =>
    obtain ⟨ok, ctx2, g2⟩ := res
    have hind := beginFrame_independent ctx ctx2 g g2 r ok hb
    simp only [VulkanContext.swapchainIndependent, Prod.mk.injEq] at hind
    obtain ⟨h1, h2, h3, h4, h5⟩ := hind
    rw [hb] at h
    simp only at h
    cases ok with
    | false =>
      simp only [Bool.not_false, if_true, Option.some.injEq, Prod.mk.injEq] at h
      rw [← h.2.1]
      exact ⟨h1, h2, h3, h4, Or.inl h5⟩
    | true =>
      simp only [Bool.not_true, Bool.false_eq_true, if_false, endFrame] at h
      split at h <;>
        (simp only [Option.some.injEq, Prod.mk.injEq] at h
         rw [← h.2.1]
         exact ⟨h1, h2, h3, h4, Or.inr (by simp [h5])⟩)

/-- C15: for every present result, `endFrame` leaves the slot index at
(previous index + 1) mod `MAX_FRAMES_IN_FLIGHT` = 2. Consequently, starting
from a context as the constructor leaves it (slot index 0, no sync object) on
which `createSyncObjects` succeeds, in every state reached afterwards by the
remaining stages of `init`, by frames (whole or step by step, whatever the
driver answers) and by rebuilds of the swapchain, the slot index is 0 or 1 and
the three sync-object arrays have length 2, so the reads of the three arrays
at the slot index are in bounds. -/
theorem endFrame_slot_index (ctx0 start : VulkanContext) (g0 g1 : Gpu)
    (results : Nat → VkResult × VkResult × VkResult)
    (hslot : ctx0.m_current_frame = 0)
    (hia : ctx0.m_image_available_semaphores = [])
    (hrf : ctx0.m_render_finished_semaphores = [])
    (hf : ctx0.m_in_flight_fences = [])
    (hsync : createSyncObjects ctx0 g0 results = (true, start, g1)) :
    (∀ (ctx : VulkanContext) (g : Gpu) (r : FrameResults),
      (endFrame ctx g r).2.1.m_current_frame =
        (ctx.m_current_frame + 1) % MAX_FRAMES_IN_FLIGHT) ∧
    ∀ ctx : VulkanContext, ReachableFrom start ctx →
      (ctx.m_current_frame = 0 ∨ ctx.m_current_frame = 1) ∧
      ctx.m_image_available_semaphores.length = 2 ∧
      ctx.m_render_finished_semaphores.length = 2 ∧
      ctx.m_in_flight_fences.length = 2 ∧
      ctx.m_current_frame < ctx.m_image_available_semaphores.length ∧
      ctx.m_current_frame < ctx.m_render_finished_semaphores.length ∧
      ctx.m_current_frame < ctx.m_in_flight_fences.length := by
  refine ⟨fun ctx g r => rfl, ?_⟩
  have hstart := createSyncObjects_lengths ctx0 start g0 g1 results hia hrf hf hsync
  have hinv : ∀ ctx : VulkanContext, ReachableFrom start ctx →
      ctx.m_current_frame < 2 ∧
      ctx.m_image_available_semaphores.length = 2 ∧
      ctx.m_render_finished_semaphores.length = 2 ∧
      ctx.m_in_flight_fences.length = 2 := by
    have hkeep : ∀ ctx ctx1 : VulkanContext,
        ctx1.swapchainIndependent = ctx.swapchainIndependent →
        (ctx.m_current_frame < 2 ∧
          ctx.m_image_available_semaphores.length = 2 ∧
          ctx.m_render_finished_semaphores.length = 2 ∧
          ctx.m_in_flight_fences.length = 2) →
        (ctx1.m_current_frame < 2 ∧
          ctx1.m_image_available_semaphores.length = 2 ∧
          ctx1.m_render_finished_semaphores.length = 2 ∧
          ctx1.m_in_flight_fences.length = 2) := by
      intro ctx ctx1 hind hctx
      simp only [VulkanContext.swapchainIndependent, Prod.mk.injEq] at hind
      obtain ⟨h1, h2, h3, -, h5⟩ := hind
      rw [h1, h2, h3, h5]
      exact hctx
    intro ctx hreach
    induction hreach with
    | start =>
      refine ⟨?_, hstart.1, hstart.2.1, hstart.2.2.1⟩
      rw [hstart.2.2.2, hslot]
      decide
    | createCommandBuffers g d _ ih =>
      exact hkeep _ _ (createCommandBuffers_independent _ g d) ih
    | createDepthBuffer g d _ ih =>
      exact hkeep _ _ (createDepthBuffer_independent _ g d) ih
    | beginFrame g g2 r success _ hb ih =>
      exact hkeep _ _ (beginFrame_independent _ _ g g2 r success hb) ih
    | endFrame g r _ ih =>
      refine ⟨?_, ih.2.1, ih.2.2.1, ih.2.2.2⟩
      exact Nat.mod_lt _ (by decide)
    | drawFrame rd g g2 r ubo success _ hd ih =>
      obtain ⟨h1, h2, h3, -, h5⟩ := drawFrame_slot rd _ _ g g2 r ubo success hd
      rw [h1, h2, h3]
      refine ⟨?_, ih.2.1, ih.2.2.1, ih.2.2.2⟩
      rcases h5 with h5 | h5
      · rw [h5]; exact ih.1
      · rw [h5]; exact Nat.mod_lt _ (by decide)
    | recreateSwapChain g d w h _ ih =>
      exact hkeep _ _ (VulkanContext.rebuild_independent _ g d w h) ih
    | rendererRecreateSwapChain rd g d w h _ ih =>
      exact hkeep _ _ (Renderer.recreateSwapChain_independent rd _ g d w h).1 ih
  intro ctx hreach
  obtain ⟨h0, h1, h2, h3⟩ := hinv ctx hreach
  refine ⟨by omega, h1, h2, h3, by omega, by omega, by omega⟩

theorem endFrame_slot_index_witness :
    ((VulkanContext.new 800 600).m_current_frame = 0 ∧
      (VulkanContext.new 800 600).m_image_available_semaphores = [] ∧
      (VulkanContext.new 800 600).m_render_finished_semaphores = [] ∧
      (VulkanContext.new 800 600).m_in_flight_fences = [] ∧
      createSyncObjects (VulkanContext.new 800 600) Gpu.fresh syncResultsOk =
        (true, (createSyncObjects (VulkanContext.new 800 600) Gpu.fresh syncResultsOk).2.1,
          readyGpu)) ∧
    (endFrame (endFrame (createSyncObjects (VulkanContext.new 800 600) Gpu.fresh
        syncResultsOk).2.1 readyGpu (FrameResults.ok 0)).2.1 readyGpu
      (FrameResults.suboptimalPresent 1)).2.1.m_current_frame <
      (endFrame (endFrame (createSyncObjects (VulkanContext.new 800 600) Gpu.fresh
        syncResultsOk).2.1 readyGpu (FrameResults.ok 0)).2.1 readyGpu
      (FrameResults.suboptimalPresent 1)).2.1.m_in_flight_fences.length :=
  ⟨⟨rfl, rfl, rfl, rfl, by decide⟩,
    ((endFrame_slot_index (VulkanContext.new 800 600)
      (createSyncObjects (VulkanContext.new 800 600) Gpu.fresh syncResultsOk).2.1
      Gpu.fresh readyGpu syncResultsOk rfl rfl rfl rfl (by decide)).2 _
      (ReachableFrom.endFrame readyGpu (FrameResults.suboptimalPresent 1)
        (ReachableFrom.endFrame readyGpu (FrameResults.ok 0) ReachableFrom.start))).2.2.2.2.2.2⟩

/-! ### The objects of one frame -/

theorem vkWaitForFences_log (g gw : Gpu) (fence : Handle)
    (h : vkWaitForFences g fence = some gw) :
    gw.log = g.log ++ [.vkWaitForFences fence] := by
  simp only [vkWaitForFences, Gpu.call] at h
  split at h
  · simp only [Option.some.injEq] at h
    rw [← h]
  · split at h
    · simp only [Option.some.injEq] at h
      rw [← h]
      simp only [Gpu.complete]
      split <;> rfl
    · exact absurd h (by simp)

theorem beginFrame_log (ctx ctx1 : VulkanContext) (g g1 : Gpu) (r : FrameResults)
    (success : Bool) (h : beginFrame ctx g r = some (success, ctx1, g1)) :
    ctx1 = { ctx with m_image_index := r.imageIndex } ∧
    g1.log = g.log ++
      [ .vkWaitForFences (ctx.m_in_flight_fences.getD ctx.m_current_frame VK_NULL_HANDLE),
        .vkResetFences (ctx.m_in_flight_fences.getD ctx.m_current_frame VK_NULL_HANDLE),
        .vkAcquireNextImageKHR ctx.m_swap_chain
          (ctx.m_image_available_semaphores.getD ctx.m_current_frame VK_NULL_HANDLE) ] := by
  simp only [beginFrame] at h
  cases hw : vkWaitForFences g (ctx.m_in_flight_fences.getD ctx.m_current_frame
      VK_NULL_HANDLE) with
  | none => rw [hw] at h; exact absurd h (by simp)
  | some gw =>
    have hlog := vkWaitForFences_log g gw _ hw
    rw [hw] at h
    simp only [Option.some.injEq, Prod.mk.injEq] at h
    refine ⟨h.2.1.symm, ?_⟩
    rw [← h.2.2]
    simp [Gpu.call, hlog]

/-- C16: in a frame in which `beginFrame` returns true, with `slot` the value
of `m_current_frame` on entry to `beginFrame`, the calls of `drawFrame` are, in
order: the wait on and the reset of the fence of `slot`, the acquisition with
the image-available semaphore of `slot`, the write of the uniform buffer, the
submission that waits on the image-available semaphore of `slot`, signals the
render-finished semaphore of `slot` and the fence of `slot`, and the
presentation that waits on the render-finished semaphore of `slot`. The
command buffer submitted is the one at the acquired image index; when the
command buffers are distinct and the acquired index differs from `slot` (both
in range) it is not the command buffer at `slot`. -/
theorem drawFrame_slot_objects (rd : Renderer) (ctx ctx1 : VulkanContext) (g g1 : Gpu)
    (r : FrameResults) (ubo : List Byte)
    (h : beginFrame ctx g r = some (true, ctx1, g1)) :
    (∃ ok ctx2 g2, drawFrame rd ctx g r ubo = some (ok, ctx2, g2) ∧
      g2.callsSince g =
        [ .vkWaitForFences (ctx.m_in_flight_fences.getD ctx.m_current_frame VK_NULL_HANDLE),
          .vkResetFences (ctx.m_in_flight_fences.getD ctx.m_current_frame VK_NULL_HANDLE),
          .vkAcquireNextImageKHR ctx.m_swap_chain
            (ctx.m_image_available_semaphores.getD ctx.m_current_frame VK_NULL_HANDLE),
          .vkMapMemory (rd.m_uniform_buffers_memory.getD r.imageIndex VK_NULL_HANDLE)
            sizeof_UniformBufferObject,
          .memcpy (rd.m_uniform_buffers_memory.getD r.imageIndex VK_NULL_HANDLE)
            sizeof_UniformBufferObject,
          .vkUnmapMemory (rd.m_uniform_buffers_memory.getD r.imageIndex VK_NULL_HANDLE),
          .vkQueueSubmit (ctx.m_command_buffers.getD r.imageIndex VK_NULL_HANDLE)
            (ctx.m_image_available_semaphores.getD ctx.m_current_frame VK_NULL_HANDLE)
            VK_PIPELINE_STAGE_COLOR_ATTACHMENT_OUTPUT_BIT
            (ctx.m_render_finished_semaphores.getD ctx.m_current_frame VK_NULL_HANDLE)
            (ctx.m_in_flight_fences.getD ctx.m_current_frame VK_NULL_HANDLE),
          .vkQueuePresentKHR ctx.m_swap_chain
            (ctx.m_render_finished_semaphores.getD ctx.m_current_frame VK_NULL_HANDLE)
            r.imageIndex ]) ∧
    (ctx.m_command_buffers.Nodup → r.imageIndex < ctx.m_command_buffers.length →
      ctx.m_current_frame < ctx.m_command_buffers.length →
      r.imageIndex ≠ ctx.m_current_frame →
      ctx.m_command_buffers.getD r.imageIndex VK_NULL_HANDLE ≠
        ctx.m_command_buffers.getD ctx.m_current_frame VK_NULL_HANDLE) := by
  constructor
  · obtain ⟨hctx, hlog⟩ := beginFrame_log ctx ctx1 g g1 r true h
    subst hctx
    simp only [drawFrame, h, Bool.not_true, Bool.false_eq_true, if_false]
    simp only [endFrame, submitCommandBuffer, updateUniformBuffer, mapAndCopy, getImageIndex]
    split <;> split <;>
      (simp only [Gpu.callsSince, Gpu.call, Gpu.writeMemory, Option.some.injEq, Prod.mk.injEq,
        exists_and_left, exists_eq_left']
       exact ⟨_, _, _, ⟨rfl, rfl, rfl⟩, by simp [hlog]⟩)
  · intro hnodup hi hc hne heq
    rw [List.getD_eq_getElem _ _ hi, List.getD_eq_getElem _ _ hc] at heq
    exact hne ((List.Nodup.getElem_inj_iff hnodup).mp heq)

/-- A frame drawn in slot 1 that acquires image 0: fence 6 and the semaphores
4 and 5 of slot 1 are used, and command buffer 100 of image 0 is submitted,
not command buffer 101. -/
theorem drawFrame_slot_objects_witness :
    beginFrame { readyContext with m_current_frame := 1 } readyGpu (FrameResults.ok 0) =
      some (true, { readyContext with m_current_frame := 1, m_image_index := 0 },
        ((beginFrame { readyContext with m_current_frame := 1 } readyGpu
          (FrameResults.ok 0)).getD (false, readyContext, readyGpu)).2.2) ∧
    ∃ ok ctx2 g2, drawFrame Renderer.example { readyContext with m_current_frame := 1 }
        readyGpu (FrameResults.ok 0) [] = some (ok, ctx2, g2) ∧
      g2.callsSince readyGpu =
        [ .vkWaitForFences 6,
          .vkResetFences 6,
          .vkAcquireNextImageKHR VK_NULL_HANDLE 4,
          .vkMapMemory 201 sizeof_UniformBufferObject,
          .memcpy 201 sizeof_UniformBufferObject,
          .vkUnmapMemory 201,
          .vkQueueSubmit 100 4 VK_PIPELINE_STAGE_COLOR_ATTACHMENT_OUTPUT_BIT 5 6,
          .vkQueuePresentKHR VK_NULL_HANDLE 5 0 ] :=
  ⟨by decide,
    (drawFrame_slot_objects Renderer.example { readyContext with m_current_frame := 1 }
      { readyContext with m_current_frame := 1, m_image_index := 0 } readyGpu
      ((beginFrame { readyContext with m_current_frame := 1 } readyGpu
        (FrameResults.ok 0)).getD (false, readyContext, readyGpu)).2.2
      (FrameResults.ok 0) [] (by decide)).1⟩

/-! ### Failures during a rebuild -/

/-- C18, the code at the failing input: `Renderer::recreateSwapChain` returns
what the rebuild of the context returns, whatever the creation of the render
pass, of the pipeline layout, of the pipeline (shader files and modules included), of
the framebuffers and the re-recording of the command buffers answer. On the
nominal driver with a failing `vkCreateRenderPass` the rebuild to 640 x 480
returns true although `createRenderPass` returned false and the renderer is
left without a render pass. -/
theorem recreateSwapChain_discards_failures :
    (∀ (rd : Renderer) (ctx : VulkanContext) (g : Gpu) (d : Driver) (w h : Nat)
        (renderPass layout pipeline : VkResult) (loadFile : String → Bool)
        (shaderModule : String → VkResult) (framebuffer beginBuffer endBuffer : Nat → VkResult),
      (rd.recreateSwapChain ctx g
        { d with vkCreateRenderPass := renderPass, vkCreatePipelineLayout := layout,
                 loadFile := loadFile, vkCreateShaderModule := shaderModule,
                 vkCreateGraphicsPipelines := pipeline, vkCreateFramebuffer := framebuffer,
                 vkBeginCommandBuffer := beginBuffer, vkEndCommandBuffer := endBuffer } w h).1 =
        (rd.recreateSwapChain ctx g d w h).1) ∧
    (Renderer.new.recreateSwapChain (VulkanContext.onSurface Driver.nominal) Gpu.fresh
      Driver.renderPassFails 640 480).1 = true ∧
    (createRenderPass Renderer.new
      (Renderer.new.recreateSwapChain (VulkanContext.onSurface Driver.nominal) Gpu.fresh
        Driver.renderPassFails 640 480).2.2.1 Gpu.fresh Driver.renderPassFails).1 = false ∧
    (Renderer.new.recreateSwapChain (VulkanContext.onSurface Driver.nominal) Gpu.fresh
      Driver.renderPassFails 640 480).2.1.m_render_pass = VK_NULL_HANDLE := by
  refine ⟨?_, ?_, ?_, ?_⟩
  · intro rd ctx g d w h renderPass layout pipeline loadFile shaderModule framebuffer
      beginBuffer endBuffer
    rw [(Renderer.recreateSwapChain_shape rd ctx g _ w h).1,
      (Renderer.recreateSwapChain_shape rd ctx g d w h).1]
    simp only [rebuiltShape, depthBufferOk]
    split_ifs <;> rfl
  · rw [(Renderer.recreateSwapChain_shape _ _ _ _ _ _).1]
    decide
  · simp [createRenderPass, Driver.renderPassFails]
  · decide

/-! ### Calls made by a rebuild -/

theorem Gpu.since.refl (P : Call → Bool) (g : Gpu) : Gpu.since P g g :=
  ⟨[], by simp, by simp⟩

theorem Gpu.since.mk {P : Call → Bool} {g0 g : Gpu} (h : Gpu.since P g0 g)
    (next : Handle) (recorded : List (Handle × Cmd)) (bufferSize : List (Handle × Nat))
    (bufferMemory : List (Handle × Handle)) (memory : List (Handle × List Byte))
    (signalled : List Handle) (pending : List (Handle × Handle)) :
    Gpu.since P g0 ⟨next, g.log, recorded, bufferSize, bufferMemory, memory, signalled,
      pending⟩ := h

theorem Gpu.since.call {P : Call → Bool} {g0 g : Gpu} {c : Call} (h : Gpu.since P g0 g)
    (hc : P c = true) : Gpu.since P g0 (g.call c) := by
  obtain ⟨calls, hlog, hall⟩ := h
  refine ⟨calls ++ [c], by simp [Gpu.call, hlog], ?_⟩
  intro c1 hc1
  rcases List.mem_append.mp hc1 with h1 | h1
  · exact hall c1 h1
  · simp only [List.mem_singleton] at h1
    exact h1 ▸ hc

theorem Gpu.since.callsSince {P : Call → Bool} {g0 g : Gpu} (h : Gpu.since P g0 g) :
    ∀ c ∈ g.callsSince g0, P c = true := by
  obtain ⟨calls, hlog, hall⟩ := h
  simpa [Gpu.callsSince, hlog] using hall

theorem waitIdle_since {P : Call → Bool} {g0 g : Gpu} (hP : P .vkDeviceWaitIdle = true)
    (h : Gpu.since P g0 g) : Gpu.since P g0 (waitIdle g) := by
  simp only [waitIdle]
  exact Gpu.since.mk (Gpu.since.call h hP) _ _ _ _ _ _ _

theorem createImage_since {m : Option Handle} {g0 g : Gpu} (memoryTypes : List Nat)
    (img : VulkanImage) (r : CreateImageResults) (usage : Nat)
    (h : Gpu.since (Call.rebuildMay m) g0 g) :
    Gpu.since (Call.rebuildMay m) g0 (createImage memoryTypes img g r usage).2.2 := by
  simp only [createImage]
  repeat' split
  all_goals
    repeat (first
      | exact h
      | refine Gpu.since.mk ?_ _ _ _ _ _ _ _
      | refine Gpu.since.call ?_ rfl)

theorem Gpu.since.log_eq {P : Call → Bool} {g0 g g1 : Gpu} (h : Gpu.since P g0 g)
    (hlog : g1.log = g.log) : Gpu.since P g0 g1 := by
  obtain ⟨calls, hl, hall⟩ := h
  exact ⟨calls, by rw [hlog, hl], hall⟩

theorem Gpu.since.record {P : Call → Bool} {g0 g : Gpu} {command_buffer : Handle} {cmd : Cmd}
    (h : Gpu.since P g0 g) (hc : P (.vkCmd command_buffer cmd) = true) :
    Gpu.since P g0 (g.record command_buffer cmd) :=
  Gpu.since.mk (Gpu.since.call h hc) _ _ _ _ _ _ _

theorem Gpu.since.foldl_call {P : Call → Bool} {g0 : Gpu} {α : Type} (f : α → Call)
    (hP : ∀ a, P (f a) = true) (l : List α) :
    ∀ g : Gpu, Gpu.since P g0 g → Gpu.since P g0 (l.foldl (fun g a => g.call (f a)) g) := by
  induction l with
  | nil => intro g h; exact h
  | cons a rest ih => intro g h; exact ih _ (Gpu.since.call h (hP a))

theorem VulkanImage.delete_since {m : Option Handle} {g0 g : Gpu} (img : VulkanImage)
    (hm : m = some img.m_image_memory) (h : Gpu.since (Call.rebuildMay m) g0 g) :
    Gpu.since (Call.rebuildMay m) g0 (img.delete g) := by
  have hfree : Call.rebuildMay m (.vkFreeMemory img.m_image_memory) = true := by
    simp [Call.rebuildMay, hm]
  simp only [VulkanImage.delete]
  repeat' split
  all_goals
    repeat (first
      | exact h
      | refine Gpu.since.call ?_ hfree
      | refine Gpu.since.call ?_ rfl)

theorem createImageView_since {m : Option Handle} {g0 g : Gpu} (img : VulkanImage)
    (result : VkResult) (aspect_flags : Nat) (h : Gpu.since (Call.rebuildMay m) g0 g) :
    Gpu.since (Call.rebuildMay m) g0 (createImageView img g result aspect_flags).2.2 := by
  simp only [createImageView]
  repeat' split
  all_goals
    repeat (first
      | exact h
      | refine Gpu.since.mk ?_ _ _ _ _ _ _ _
      | refine Gpu.since.call ?_ rfl)

theorem oneShot_since {P : Call → Bool} {g0 g : Gpu} (r : OneShotResults) (cmd : Cmd)
    (hP : ∀ c : Call, c.isCommand = true → P c = true) (h : Gpu.since P g0 g) :
    Gpu.since P g0 (endSingleTimeCommands ((beginSingleTimeCommands g r).2.record
      (beginSingleTimeCommands g r).1 cmd) r (beginSingleTimeCommands g r).1) := by
  have hb : Gpu.since P g0 (beginSingleTimeCommands g r).2 := by
    simp only [beginSingleTimeCommands]
    exact Gpu.since.call (Gpu.since.mk (Gpu.since.call (Gpu.since.mk h _ _ _ _ _ _ _)
      (hP _ (by rfl))) _ _ _ _ _ _ _) (hP _ (by rfl))
  have hr : Gpu.since P g0 ((beginSingleTimeCommands g r).2.record
      (beginSingleTimeCommands g r).1 cmd) := Gpu.since.record hb (hP _ (by rfl))
  generalize (beginSingleTimeCommands g r).2.record (beginSingleTimeCommands g r).1 cmd = g1
    at hr ⊢
  generalize (beginSingleTimeCommands g r).1 = cb
  simp only [endSingleTimeCommands]
  refine Gpu.since.mk ?_ _ _ _ _ _ _ _
  refine Gpu.since.call ?_ (hP _ (by rfl))
  have h3 := Gpu.since.call (Gpu.since.call (Gpu.since.call hr (hP (.vkEndCommandBuffer cb) rfl))
    (hP (.vkQueueSubmit cb VK_NULL_HANDLE 0 VK_NULL_HANDLE VK_NULL_HANDLE) rfl))
    (hP .vkQueueWaitIdle rfl)
  split
  · exact Gpu.since.log_eq h3 (foldl_execute_log _ _)
  · exact h3

theorem Call.rebuildMay_of_isCommand (m : Option Handle) (c : Call)
    (h : c.isCommand = true) : Call.rebuildMay m c = true := by
  cases c <;> first | rfl | exact absurd h (by simp [Call.isCommand])

theorem transitionImageLayout_since {P : Call → Bool} {g0 g : Gpu} (img : VulkanImage)
    (r : OneShotResults) (old_layout new_layout : VkImageLayout)
    (hP : ∀ c : Call, c.isCommand = true → P c = true) (h : Gpu.since P g0 g) :
    Gpu.since P g0 (transitionImageLayout img g r old_layout new_layout) := by
  simp only [transitionImageLayout]
  repeat' split
  all_goals first | exact h | exact oneShot_since r _ hP h

theorem updateSurfaceInformation_since {m : Option Handle} {g0 g : Gpu} (ctx : VulkanContext)
    (d : Driver) (h : Gpu.since (Call.rebuildMay m) g0 g) :
    Gpu.since (Call.rebuildMay m) g0 (updateSurfaceInformation ctx g d).2.2 := by
  simp only [updateSurfaceInformation]
  repeat' split
  all_goals exact Gpu.since.call h (by rfl)

theorem createSwapChain_view_loop_since {m : Option Handle} {g0 : Gpu} (d : Driver)
    (format : VkFormat) (images : List Handle) :
    ∀ (i : Nat) (views : List Handle) (g : Gpu), Gpu.since (Call.rebuildMay m) g0 g →
      Gpu.since (Call.rebuildMay m) g0 (createSwapChain_view_loop d format i images views g).2.2 := by
  induction images with
  | nil => intro i views g h; exact h
  | cons image rest ih =>
    intro i views g h
    simp only [createSwapChain_view_loop]
    split
    · exact Gpu.since.call h (by rfl)
    · exact ih _ _ _ (Gpu.since.mk (Gpu.since.call h (by rfl)) _ _ _ _ _ _ _)

theorem createSwapChain_since {m : Option Handle} {g0 g : Gpu} (ctx : VulkanContext)
    (d : Driver) (h : Gpu.since (Call.rebuildMay m) g0 g) :
    Gpu.since (Call.rebuildMay m) g0 (createSwapChain ctx g d).2.2 := by
  simp only [createSwapChain]
  split
  · exact Gpu.since.call h (by rfl)
  · refine createSwapChain_view_loop_since d _ _ _ _ _ ?_
    exact Gpu.since.mk (Gpu.since.call (Gpu.since.mk (Gpu.since.call h (by rfl)) _ _ _ _ _ _ _) (by rfl))
      _ _ _ _ _ _ _

theorem createCommandBuffers_since {m : Option Handle} {g0 g : Gpu} (ctx : VulkanContext)
    (d : Driver) (h : Gpu.since (Call.rebuildMay m) g0 g) :
    Gpu.since (Call.rebuildMay m) g0 (createCommandBuffers ctx g d).2.2 := by
  simp only [createCommandBuffers]
  split
  · exact Gpu.since.call h (by rfl)
  · exact Gpu.since.mk (Gpu.since.call h (by rfl)) _ _ _ _ _ _ _

theorem createDepthBuffer_since {m : Option Handle} {g0 g : Gpu} (ctx : VulkanContext)
    (d : Driver) (h : Gpu.since (Call.rebuildMay m) g0 g) :
    Gpu.since (Call.rebuildMay m) g0 (createDepthBuffer ctx g d).2.2 := by
  simp only [createDepthBuffer]
  have h1 := fun img => createImage_since d.memoryTypes img d.depthImage
    VK_IMAGE_USAGE_DEPTH_STENCIL_ATTACHMENT_BIT h
  split
  · exact h
  · split
    · exact h1 _
    · have h2 := fun img => createImageView_since img d.depthImageView
        VK_IMAGE_ASPECT_DEPTH_BIT (h1 (VulkanImage.new
          (createDepthBuffer_depth_format d.optimalTilingFeatures)
          ctx.m_swap_chain_extent.width ctx.m_swap_chain_extent.height))
      split
      · exact h2 _
      · exact transitionImageLayout_since _ _ _ _ (Call.rebuildMay_of_isCommand m) (h2 _)

theorem VulkanContext.rebuild_since {g0 g : Gpu} (ctx : VulkanContext) (d : Driver)
    (w h : Nat)
    (hg : Gpu.since (Call.rebuildMay (ctx.m_depth_image.map VulkanImage.m_image_memory)) g0 g) :
    Gpu.since (Call.rebuildMay (ctx.m_depth_image.map VulkanImage.m_image_memory)) g0
      (ctx.recreateSwapChain g d w h).2.2 := by
  simp only [VulkanContext.recreateSwapChain]
  have h0 : Gpu.since (Call.rebuildMay (ctx.m_depth_image.map VulkanImage.m_image_memory)) g0
      (match ctx.m_depth_image with
        | some img => img.delete g
        | none => g) := by
    cases hd : ctx.m_depth_image with
    | none => rw [hd] at hg; exact hg
    | some img =>
      rw [hd] at hg
      exact VulkanImage.delete_since img rfl hg
  have h1 := Gpu.since.call
    (Gpu.since.foldl_call (fun v => Call.vkDestroyImageView v) (fun _ => rfl)
      ctx.m_swap_chain_image_views _
      (Gpu.since.call h0 (c := .vkFreeCommandBuffers ctx.m_command_buffers) (by rfl)))
    (c := .vkDestroySwapchainKHR ctx.m_swap_chain) (by rfl)
  have h2 := fun c => updateSurfaceInformation_since c d h1
  split
  · exact h2 _
  · have h3 := fun c1 c => createSwapChain_since c d (h2 c1)
    split
    · exact h3 _ _
    · have h4 := fun c1 c2 c => createCommandBuffers_since c d (h3 c1 c2)
      split
      · exact h4 _ _ _
      · have h5 := fun c1 c2 c3 c => createDepthBuffer_since c d (h4 c1 c2 c3)
        split
        · exact h5 _ _ _ _
        · exact h5 _ _ _ _

theorem createRenderPass_since {m : Option Handle} {g0 g : Gpu} (rd : Renderer)
    (ctx : VulkanContext) (d : Driver) (h : Gpu.since (Call.rebuildMay m) g0 g) :
    Gpu.since (Call.rebuildMay m) g0 (createRenderPass rd ctx g d).2.2 := by
  simp only [createRenderPass]
  split
  · exact Gpu.since.mk (Gpu.since.call h (by rfl)) _ _ _ _ _ _ _
  · exact Gpu.since.call h (by rfl)

theorem createPipelineLayout_since {m : Option Handle} {g0 g : Gpu} (rd : Renderer)
    (d : Driver) (h : Gpu.since (Call.rebuildMay m) g0 g) :
    Gpu.since (Call.rebuildMay m) g0 (createPipelineLayout rd g d).2.2 := by
  simp only [createPipelineLayout]
  split
  · exact Gpu.since.mk (Gpu.since.call h (by rfl)) _ _ _ _ _ _ _
  · exact Gpu.since.call h (by rfl)

theorem createShaderModule_since {m : Option Handle} {g0 g : Gpu} (d : Driver)
    (filename : String) (h : Gpu.since (Call.rebuildMay m) g0 g) :
    Gpu.since (Call.rebuildMay m) g0 (createShaderModule g d filename).2.2 := by
  simp only [createShaderModule]
  repeat' split
  all_goals
    repeat (first
      | exact h
      | refine Gpu.since.mk ?_ _ _ _ _ _ _ _
      | refine Gpu.since.call ?_ rfl)

theorem createGraphicsPipeline_since {m : Option Handle} {g0 g : Gpu} (rd : Renderer)
    (ctx : VulkanContext) (d : Driver) (h : Gpu.since (Call.rebuildMay m) g0 g) :
    Gpu.since (Call.rebuildMay m) g0 (createGraphicsPipeline rd ctx g d).2.2 := by
  simp only [createGraphicsPipeline]
  have h1 := createShaderModule_since d "draw_vert.spv" h
  have h2 := createShaderModule_since d "draw_frag.spv" h1
  repeat' split
  all_goals
    repeat (first
      | exact h1
      | exact h2
      | refine Gpu.since.mk ?_ _ _ _ _ _ _ _
      | refine Gpu.since.call ?_ rfl)

theorem createFramebuffers_loop_since {m : Option Handle} {g0 : Gpu} (d : Driver)
    (m_render_pass depth_view : Handle) (extent : VkExtent2D) (views : List Handle) :
    ∀ (i : Nat) (framebuffers : List Handle) (g : Gpu), Gpu.since (Call.rebuildMay m) g0 g →
      Gpu.since (Call.rebuildMay m) g0
        (createFramebuffers_loop d m_render_pass depth_view extent i views framebuffers g).2.2 := by
  induction views with
  | nil => intro i framebuffers g h; exact h
  | cons view rest ih =>
    intro i framebuffers g h
    simp only [createFramebuffers_loop]
    split
    · exact Gpu.since.call h (by rfl)
    · exact ih _ _ _ (Gpu.since.mk (Gpu.since.call h (by rfl)) _ _ _ _ _ _ _)

theorem createFramebuffers_since {m : Option Handle} {g0 g : Gpu} (rd : Renderer)
    (ctx : VulkanContext) (d : Driver) (h : Gpu.since (Call.rebuildMay m) g0 g) :
    Gpu.since (Call.rebuildMay m) g0 (createFramebuffers rd ctx g d).2.2 := by
  simp only [createFramebuffers]
  exact createFramebuffers_loop_since d _ _ _ _ _ _ _ h

theorem buildCommandBuffers_models_since {P : Call → Bool} {g0 : Gpu} (rd : Renderer)
    (command_buffer : Handle) (i : Nat)
    (hP : ∀ c : Call, c.isCommand = true → P c = true) (models : List Model) :
    ∀ g : Gpu, Gpu.since P g0 g →
      Gpu.since P g0 (buildCommandBuffers_models rd command_buffer i models g) := by
  induction models with
  | nil => intro g h; exact h
  | cons model rest ih =>
    intro g h
    simp only [buildCommandBuffers_models]
    exact ih _ (Gpu.since.record (Gpu.since.record (Gpu.since.record (Gpu.since.record h
      (hP _ (by rfl))) (hP _ (by rfl))) (hP _ (by rfl))) (hP _ (by rfl)))

theorem buildCommandBuffers_loop_since {P : Call → Bool} {g0 : Gpu} (rd : Renderer)
    (ctx : VulkanContext) (d : Driver)
    (hP : ∀ c : Call, c.isCommand = true → P c = true) (command_buffers : List Handle) :
    ∀ (i : Nat) (g : Gpu), Gpu.since P g0 g →
      Gpu.since P g0 (buildCommandBuffers_loop rd ctx d i command_buffers g).2 := by
  induction command_buffers with
  | nil => intro i g h; exact h
  | cons command_buffer rest ih =>
    intro i g h
    simp only [buildCommandBuffers_loop]
    have h1 : Gpu.since P g0 { g.call (.vkBeginCommandBuffer command_buffer
        VK_COMMAND_BUFFER_USAGE_SIMULTANEOUS_USE_BIT) with
        recorded := g.recorded.filter (fun p => p.1 ≠ command_buffer) } :=
      Gpu.since.mk (Gpu.since.call h (hP _ (by rfl))) _ _ _ _ _ _ _
    split
    · exact h1
    · split
      · repeat (first
          | exact h1
          | refine Gpu.since.call ?_ (hP _ (by rfl))
          | refine Gpu.since.record ?_ (hP _ (by rfl))
          | refine buildCommandBuffers_models_since rd _ _ hP _ _ ?_)
      · refine ih _ _ ?_
        repeat (first
          | exact h1
          | refine Gpu.since.call ?_ (hP _ (by rfl))
          | refine Gpu.since.record ?_ (hP _ (by rfl))
          | refine buildCommandBuffers_models_since rd _ _ hP _ _ ?_)

theorem buildCommandBuffers_since {P : Call → Bool} {g0 g : Gpu} (rd : Renderer)
    (ctx : VulkanContext) (d : Driver) (models : List Model)
    (hP : ∀ c : Call, c.isCommand = true → P c = true) (h : Gpu.since P g0 g) :
    Gpu.since P g0 (buildCommandBuffers rd ctx g d models).2.2 := by
  simp only [buildCommandBuffers]
  exact buildCommandBuffers_loop_since _ ctx d hP _ _ _ h

theorem Renderer.recreateSwapChain_since (rd : Renderer) (ctx : VulkanContext) (g : Gpu)
    (d : Driver) (w h : Nat) :
    Gpu.since (Call.rebuildMay (ctx.m_depth_image.map VulkanImage.m_image_memory)) g
      (rd.recreateSwapChain ctx g d w h).2.2.2 := by
  simp only [Renderer.recreateSwapChain]
  have h0 := Gpu.since.call (c := .vkDestroyRenderPass rd.m_render_pass)
    (Gpu.since.call (c := .vkDestroyPipelineLayout rd.m_pipeline_layout)
      (Gpu.since.call (c := .vkDestroyPipeline rd.m_graphics_pipeline)
        (Gpu.since.foldl_call (fun framebuffer => Call.vkDestroyFramebuffer framebuffer)
          (fun _ => rfl) rd.m_swap_chain_framebuffers _
          (waitIdle_since (by rfl) (Gpu.since.refl
            (Call.rebuildMay (ctx.m_depth_image.map VulkanImage.m_image_memory)) g)))
        (by rfl)) (by rfl)) (by rfl)
  have h1 := VulkanContext.rebuild_since ctx d w h h0
  split
  · exact h1
  · exact buildCommandBuffers_since _ _ d _ (Call.rebuildMay_of_isCommand _)
      (createFramebuffers_since _ _ d
        (createGraphicsPipeline_since _ _ d
          (createPipelineLayout_since _ d (createRenderPass_since _ _ d h1))))

/-- C17: every call of `Renderer::recreateSwapChain`, whatever the driver
answers and whether it returns true or false, leaves in the context the same
image-available semaphores, render-finished semaphores, fences, command pool
and slot index, and in the renderer the same uniform buffers, uniform buffer
memory, descriptor pool and descriptor set layout; and every call it makes is
one a rebuild may make: none creates a semaphore or a fence, none creates,
binds, maps or destroys a buffer, none touches a descriptor set layout, pool
or set, and the only device memory freed is that of the depth image being
replaced. -/
theorem recreateSwapChain_keeps_independent (rd : Renderer) (ctx : VulkanContext) (g : Gpu)
    (d : Driver) (w h : Nat) :
    (rd.recreateSwapChain ctx g d w h).2.2.1.swapchainIndependent = ctx.swapchainIndependent ∧
    (rd.recreateSwapChain ctx g d w h).2.1.swapchainIndependent = rd.swapchainIndependent ∧
    ∀ c ∈ (rd.recreateSwapChain ctx g d w h).2.2.2.callsSince g,
      Call.rebuildMay (ctx.m_depth_image.map VulkanImage.m_image_memory) c = true :=
  ⟨(Renderer.recreateSwapChain_independent rd ctx g d w h).1,
    (Renderer.recreateSwapChain_independent rd ctx g d w h).2,
    (Renderer.recreateSwapChain_since rd ctx g d w h).callsSince⟩

/-! ### Descriptor sets -/

theorem Call.notDescriptor_of_isCommand (c : Call) (h : c.isCommand = true) :
    c.notDescriptor = true := by
  cases c <;> first | rfl | exact absurd h (by simp [Call.isCommand])

theorem createBuffer_since {g0 g : Gpu} (memoryTypes : List Nat) (r : CreateBufferResults)
    (size usage properties : Nat) (buffer buffer_memory : Handle)
    (h : Gpu.since Call.notDescriptor g0 g) :
    Gpu.since Call.notDescriptor g0
      (createBuffer memoryTypes g r size usage properties buffer buffer_memory).2.2.2 := by
  simp only [createBuffer]
  repeat' split
  all_goals
    repeat (first
      | exact h
      | refine Gpu.since.mk ?_ _ _ _ _ _ _ _
      | refine Gpu.since.call ?_ rfl)

theorem mapAndCopy_since {g0 g : Gpu} (memory : Handle) (host : List Byte) (size : Nat)
    (h : Gpu.since Call.notDescriptor g0 g) :
    Gpu.since Call.notDescriptor g0 (mapAndCopy g memory host size) := by
  simp only [mapAndCopy, Gpu.writeMemory]
  repeat (first
    | exact h
    | refine Gpu.since.mk ?_ _ _ _ _ _ _ _
    | refine Gpu.since.call ?_ rfl)

theorem copyBuffer_since {g0 g : Gpu} (r : OneShotResults) (src dst : Handle) (size : Nat)
    (h : Gpu.since Call.notDescriptor g0 g) :
    Gpu.since Call.notDescriptor g0 (copyBuffer g r src dst size) := by
  simp only [copyBuffer]
  exact oneShot_since r _ Call.notDescriptor_of_isCommand h

theorem destroyAndFree_since {g0 g : Gpu} (buffer memory : Handle)
    (h : Gpu.since Call.notDescriptor g0 g) :
    Gpu.since Call.notDescriptor g0 ((g.destroyBuffer buffer).freeMemory memory) := by
  simp only [Gpu.destroyBuffer, Gpu.freeMemory]
  repeat (first
    | exact h
    | refine Gpu.since.mk ?_ _ _ _ _ _ _ _
    | refine Gpu.since.call ?_ rfl)

theorem Model.createVertexBuffer_since {g0 g : Gpu} (m : Model) (memoryTypes : List Nat)
    (r : UploadResults) (h : Gpu.since Call.notDescriptor g0 g) :
    Gpu.since Call.notDescriptor g0 (m.createVertexBuffer memoryTypes g r).2.2 ∧
    (m.createVertexBuffer memoryTypes g r).2.1.m_tex_name = m.m_tex_name ∧
    (m.createVertexBuffer memoryTypes g r).2.1.m_name = m.m_name := by
  simp only [Model.createVertexBuffer]
  have h1 := createBuffer_since memoryTypes r.staging (sizeof_Vertex * m.m_vertices.length)
    VK_BUFFER_USAGE_TRANSFER_SRC_BIT
    (VK_MEMORY_PROPERTY_HOST_VISIBLE_BIT ||| VK_MEMORY_PROPERTY_HOST_COHERENT_BIT)
    VK_NULL_HANDLE VK_NULL_HANDLE h
  split
  · exact ⟨h1, rfl, rfl⟩
  · split <;>
      (refine ⟨?_, rfl, rfl⟩
       repeat (first
         | exact h1
         | refine destroyAndFree_since _ _ ?_
         | refine copyBuffer_since _ _ _ _ ?_
         | refine createBuffer_since _ _ _ _ _ _ _ ?_
         | refine mapAndCopy_since _ _ _ ?_))

theorem Model.createIndexBuffer_since {g0 g : Gpu} (m : Model) (memoryTypes : List Nat)
    (r : UploadResults) (h : Gpu.since Call.notDescriptor g0 g) :
    Gpu.since Call.notDescriptor g0 (m.createIndexBuffer memoryTypes g r).2.2 ∧
    (m.createIndexBuffer memoryTypes g r).2.1.m_tex_name = m.m_tex_name ∧
    (m.createIndexBuffer memoryTypes g r).2.1.m_name = m.m_name := by
  simp only [Model.createIndexBuffer]
  have h1 := createBuffer_since memoryTypes r.staging (sizeof_uint32_t * m.m_indices.length)
    VK_BUFFER_USAGE_TRANSFER_SRC_BIT
    (VK_MEMORY_PROPERTY_HOST_VISIBLE_BIT ||| VK_MEMORY_PROPERTY_HOST_COHERENT_BIT)
    VK_NULL_HANDLE VK_NULL_HANDLE h
  split
  · exact ⟨h1, rfl, rfl⟩
  · split <;>
      (refine ⟨?_, rfl, rfl⟩
       repeat (first
         | exact h1
         | refine destroyAndFree_since _ _ ?_
         | refine copyBuffer_since _ _ _ _ ?_
         | refine createBuffer_since _ _ _ _ _ _ _ ?_
         | refine mapAndCopy_since _ _ _ ?_))

theorem Model.createDescriptorSets_loop_log (uniform_buffers : List Handle)
    (vulkan_image : VulkanImage) (sets : List Handle) :
    ∀ (i : Nat) (g : Gpu),
      (Model.createDescriptorSets_loop uniform_buffers vulkan_image i sets g).log =
        g.log ++ (List.range sets.length).map (fun k =>
          Call.vkUpdateDescriptorSets (Model.createDescriptorSets_writes uniform_buffers
            vulkan_image (i + k) (sets.getD k VK_NULL_HANDLE))) := by
  induction sets with
  | nil => intro i g; simp [Model.createDescriptorSets_loop]
  | cons set rest ih =>
    intro i g
    simp only [Model.createDescriptorSets_loop, ih, Gpu.call, List.length_cons,
      List.range_succ_eq_map, List.map_cons, List.map_map, List.append_assoc,
      List.singleton_append, Nat.add_zero, List.getD_cons_zero]
    congr 2
    apply List.map_congr_left
    intro k _
    simp only [Function.comp, List.getD_cons_succ]
    rw [show i + 1 + k = i + (k + 1) by omega]

theorem TextureManager.getTexture_some (tm : TextureManager) (name : String)
    (texture : Texture) (tm1 : TextureManager)
    (h : tm.getTexture name = (some texture, tm1)) : tm1 = tm := by
  simp only [TextureManager.getTexture] at h
  split at h
  · simp only [Prod.mk.injEq] at h
    exact h.2.symm
  · simp at h

theorem Model.createDescriptorSets_spec (m m1 : Model) (rd : Renderer) (ctx : VulkanContext)
    (tm tm1 : TextureManager) (g g1 : Gpu) (result : VkResult) (printed : List String)
    (h : m.createDescriptorSets rd ctx tm g result = (true, m1, tm1, g1, printed)) :
    ∃ texture, tm.getTexture m.m_tex_name = (some texture, tm) ∧ tm1 = tm ∧
      m1 = { m with m_descriptor_sets := g.newHandles (getSwapChainImagesCount ctx) } ∧
      g1.log = g.log ++
        Call.vkAllocateDescriptorSets rd.m_descriptor_pool
          (List.replicate (getSwapChainImagesCount ctx) rd.m_descriptor_set_layout) ::
        (List.range (getSwapChainImagesCount ctx)).map (fun k =>
          Call.vkUpdateDescriptorSets (Model.createDescriptorSets_writes rd.m_uniform_buffers
            texture.vulkan_image k
            ((g.newHandles (getSwapChainImagesCount ctx)).getD k VK_NULL_HANDLE))) := by
  simp only [Model.createDescriptorSets] at h
  split at h
  · simp at h
  · split at h
    · simp at h
    · rename_i texture tm2 hget
      simp only [Prod.mk.injEq, true_and] at h
      obtain ⟨hm, htm, hg, -⟩ := h
      have htm2 := TextureManager.getTexture_some tm _ texture tm2 hget
      subst htm2
      refine ⟨texture, hget, htm.symm, hm.symm, ?_⟩
      rw [← hg, Model.createDescriptorSets_loop_log]
      simp [Gpu.call, Gpu.newHandles_length]

theorem filter_isDescriptor_since {g0 g : Gpu} (h : Gpu.since Call.notDescriptor g0 g)
    (g1 : Gpu) (calls : List Call) (hlog : g1.log = g.log ++ calls)
    (hcalls : ∀ c ∈ calls, c.isDescriptor = true) :
    (g1.callsSince g0).filter Call.isDescriptor = calls := by
  obtain ⟨before, hbefore, hall⟩ := h
  have h1 : before.filter Call.isDescriptor = [] := by
    rw [List.filter_eq_nil_iff]
    intro c hc
    have := hall c hc
    simpa [Call.notDescriptor] using this
  have h2 : calls.filter Call.isDescriptor = calls := List.filter_eq_self.mpr hcalls
  simp [Gpu.callsSince, hlog, hbefore, h1, h2]

theorem Model.init_spec (m m1 : Model) (memoryTypes : List Nat) (rd : Renderer)
    (ctx : VulkanContext) (tm tm1 : TextureManager) (g g1 : Gpu) (r : ModelResults)
    (printed : List String)
    (h : m.init memoryTypes rd ctx tm g r = (true, m1, tm1, g1, printed)) :
    ∃ texture, tm.getTexture m.m_tex_name = (some texture, tm) ∧ tm1 = tm ∧
      m1.m_descriptor_sets.length = getSwapChainImagesCount ctx ∧
      (g1.callsSince g).filter Call.isDescriptor =
        Call.vkAllocateDescriptorSets rd.m_descriptor_pool
          (List.replicate (getSwapChainImagesCount ctx) rd.m_descriptor_set_layout) ::
        (List.range (getSwapChainImagesCount ctx)).map (fun k =>
          Call.vkUpdateDescriptorSets (Model.createDescriptorSets_writes rd.m_uniform_buffers
            texture.vulkan_image k (m1.m_descriptor_sets.getD k VK_NULL_HANDLE))) := by
  unfold Model.init at h
  have hvs := Model.createVertexBuffer_since m memoryTypes r.vertex
    (Gpu.since.refl Call.notDescriptor g)
  rcases hv : m.createVertexBuffer memoryTypes g r.vertex with ⟨sv, mv, gv⟩
  rw [hv] at h hvs
  cases sv with
  | false => simp at h
  | true =>
    simp only [Bool.not_true, Bool.false_eq_true, if_false] at h
    have his := Model.createIndexBuffer_since mv memoryTypes r.index hvs.1
    rcases hi : mv.createIndexBuffer memoryTypes gv r.index with ⟨si, mi, gi⟩
    rw [hi] at h his
    cases si with
    | false => simp at h
    | true =>
      simp only [Bool.not_true, Bool.false_eq_true, if_false] at h
      rcases hd : mi.createDescriptorSets rd ctx tm gi r.vkAllocateDescriptorSets with
        ⟨sd, md, tmd, gd, printedd⟩
      rw [hd] at h
      cases sd with
      | false => simp at h
      | true =>
        simp only [Bool.not_true, Bool.false_eq_true, if_false, Prod.mk.injEq, true_and] at h
        obtain ⟨rfl, rfl, rfl, rfl⟩ := h
        obtain ⟨texture, hget, htm, hm, hlog⟩ :=
          Model.createDescriptorSets_spec mi _ rd ctx tm _ gi _ _ _ hd
        have hname : mi.m_tex_name = m.m_tex_name := by
          rw [his.2.1, hvs.2.1]
        rw [hname] at hget
        refine ⟨texture, hget, htm, ?_, ?_⟩
        · rw [hm]
          exact Gpu.newHandles_length _ _
        · rw [filter_isDescriptor_since his.1 _ _ hlog]
          · rw [hm]
          · intro c hc
            simp only [List.mem_cons, List.mem_map, List.mem_range] at hc
            rcases hc with rfl | ⟨k, -, rfl⟩ <;> rfl

theorem Model.init_writes (m m1 : Model) (memoryTypes : List Nat) (rd : Renderer)
    (ctx : VulkanContext) (tm tm1 : TextureManager) (g g1 : Gpu) (r : ModelResults)
    (printed : List String)
    (hub : getSwapChainImagesCount ctx ≤ rd.m_uniform_buffers.length)
    (h : m.init memoryTypes rd ctx tm g r = (true, m1, tm1, g1, printed)) :
    ∃ texture, tm.getTexture m.m_tex_name = (some texture, tm) ∧ tm1 = tm ∧
      m1.m_descriptor_sets.length = getSwapChainImagesCount ctx ∧
      ((g1.callsSince g).filter Call.isDescriptor).length = getSwapChainImagesCount ctx + 1 ∧
      ((g1.callsSince g).filter Call.isDescriptor)[0]? =
        some (Call.vkAllocateDescriptorSets rd.m_descriptor_pool
          (List.replicate (getSwapChainImagesCount ctx) rd.m_descriptor_set_layout)) ∧
      ∀ i, i < getSwapChainImagesCount ctx →
        ∃ set buffer, m1.m_descriptor_sets[i]? = some set ∧
          rd.m_uniform_buffers[i]? = some buffer ∧
          ((g1.callsSince g).filter Call.isDescriptor)[i + 1]? =
            some (Call.vkUpdateDescriptorSets
              [ { dstSet := set, dstBinding := 0, dstArrayElement := 0, descriptorCount := 1,
                  descriptorType := VK_DESCRIPTOR_TYPE_UNIFORM_BUFFER, pImageInfo := none,
                  pBufferInfo := some { buffer := buffer, offset := 0,
                                        range := sizeof_UniformBufferObject } },
                { dstSet := set, dstBinding := 1, dstArrayElement := 0, descriptorCount := 1,
                  descriptorType := VK_DESCRIPTOR_TYPE_COMBINED_IMAGE_SAMPLER,
                  pImageInfo := some { sampler := texture.vulkan_image.m_sampler,
                                       imageView := texture.vulkan_image.m_image_view,
                                       imageLayout := VK_IMAGE_LAYOUT_SHADER_READ_ONLY_OPTIMAL },
                  pBufferInfo := none } ]) := by
  obtain ⟨texture, hget, htm, hlen, hcalls⟩ :=
    Model.init_spec m m1 memoryTypes rd ctx tm tm1 g g1 r printed h
  refine ⟨texture, hget, htm, hlen, ?_, ?_, ?_⟩
  · rw [hcalls]
    simp
  · rw [hcalls]
    simp
  · intro i hi
    have hset : i < m1.m_descriptor_sets.length := by omega
    have hbuf : i < rd.m_uniform_buffers.length := by omega
    refine ⟨m1.m_descriptor_sets[i], rd.m_uniform_buffers[i], List.getElem?_eq_getElem hset,
      List.getElem?_eq_getElem hbuf, ?_⟩
    rw [hcalls]
    simp only [List.getElem?_cons_succ, List.getElem?_map, List.getElem?_range hi,
      Option.map_some', Model.createDescriptorSets_writes, List.getD_eq_getElem _ _ hset,
      List.getD_eq_getElem _ _ hbuf]

theorem eq_of_fst_true {α β γ δ : Type} (x : Bool × α × β × γ × δ) (h : x.1 = true) :
    x = (true, x.2.1, x.2.2.1, x.2.2.2.1, x.2.2.2.2) := by
  obtain ⟨a, b, c, d, e⟩ := x
  simp only at h
  rw [h]

/-- C19: when `Model::init` succeeds for a renderable, with `N` the image
count of the swapchain and a renderer that holds at least `N` uniform buffers,
the texture registered under the texture name of the renderable exists, the
renderable holds exactly `N` descriptor sets, and the descriptor calls made
during `init` are one allocation of `N` sets followed by `N` updates; update
`i` writes, for set `i`, binding 0 as a uniform-buffer descriptor on uniform
buffer `i` of the renderer with offset 0 and range `sizeof(UniformBufferObject)`
and binding 1 as a combined-image-sampler descriptor on the image view and the
sampler of that texture. A second renderable with the same texture name that
is initialised afterwards gets its `N` sets written with the view and the
sampler of the same texture. -/
theorem model_descriptor_sets (m m1 n n1 : Model) (memoryTypes : List Nat) (rd : Renderer)
    (ctx : VulkanContext) (tm tm1 tm2 : TextureManager) (g g1 g2 g3 : Gpu)
    (r r2 : ModelResults) (printed printed2 : List String)
    (hub : getSwapChainImagesCount ctx ≤ rd.m_uniform_buffers.length)
    (hm : m.init memoryTypes rd ctx tm g r = (true, m1, tm1, g1, printed))
    (hn : n.init memoryTypes rd ctx tm1 g2 r2 = (true, n1, tm2, g3, printed2))
    (hname : n.m_tex_name = m.m_tex_name) :
    ∃ texture : Texture,
      (tm.getTexture m.m_tex_name).1 = some texture ∧
      m1.m_descriptor_sets.length = getSwapChainImagesCount ctx ∧
      n1.m_descriptor_sets.length = getSwapChainImagesCount ctx ∧
      ((g1.callsSince g).filter Call.isDescriptor).length = getSwapChainImagesCount ctx + 1 ∧
      ((g1.callsSince g).filter Call.isDescriptor)[0]? =
        some (Call.vkAllocateDescriptorSets rd.m_descriptor_pool
          (List.replicate (getSwapChainImagesCount ctx) rd.m_descriptor_set_layout)) ∧
      (∀ i, i < getSwapChainImagesCount ctx →
        ∃ set buffer, m1.m_descriptor_sets[i]? = some set ∧
          rd.m_uniform_buffers[i]? = some buffer ∧
          ((g1.callsSince g).filter Call.isDescriptor)[i + 1]? =
            some (Call.vkUpdateDescriptorSets
              [ { dstSet := set, dstBinding := 0, dstArrayElement := 0, descriptorCount := 1,
                  descriptorType := VK_DESCRIPTOR_TYPE_UNIFORM_BUFFER, pImageInfo := none,
                  pBufferInfo := some { buffer := buffer, offset := 0,
                                        range := sizeof_UniformBufferObject } },
                { dstSet := set, dstBinding := 1, dstArrayElement := 0, descriptorCount := 1,
                  descriptorType := VK_DESCRIPTOR_TYPE_COMBINED_IMAGE_SAMPLER,
                  pImageInfo := some { sampler := texture.vulkan_image.m_sampler,
                                       imageView := texture.vulkan_image.m_image_view,
                                       imageLayout := VK_IMAGE_LAYOUT_SHADER_READ_ONLY_OPTIMAL },
                  pBufferInfo := none } ])) ∧
      (∀ i, i < getSwapChainImagesCount ctx →
        ∃ set buffer, n1.m_descriptor_sets[i]? = some set ∧
          rd.m_uniform_buffers[i]? = some buffer ∧
          ((g3.callsSince g2).filter Call.isDescriptor)[i + 1]? =
            some (Call.vkUpdateDescriptorSets
              [ { dstSet := set, dstBinding := 0, dstArrayElement := 0, descriptorCount := 1,
                  descriptorType := VK_DESCRIPTOR_TYPE_UNIFORM_BUFFER, pImageInfo := none,
                  pBufferInfo := some { buffer := buffer, offset := 0,
                                        range := sizeof_UniformBufferObject } },
                { dstSet := set, dstBinding := 1, dstArrayElement := 0, descriptorCount := 1,
                  descriptorType := VK_DESCRIPTOR_TYPE_COMBINED_IMAGE_SAMPLER,
                  pImageInfo := some { sampler := texture.vulkan_image.m_sampler,
                                       imageView := texture.vulkan_image.m_image_view,
                                       imageLayout := VK_IMAGE_LAYOUT_SHADER_READ_ONLY_OPTIMAL },
                  pBufferInfo := none } ])) := by
  obtain ⟨texture, hget, htm, hlen, hcount, halloc, hwrites⟩ :=
    Model.init_writes m m1 memoryTypes rd ctx tm tm1 g g1 r printed hub hm
  obtain ⟨texture2, hget2, -, hlen2, -, -, hwrites2⟩ :=
    Model.init_writes n n1 memoryTypes rd ctx tm1 tm2 g2 g3 r2 printed2 hub hn
  have hsame : texture2 = texture := by
    rw [htm, hname, hget] at hget2
    simp only [Prod.mk.injEq, Option.some.injEq, and_true] at hget2
    exact hget2.symm
  subst hsame
  exact ⟨texture2, by rw [hget], hlen, hlen2, hcount, halloc, hwrites, hwrites2⟩

/-- Two models named after the same texture, initialised one after the other
against a swapchain of three images: each holds three descriptor sets. -/
theorem model_descriptor_sets_witness :
    (getSwapChainImagesCount readyContext3 ≤ Renderer.withDescriptors.m_uniform_buffers.length ∧
      (Model.example.init Driver.nominal.memoryTypes Renderer.withDescriptors readyContext3
        TextureManager.example readyGpu ModelResults.ok).1 = true ∧
      (Model.example.init Driver.nominal.memoryTypes Renderer.withDescriptors readyContext3
        (Model.example.init Driver.nominal.memoryTypes Renderer.withDescriptors readyContext3
          TextureManager.example readyGpu ModelResults.ok).2.2.1
        (Model.example.init Driver.nominal.memoryTypes Renderer.withDescriptors readyContext3
          TextureManager.example readyGpu ModelResults.ok).2.2.2.1 ModelResults.ok).1 = true ∧
      Model.example.m_tex_name = Model.example.m_tex_name) ∧
    (Model.example.init Driver.nominal.memoryTypes Renderer.withDescriptors readyContext3
      TextureManager.example readyGpu ModelResults.ok).2.1.m_descriptor_sets.length = 3 ∧
    (Model.example.init Driver.nominal.memoryTypes Renderer.withDescriptors readyContext3
      (Model.example.init Driver.nominal.memoryTypes Renderer.withDescriptors readyContext3
        TextureManager.example readyGpu ModelResults.ok).2.2.1
      (Model.example.init Driver.nominal.memoryTypes Renderer.withDescriptors readyContext3
        TextureManager.example readyGpu ModelResults.ok).2.2.2.1
      ModelResults.ok).2.1.m_descriptor_sets.length = 3 := by
  have h1 : (Model.example.init Driver.nominal.memoryTypes Renderer.withDescriptors
      readyContext3 TextureManager.example readyGpu ModelResults.ok).1 = true := by decide
  have h2 : (Model.example.init Driver.nominal.memoryTypes Renderer.withDescriptors readyContext3
      (Model.example.init Driver.nominal.memoryTypes Renderer.withDescriptors readyContext3
        TextureManager.example readyGpu ModelResults.ok).2.2.1
      (Model.example.init Driver.nominal.memoryTypes Renderer.withDescriptors readyContext3
        TextureManager.example readyGpu ModelResults.ok).2.2.2.1 ModelResults.ok).1 = true := by
    decide
  obtain ⟨_, -, hlen, hlen2, -⟩ := model_descriptor_sets Model.example _ Model.example _
    Driver.nominal.memoryTypes Renderer.withDescriptors readyContext3 TextureManager.example
    _ _ readyGpu _ _ _ ModelResults.ok ModelResults.ok _ _ (by decide)
    (eq_of_fst_true _ h1) (eq_of_fst_true _ h2) rfl
  exact ⟨⟨by decide, h1, h2, rfl⟩, hlen, hlen2⟩

/-! ### Capacity of the descriptor pool -/

theorem allocationRequests_append (a b : List Call) :
    allocationRequests (a ++ b) = allocationRequests a ++ allocationRequests b := by
  simp [allocationRequests]

theorem allocationRequests_of_notDescriptor (calls : List Call)
    (h : ∀ c ∈ calls, c.notDescriptor = true) : allocationRequests calls = [] := by
  simp only [allocationRequests, List.filterMap_eq_nil_iff]
  intro c hc
  have := h c hc
  cases c <;> first | rfl | exact absurd this (by simp [Call.notDescriptor, Call.isDescriptor])

theorem allocationRequests_updates {α : Type} (f : α → List VkWriteDescriptorSet)
    (l : List α) :
    allocationRequests (l.map (fun a => Call.vkUpdateDescriptorSets (f a))) = [] := by
  simp only [allocationRequests, List.filterMap_eq_nil_iff, List.mem_map]
  rintro c ⟨a, -, rfl⟩
  rfl

/-- Whatever `createDescriptorSets` returns, it has made one request, for `N`
sets of the layout of the renderer from the pool of the renderer. -/
theorem Model.createDescriptorSets_requests (m : Model) (rd : Renderer) (ctx : VulkanContext)
    (tm : TextureManager) (g : Gpu) (result : VkResult) :
    ∃ calls, (m.createDescriptorSets rd ctx tm g result).2.2.2.1.log = g.log ++ calls ∧
      allocationRequests calls = [(rd.m_descriptor_pool,
        List.replicate (getSwapChainImagesCount ctx) rd.m_descriptor_set_layout)] := by
  simp only [Model.createDescriptorSets]
  split
  · exact ⟨[_], rfl, rfl⟩
  · split
    · exact ⟨[_], rfl, rfl⟩
    · rename_i texture tm2 hget
      refine ⟨Call.vkAllocateDescriptorSets rd.m_descriptor_pool
          (List.replicate (getSwapChainImagesCount ctx) rd.m_descriptor_set_layout) ::
        (List.range (getSwapChainImagesCount ctx)).map (fun k =>
          Call.vkUpdateDescriptorSets (Model.createDescriptorSets_writes rd.m_uniform_buffers
            texture.vulkan_image (0 + k)
            ((g.newHandles (getSwapChainImagesCount ctx)).getD k VK_NULL_HANDLE))), ?_, ?_⟩
      · simp only [Model.createDescriptorSets_loop_log, Gpu.call, List.append_assoc,
          List.singleton_append, Gpu.newHandles_length]
      · rw [show ∀ (c : Call) (l : List Call), c :: l = [c] ++ l from fun _ _ => rfl,
          allocationRequests_append, allocationRequests_updates]
        rfl

theorem Model.init_allocation_requests (m : Model) (memoryTypes : List Nat) (rd : Renderer)
    (ctx : VulkanContext) (tm : TextureManager) (g : Gpu) (r : ModelResults) :
    ∃ calls, (m.init memoryTypes rd ctx tm g r).2.2.2.1.log = g.log ++ calls ∧
      (allocationRequests calls = [] ∨
        allocationRequests calls = [(rd.m_descriptor_pool,
          List.replicate (getSwapChainImagesCount ctx) rd.m_descriptor_set_layout)]) ∧
      ((m.init memoryTypes rd ctx tm g r).1 = true →
        allocationRequests calls = [(rd.m_descriptor_pool,
          List.replicate (getSwapChainImagesCount ctx) rd.m_descriptor_set_layout)]) := by
  unfold Model.init
  have hvs := (Model.createVertexBuffer_since m memoryTypes r.vertex
    (Gpu.since.refl Call.notDescriptor g)).1
  rcases hv : m.createVertexBuffer memoryTypes g r.vertex with ⟨sv, mv, gv⟩
  rw [hv] at hvs
  cases sv with
  | false =>
    obtain ⟨calls, hlog, hall⟩ := hvs
    exact ⟨calls, hlog, Or.inl (allocationRequests_of_notDescriptor calls hall),
      fun h => absurd h (by simp)⟩
  | true =>
    simp only [Bool.not_true, Bool.false_eq_true, if_false]
    have his := (Model.createIndexBuffer_since mv memoryTypes r.index hvs).1
    rcases hi : mv.createIndexBuffer memoryTypes gv r.index with ⟨si, mi, gi⟩
    rw [hi] at his
    obtain ⟨calls, hlog, hall⟩ := his
    have hnone := allocationRequests_of_notDescriptor calls hall
    cases si with
    | false => exact ⟨calls, hlog, Or.inl hnone, fun h => absurd h (by simp)⟩
    | true =>
      simp only [Bool.not_true, Bool.false_eq_true, if_false]
      obtain ⟨calls1, hlog1, hreq⟩ :=
        Model.createDescriptorSets_requests mi rd ctx tm gi r.vkAllocateDescriptorSets
      have hboth : allocationRequests (calls ++ calls1) = [(rd.m_descriptor_pool,
          List.replicate (getSwapChainImagesCount ctx) rd.m_descriptor_set_layout)] := by
        rw [allocationRequests_append, hnone, hreq]
        rfl
      rcases hd : mi.createDescriptorSets rd ctx tm gi r.vkAllocateDescriptorSets with
        ⟨sd, md, tmd, gd, printedd⟩
      rw [hd] at hlog1
      simp only at hlog1 hlog
      refine ⟨calls ++ calls1, ?_, Or.inr hboth, fun _ => hboth⟩
      cases sd <;> simp [hlog1, hlog]

theorem ModelManager.init_loop_requests (memoryTypes : List Nat) (rd : Renderer)
    (ctx : VulkanContext) (results : Nat → ModelResults) (models : List Model) :
    ∀ (i : Nat) (tm : TextureManager) (g : Gpu),
      ∃ calls k,
        (ModelManager.init_loop memoryTypes rd ctx results i models tm g).2.2.2.1.log =
          g.log ++ calls ∧
        k ≤ models.length ∧
        allocationRequests calls = List.replicate k (rd.m_descriptor_pool,
          List.replicate (getSwapChainImagesCount ctx) rd.m_descriptor_set_layout) ∧
        ((ModelManager.init_loop memoryTypes rd ctx results i models tm g).1 = true →
          k = models.length) := by
  induction models with
  | nil =>
    intro i tm g
    exact ⟨[], 0, by simp [ModelManager.init_loop], Nat.le_refl _, rfl, fun _ => rfl⟩
  | cons model rest ih =>
    intro i tm g
    obtain ⟨calls, hlog, hcase, hsucc⟩ :=
      Model.init_allocation_requests model memoryTypes rd ctx tm g (results i)
    unfold ModelManager.init_loop
    rcases hm : model.init memoryTypes rd ctx tm g (results i) with ⟨s, m1, tm1, g1, printed⟩
    rw [hm] at hlog hsucc
    simp only at hlog hsucc
    cases s with
    | false =>
      simp only [Bool.not_false, if_true]
      rcases hcase with h0 | h1
      · exact ⟨calls, 0, hlog, Nat.zero_le _, h0, fun h => absurd h (by simp)⟩
      · exact ⟨calls, 1, hlog, by simp, h1, fun h => absurd h (by simp)⟩
    | true =>
      simp only [Bool.not_true, Bool.false_eq_true, if_false]
      obtain ⟨calls1, k, hlog1, hk, hreq, hall⟩ := ih (i + 1) tm1 g1
      refine ⟨calls ++ calls1, k + 1, ?_, by simp only [List.length_cons]; omega, ?_, ?_⟩
      · rw [hlog1, hlog, List.append_assoc]
      · rw [allocationRequests_append, hsucc rfl, hreq, List.replicate_succ]
        rfl
      · intro h
        simp only [List.length_cons, Nat.add_right_cancel_iff]
        exact hall h

theorem createDescriptorPool_log (rd : Renderer) (ctx : VulkanContext) (g : Gpu)
    (models_count : Nat) (result : VkResult) :
    (createDescriptorPool rd ctx g models_count result).2.2.log = g.log ++
      [ Call.vkCreateDescriptorPool g.next
          ((models_count * getSwapChainImagesCount ctx) % 2 ^ 32)
          [ { type := VK_DESCRIPTOR_TYPE_UNIFORM_BUFFER,
              descriptorCount := (models_count * getSwapChainImagesCount ctx) % 2 ^ 32 },
            { type := VK_DESCRIPTOR_TYPE_COMBINED_IMAGE_SAMPLER,
              descriptorCount := (models_count * getSwapChainImagesCount ctx) % 2 ^ 32 } ] ] ∧
    (createDescriptorPool rd ctx g models_count result).2.1.m_descriptor_set_layout =
      rd.m_descriptor_set_layout ∧
    (createDescriptorPool rd ctx g models_count result).2.1.m_descriptor_pool =
      (if result = VK_SUCCESS then g.next else rd.m_descriptor_pool) := by
  simp only [createDescriptorPool]
  split <;> simp [Gpu.call, *]

theorem pool_count_of_bound (m n : Nat) (h : m * n < 2 ^ 32) :
    (m % 2 ^ 32 * n) % 2 ^ 32 = m * n := by
  rcases Nat.eq_zero_or_pos n with hn | hn
  · subst hn; simp
  · have hm : m < 2 ^ 32 := lt_of_le_of_lt (Nat.le_mul_of_pos_right m hn) h
    rw [Nat.mod_eq_of_lt hm, Nat.mod_eq_of_lt h]

theorem ModelManager.init_pool_requests (m_models : List Model) (rd : Renderer)
    (ctx : VulkanContext) (tm : TextureManager) (g : Gpu) (d : Driver)
    (vkCreateDescriptorPool : VkResult) (results : Nat → ModelResults) :
    ∃ calls k,
      (ModelManager.init m_models rd ctx tm g d vkCreateDescriptorPool
        results).2.2.2.2.1.callsSince g =
        Call.vkCreateDescriptorPool g.next
          (((m_models.length % 2 ^ 32) * getSwapChainImagesCount ctx) % 2 ^ 32)
          [ { type := VK_DESCRIPTOR_TYPE_UNIFORM_BUFFER,
              descriptorCount :=
                ((m_models.length % 2 ^ 32) * getSwapChainImagesCount ctx) % 2 ^ 32 },
            { type := VK_DESCRIPTOR_TYPE_COMBINED_IMAGE_SAMPLER,
              descriptorCount :=
                ((m_models.length % 2 ^ 32) * getSwapChainImagesCount ctx) % 2 ^ 32 } ] ::
          calls ∧
      k ≤ m_models.length ∧
      allocationRequests calls = List.replicate k
        ((ModelManager.init m_models rd ctx tm g d vkCreateDescriptorPool
          results).2.2.1.m_descriptor_pool,
          List.replicate (getSwapChainImagesCount ctx) rd.m_descriptor_set_layout) ∧
      ((ModelManager.init m_models rd ctx tm g d vkCreateDescriptorPool results).1 = true →
        k = m_models.length) := by
  unfold ModelManager.init
  obtain ⟨hplog, hplayout, hppool⟩ :=
    createDescriptorPool_log rd ctx g (m_models.length % 2 ^ 32) vkCreateDescriptorPool
  rcases hp : createDescriptorPool rd ctx g (m_models.length % 2 ^ 32)
    vkCreateDescriptorPool with ⟨sp, rdp, gp⟩
  rw [hp] at hplog hplayout hppool
  simp only at hplog hplayout hppool
  cases sp with
  | false =>
    simp only [Bool.not_false, if_true]
    exact ⟨[], 0, by simp [Gpu.callsSince, hplog], Nat.zero_le _, rfl,
      fun h => absurd h (by simp)⟩
  | true =>
    simp only [Bool.not_true, Bool.false_eq_true, if_false]
    obtain ⟨calls, k, hlog, hk, hreq, hall⟩ :=
      ModelManager.init_loop_requests d.memoryTypes rdp ctx results m_models 0 tm gp
    rw [hplayout] at hreq
    rcases hl : ModelManager.init_loop d.memoryTypes rdp ctx results 0 m_models tm gp with
      ⟨sl, models1, tm1, g1, printed⟩
    rw [hl] at hlog hall
    simp only at hlog hall
    cases sl with
    | false =>
      simp only [Bool.not_false, if_true]
      exact ⟨calls, k, by simp [Gpu.callsSince, hlog, hplog], hk, hreq,
        fun h => absurd h (by simp)⟩
    | true =>
      simp only [Bool.not_true, Bool.false_eq_true, if_false]
      have hb := buildCommandBuffers_since rdp ctx d models1
        Call.notDescriptor_of_isCommand (Gpu.since.refl Call.notDescriptor g1)
      obtain ⟨calls2, hlog2, hall2⟩ := hb
      have hnone := allocationRequests_of_notDescriptor calls2 hall2
      have hrd : (buildCommandBuffers rdp ctx g1 d models1).2.1.m_descriptor_pool =
          rdp.m_descriptor_pool := by
        simp [buildCommandBuffers]
      rcases hbc : buildCommandBuffers rdp ctx g1 d models1 with ⟨sb, rdb, gb⟩
      rw [hbc] at hlog2 hrd
      simp only at hlog2 hrd
      refine ⟨calls ++ calls2, k, ?_, hk, ?_, ?_⟩
      · cases sb <;> simp [Gpu.callsSince, hlog2, hlog, hplog]
      · rw [allocationRequests_append, hnone, List.append_nil, hreq]
        cases sb <;> simp [hrd]
      · intro _
        exact hall rfl

theorem setsRequested_replicate (k n : Nat) (pool layout : Handle) (calls : List Call)
    (h : allocationRequests calls = List.replicate k (pool, List.replicate n layout)) :
    setsRequested calls pool = k * n := by
  simp only [setsRequested, h]
  have hf : (List.replicate k (pool, List.replicate n layout)).filter
      (fun request => decide (request.1 = pool)) =
      List.replicate k (pool, List.replicate n layout) := by
    rw [List.filter_eq_self]
    intro a ha
    rw [(List.mem_replicate.mp ha).2]
    simp
  rw [hf]
  simp

/-- C20, the claim as stated fails: for 2^31 models and a swapchain of two images the
pool is created for 0 sets and 0 descriptors of each type, not for 2^32. -/
theorem createDescriptorPool_wraps :
    (createDescriptorPool Renderer.example { readyContext with m_swap_chain_images_count := 2 }
      readyGpu (2 ^ 31) VK_SUCCESS).2.2.callsSince readyGpu =
      [ .vkCreateDescriptorPool readyGpu.next 0
          [ { type := VK_DESCRIPTOR_TYPE_UNIFORM_BUFFER, descriptorCount := 0 },
            { type := VK_DESCRIPTOR_TYPE_COMBINED_IMAGE_SAMPLER, descriptorCount := 0 } ] ] ∧
    2 ^ 31 * getSwapChainImagesCount { readyContext with m_swap_chain_images_count := 2 } =
      4294967296 := by
  constructor
  · rw [Gpu.callsSince, (createDescriptorPool_log _ _ _ _ _).1]
    simp [getSwapChainImagesCount]
  · rfl

/-- C20, amended: when the product of the number of models `m` and the image
count `N` of the swapchain is below 2^32, `createDescriptorPool(m)` creates the
pool for `m * N` sets, `m * N` uniform-buffer descriptors and `m * N`
combined-image-sampler descriptors, and a set of the layout of the renderer
takes one descriptor of each of the two types. `ModelManager::init` creates
that pool first; the requests for sets it makes afterwards are `k` requests,
one per renderable whose initialisation got as far as the allocation, each for
`N` sets of the layout of the renderer from that pool, with `k <= m`; so the
sets requested in total are `k * N <= m * N`, and exactly `m * N` when `init`
returns true. -/
theorem descriptor_pool_capacity (m_models : List Model) (rd : Renderer)
    (ctx : VulkanContext) (tm : TextureManager) (g : Gpu) (d : Driver)
    (vkCreateDescriptorPool : VkResult) (results : Nat → ModelResults)
    (hbound : m_models.length * getSwapChainImagesCount ctx < 2 ^ 32) :
    (createDescriptorPool rd ctx g m_models.length vkCreateDescriptorPool).2.2.callsSince g =
      [ .vkCreateDescriptorPool g.next (m_models.length * getSwapChainImagesCount ctx)
          [ { type := VK_DESCRIPTOR_TYPE_UNIFORM_BUFFER,
              descriptorCount := m_models.length * getSwapChainImagesCount ctx },
            { type := VK_DESCRIPTOR_TYPE_COMBINED_IMAGE_SAMPLER,
              descriptorCount := m_models.length * getSwapChainImagesCount ctx } ] ] ∧
    descriptorsPerSet createDescriptorSetLayout_bindings VK_DESCRIPTOR_TYPE_UNIFORM_BUFFER = 1 ∧
    descriptorsPerSet createDescriptorSetLayout_bindings
      VK_DESCRIPTOR_TYPE_COMBINED_IMAGE_SAMPLER = 1 ∧
    ∃ calls k,
      (ModelManager.init m_models rd ctx tm g d vkCreateDescriptorPool
        results).2.2.2.2.1.callsSince g =
        .vkCreateDescriptorPool g.next (m_models.length * getSwapChainImagesCount ctx)
          [ { type := VK_DESCRIPTOR_TYPE_UNIFORM_BUFFER,
              descriptorCount := m_models.length * getSwapChainImagesCount ctx },
            { type := VK_DESCRIPTOR_TYPE_COMBINED_IMAGE_SAMPLER,
              descriptorCount := m_models.length * getSwapChainImagesCount ctx } ] :: calls ∧
      allocationRequests calls = List.replicate k
        ((ModelManager.init m_models rd ctx tm g d vkCreateDescriptorPool
          results).2.2.1.m_descriptor_pool,
          List.replicate (getSwapChainImagesCount ctx) rd.m_descriptor_set_layout) ∧
      k ≤ m_models.length ∧
      setsRequested calls
        (ModelManager.init m_models rd ctx tm g d vkCreateDescriptorPool
          results).2.2.1.m_descriptor_pool = k * getSwapChainImagesCount ctx ∧
      k * getSwapChainImagesCount ctx ≤ m_models.length * getSwapChainImagesCount ctx ∧
      ((ModelManager.init m_models rd ctx tm g d vkCreateDescriptorPool results).1 = true →
        k = m_models.length) := by
  refine ⟨?_, by decide, by decide, ?_⟩
  · rw [Gpu.callsSince, (createDescriptorPool_log _ _ _ _ _).1, Nat.mod_eq_of_lt hbound]
    simp
  · obtain ⟨calls, k, hcalls, hk, hreq, hall⟩ :=
      ModelManager.init_pool_requests m_models rd ctx tm g d vkCreateDescriptorPool results
    rw [pool_count_of_bound _ _ hbound] at hcalls
    exact ⟨calls, k, hcalls, hreq, hk, setsRequested_replicate _ _ _ _ _ hreq,
      Nat.mul_le_mul_right _ hk, hall⟩

/-- Two models loaded against a swapchain of three images: the pool is created
for six sets, both models are initialised and they request six sets. -/
theorem descriptor_pool_capacity_witness :
    [Model.example, Model.example].length * getSwapChainImagesCount readyContext3 < 2 ^ 32 ∧
    (ModelManager.init [Model.example, Model.example] Renderer.withDescriptors readyContext3
      TextureManager.example readyGpu Driver.nominal VK_SUCCESS (fun _ => ModelResults.ok)).1 =
      true ∧
    ∃ calls,
      (ModelManager.init [Model.example, Model.example] Renderer.withDescriptors readyContext3
        TextureManager.example readyGpu Driver.nominal VK_SUCCESS
        (fun _ => ModelResults.ok)).2.2.2.2.1.callsSince readyGpu =
        .vkCreateDescriptorPool 7 6
          [ { type := VK_DESCRIPTOR_TYPE_UNIFORM_BUFFER, descriptorCount := 6 },
            { type := VK_DESCRIPTOR_TYPE_COMBINED_IMAGE_SAMPLER, descriptorCount := 6 } ] ::
          calls ∧
      setsRequested calls
        (ModelManager.init [Model.example, Model.example] Renderer.withDescriptors
          readyContext3 TextureManager.example readyGpu Driver.nominal VK_SUCCESS
          (fun _ => ModelResults.ok)).2.2.1.m_descriptor_pool = 6 := by
  have hb : [Model.example, Model.example].length * getSwapChainImagesCount readyContext3 <
      2 ^ 32 := by decide
  have h1 : (ModelManager.init [Model.example, Model.example] Renderer.withDescriptors
      readyContext3 TextureManager.example readyGpu Driver.nominal VK_SUCCESS
      (fun _ => ModelResults.ok)).1 = true := by decide
  obtain ⟨-, -, -, calls, k, hcalls, -, -, hsets, -, hall⟩ :=
    descriptor_pool_capacity [Model.example, Model.example] Renderer.withDescriptors
      readyContext3 TextureManager.example readyGpu Driver.nominal VK_SUCCESS
      (fun _ => ModelResults.ok) hb
  rw [hall h1] at hsets
  exact ⟨hb, h1, calls, hcalls, hsets⟩

/-! ### Closing the window -/

theorem main_loop_append (iterations rest : List Iteration) :
    ∀ s : MainLoop, main_loop s (iterations ++ rest) =
      match main_loop s iterations with
      | .next s1 => main_loop s1 rest
      | .returned code printed s1 => .returned code printed s1
      | .blocked => .blocked := by
  induction iterations with
  | nil => intro s; rfl
  | cons it more ih =>
    intro s
    simp only [List.cons_append, main_loop]
    cases main_iteration s it with
    | next s1 => exact ih s1
    | returned code printed s1 => rfl
    | blocked => rfl

/-- C24: whatever iterations come before and after, when the loop of `main` is
still running in state `s1` at the start of an iteration in which
`processEvents` returns false, that iteration leaves the loop: the only call
made from then on is the `vkDeviceWaitIdle` of `waitIdle` (no rebuild of the
swapchain and no frame), the renderer and the context are as they were, nothing
is printed and `main` returns 0; the iterations after it do not run. When the
loop has left or blocked before, the outcome is that earlier one. -/
theorem window_close_terminates (s : MainLoop) (before after : List Iteration)
    (close : Iteration) (hclose : close.processEvents = false) :
    main_iteration s close = .returned 0 [] { s with gpu := waitIdle s.gpu } ∧
    (waitIdle s.gpu).callsSince s.gpu = [.vkDeviceWaitIdle] ∧
    main_loop s (before ++ close :: after) =
      match main_loop s before with
      | .next s1 => .returned 0 [] { s1 with gpu := waitIdle s1.gpu }
      | .returned code printed s1 => .returned code printed s1
      | .blocked => .blocked := by
  have hone : ∀ s : MainLoop,
      main_iteration s close = .returned 0 [] { s with gpu := waitIdle s.gpu } := by
    intro s
    simp [main_iteration, hclose]
  refine ⟨hone s, by simp [waitIdle, Gpu.callsSince, Gpu.call], ?_⟩
  rw [main_loop_append]
  cases main_loop s before with
  | next s1 => simp only [main_loop, hone]
  | returned code printed s1 => rfl
  | blocked => rfl

/-- After one frame the window is closed: `main` returns 0 and the iteration
that follows the close does not run. -/
theorem window_close_terminates_witness :
    Iteration.windowClosed.processEvents = false ∧
    (match main_loop MainLoop.example
        [Iteration.example (FrameResults.ok 0), Iteration.windowClosed,
         Iteration.example (FrameResults.ok 1)] with
      | .returned code printed _ => decide (code = 0) && decide (printed = [])
      | _ => false) = true := by
  refine ⟨rfl, ?_⟩
  have h := (window_close_terminates MainLoop.example [Iteration.example (FrameResults.ok 0)]
    [Iteration.example (FrameResults.ok 1)] Iteration.windowClosed rfl).2.2
  have hnext : (match main_loop MainLoop.example [Iteration.example (FrameResults.ok 0)] with
      | .next _ => true
      | _ => false) = true := by decide
  simp only [List.singleton_append] at h
  rw [h]
  cases hm : main_loop MainLoop.example [Iteration.example (FrameResults.ok 0)] with
  | next s1 => simp
  | returned code printed s1 => rw [hm] at hnext; simp at hnext
  | blocked => rw [hm] at hnext; simp at hnext

/-! ### The texture registry -/

theorem lookup_append_of_none {α : Type} (l : List (String × α)) (name n : String) (a : α)
    (h : l.lookup name = none) :
    (l ++ [(name, a)]).lookup n = if n = name then some a else l.lookup n := by
  induction l with
  | nil =>
    by_cases hn : n = name
    · simp [List.lookup, hn]
    · have hb : (n == name) = false := by simpa using hn
      simp [List.lookup, hn, hb]
  | cons entry rest ih =>
    obtain ⟨key, value⟩ := entry
    simp only [List.cons_append, List.lookup]
    simp only [List.lookup] at h
    by_cases hk : n = key
    · subst hk
      have hne : ¬ n = name := by
        intro heq
        subst heq
        simp at h
      simp [hne]
    · have hb : (n == key) = false := by simpa using hk
      have hrest : rest.lookup name = none := by
        by_cases hk2 : name = key
        · subst hk2; simp at h
        · have hb2 : (name == key) = false := by simpa using hk2
          simpa [hb2] using h
      simp only [hb]
      exact ih hrest

/-- C30, the claim as stated fails: on a registry without the name
`white.png`, `getTexture` returns null and leaves a registry that has an entry
for `white.png`. -/
theorem getTexture_adds_entry :
    (TextureManager.example.getTexture "white.png").1 = none ∧
    (TextureManager.example.getTexture "white.png").2 ≠ TextureManager.example ∧
    (TextureManager.example.getTexture "white.png").2.m_textures.map Prod.fst =
      ["texture", "white.png"] := by
  decide

/-- C30, amended: `getTexture(name)` returns what the registry holds under
`name` and leaves the registry as it is when `name` is a key; when `name` is
not a key it returns null and the registry gains the entry of `name` with a
null texture, every other entry staying as it is. In both cases the textures
in the registry are the same as before and every later `getTexture` returns
what it would have returned before. -/
theorem getTexture_lookup (tm : TextureManager) (name : String) :
    (∀ entry, tm.m_textures.lookup name = some entry →
      tm.getTexture name = (entry, tm)) ∧
    (tm.m_textures.lookup name = none →
      tm.getTexture name = (none, { m_textures := tm.m_textures ++ [(name, none)] })) ∧
    (tm.getTexture name).2.m_textures.filterMap
        (fun entry => entry.2.map (fun texture => (entry.1, texture))) =
      tm.m_textures.filterMap
        (fun entry => entry.2.map (fun texture => (entry.1, texture))) ∧
    ∀ n : String, ((tm.getTexture name).2.getTexture n).1 = (tm.getTexture n).1 := by
  have hfst : ∀ (t : TextureManager) (n : String),
      (t.getTexture n).1 = (t.m_textures.lookup n).getD none := by
    intro t n
    simp only [TextureManager.getTexture]
    split <;> simp [*]
  refine ⟨?_, ?_, ?_, ?_⟩
  · intro entry h
    simp [TextureManager.getTexture, h]
  · intro h
    simp [TextureManager.getTexture, h]
  · simp only [TextureManager.getTexture]
    split
    · rfl
    · simp
  · intro n
    rw [hfst, hfst]
    cases h : tm.m_textures.lookup name with
    | some entry => simp [TextureManager.getTexture, h]
    | none =>
      simp only [TextureManager.getTexture, h]
      rw [lookup_append_of_none _ _ _ _ h]
      by_cases hn : n = name
      · subst hn
        simp [h]
      · simp [hn]

/-! ### Failure of a renderable -/

theorem lookup_eq_none_iff_not_key {α : Type} (l : List (String × α)) (name : String) :
    l.lookup name = none ↔ name ∉ l.map Prod.fst := by
  induction l with
  | nil => simp
  | cons entry rest ih =>
    obtain ⟨key, value⟩ := entry
    by_cases hk : name = key
    · subst hk
      simp [List.lookup]
    · have hb : (name == key) = false := by simpa using hk
      simp only [List.lookup, hb, ih, List.map_cons, List.mem_cons, not_or]
      exact ⟨fun h => ⟨hk, h⟩, fun h => h.2⟩

theorem Model.createDescriptorSets_flag (m : Model) (rd : Renderer) (ctx : VulkanContext)
    (tm : TextureManager) (g : Gpu) (result : VkResult) :
    (m.createDescriptorSets rd ctx tm g result).1 =
      (decide (result = VK_SUCCESS) && (tm.getTexture m.m_tex_name).1.isSome) := by
  simp only [Model.createDescriptorSets]
  by_cases hr : result = VK_SUCCESS
  · simp only [hr, ne_eq, not_true_eq_false, if_false, decide_True, Bool.true_and]
    rcases hget : tm.getTexture m.m_tex_name with ⟨_ | texture, tm1⟩ <;> simp
  · simp [hr]

theorem Model.init_flag (m : Model) (memoryTypes : List Nat) (rd : Renderer)
    (ctx : VulkanContext) (tm : TextureManager) (g : Gpu) (r : ModelResults) :
    (m.init memoryTypes rd ctx tm g r).1 =
      ((m.createVertexBuffer memoryTypes g r.vertex).1 &&
        ((m.createVertexBuffer memoryTypes g r.vertex).2.1.createIndexBuffer memoryTypes
          (m.createVertexBuffer memoryTypes g r.vertex).2.2 r.index).1 &&
        (decide (r.vkAllocateDescriptorSets = VK_SUCCESS) &&
          (tm.getTexture m.m_tex_name).1.isSome)) := by
  have hname := (Model.createVertexBuffer_since m memoryTypes r.vertex
    (Gpu.since.refl Call.notDescriptor g)).2.1
  unfold Model.init
  rcases hv : m.createVertexBuffer memoryTypes g r.vertex with ⟨sv, mv, gv⟩
  rw [hv] at hname
  cases sv with
  | false => simp
  | true =>
    simp only [Bool.not_true, Bool.false_eq_true, if_false, Bool.true_and]
    have hname2 := (Model.createIndexBuffer_since mv memoryTypes r.index
      (Gpu.since.refl Call.notDescriptor gv)).2.1
    rcases hi : mv.createIndexBuffer memoryTypes gv r.index with ⟨si, mi, gi⟩
    rw [hi] at hname2
    cases si with
    | false => simp
    | true =>
      simp only [Bool.not_true, Bool.false_eq_true, if_false, Bool.true_and]
      have hd := Model.createDescriptorSets_flag mi rd ctx tm gi r.vkAllocateDescriptorSets
      simp only at hname hname2
      rw [hname2, hname] at hd
      rcases hds : mi.createDescriptorSets rd ctx tm gi r.vkAllocateDescriptorSets with
        ⟨sd, md, tmd, gd, printedd⟩
      rw [hds] at hd
      simp only at hd
      cases sd <;> simp [← hd]

theorem Model.createDescriptorSets_name (m : Model) (rd : Renderer) (ctx : VulkanContext)
    (tm : TextureManager) (g : Gpu) (result : VkResult) :
    (m.createDescriptorSets rd ctx tm g result).2.1.m_name = m.m_name := by
  simp only [Model.createDescriptorSets]
  split
  · rfl
  · split <;> rfl

theorem Model.init_name (m : Model) (memoryTypes : List Nat) (rd : Renderer)
    (ctx : VulkanContext) (tm : TextureManager) (g : Gpu) (r : ModelResults) :
    (m.init memoryTypes rd ctx tm g r).2.1.m_name = m.m_name := by
  have hv := (Model.createVertexBuffer_since m memoryTypes r.vertex
    (Gpu.since.refl Call.notDescriptor g)).2.2
  unfold Model.init
  rcases hvb : m.createVertexBuffer memoryTypes g r.vertex with ⟨sv, mv, gv⟩
  rw [hvb] at hv
  simp only at hv
  cases sv with
  | false => exact hv
  | true =>
    simp only [Bool.not_true, Bool.false_eq_true, if_false]
    have hi := (Model.createIndexBuffer_since mv memoryTypes r.index
      (Gpu.since.refl Call.notDescriptor gv)).2.2
    rcases hib : mv.createIndexBuffer memoryTypes gv r.index with ⟨si, mi, gi⟩
    rw [hib] at hi
    simp only at hi
    cases si with
    | false => exact hi.trans hv
    | true =>
      simp only [Bool.not_true, Bool.false_eq_true, if_false]
      have hd := Model.createDescriptorSets_name mi rd ctx tm gi r.vkAllocateDescriptorSets
      rcases hds : mi.createDescriptorSets rd ctx tm gi r.vkAllocateDescriptorSets with
        ⟨sd, md, tmd, gd, printedd⟩
      rw [hds] at hd
      simp only at hd
      cases sd <;> exact hd.trans (hi.trans hv)

theorem ModelManager.init_loop_stops (memoryTypes : List Nat) (rd : Renderer)
    (ctx : VulkanContext) (results : Nat → ModelResults) (m : Model) (after : List Model)
    (before : List Model) :
    ∀ (i : Nat) (tm tm1 : TextureManager) (g g1 : Gpu) (before1 : List Model)
      (printed1 : List String),
      ModelManager.init_loop memoryTypes rd ctx results i before tm g =
        (true, before1, tm1, g1, printed1) →
      (m.init memoryTypes rd ctx tm1 g1 (results (i + before.length))).1 = false →
      ModelManager.init_loop memoryTypes rd ctx results i (before ++ m :: after) tm g =
        (false,
          before1 ++ (m.init memoryTypes rd ctx tm1 g1 (results (i + before.length))).2.1 ::
            after,
          (m.init memoryTypes rd ctx tm1 g1 (results (i + before.length))).2.2.1,
          (m.init memoryTypes rd ctx tm1 g1 (results (i + before.length))).2.2.2.1,
          printed1 ++
            (m.init memoryTypes rd ctx tm1 g1 (results (i + before.length))).2.2.2.2 ++
            ["Error: Couldn't create model: " ++
              (m.init memoryTypes rd ctx tm1 g1 (results (i + before.length))).2.1.m_name ++
              "\n"]) := by
  induction before with
  | nil =>
    intro i tm tm1 g g1 before1 printed1 hbefore hfail
    simp only [ModelManager.init_loop, Prod.mk.injEq, true_and] at hbefore
    obtain ⟨rfl, rfl, rfl, rfl⟩ := hbefore
    simp only [List.length_nil, Nat.add_zero] at hfail ⊢
    simp only [List.nil_append]
    unfold ModelManager.init_loop
    rcases hm : m.init memoryTypes rd ctx tm g (results i) with ⟨s, m1, tm2, g2, printed⟩
    rw [hm] at hfail
    simp only at hfail
    subst hfail
    simp
  | cons first rest ih =>
    intro i tm tm1 g g1 before1 printed1 hbefore hfail
    simp only [List.cons_append]
    unfold ModelManager.init_loop at hbefore ⊢
    rcases hf : first.init memoryTypes rd ctx tm g (results i) with ⟨s, f1, tm2, g2, printed⟩
    rw [hf] at hbefore
    cases s with
    | false => simp at hbefore
    | true =>
      simp only [Bool.not_true, Bool.false_eq_true, if_false] at hbefore ⊢
      rcases hr : ModelManager.init_loop memoryTypes rd ctx results (i + 1) rest tm2 g2 with
        ⟨sr, rest1, tm3, g3, printed3⟩
      rw [hr] at hbefore
      simp only [Prod.mk.injEq] at hbefore
      obtain ⟨rfl, rfl, rfl, rfl, rfl⟩ := hbefore
      have hlen : i + (first :: rest).length = i + 1 + rest.length := by
        simp only [List.length_cons]; omega
      rw [hlen] at hfail ⊢
      rw [ih (i + 1) tm2 tm3 g2 g3 rest1 printed3 hr hfail]
      simp

theorem ModelManager.init_loop_registry (memoryTypes : List Nat) (rd : Renderer)
    (ctx : VulkanContext) (results : Nat → ModelResults) (models : List Model) :
    ∀ (i : Nat) (tm tm1 : TextureManager) (g g1 : Gpu) (models1 : List Model)
      (printed1 : List String),
      ModelManager.init_loop memoryTypes rd ctx results i models tm g =
        (true, models1, tm1, g1, printed1) → tm1 = tm := by
  induction models with
  | nil =>
    intro i tm tm1 g g1 models1 printed1 h
    simp only [ModelManager.init_loop, Prod.mk.injEq, true_and] at h
    exact h.2.1.symm
  | cons first rest ih =>
    intro i tm tm1 g g1 models1 printed1 h
    unfold ModelManager.init_loop at h
    rcases hf : first.init memoryTypes rd ctx tm g (results i) with ⟨s, f1, tm2, g2, printed⟩
    rw [hf] at h
    cases s with
    | false => simp at h
    | true =>
      simp only [Bool.not_true, Bool.false_eq_true, if_false] at h
      obtain ⟨-, -, htm, -⟩ := Model.init_spec first f1 memoryTypes rd ctx tm tm2 g g2 _ _ hf
      rcases hr : ModelManager.init_loop memoryTypes rd ctx results (i + 1) rest tm2 g2 with
        ⟨sr, rest1, tm3, g3, printed3⟩
      rw [hr] at h
      simp only [Prod.mk.injEq] at h
      obtain ⟨rfl, -, rfl, -, -⟩ := h
      rw [ih (i + 1) tm2 tm3 g2 g3 rest1 printed3 hr, htm]

theorem mem_of_lookup_eq_some {α : Type} (l : List (String × α)) (name : String) (a : α)
    (h : l.lookup name = some a) : (name, a) ∈ l := by
  induction l with
  | nil => simp at h
  | cons entry rest ih =>
    obtain ⟨key, value⟩ := entry
    by_cases hk : name = key
    · subst hk
      simp only [List.lookup, beq_self_eq_true, Option.some.injEq] at h
      subst h
      exact List.mem_cons_self _ _
    · have hb : (name == key) = false := by simpa using hk
      simp only [List.lookup, hb] at h
      exact List.mem_cons_of_mem _ (ih h)

theorem getTexture_isSome_iff (tm : TextureManager) (name : String)
    (hnonnull : ∀ entry ∈ tm.m_textures, entry.2 ≠ none) :
    (tm.getTexture name).1.isSome = true ↔ name ∈ tm.m_textures.map Prod.fst := by
  simp only [TextureManager.getTexture]
  cases h : tm.m_textures.lookup name with
  | none =>
    have := (lookup_eq_none_iff_not_key _ _).mp h
    simp [this]
  | some entry =>
    have hkey : name ∈ tm.m_textures.map Prod.fst := by
      by_contra hc
      rw [(lookup_eq_none_iff_not_key _ _).mpr hc] at h
      exact absurd h (by simp)
    have hmem : (name, entry) ∈ tm.m_textures := mem_of_lookup_eq_some _ _ _ h
    have := hnonnull _ hmem
    cases entry with
    | none => exact absurd rfl this
    | some texture => simp [hkey]

theorem eq_of_fst_true3 {α β : Type} (x : Bool × α × β) (h : x.1 = true) :
    x = (true, x.2.1, x.2.2) := by
  obtain ⟨a, b, c⟩ := x
  simp only at h
  rw [h]

/-- C21: on a registry in which every entry holds a texture (as `loadTextures`
leaves it), `createDescriptorSets` returns false exactly when the texture name
of the renderable is not a key of the registry or `vkAllocateDescriptorSets`
does not return `VK_SUCCESS`. When that is the case for the renderable `m`
that follows the renderables `before` in `m_models`, the descriptor pool has
been created and the renderables `before` have all been initialised:
`Model::init` of `m` returns false; `ModelManager::init` returns false; the
renderables `after` are returned as they were, the driver world and the
texture registry are those in which `Model::init` of `m` returned and the
renderer is the one `createDescriptorPool` left, so that no later renderable
is initialised and no command buffer is built; and the last line printed names
`m`. -/
theorem createDescriptorSets_failure (m : Model) (before after : List Model) (rd rdp : Renderer)
    (ctx : VulkanContext) (tm tm1 : TextureManager) (g gp g1 : Gpu) (d : Driver)
    (vkCreateDescriptorPool : VkResult) (results : Nat → ModelResults)
    (before1 : List Model) (printed1 : List String)
    (hnonnull : ∀ entry ∈ tm.m_textures, entry.2 ≠ none)
    (hfail : m.m_tex_name ∉ tm.m_textures.map Prod.fst ∨
      (results before.length).vkAllocateDescriptorSets ≠ VK_SUCCESS)
    (hpool : createDescriptorPool rd ctx g ((before ++ m :: after).length % 2 ^ 32)
      vkCreateDescriptorPool = (true, rdp, gp))
    (hbefore : ModelManager.init_loop d.memoryTypes rdp ctx results 0 before tm gp =
      (true, before1, tm1, g1, printed1)) :
    (∀ (model : Model) (rd0 : Renderer) (g0 : Gpu) (result : VkResult),
      (model.createDescriptorSets rd0 ctx tm g0 result).1 = false ↔
        (model.m_tex_name ∉ tm.m_textures.map Prod.fst ∨ result ≠ VK_SUCCESS)) ∧
    (m.init d.memoryTypes rdp ctx tm1 g1 (results before.length)).1 = false ∧
    ModelManager.init (before ++ m :: after) rd ctx tm g d vkCreateDescriptorPool results =
      (false,
        before1 ++ (m.init d.memoryTypes rdp ctx tm1 g1 (results before.length)).2.1 :: after,
        rdp,
        (m.init d.memoryTypes rdp ctx tm1 g1 (results before.length)).2.2.1,
        (m.init d.memoryTypes rdp ctx tm1 g1 (results before.length)).2.2.2.1,
        printed1 ++ (m.init d.memoryTypes rdp ctx tm1 g1 (results before.length)).2.2.2.2 ++
          ["Error: Couldn't create model: " ++ m.m_name ++ "\n"]) := by
  have hflag : ∀ (model : Model) (rd0 : Renderer) (g0 : Gpu) (result : VkResult),
      (model.createDescriptorSets rd0 ctx tm g0 result).1 = false ↔
        (model.m_tex_name ∉ tm.m_textures.map Prod.fst ∨ result ≠ VK_SUCCESS) := by
    intro model rd0 g0 result
    rw [Model.createDescriptorSets_flag, ← getTexture_isSome_iff tm _ hnonnull]
    by_cases hr : result = VK_SUCCESS <;>
      cases (tm.getTexture model.m_tex_name).1.isSome <;> simp [hr]
  have htm : tm1 = tm :=
    ModelManager.init_loop_registry _ _ _ _ _ _ _ _ _ _ _ _ hbefore
  subst htm
  have hinit : (m.init d.memoryTypes rdp ctx tm1 g1 (results before.length)).1 = false := by
    rw [Model.init_flag]
    have : (decide ((results before.length).vkAllocateDescriptorSets = VK_SUCCESS) &&
        (tm1.getTexture m.m_tex_name).1.isSome) = false := by
      rcases hfail with h | h
      · have := (getTexture_isSome_iff tm1 m.m_tex_name hnonnull).not.mpr h
        simp [this]
      · simp [h]
    rw [this]
    simp
  refine ⟨hflag, hinit, ?_⟩
  have hname : (m.init d.memoryTypes rdp ctx tm1 g1 (results before.length)).2.1.m_name =
      m.m_name := Model.init_name _ _ _ _ _ _ _
  have hstop := ModelManager.init_loop_stops d.memoryTypes rdp ctx results m after before 0
    tm1 tm1 gp g1 before1 printed1 hbefore (by simpa using hinit)
  simp only [Nat.zero_add] at hstop
  unfold ModelManager.init
  rw [hpool]
  simp only [Bool.not_true, Bool.false_eq_true, if_false]
  rw [hstop, hname]
  simp

/-- The second of three models names a texture that is not registered: the
load returns false, the third model keeps its null vertex buffer and the line
printed last names the second model. -/
theorem createDescriptorSets_failure_witness :
    ((∀ entry ∈ TextureManager.example.m_textures, entry.2 ≠ none) ∧
      (Model.untextured.m_tex_name ∉ TextureManager.example.m_textures.map Prod.fst ∨
        ModelResults.ok.vkAllocateDescriptorSets ≠ VK_SUCCESS) ∧
      (createDescriptorPool Renderer.withDescriptors readyContext3 readyGpu
        (([Model.example] ++ Model.untextured :: [Model.example]).length % 2 ^ 32)
        VK_SUCCESS).1 = true ∧
      (ModelManager.init_loop Driver.nominal.memoryTypes
        (createDescriptorPool Renderer.withDescriptors readyContext3 readyGpu
          (([Model.example] ++ Model.untextured :: [Model.example]).length % 2 ^ 32)
          VK_SUCCESS).2.1 readyContext3 (fun _ => ModelResults.ok) 0 [Model.example]
        TextureManager.example
        (createDescriptorPool Renderer.withDescriptors readyContext3 readyGpu
          (([Model.example] ++ Model.untextured :: [Model.example]).length % 2 ^ 32)
          VK_SUCCESS).2.2).1 = true) ∧
    (ModelManager.init ([Model.example] ++ Model.untextured :: [Model.example])
      Renderer.withDescriptors readyContext3 TextureManager.example readyGpu Driver.nominal
      VK_SUCCESS (fun _ => ModelResults.ok)).1 = false ∧
    ((ModelManager.init ([Model.example] ++ Model.untextured :: [Model.example])
      Renderer.withDescriptors readyContext3 TextureManager.example readyGpu Driver.nominal
      VK_SUCCESS (fun _ => ModelResults.ok)).2.1.map Model.m_vertex_buffer).getLast? =
      some VK_NULL_HANDLE ∧
    (ModelManager.init ([Model.example] ++ Model.untextured :: [Model.example])
      Renderer.withDescriptors readyContext3 TextureManager.example readyGpu Driver.nominal
      VK_SUCCESS (fun _ => ModelResults.ok)).2.2.2.2.2.getLast? =
      some "Error: Couldn't create model: bare\n" := by
  have hnonnull : ∀ entry ∈ TextureManager.example.m_textures, entry.2 ≠ none := by decide
  have hfail : Model.untextured.m_tex_name ∉ TextureManager.example.m_textures.map Prod.fst ∨
      ModelResults.ok.vkAllocateDescriptorSets ≠ VK_SUCCESS := Or.inl (by decide)
  have hpool : (createDescriptorPool Renderer.withDescriptors readyContext3 readyGpu
      (([Model.example] ++ Model.untextured :: [Model.example]).length % 2 ^ 32)
      VK_SUCCESS).1 = true := by decide
  have hbefore : (ModelManager.init_loop Driver.nominal.memoryTypes
      (createDescriptorPool Renderer.withDescriptors readyContext3 readyGpu
        (([Model.example] ++ Model.untextured :: [Model.example]).length % 2 ^ 32)
        VK_SUCCESS).2.1 readyContext3 (fun _ => ModelResults.ok) 0 [Model.example]
      TextureManager.example
      (createDescriptorPool Renderer.withDescriptors readyContext3 readyGpu
        (([Model.example] ++ Model.untextured :: [Model.example]).length % 2 ^ 32)
        VK_SUCCESS).2.2).1 = true := by decide
  have h := (createDescriptorSets_failure Model.untextured [Model.example] [Model.example]
    Renderer.withDescriptors _ readyContext3 TextureManager.example _ readyGpu _ _
    Driver.nominal VK_SUCCESS (fun _ => ModelResults.ok) _ _ hnonnull hfail
    (eq_of_fst_true3 _ hpool) (eq_of_fst_true _ hbefore)).2.2
  refine ⟨⟨hnonnull, hfail, hpool, hbefore⟩, ?_, ?_, ?_⟩
  · rw [h]
  · rw [h]
    simp [Model.untextured, Model.example, Model.new]
  · rw [h]
    simp [Model.untextured, Model.new]

/-! ### Recorded command buffers -/

theorem Gpu.commandsOf_record (g : Gpu) (cb cb1 : Handle) (cmd : Cmd) :
    (g.record cb cmd).commandsOf cb1 =
      if cb = cb1 then g.commandsOf cb1 ++ [cmd] else g.commandsOf cb1 := by
  by_cases h : cb = cb1 <;> simp [Gpu.commandsOf, Gpu.record, Gpu.call, List.filter_append, h]

theorem Gpu.commandsOf_call (g : Gpu) (c : Call) (cb : Handle) :
    (g.call c).commandsOf cb = g.commandsOf cb := rfl

theorem Gpu.commandsOf_reset (next : Handle) (log : List Call) (recorded : List (Handle × Cmd))
    (bufferSize : List (Handle × Nat)) (bufferMemory : List (Handle × Handle))
    (memory : List (Handle × List Byte)) (signalled : List Handle)
    (pending : List (Handle × Handle)) (cb cb1 : Handle) :
    (Gpu.mk next log (recorded.filter (fun p => p.1 ≠ cb)) bufferSize bufferMemory memory
      signalled pending).commandsOf cb1 =
      if cb = cb1 then [] else (recorded.filter (fun p => p.1 = cb1)).map Prod.snd := by
  by_cases hc : cb = cb1
  · subst hc
    simp [Gpu.commandsOf, List.filter_filter]
  · simp only [Gpu.commandsOf, List.filter_filter, hc, if_false]
    congr 1
    apply List.filter_congr
    intro p _
    by_cases hp : p.1 = cb1
    · have h3 : ¬ cb1 = cb := fun h2 => hc h2.symm
      simp [hp, h3]
    · simp [hp]

theorem buildCommandBuffers_models_commands (rd : Renderer) (cb cb1 : Handle) (i : Nat)
    (models : List Model) :
    ∀ g : Gpu, (buildCommandBuffers_models rd cb i models g).commandsOf cb1 =
      if cb = cb1 then
        g.commandsOf cb1 ++ models.flatMap (fun model =>
          [ Cmd.vkCmdBindVertexBuffers model.m_vertex_buffer,
            Cmd.vkCmdBindIndexBuffer model.m_index_buffer,
            Cmd.vkCmdBindDescriptorSets rd.m_pipeline_layout
              (model.m_descriptor_sets.getD i VK_NULL_HANDLE),
            Cmd.vkCmdDrawIndexed (model.m_indices.length % 2 ^ 32) ])
      else g.commandsOf cb1 := by
  induction models with
  | nil => intro g; simp [buildCommandBuffers_models]
  | cons model rest ih =>
    intro g
    simp only [buildCommandBuffers_models, ih, Gpu.commandsOf_record]
    by_cases h : cb = cb1 <;> simp [h]

theorem buildCommandBuffers_loop_commands (rd : Renderer) (ctx : VulkanContext) (d : Driver)
    (command_buffers : List Handle) :
    ∀ (i : Nat) (g g1 : Gpu), command_buffers.Nodup →
      buildCommandBuffers_loop rd ctx d i command_buffers g = (true, g1) →
      (∀ cb, cb ∉ command_buffers → g1.commandsOf cb = g.commandsOf cb) ∧
      ∀ k, k < command_buffers.length →
        g1.commandsOf (command_buffers.getD k VK_NULL_HANDLE) =
          [ Cmd.vkCmdBeginRenderPass rd.m_render_pass
              (rd.m_swap_chain_framebuffers.getD (i + k) VK_NULL_HANDLE)
              ctx.m_swap_chain_extent,
            Cmd.vkCmdBindPipeline rd.m_graphics_pipeline ] ++
          rd.m_models.flatMap (fun model =>
            [ Cmd.vkCmdBindVertexBuffers model.m_vertex_buffer,
              Cmd.vkCmdBindIndexBuffer model.m_index_buffer,
              Cmd.vkCmdBindDescriptorSets rd.m_pipeline_layout
                (model.m_descriptor_sets.getD (i + k) VK_NULL_HANDLE),
              Cmd.vkCmdDrawIndexed (model.m_indices.length % 2 ^ 32) ]) ++
          [Cmd.vkCmdEndRenderPass] := by
  induction command_buffers with
  | nil =>
    intro i g g1 _ h
    simp only [buildCommandBuffers_loop, Prod.mk.injEq, true_and] at h
    subst h
    exact ⟨fun _ _ => rfl, fun k hk => absurd hk (Nat.not_lt_zero k)⟩
  | cons cb rest ih =>
    intro i g g1 hnodup h
    have hcb : cb ∉ rest := (List.nodup_cons.mp hnodup).1
    simp only [buildCommandBuffers_loop] at h
    split at h
    · simp at h
    · split at h
      · simp at h
      · obtain ⟨hother, hrest⟩ := ih (i + 1) _ g1 (List.nodup_cons.mp hnodup).2 h
        simp only [Gpu.commandsOf_call, Gpu.commandsOf_record,
          buildCommandBuffers_models_commands, Gpu.commandsOf_reset] at hother
        constructor
        · intro cb1 hcb1
          have hne : ¬ cb = cb1 := fun h2 => hcb1 (h2 ▸ List.mem_cons_self _ _)
          rw [hother cb1 (fun h2 => hcb1 (List.mem_cons_of_mem _ h2))]
          simp [hne, Gpu.commandsOf, Gpu.call]
        · intro k hk
          cases k with
          | zero =>
            simp only [List.getD_cons_zero, Nat.add_zero]
            rw [hother cb hcb]
            simp
          | succ k =>
            simp only [List.getD_cons_succ]
            have := hrest k (by simpa using hk)
            rw [this, show i + 1 + k = i + (k + 1) by omega]

theorem buildCommandBuffers_loop_succeeds (rd : Renderer) (ctx : VulkanContext) (d : Driver)
    (hbegin : ∀ i, d.vkBeginCommandBuffer i = VK_SUCCESS)
    (hend : ∀ i, d.vkEndCommandBuffer i = VK_SUCCESS) (command_buffers : List Handle) :
    ∀ (i : Nat) (g : Gpu),
      (buildCommandBuffers_loop rd ctx d i command_buffers g).1 = true := by
  induction command_buffers with
  | nil => intro i g; rfl
  | cons cb rest ih =>
    intro i g
    simp only [buildCommandBuffers_loop, hbegin, hend, ne_eq, not_true_eq_false, if_false]
    exact ih _ _

theorem flatMap_draw_count (layout : Handle) (i : Nat) (models : List Model) :
    (models.flatMap (fun model =>
        [ Cmd.vkCmdBindVertexBuffers model.m_vertex_buffer,
          Cmd.vkCmdBindIndexBuffer model.m_index_buffer,
          Cmd.vkCmdBindDescriptorSets layout (model.m_descriptor_sets.getD i VK_NULL_HANDLE),
          Cmd.vkCmdDrawIndexed (model.m_indices.length % 2 ^ 32) ])).countP
      (fun c => match c with | Cmd.vkCmdDrawIndexed _ => true | _ => false) =
      models.length := by
  induction models with
  | nil => rfl
  | cons m rest ih =>
    simp only [List.flatMap_cons, List.countP_append, ih, List.length_cons]
    simp [List.countP_cons]
    omega

/-- C22, the claim as stated fails: a renderable of `2^32` indices, recorded
with a framebuffer and a descriptor set for each of the three command buffers,
is drawn with an index count of 0 in command buffer 0, not with the length of
its index list: the count is the size of the list converted to `uint32_t`. -/
theorem draw_count_not_length :
    (buildCommandBuffers Renderer.recording readyContext readyGpu Driver.nominal
      [Model.overlong]).1 = true ∧
    readyContext.m_command_buffers = [100, 101, 102] ∧
    Renderer.recording.m_swap_chain_framebuffers = [510, 511, 512] ∧
    Model.overlong.m_descriptor_sets = [650, 651, 652] ∧
    Model.overlong.m_indices.length = 2 ^ 32 ∧
    (buildCommandBuffers Renderer.recording readyContext readyGpu Driver.nominal
      [Model.overlong]).2.2.commandsOf 100 =
      [ Cmd.vkCmdBeginRenderPass 500 510 readyContext.m_swap_chain_extent,
        Cmd.vkCmdBindPipeline 502,
        Cmd.vkCmdBindVertexBuffers 640,
        Cmd.vkCmdBindIndexBuffer 642,
        Cmd.vkCmdBindDescriptorSets 501 650,
        Cmd.vkCmdDrawIndexed 0,
        Cmd.vkCmdEndRenderPass ] := by
  have hlen : Model.overlong.m_indices.length = 2 ^ 32 := List.length_replicate _ _
  have hok := buildCommandBuffers_loop_succeeds
    { Renderer.recording with m_models := [Model.overlong] } readyContext Driver.nominal
    (fun _ => rfl) (fun _ => rfl) readyContext.m_command_buffers 0 readyGpu
  have hfst : (buildCommandBuffers Renderer.recording readyContext readyGpu Driver.nominal
      [Model.overlong]).1 = true := hok
  have hsnd : (buildCommandBuffers Renderer.recording readyContext readyGpu Driver.nominal
      [Model.overlong]).2.2 = (buildCommandBuffers_loop
        { Renderer.recording with m_models := [Model.overlong] } readyContext Driver.nominal 0
        readyContext.m_command_buffers readyGpu).2 := rfl
  rw [hsnd]
  rcases hl : buildCommandBuffers_loop { Renderer.recording with m_models := [Model.overlong] }
    readyContext Driver.nominal 0 readyContext.m_command_buffers readyGpu with ⟨ok, g2⟩
  rw [hl] at hok
  simp only at hok
  subst hok
  have hseq := (buildCommandBuffers_loop_commands
    { Renderer.recording with m_models := [Model.overlong] } readyContext Driver.nominal
    readyContext.m_command_buffers 0 readyGpu g2 (by decide) hl).2 0 (by decide)
  have hcb : readyContext.m_command_buffers.getD 0 VK_NULL_HANDLE = 100 := by decide
  have hvb : Model.overlong.m_vertex_buffer = 640 := rfl
  have hib : Model.overlong.m_index_buffer = 642 := rfl
  have hds : Model.overlong.m_descriptor_sets = [650, 651, 652] := rfl
  rw [hcb] at hseq
  simp only [List.flatMap_cons, List.flatMap_nil, hlen, Nat.mod_self, hvb, hib, hds,
    Nat.add_zero] at hseq
  refine ⟨hfst, by decide, rfl, rfl, hlen, ?_⟩
  rw [hseq]
  rfl

/-- C22, amended: when `buildCommandBuffers` returns true on distinct command
buffers, with a framebuffer and, in every renderable, a descriptor set for
each command buffer, the commands recorded in command buffer `i` are exactly:
begin the render pass into framebuffer `i`, bind the pipeline, then for each
renderable in list order bind its vertex buffer, bind its index buffer, bind
its descriptor set number `i` and draw indexed with the length of its index
list modulo `2^32`, then end the render pass; so the command buffer holds one
draw per renderable. Framebuffer `i` and descriptor set `i` are elements of
their vectors, and whatever had been recorded in the command buffer before is
gone. -/
theorem buildCommandBuffers_sequence (rd rd1 : Renderer) (ctx : VulkanContext) (g g1 : Gpu)
    (d : Driver) (models : List Model) (i : Nat)
    (hnodup : ctx.m_command_buffers.Nodup)
    (hframebuffers : ctx.m_command_buffers.length ≤ rd.m_swap_chain_framebuffers.length)
    (hsets : ∀ model ∈ models, ctx.m_command_buffers.length ≤ model.m_descriptor_sets.length)
    (hbuild : buildCommandBuffers rd ctx g d models = (true, rd1, g1))
    (hi : i < ctx.m_command_buffers.length) :
    g1.commandsOf (ctx.m_command_buffers.getD i VK_NULL_HANDLE) =
      [ Cmd.vkCmdBeginRenderPass rd.m_render_pass
          (rd.m_swap_chain_framebuffers.getD i VK_NULL_HANDLE) ctx.m_swap_chain_extent,
        Cmd.vkCmdBindPipeline rd.m_graphics_pipeline ] ++
      models.flatMap (fun model =>
        [ Cmd.vkCmdBindVertexBuffers model.m_vertex_buffer,
          Cmd.vkCmdBindIndexBuffer model.m_index_buffer,
          Cmd.vkCmdBindDescriptorSets rd.m_pipeline_layout
            (model.m_descriptor_sets.getD i VK_NULL_HANDLE),
          Cmd.vkCmdDrawIndexed (model.m_indices.length % 2 ^ 32) ]) ++
      [Cmd.vkCmdEndRenderPass] ∧
    rd.m_swap_chain_framebuffers[i]? =
      some (rd.m_swap_chain_framebuffers.getD i VK_NULL_HANDLE) ∧
    (∀ model ∈ models,
      model.m_descriptor_sets[i]? = some (model.m_descriptor_sets.getD i VK_NULL_HANDLE)) ∧
    (g1.commandsOf (ctx.m_command_buffers.getD i VK_NULL_HANDLE)).countP
      (fun c => match c with | Cmd.vkCmdDrawIndexed _ => true | _ => false) =
      models.length := by
  simp only [buildCommandBuffers] at hbuild
  rcases hl : buildCommandBuffers_loop { rd with m_models := models } ctx d 0
    ctx.m_command_buffers g with ⟨ok, g2⟩
  rw [hl] at hbuild
  simp only [Prod.mk.injEq] at hbuild
  obtain ⟨rfl, -, rfl⟩ := hbuild
  have hseq := (buildCommandBuffers_loop_commands { rd with m_models := models } ctx d
    ctx.m_command_buffers 0 g g2 hnodup hl).2 i hi
  simp only [Nat.zero_add] at hseq
  refine ⟨hseq, ?_, ?_, ?_⟩
  · have hlt : i < rd.m_swap_chain_framebuffers.length := Nat.lt_of_lt_of_le hi hframebuffers
    simp [List.getD_eq_getElem?_getD, List.getElem?_eq_getElem hlt]
  · intro model hmodel
    have hlt : i < model.m_descriptor_sets.length := Nat.lt_of_lt_of_le hi (hsets model hmodel)
    simp [List.getD_eq_getElem?_getD, List.getElem?_eq_getElem hlt]
  · rw [hseq]
    simp only [List.countP_append, flatMap_draw_count]
    simp [List.countP_cons]

/-- Two models recorded into the three command buffers of `readyContext`, with
three framebuffers and three descriptor sets in each model: command buffer 101
holds the render pass into framebuffer 511 and, for each model, its buffers,
its descriptor set number 1 and a draw of its 1 and 3 indices. -/
theorem buildCommandBuffers_sequence_witness :
    (readyContext.m_command_buffers.Nodup ∧
      readyContext.m_command_buffers.length ≤
        Renderer.recording.m_swap_chain_framebuffers.length ∧
      (∀ model ∈ [Model.first, Model.second],
        readyContext.m_command_buffers.length ≤ model.m_descriptor_sets.length) ∧
      (buildCommandBuffers Renderer.recording readyContext readyGpu Driver.nominal
        [Model.first, Model.second]).1 = true ∧
      1 < readyContext.m_command_buffers.length) ∧
    (buildCommandBuffers Renderer.recording readyContext readyGpu Driver.nominal
      [Model.first, Model.second]).2.2.commandsOf 101 =
      [ Cmd.vkCmdBeginRenderPass 500 511 readyContext.m_swap_chain_extent,
        Cmd.vkCmdBindPipeline 502,
        Cmd.vkCmdBindVertexBuffers 600,
        Cmd.vkCmdBindIndexBuffer 602,
        Cmd.vkCmdBindDescriptorSets 501 611,
        Cmd.vkCmdDrawIndexed 1,
        Cmd.vkCmdBindVertexBuffers 620,
        Cmd.vkCmdBindIndexBuffer 622,
        Cmd.vkCmdBindDescriptorSets 501 631,
        Cmd.vkCmdDrawIndexed 3,
        Cmd.vkCmdEndRenderPass ] ∧
    ((buildCommandBuffers Renderer.recording readyContext readyGpu Driver.nominal
      [Model.first, Model.second]).2.2.commandsOf 101).countP
      (fun c => match c with | Cmd.vkCmdDrawIndexed _ => true | _ => false) = 2 := by
  have hnodup : readyContext.m_command_buffers.Nodup := by decide
  have hframebuffers : readyContext.m_command_buffers.length ≤
      Renderer.recording.m_swap_chain_framebuffers.length := by decide
  have hsets : ∀ model ∈ [Model.first, Model.second],
      readyContext.m_command_buffers.length ≤ model.m_descriptor_sets.length := by decide
  have hbuild : (buildCommandBuffers Renderer.recording readyContext readyGpu Driver.nominal
      [Model.first, Model.second]).1 = true := by decide
  have hi : 1 < readyContext.m_command_buffers.length := by decide
  have h := buildCommandBuffers_sequence Renderer.recording _ readyContext readyGpu _
    Driver.nominal [Model.first, Model.second] 1 hnodup hframebuffers hsets
    (eq_of_fst_true3 _ hbuild) hi
  have hcb : readyContext.m_command_buffers.getD 1 VK_NULL_HANDLE = 101 := by decide
  rw [hcb] at h
  refine ⟨⟨hnodup, hframebuffers, hsets, hbuild, hi⟩, ?_, h.2.2.2⟩
  rw [h.1]
  rfl

/-! ### Fence of a stale frame, sizes after a rebuild -/

/-- C27, the code at the failing input: a frame whose acquisition reports "out
of date" returns false after `beginFrame` has reset the fence of slot 0 and
before anything is submitted, and the slot index stays 0: fence 3 of slot 0 is
then neither signalled nor awaited by a pending submission. The next
`drawFrame` waits on that fence and never returns, with or without a rebuild
of the swapchain in between: the loop of `main`, after the iteration with the
stale frame, rebuilds the swapchain and then blocks in `beginFrame`. -/
theorem beginFrame_blocks_after_out_of_date :
    ((drawFrame Renderer.example readyContext readyGpu FrameResults.outOfDate []).map
      (fun res => (res.1, res.2.1.m_current_frame,
        res.2.1.m_in_flight_fences.getD res.2.1.m_current_frame VK_NULL_HANDLE,
        decide (3 ∈ res.2.2.signalled), decide (3 ∈ res.2.2.pending.map Prod.snd)))) =
      some (false, 0, 3, false, false) ∧
    (match drawFrame Renderer.example readyContext readyGpu FrameResults.outOfDate [] with
      | some (_, ctx1, g1) => (drawFrame Renderer.example ctx1 g1 (FrameResults.ok 0) []).isNone
      | none => false) = true ∧
    (match main_loop MainLoop.example [Iteration.example FrameResults.outOfDate] with
      | .next s1 =>
          s1.recreate_swapchain &&
          (Renderer.recreateSwapChain s1.renderer s1.vulkan_context s1.gpu Driver.nominal
            800 600).1
      | _ => false) = true ∧
    (match main_loop MainLoop.example
        [Iteration.example FrameResults.outOfDate, Iteration.example (FrameResults.ok 0)] with
      | .blocked => true
      | _ => false) = true := by
  refine ⟨by decide, by decide, by decide, by decide⟩

set_option maxRecDepth 100000 in
/-- C28, the code at the failing input: a load against three swapchain images
leaves three uniform buffers and three descriptor sets per renderable; a
rebuild on a surface that now asks for at least three images returns true with
a swapchain of four images, four command buffers and four framebuffers, while
the uniform buffers and the descriptor sets are still three. Image index 3 can
then be acquired, is not smaller than the number of uniform buffers, and
command buffer 3 was recorded with the read of descriptor set 3 past the end of
the three sets of the renderable. -/
theorem rebuild_outgrows_load :
    loadedWorld.1 = true ∧
    loadedWorld.2.2.1.m_uniform_buffers.length = getSwapChainImagesCount readyContext3 ∧
    loadedWorld.2.1.map (fun model => model.m_descriptor_sets.length) = [3] ∧
    rebuiltWorld.1 = true ∧
    getSwapChainImagesCount rebuiltWorld.2.2.1 = 4 ∧
    rebuiltWorld.2.2.1.m_command_buffers.length = 4 ∧
    rebuiltWorld.2.1.m_swap_chain_framebuffers.length = 4 ∧
    rebuiltWorld.2.1.m_uniform_buffers.length = 3 ∧
    rebuiltWorld.2.1.m_uniform_buffers_memory.length = 3 ∧
    rebuiltWorld.2.1.m_models.map (fun model => model.m_descriptor_sets.length) = [3] ∧
    ((rebuiltWorld.2.2.2.commandsOf
        (rebuiltWorld.2.2.1.m_command_buffers.getD 3 VK_NULL_HANDLE)).filterMap
      (fun c => match c with
        | Cmd.vkCmdBindDescriptorSets _ descriptorSet => some descriptorSet
        | _ => none)) = [VK_NULL_HANDLE] := by
  refine ⟨by decide, by decide, by decide, by decide, by decide, by decide, by decide,
    by decide, by decide, by decide, by decide⟩

/-! ### Order of the calls of a rebuild -/

theorem dropWhile_append_singleton {α : Type} (f : α → Bool) (P : α) :
    ∀ Qs : List α, (Qs ++ [P]).dropWhile f = [] ∨
      ∃ Qs1, (Qs ++ [P]).dropWhile f = Qs1 ++ [P] := by
  intro Qs
  induction Qs with
  | nil =>
    by_cases hf : f P = true
    · left; simp [List.dropWhile, hf]
    · right; exact ⟨[], by simp [List.dropWhile, hf]⟩
  | cons Q rest ih =>
    by_cases hf : f Q = true
    · simpa [List.dropWhile, hf] using ih
    · right; exact ⟨Q :: rest, by simp [List.dropWhile, hf]⟩

theorem dropWhile_append_of_cons {α : Type} (f : α → Bool) (Rs : List α) :
    ∀ (Qs : List α) (R : α) (rest : List α), Qs.dropWhile f = R :: rest →
      (Qs ++ Rs).dropWhile f = R :: rest ++ Rs := by
  intro Qs
  induction Qs with
  | nil => intro R rest h; simp at h
  | cons Q tail ih =>
    intro R rest h
    by_cases hf : f Q = true
    · simp only [List.dropWhile, hf, List.cons_append] at h ⊢
      exact ih R rest h
    · simp only [List.dropWhile, hf, List.cons_append] at h ⊢
      cases h; rfl

theorem inPhases_all (P : Call → Bool) :
    ∀ (calls : List Call) (Qs : List (Call → Bool)), (∀ c ∈ calls, P c = true) →
      inPhases (Qs ++ [P]) calls = true := by
  intro calls
  induction calls with
  | nil => intro Qs _; rfl
  | cons c cs ih =>
    intro Qs h
    have hc := h c (List.mem_cons_self _ _)
    simp only [inPhases]
    rcases dropWhile_append_singleton (fun R : Call → Bool => !R c) P Qs with h0 | ⟨Qs1, h1⟩
    · exfalso
      have := List.dropWhile_eq_nil_iff.mp h0 P (by simp)
      simp [hc] at this
    · rw [h1]
      cases Qs1 with
      | nil => exact ih [] (fun x hx => h x (List.mem_cons_of_mem _ hx))
      | cons Q tail => exact ih (Q :: tail) (fun x hx => h x (List.mem_cons_of_mem _ hx))

theorem inPhases_append (P : Call → Bool) (more : List Call)
    (hmore : ∀ c ∈ more, P c = true) :
    ∀ (calls : List Call) (Qs : List (Call → Bool)), inPhases (Qs ++ [P]) calls = true →
      inPhases (Qs ++ [P]) (calls ++ more) = true := by
  intro calls
  induction calls with
  | nil => intro Qs _; exact inPhases_all P more Qs hmore
  | cons c cs ih =>
    intro Qs h
    simp only [inPhases, List.cons_append] at h ⊢
    rcases dropWhile_append_singleton (fun R : Call → Bool => !R c) P Qs with h0 | ⟨Qs1, h1⟩
    · rw [h0] at h; simp at h
    · rw [h1] at h ⊢
      cases Qs1 with
      | nil => exact ih [] h
      | cons Q tail => exact ih (Q :: tail) h

theorem inPhases_more (Rs : List (Call → Bool)) :
    ∀ (calls : List Call) (Qs : List (Call → Bool)), inPhases Qs calls = true →
      inPhases (Qs ++ Rs) calls = true := by
  intro calls
  induction calls with
  | nil => intro Qs _; rfl
  | cons c cs ih =>
    intro Qs h
    simp only [inPhases] at h ⊢
    cases hd : Qs.dropWhile (fun R : Call → Bool => !R c) with
    | nil => rw [hd] at h; simp at h
    | cons R rest =>
      rw [hd] at h
      rw [dropWhile_append_of_cons _ Rs Qs R rest hd]
      exact ih (R :: rest) h

theorem Gpu.staged.initial (g : Gpu) : Gpu.staged [] g g := ⟨[], by simp, rfl⟩

theorem Gpu.staged.more {Qs : List (Call → Bool)} {g0 g : Gpu} (Rs : List (Call → Bool))
    (h : Gpu.staged Qs g0 g) : Gpu.staged (Qs ++ Rs) g0 g := by
  obtain ⟨calls, hlog, hp⟩ := h
  exact ⟨calls, hlog, inPhases_more Rs calls Qs hp⟩

theorem Gpu.staged.start {g0 g : Gpu} (Rs : List (Call → Bool)) (h : Gpu.staged [] g0 g) :
    Gpu.staged Rs g0 g := h.more Rs

theorem Gpu.staged.extend {Qs : List (Call → Bool)} {P : Call → Bool} {g0 g g1 : Gpu}
    (h : Gpu.staged (Qs ++ [P]) g0 g) (h1 : Gpu.since P g g1) :
    Gpu.staged (Qs ++ [P]) g0 g1 := by
  obtain ⟨calls, hlog, hp⟩ := h
  obtain ⟨more, hlog1, hmore⟩ := h1
  exact ⟨calls ++ more, by rw [hlog1, hlog, List.append_assoc],
    inPhases_append P more hmore calls Qs hp⟩

theorem Gpu.since.mono {P Q : Call → Bool} {g0 g : Gpu} (hPQ : ∀ c, P c = true → Q c = true)
    (h : Gpu.since P g0 g) : Gpu.since Q g0 g := by
  obtain ⟨calls, hlog, hall⟩ := h
  exact ⟨calls, hlog, fun c hc => hPQ c (hall c hc)⟩

theorem Call.ofDepthImage_of_isCommand (c : Call) (h : c.isCommand = true) :
    c.ofDepthImage = true := by
  cases c <;> first | rfl | exact absurd h (by simp [Call.isCommand])

theorem Call.ofRenderer_of_isCommand (c : Call) (h : c.isCommand = true) :
    c.ofRenderer = true := by
  cases c <;> first | rfl | exact absurd h (by simp [Call.isCommand])

theorem Gpu.call_log (g : Gpu) (c : Call) : (g.call c).log = g.log ++ [c] := rfl

theorem Gpu.foldl_call_log {α : Type} (f : α → Call) (l : List α) :
    ∀ g : Gpu, (l.foldl (fun g a => g.call (f a)) g).log = g.log ++ l.map f := by
  induction l with
  | nil => intro g; simp
  | cons a rest ih =>
    intro g
    simp only [List.foldl, List.map]
    rw [ih]
    simp [Gpu.call]

theorem VulkanImage.delete_log (img : VulkanImage) (g : Gpu) :
    (img.delete g).log = g.log ++ img.deleteCalls := by
  simp only [VulkanImage.delete, VulkanImage.deleteCalls]
  split_ifs <;> simp [Gpu.call]

theorem updateSurfaceInformation_log (ctx : VulkanContext) (g : Gpu) (d : Driver) :
    (updateSurfaceInformation ctx g d).2.2.log = g.log ++ [.querySurface] := by
  simp only [updateSurfaceInformation]
  split_ifs <;> simp [Gpu.call]

theorem createSwapChain_view_loop_views {g0 : Gpu} (d : Driver) (format : VkFormat)
    (images : List Handle) :
    ∀ (i : Nat) (views : List Handle) (g : Gpu), Gpu.since Call.ofSwapchainView g0 g →
      Gpu.since Call.ofSwapchainView g0
        (createSwapChain_view_loop d format i images views g).2.2 := by
  induction images with
  | nil => intro i views g h; exact h
  | cons image rest ih =>
    intro i views g h
    simp only [createSwapChain_view_loop]
    split
    · exact Gpu.since.call h (by rfl)
    · exact ih _ _ _ (Gpu.since.mk (Gpu.since.call h (by rfl)) _ _ _ _ _ _ _)

theorem createSwapChain_staged {g0 g : Gpu} (ctx : VulkanContext) (d : Driver)
    (h : Gpu.staged [] g0 g) :
    Gpu.staged [Call.ofSwapchain, Call.ofSwapchainView] g0 (createSwapChain ctx g d).2.2 := by
  have h1 : Gpu.staged ([] ++ [Call.ofSwapchain]) g0 g := h.more _
  simp only [createSwapChain]
  split
  · exact (h1.extend (Gpu.since.call (Gpu.since.refl _ g) (by rfl))).more [Call.ofSwapchainView]
  · refine @Gpu.staged.extend [Call.ofSwapchain] Call.ofSwapchainView g0 _ _ ?_
      (createSwapChain_view_loop_views d _ _ _ _ _ (Gpu.since.refl _ _))
    refine @Gpu.staged.more [Call.ofSwapchain] g0 _ [Call.ofSwapchainView] ?_
    refine @Gpu.staged.extend [] Call.ofSwapchain g0 g _ h1 ?_
    repeat (first
      | exact Gpu.since.refl _ g
      | refine Gpu.since.mk ?_ _ _ _ _ _ _ _
      | refine Gpu.since.call ?_ rfl)

theorem createCommandBuffers_allocates (ctx : VulkanContext) (g : Gpu) (d : Driver) :
    Gpu.since Call.isAllocateCommandBuffers g (createCommandBuffers ctx g d).2.2 := by
  simp only [createCommandBuffers]
  split
  · exact Gpu.since.call (Gpu.since.refl _ g) (by rfl)
  · exact Gpu.since.mk (Gpu.since.call (Gpu.since.refl _ g) (by rfl)) _ _ _ _ _ _ _

theorem createImage_depth {g0 g : Gpu} (memoryTypes : List Nat)
    (img : VulkanImage) (r : CreateImageResults) (usage : Nat)
    (h : Gpu.since Call.ofDepthImage g0 g) :
    Gpu.since Call.ofDepthImage g0 (createImage memoryTypes img g r usage).2.2 := by
  simp only [createImage]
  repeat' split
  all_goals
    repeat (first
      | exact h
      | refine Gpu.since.mk ?_ _ _ _ _ _ _ _
      | refine Gpu.since.call ?_ rfl)

theorem createImageView_depth {g0 g : Gpu} (img : VulkanImage) (result : VkResult)
    (h : Gpu.since Call.ofDepthImage g0 g) :
    Gpu.since Call.ofDepthImage g0
      (createImageView img g result VK_IMAGE_ASPECT_DEPTH_BIT).2.2 := by
  simp only [createImageView]
  repeat' split
  all_goals
    repeat (first
      | exact h
      | refine Gpu.since.mk ?_ _ _ _ _ _ _ _
      | refine Gpu.since.call ?_ rfl)

theorem createDepthBuffer_depth (ctx : VulkanContext) (g : Gpu) (d : Driver) :
    Gpu.since Call.ofDepthImage g (createDepthBuffer ctx g d).2.2 := by
  have h := Gpu.since.refl Call.ofDepthImage g
  simp only [createDepthBuffer]
  have h1 := fun img => createImage_depth d.memoryTypes img d.depthImage
    VK_IMAGE_USAGE_DEPTH_STENCIL_ATTACHMENT_BIT h
  split
  · exact h
  · split
    · exact h1 _
    · have h2 := fun img => createImageView_depth img d.depthImageView
        (h1 (VulkanImage.new
          (createDepthBuffer_depth_format d.optimalTilingFeatures)
          ctx.m_swap_chain_extent.width ctx.m_swap_chain_extent.height))
      split
      · exact h2 _
      · exact transitionImageLayout_since _ _ _ _ Call.ofDepthImage_of_isCommand (h2 _)

theorem createRenderPass_renderer {g0 g : Gpu} (rd : Renderer) (ctx : VulkanContext)
    (d : Driver) (h : Gpu.since Call.ofRenderer g0 g) :
    Gpu.since Call.ofRenderer g0 (createRenderPass rd ctx g d).2.2 := by
  simp only [createRenderPass]
  split
  · exact Gpu.since.mk (Gpu.since.call h (by rfl)) _ _ _ _ _ _ _
  · exact Gpu.since.call h (by rfl)

theorem createPipelineLayout_renderer {g0 g : Gpu} (rd : Renderer) (d : Driver)
    (h : Gpu.since Call.ofRenderer g0 g) :
    Gpu.since Call.ofRenderer g0 (createPipelineLayout rd g d).2.2 := by
  simp only [createPipelineLayout]
  split
  · exact Gpu.since.mk (Gpu.since.call h (by rfl)) _ _ _ _ _ _ _
  · exact Gpu.since.call h (by rfl)

theorem createShaderModule_renderer {g0 g : Gpu} (d : Driver) (filename : String)
    (h : Gpu.since Call.ofRenderer g0 g) :
    Gpu.since Call.ofRenderer g0 (createShaderModule g d filename).2.2 := by
  simp only [createShaderModule]
  repeat' split
  all_goals
    repeat (first
      | exact h
      | refine Gpu.since.mk ?_ _ _ _ _ _ _ _
      | refine Gpu.since.call ?_ rfl)

theorem createGraphicsPipeline_renderer {g0 g : Gpu} (rd : Renderer) (ctx : VulkanContext)
    (d : Driver) (h : Gpu.since Call.ofRenderer g0 g) :
    Gpu.since Call.ofRenderer g0 (createGraphicsPipeline rd ctx g d).2.2 := by
  simp only [createGraphicsPipeline]
  have h1 := createShaderModule_renderer d "draw_vert.spv" h
  have h2 := createShaderModule_renderer d "draw_frag.spv" h1
  repeat' split
  all_goals
    repeat (first
      | exact h1
      | exact h2
      | refine Gpu.since.mk ?_ _ _ _ _ _ _ _
      | refine Gpu.since.call ?_ rfl)

theorem createFramebuffers_loop_renderer {g0 : Gpu} (d : Driver)
    (m_render_pass depth_view : Handle) (extent : VkExtent2D) (views : List Handle) :
    ∀ (i : Nat) (framebuffers : List Handle) (g : Gpu), Gpu.since Call.ofRenderer g0 g →
      Gpu.since Call.ofRenderer g0
        (createFramebuffers_loop d m_render_pass depth_view extent i views framebuffers g).2.2 := by
  induction views with
  | nil => intro i framebuffers g h; exact h
  | cons view rest ih =>
    intro i framebuffers g h
    simp only [createFramebuffers_loop]
    split
    · exact Gpu.since.call h (by rfl)
    · exact ih _ _ _ (Gpu.since.mk (Gpu.since.call h (by rfl)) _ _ _ _ _ _ _)

theorem createFramebuffers_renderer {g0 g : Gpu} (rd : Renderer) (ctx : VulkanContext)
    (d : Driver) (h : Gpu.since Call.ofRenderer g0 g) :
    Gpu.since Call.ofRenderer g0 (createFramebuffers rd ctx g d).2.2 := by
  simp only [createFramebuffers]
  exact createFramebuffers_loop_renderer d _ _ _ _ _ _ _ h

theorem flag_of_not_not {b : Bool} (h : ¬(!b) = true) : b = true := by
  cases b <;> simp_all

theorem createSwapChain_ok (ctx : VulkanContext) (g : Gpu) (d : Driver)
    (h : (createSwapChain ctx g d).1 = true) :
    ∃ info views, (createSwapChain ctx g d).2.2.log =
        g.log ++ .vkCreateSwapchainKHR (createSwapChain ctx g d).2.1.m_swap_chain info ::
          .vkGetSwapchainImagesKHR (createSwapChain ctx g d).2.1.m_swap_chain
            (createSwapChain ctx g d).2.1.m_swap_chain_images_count :: views ∧
      ∀ c ∈ views, Call.ofSwapchainView c = true := by
  revert h
  simp only [createSwapChain]
  split
  · simp
  · intro _
    obtain ⟨views, hlog, hall⟩ := createSwapChain_view_loop_views d
      (createSwapChain_surface_format ctx.m_surface_formats).format
      _ 0 ctx.m_swap_chain_image_views _ (Gpu.since.refl Call.ofSwapchainView _)
    exact ⟨createSwapChain_create_info ctx, views, by rw [hlog]; simp [Gpu.call], hall⟩

theorem createCommandBuffers_ok (ctx : VulkanContext) (g : Gpu) (d : Driver)
    (h : (createCommandBuffers ctx g d).1 = true) :
    (createCommandBuffers ctx g d).2.2.log =
        g.log ++ [.vkAllocateCommandBuffers (createCommandBuffers ctx g d).2.1.m_command_buffers] ∧
      (createCommandBuffers ctx g d).2.1.m_swap_chain = ctx.m_swap_chain ∧
      (createCommandBuffers ctx g d).2.1.m_swap_chain_images_count =
        ctx.m_swap_chain_images_count := by
  revert h
  simp only [createCommandBuffers]
  split
  · simp
  · intro _
    simp [Gpu.call]

theorem createImage_first (memoryTypes : List Nat) (img : VulkanImage) (g : Gpu)
    (r : CreateImageResults) (usage : Nat) :
    ∃ rest, (createImage memoryTypes img g r usage).2.2.log =
        g.log ++ .vkCreateImage g.next img.m_format img.m_width img.m_height usage :: rest ∧
      ∀ c ∈ rest, Call.ofDepthImage c = true := by
  have h0 : Gpu.since Call.ofDepthImage
      (g.call (.vkCreateImage g.next img.m_format img.m_width img.m_height usage))
      (createImage memoryTypes img g r usage).2.2 := by
    simp only [createImage]
    repeat' split
    all_goals
      repeat (first
        | exact Gpu.since.refl _ _
        | refine Gpu.since.mk ?_ _ _ _ _ _ _ _
        | refine Gpu.since.call ?_ rfl)
  obtain ⟨rest, hlog, hall⟩ := h0
  exact ⟨rest, by rw [hlog]; simp [Gpu.call], hall⟩

theorem createDepthBuffer_ok (ctx : VulkanContext) (g : Gpu) (d : Driver)
    (h : (createDepthBuffer ctx g d).1 = true) :
    (∃ image format width height rest, (createDepthBuffer ctx g d).2.2.log =
        g.log ++ .vkCreateImage image format width height
          VK_IMAGE_USAGE_DEPTH_STENCIL_ATTACHMENT_BIT :: rest ∧
      ∀ c ∈ rest, Call.ofDepthImage c = true) ∧
    (createDepthBuffer ctx g d).2.1.m_command_buffers = ctx.m_command_buffers ∧
    (createDepthBuffer ctx g d).2.1.m_swap_chain = ctx.m_swap_chain ∧
    (createDepthBuffer ctx g d).2.1.m_swap_chain_images_count = ctx.m_swap_chain_images_count := by
  refine ⟨?_, ?_⟩
  · obtain ⟨rest, hlog, hall⟩ := createImage_first d.memoryTypes
      (VulkanImage.new (createDepthBuffer_depth_format d.optimalTilingFeatures)
        ctx.m_swap_chain_extent.width ctx.m_swap_chain_extent.height) g d.depthImage
      VK_IMAGE_USAGE_DEPTH_STENCIL_ATTACHMENT_BIT
    have hs : Gpu.since Call.ofDepthImage (createImage d.memoryTypes
        (VulkanImage.new (createDepthBuffer_depth_format d.optimalTilingFeatures)
          ctx.m_swap_chain_extent.width ctx.m_swap_chain_extent.height) g d.depthImage
        VK_IMAGE_USAGE_DEPTH_STENCIL_ATTACHMENT_BIT).2.2 (createDepthBuffer ctx g d).2.2 := by
      revert h
      simp only [createDepthBuffer]
      split
      · simp
      · split
        · simp
        · intro _
          split
          · exact createImageView_depth _ _ (Gpu.since.refl _ _)
          · exact transitionImageLayout_since _ _ _ _ Call.ofDepthImage_of_isCommand
              (createImageView_depth _ _ (Gpu.since.refl _ _))
    obtain ⟨more, hlog1, hall1⟩ := hs
    refine ⟨g.next, createDepthBuffer_depth_format d.optimalTilingFeatures,
      ctx.m_swap_chain_extent.width, ctx.m_swap_chain_extent.height, rest ++ more, ?_, ?_⟩
    · rw [hlog1, hlog]
      simp [VulkanImage.new]
    · intro c hc
      rcases List.mem_append.mp hc with h1 | h1
      · exact hall c h1
      · exact hall1 c h1
  · simp only [createDepthBuffer]
    repeat' split
    all_goals simp

theorem VulkanContext.rebuild_destroys (ctx : VulkanContext) (g gD : Gpu)
    (hgD : ((ctx.m_swap_chain_image_views.foldl
        (fun (g : Gpu) v => g.call (.vkDestroyImageView v))
        ((match ctx.m_depth_image with
          | some img => img.delete g
          | none => g).call (.vkFreeCommandBuffers ctx.m_command_buffers))).call
      (.vkDestroySwapchainKHR ctx.m_swap_chain)) = gD) :
    gD.log ++ [Call.querySurface] =
      g.log ++ ((ctx.m_depth_image.map VulkanImage.deleteCalls).getD [] ++
        .vkFreeCommandBuffers ctx.m_command_buffers ::
          (ctx.m_swap_chain_image_views.map Call.vkDestroyImageView ++
            [.vkDestroySwapchainKHR ctx.m_swap_chain, .querySurface])) := by
  rw [← hgD, Gpu.call_log, Gpu.foldl_call_log, Gpu.call_log]
  cases hd : ctx.m_depth_image with
  | none => simp
  | some img => simp [VulkanImage.delete_log]

theorem VulkanContext.rebuild_staged (ctx : VulkanContext) (g : Gpu) (d : Driver) (w h : Nat) :
    ∃ g1 : Gpu,
      g1.log = g.log ++ ((ctx.m_depth_image.map VulkanImage.deleteCalls).getD [] ++
        .vkFreeCommandBuffers ctx.m_command_buffers ::
          (ctx.m_swap_chain_image_views.map Call.vkDestroyImageView ++
            [.vkDestroySwapchainKHR ctx.m_swap_chain, .querySurface])) ∧
      Gpu.staged [Call.ofSwapchain, Call.ofSwapchainView, Call.isAllocateCommandBuffers,
        Call.ofDepthImage] g1 (ctx.recreateSwapChain g d w h).2.2 := by
  simp only [VulkanContext.recreateSwapChain]
  generalize hgD : Gpu.call (List.foldl _ _ _) (.vkDestroySwapchainKHR ctx.m_swap_chain) = gD
  refine ⟨(updateSurfaceInformation
    { ctx with m_command_buffers := [], m_swap_chain_image_views := [],
               m_drawable_width := w, m_drawable_height := h } gD d).2.2, ?_, ?_⟩
  · rw [updateSurfaceInformation_log]
    exact VulkanContext.rebuild_destroys ctx g gD hgD
  · have h1 := Gpu.staged.initial (updateSurfaceInformation
      { ctx with m_command_buffers := [], m_swap_chain_image_views := [],
                 m_drawable_width := w, m_drawable_height := h } gD d).2.2
    split
    · exact h1.start _
    · have h3 := fun c => createSwapChain_staged c d h1
      split
      · exact (h3 _).more [Call.isAllocateCommandBuffers, Call.ofDepthImage]
      · have h4 := fun c c1 => @Gpu.staged.extend [Call.ofSwapchain, Call.ofSwapchainView]
          Call.isAllocateCommandBuffers _ _ _ ((h3 c).more [Call.isAllocateCommandBuffers])
          (createCommandBuffers_allocates c1 _ d)
        split
        · exact (h4 _ _).more [Call.ofDepthImage]
        · have h5 := fun c c1 c2 => @Gpu.staged.extend
            [Call.ofSwapchain, Call.ofSwapchainView, Call.isAllocateCommandBuffers]
            Call.ofDepthImage _ _ _ ((h4 c c1).more [Call.ofDepthImage])
            (createDepthBuffer_depth c2 _ d)
          split
          · exact h5 _ _ _
          · exact h5 _ _ _

theorem VulkanContext.rebuild_created (ctx : VulkanContext) (g : Gpu) (d : Driver) (w h : Nat)
    (hok : (ctx.recreateSwapChain g d w h).1 = true) :
    ∃ (info : VkSwapchainCreateInfoKHR) (image : Handle) (format : VkFormat)
        (width height : Nat) (views depth : List Call),
      (ctx.recreateSwapChain g d w h).2.2.log =
        g.log ++ ((ctx.m_depth_image.map VulkanImage.deleteCalls).getD [] ++
          .vkFreeCommandBuffers ctx.m_command_buffers ::
            (ctx.m_swap_chain_image_views.map Call.vkDestroyImageView ++
              [.vkDestroySwapchainKHR ctx.m_swap_chain, .querySurface])) ++
          (.vkCreateSwapchainKHR (ctx.recreateSwapChain g d w h).2.1.m_swap_chain info ::
            .vkGetSwapchainImagesKHR (ctx.recreateSwapChain g d w h).2.1.m_swap_chain
              (ctx.recreateSwapChain g d w h).2.1.m_swap_chain_images_count :: views) ++
          (.vkAllocateCommandBuffers (ctx.recreateSwapChain g d w h).2.1.m_command_buffers ::
            .vkCreateImage image format width height
              VK_IMAGE_USAGE_DEPTH_STENCIL_ATTACHMENT_BIT :: depth) ∧
      (∀ c ∈ views, Call.ofSwapchainView c = true) ∧
      (∀ c ∈ depth, Call.ofDepthImage c = true) := by
  revert hok
  simp only [VulkanContext.recreateSwapChain]
  generalize hgD : Gpu.call (List.foldl _ _ _) (.vkDestroySwapchainKHR ctx.m_swap_chain) = gD
  split
  · simp
  · split
    next hs =>
      simp
    next hs =>
      split
      next hc =>
        simp
      next hc =>
        split
        next hd =>
          simp
        next hd =>
          intro _
          obtain ⟨info, views, hV, hVp⟩ := createSwapChain_ok _ _ d (flag_of_not_not hs)
          obtain ⟨hC, hC1, hC2⟩ := createCommandBuffers_ok _ _ d (flag_of_not_not hc)
          obtain ⟨⟨image, format, width, height, depth, hD, hDp⟩, hD1, hD2, hD3⟩ :=
            createDepthBuffer_ok _ _ d (flag_of_not_not hd)
          refine ⟨info, image, format, width, height, views, depth, ?_, hVp, hDp⟩
          simp only [hD1, hD2, hD3, hC1, hC2]
          rw [hD, hC, hV, updateSurfaceInformation_log,
            VulkanContext.rebuild_destroys ctx g gD hgD]
          simp

theorem Renderer.recreateSwapChain_destroys (rd : Renderer) (g gR : Gpu)
    (hgR : (((rd.m_swap_chain_framebuffers.foldl
        (fun (g : Gpu) framebuffer => g.call (.vkDestroyFramebuffer framebuffer))
        (waitIdle g)).call (.vkDestroyPipeline rd.m_graphics_pipeline)).call
          (.vkDestroyPipelineLayout rd.m_pipeline_layout)).call
            (.vkDestroyRenderPass rd.m_render_pass) = gR) :
    gR.log = g.log ++ .vkDeviceWaitIdle ::
      (rd.m_swap_chain_framebuffers.map Call.vkDestroyFramebuffer ++
        [.vkDestroyPipeline rd.m_graphics_pipeline,
          .vkDestroyPipelineLayout rd.m_pipeline_layout,
          .vkDestroyRenderPass rd.m_render_pass]) := by
  rw [← hgR, Gpu.call_log, Gpu.call_log, Gpu.call_log, Gpu.foldl_call_log]
  simp [waitIdle, Gpu.call]

theorem Renderer.recreateSwapChain_staged (rd : Renderer) (ctx : VulkanContext) (g : Gpu) (d : Driver)
    (w h : Nat) :
    ∃ g1 : Gpu,
      g1.log = g.log ++ .vkDeviceWaitIdle ::
        (rd.m_swap_chain_framebuffers.map Call.vkDestroyFramebuffer ++
          [.vkDestroyPipeline rd.m_graphics_pipeline,
            .vkDestroyPipelineLayout rd.m_pipeline_layout,
            .vkDestroyRenderPass rd.m_render_pass] ++
          (ctx.m_depth_image.map VulkanImage.deleteCalls).getD [] ++
          .vkFreeCommandBuffers ctx.m_command_buffers ::
            (ctx.m_swap_chain_image_views.map Call.vkDestroyImageView ++
              [.vkDestroySwapchainKHR ctx.m_swap_chain, .querySurface])) ∧
      Gpu.staged creationPhases g1 (rd.recreateSwapChain ctx g d w h).2.2.2 := by
  simp only [Renderer.recreateSwapChain]
  generalize hgR : Gpu.call (Gpu.call (Gpu.call (List.foldl _ _ _) _) _)
    (.vkDestroyRenderPass rd.m_render_pass) = gR
  obtain ⟨g1, hlog, hst⟩ := VulkanContext.rebuild_staged ctx gR d w h
  refine ⟨g1, ?_, ?_⟩
  · rw [hlog, Renderer.recreateSwapChain_destroys rd g gR hgR]
    simp
  · have hst1 : Gpu.staged ([Call.ofSwapchain, Call.ofSwapchainView,
        Call.isAllocateCommandBuffers, Call.ofDepthImage] ++ [Call.ofRenderer]) g1
        (ctx.recreateSwapChain gR d w h).2.2 := hst.more [Call.ofRenderer]
    split
    · exact hst1
    · exact hst1.extend (buildCommandBuffers_since _ _ d _ Call.ofRenderer_of_isCommand
        (createFramebuffers_renderer _ _ d
          (createGraphicsPipeline_renderer _ _ d
            (createPipelineLayout_renderer _ d
              (createRenderPass_renderer _ _ d (Gpu.since.refl _ _))))))

theorem Renderer.recreateSwapChain_created (rd : Renderer) (ctx : VulkanContext) (g : Gpu) (d : Driver)
    (w h : Nat) (hok : (rd.recreateSwapChain ctx g d w h).1 = true) :
    ∃ (info : VkSwapchainCreateInfoKHR) (image : Handle) (format : VkFormat)
        (width height : Nat) (views depth renderer : List Call),
      (rd.recreateSwapChain ctx g d w h).2.2.2.log =
        g.log ++ .vkDeviceWaitIdle ::
          (rd.m_swap_chain_framebuffers.map Call.vkDestroyFramebuffer ++
            [.vkDestroyPipeline rd.m_graphics_pipeline,
              .vkDestroyPipelineLayout rd.m_pipeline_layout,
              .vkDestroyRenderPass rd.m_render_pass] ++
            (ctx.m_depth_image.map VulkanImage.deleteCalls).getD [] ++
            .vkFreeCommandBuffers ctx.m_command_buffers ::
              (ctx.m_swap_chain_image_views.map Call.vkDestroyImageView ++
                [.vkDestroySwapchainKHR ctx.m_swap_chain, .querySurface])) ++
          (.vkCreateSwapchainKHR (rd.recreateSwapChain ctx g d w h).2.2.1.m_swap_chain info ::
            .vkGetSwapchainImagesKHR (rd.recreateSwapChain ctx g d w h).2.2.1.m_swap_chain
              (rd.recreateSwapChain ctx g d w h).2.2.1.m_swap_chain_images_count :: views) ++
          (.vkAllocateCommandBuffers (rd.recreateSwapChain ctx g d w h).2.2.1.m_command_buffers ::
            .vkCreateImage image format width height
              VK_IMAGE_USAGE_DEPTH_STENCIL_ATTACHMENT_BIT :: depth) ++ renderer ∧
      (∀ c ∈ views, Call.ofSwapchainView c = true) ∧
      (∀ c ∈ depth, Call.ofDepthImage c = true) ∧
      (∀ c ∈ renderer, Call.ofRenderer c = true) := by
  revert hok
  simp only [Renderer.recreateSwapChain]
  generalize hgR : Gpu.call (Gpu.call (Gpu.call (List.foldl _ _ _) _) _)
    (.vkDestroyRenderPass rd.m_render_pass) = gR
  split
  next hc => simp
  next hc =>
    intro _
    obtain ⟨info, image, format, width, height, views, depth, hlog, hVp, hDp⟩ :=
      VulkanContext.rebuild_created ctx gR d w h (flag_of_not_not hc)
    generalize hG5 : (buildCommandBuffers _ _ _ d _).2.2 = g5
    have hs : Gpu.since Call.ofRenderer (ctx.recreateSwapChain gR d w h).2.2 g5 := by
      rw [← hG5]
      exact buildCommandBuffers_since _ _ d _ Call.ofRenderer_of_isCommand
        (createFramebuffers_renderer _ _ d
          (createGraphicsPipeline_renderer _ _ d
            (createPipelineLayout_renderer _ d
              (createRenderPass_renderer _ _ d (Gpu.since.refl _ _)))))
    obtain ⟨renderer, hR, hRp⟩ := hs
    refine ⟨info, image, format, width, height, views, depth, renderer, ?_, hVp, hDp, hRp⟩
    rw [hR, hlog, Renderer.recreateSwapChain_destroys rd g gR hgR]
    simp

/-- C25: the calls that one rebuild (`Renderer::recreateSwapChain` calling
`VulkanContext::recreateSwapChain`) adds to the log, whatever the driver
answers, are in this order: `vkDeviceWaitIdle` first; the destruction of the
framebuffers, the pipeline, its layout and the render pass by the renderer; the
calls of the destructor of the depth image; `vkFreeCommandBuffers` on the
command buffers of the context; `vkDestroyImageView` on each swapchain image
view; `vkDestroySwapchainKHR`; the query of the surface; and then the creating
calls, which run through five phases in order: swapchain, colour image views,
allocation of the command buffers, depth image, objects of the renderer (a
rebuild that fails stops inside one of them). When the rebuild returns true the
creating calls are: `vkCreateSwapchainKHR` and `vkGetSwapchainImagesKHR` for
the swapchain the context now holds, colour image views, the allocation of the
command buffers the context now holds, `vkCreateImage` with the depth-stencil
usage followed by the other calls on the depth image, and the calls of the
renderer. Nothing is logged before the wait, so no object is destroyed before
it. -/
theorem rebuild_order (rd : Renderer) (ctx : VulkanContext) (g : Gpu) (d : Driver)
    (w h : Nat) :
    ∃ created : List Call,
      (rd.recreateSwapChain ctx g d w h).2.2.2.log =
        g.log ++ .vkDeviceWaitIdle ::
          (rd.m_swap_chain_framebuffers.map Call.vkDestroyFramebuffer ++
            [.vkDestroyPipeline rd.m_graphics_pipeline,
              .vkDestroyPipelineLayout rd.m_pipeline_layout,
              .vkDestroyRenderPass rd.m_render_pass] ++
            (ctx.m_depth_image.map VulkanImage.deleteCalls).getD [] ++
            .vkFreeCommandBuffers ctx.m_command_buffers ::
              (ctx.m_swap_chain_image_views.map Call.vkDestroyImageView ++
                [.vkDestroySwapchainKHR ctx.m_swap_chain, .querySurface])) ++ created ∧
      inPhases creationPhases created = true ∧
      ((rd.recreateSwapChain ctx g d w h).1 = true →
        ∃ (info : VkSwapchainCreateInfoKHR) (image : Handle) (format : VkFormat)
            (width height : Nat) (views depth renderer : List Call),
          created =
            (.vkCreateSwapchainKHR (rd.recreateSwapChain ctx g d w h).2.2.1.m_swap_chain info ::
              .vkGetSwapchainImagesKHR (rd.recreateSwapChain ctx g d w h).2.2.1.m_swap_chain
                (rd.recreateSwapChain ctx g d w h).2.2.1.m_swap_chain_images_count :: views) ++
            (.vkAllocateCommandBuffers
                (rd.recreateSwapChain ctx g d w h).2.2.1.m_command_buffers ::
              .vkCreateImage image format width height
                VK_IMAGE_USAGE_DEPTH_STENCIL_ATTACHMENT_BIT :: depth) ++ renderer ∧
          (∀ c ∈ views, Call.ofSwapchainView c = true) ∧
          (∀ c ∈ depth, Call.ofDepthImage c = true) ∧
          (∀ c ∈ renderer, Call.ofRenderer c = true)) := by
  obtain ⟨g1, hlog1, created, hlog, hp⟩ := Renderer.recreateSwapChain_staged rd ctx g d w h
  refine ⟨created, by rw [hlog, hlog1], hp, fun hok => ?_⟩
  obtain ⟨info, image, format, width, height, views, depth, renderer, hlog2, hV, hD, hR⟩ :=
    Renderer.recreateSwapChain_created rd ctx g d w h hok
  refine ⟨info, image, format, width, height, views, depth, renderer, ?_, hV, hD, hR⟩
  rw [hlog, hlog1] at hlog2
  simpa using hlog2

/-- The rebuild of the example world at 800 by 600 on the nominal driver returns
true, so its creating calls have the five parts in order. -/
theorem rebuild_order_witness :
    ∃ created : List Call,
      (Renderer.example.recreateSwapChain readyContext readyGpu Driver.nominal 800 600).2.2.2.log =
        readyGpu.log ++ .vkDeviceWaitIdle ::
          (Renderer.example.m_swap_chain_framebuffers.map Call.vkDestroyFramebuffer ++
            [.vkDestroyPipeline Renderer.example.m_graphics_pipeline,
              .vkDestroyPipelineLayout Renderer.example.m_pipeline_layout,
              .vkDestroyRenderPass Renderer.example.m_render_pass] ++
            (readyContext.m_depth_image.map VulkanImage.deleteCalls).getD [] ++
            .vkFreeCommandBuffers readyContext.m_command_buffers ::
              (readyContext.m_swap_chain_image_views.map Call.vkDestroyImageView ++
                [.vkDestroySwapchainKHR readyContext.m_swap_chain, .querySurface])) ++ created ∧
      inPhases creationPhases created = true ∧
      ∃ (info : VkSwapchainCreateInfoKHR) (image : Handle) (format : VkFormat)
          (width height : Nat) (views depth renderer : List Call),
        created =
          (.vkCreateSwapchainKHR (Renderer.example.recreateSwapChain readyContext readyGpu
                Driver.nominal 800 600).2.2.1.m_swap_chain info ::
            .vkGetSwapchainImagesKHR (Renderer.example.recreateSwapChain readyContext readyGpu
                Driver.nominal 800 600).2.2.1.m_swap_chain
              (Renderer.example.recreateSwapChain readyContext readyGpu
                Driver.nominal 800 600).2.2.1.m_swap_chain_images_count :: views) ++
          (.vkAllocateCommandBuffers (Renderer.example.recreateSwapChain readyContext readyGpu
                Driver.nominal 800 600).2.2.1.m_command_buffers ::
            .vkCreateImage image format width height
              VK_IMAGE_USAGE_DEPTH_STENCIL_ATTACHMENT_BIT :: depth) ++ renderer ∧
        (∀ c ∈ views, Call.ofSwapchainView c = true) ∧
        (∀ c ∈ depth, Call.ofDepthImage c = true) ∧
        (∀ c ∈ renderer, Call.ofRenderer c = true) := by
  obtain ⟨created, h1, h2, h3⟩ :=
    rebuild_order Renderer.example readyContext readyGpu Driver.nominal 800 600
  exact ⟨created, h1, h2, h3 (by decide)⟩

/-! ### Layout of a texture image -/

theorem Call.layoutEvent_of_ofBuffer (image : Handle) (c : Call) (h : c.ofBuffer = true) :
    c.layoutEvent image = none := by
  cases c <;> first | rfl | exact absurd h (by simp [Call.ofBuffer])

theorem Gpu.layoutEvents_none (image : Handle) {g0 g : Gpu}
    (h : Gpu.since Call.ofBuffer g0 g) : Gpu.layoutEvents image g g0 = [] := by
  obtain ⟨calls, hlog, hall⟩ := h
  simp only [Gpu.layoutEvents, Gpu.callsSince, hlog, List.drop_left]
  rw [List.filterMap_eq_nil_iff]
  exact fun c hc => Call.layoutEvent_of_ofBuffer image c (hall c hc)

theorem Gpu.layoutEvents_append (image : Handle) {P Q : Call → Bool} {g0 g1 g2 : Gpu}
    (h1 : Gpu.since P g0 g1) (h2 : Gpu.since Q g1 g2) :
    Gpu.layoutEvents image g2 g0 = Gpu.layoutEvents image g1 g0 ++ Gpu.layoutEvents image g2 g1 := by
  obtain ⟨a, ha, -⟩ := h1
  obtain ⟨b, hb, -⟩ := h2
  simp only [Gpu.layoutEvents, Gpu.callsSince, hb, ha, List.append_assoc, List.drop_left,
    List.filterMap_append]
  rw [← List.append_assoc, List.drop_left]

theorem Gpu.layoutEvents_step (image : Handle) {P Q : Call → Bool} {g0 g1 g2 : Gpu}
    {e1 e2 : List LayoutEvent} (h1 : Gpu.since P g0 g1) (h2 : Gpu.since Q g1 g2)
    (he1 : Gpu.layoutEvents image g1 g0 = e1) (he2 : Gpu.layoutEvents image g2 g1 = e2) :
    Gpu.since (fun _ => true) g0 g2 ∧ Gpu.layoutEvents image g2 g0 = e1 ++ e2 := by
  refine ⟨?_, by rw [Gpu.layoutEvents_append image h1 h2, he1, he2]⟩
  obtain ⟨a, ha, -⟩ := h1
  obtain ⟨b, hb, -⟩ := h2
  exact ⟨a ++ b, by rw [hb, ha, List.append_assoc], fun _ _ => rfl⟩

theorem createBuffer_buffer (memoryTypes : List Nat) (g : Gpu) (r : CreateBufferResults)
    (size usage properties : Nat) (buffer buffer_memory : Handle) :
    Gpu.since Call.ofBuffer g
      (createBuffer memoryTypes g r size usage properties buffer buffer_memory).2.2.2 := by
  simp only [createBuffer]
  repeat' split
  all_goals
    repeat (first
      | exact Gpu.since.refl _ g
      | refine Gpu.since.mk ?_ _ _ _ _ _ _ _
      | refine Gpu.since.call ?_ rfl)

theorem mapAndCopy_buffer (g : Gpu) (memory : Handle) (host : List Byte) (size : Nat) :
    Gpu.since Call.ofBuffer g (mapAndCopy g memory host size) := by
  simp only [mapAndCopy, Gpu.writeMemory]
  repeat (first
    | exact Gpu.since.refl _ g
    | refine Gpu.since.mk ?_ _ _ _ _ _ _ _
    | refine Gpu.since.call ?_ rfl)

theorem destroyAndFree_buffer (g : Gpu) (buffer memory : Handle) :
    Gpu.since Call.ofBuffer g ((g.destroyBuffer buffer).freeMemory memory) := by
  simp only [Gpu.destroyBuffer, Gpu.freeMemory]
  repeat (first
    | exact Gpu.since.refl _ g
    | refine Gpu.since.mk ?_ _ _ _ _ _ _ _
    | refine Gpu.since.call ?_ rfl)

theorem createImage_events (memoryTypes : List Nat) (img : VulkanImage) (g : Gpu)
    (r : CreateImageResults) (usage : Nat)
    (h : (createImage memoryTypes img g r usage).1 = true) :
    Gpu.layoutEvents (createImage memoryTypes img g r usage).2.1.m_image
      (createImage memoryTypes img g r usage).2.2 g = [.created] := by
  revert h
  simp only [createImage]
  repeat' split
  all_goals simp [Gpu.layoutEvents, Gpu.callsSince, Gpu.call, Call.layoutEvent]

theorem transitionImageLayout_events (img : VulkanImage) (g : Gpu) (r : OneShotResults)
    (old_layout new_layout : VkImageLayout)
    (h : (old_layout = VK_IMAGE_LAYOUT_UNDEFINED ∧
        new_layout = VK_IMAGE_LAYOUT_TRANSFER_DST_OPTIMAL) ∨
      (old_layout = VK_IMAGE_LAYOUT_TRANSFER_DST_OPTIMAL ∧
        new_layout = VK_IMAGE_LAYOUT_SHADER_READ_ONLY_OPTIMAL)) :
    Gpu.layoutEvents img.m_image (transitionImageLayout img g r old_layout new_layout) g =
      [.transition old_layout new_layout] := by
  rcases h with ⟨rfl, rfl⟩ | ⟨rfl, rfl⟩
  · simp [Gpu.layoutEvents, transitionImageLayout, issue_callsSince, Call.layoutEvent]
  · simp [Gpu.layoutEvents, transitionImageLayout, issue_callsSince, Call.layoutEvent]

theorem copyBufferToImage_events (img : VulkanImage) (g : Gpu) (r : OneShotResults)
    (buffer : Handle) :
    Gpu.layoutEvents img.m_image (copyBufferToImage img g r buffer) g =
      [.copy VK_IMAGE_LAYOUT_TRANSFER_DST_OPTIMAL] := by
  simp [Gpu.layoutEvents, copyBufferToImage, issue_callsSince, Call.layoutEvent]

theorem copyBufferToImage_since {P : Call → Bool} {g0 g : Gpu} (img : VulkanImage)
    (r : OneShotResults) (buffer : Handle)
    (hP : ∀ c : Call, c.isCommand = true → P c = true) (h : Gpu.since P g0 g) :
    Gpu.since P g0 (copyBufferToImage img g r buffer) := by
  simp only [copyBufferToImage]
  exact oneShot_since r _ hP h

theorem createTextureImage_events (memoryTypes : List Nat) (img img1 : VulkanImage)
    (g g1 : Gpu) (r : TextureResults) (texture_data : List Byte) (channels : Nat)
    (h : createTextureImage memoryTypes img g r texture_data channels = some (true, img1, g1)) :
    Gpu.layoutEvents img1.m_image g1 g =
      [ .created,
        .transition VK_IMAGE_LAYOUT_UNDEFINED VK_IMAGE_LAYOUT_TRANSFER_DST_OPTIMAL,
        .copy VK_IMAGE_LAYOUT_TRANSFER_DST_OPTIMAL,
        .transition VK_IMAGE_LAYOUT_TRANSFER_DST_OPTIMAL
          VK_IMAGE_LAYOUT_SHADER_READ_ONLY_OPTIMAL ] := by
  simp only [createTextureImage] at h
  split at h
  · exact absurd h (by simp)
  generalize hb : createBuffer memoryTypes g r.staging _ _ _ _ _ = resb at h
  have hB : Gpu.since Call.ofBuffer g resb.2.2.2 := by
    rw [← hb]; exact createBuffer_buffer _ _ _ _ _ _ _ _
  obtain ⟨sb, buf, mem, gb⟩ := resb
  simp only at h hB
  cases sb with
  | false => simp at h
  | true =>
    simp only [Bool.not_true, Bool.false_eq_true, if_false] at h
    generalize hm : mapAndCopy gb mem texture_data _ = gm at h
    have hM : Gpu.since Call.ofBuffer gb gm := by
      rw [← hm]; exact mapAndCopy_buffer _ _ _ _
    generalize hi : createImage memoryTypes img gm r.image _ = resi at h
    have hI : Gpu.since (Call.rebuildMay none) gm resi.2.2 := by
      rw [← hi]; exact createImage_since _ _ _ _ (Gpu.since.refl _ _)
    have hIe : resi.1 = true → Gpu.layoutEvents resi.2.1.m_image resi.2.2 gm = [.created] := by
      rw [← hi]; exact createImage_events _ _ _ _ _
    obtain ⟨si, imgi, gi⟩ := resi
    simp only at h hI hIe
    cases si with
    | false => simp at h
    | true =>
      simp only [Bool.not_true, Bool.false_eq_true, if_false, Option.some.injEq, Prod.mk.injEq,
        true_and] at h
      obtain ⟨himg, hg⟩ := h
      subst himg
      have s1 := Gpu.layoutEvents_step imgi.m_image hB hM
        (Gpu.layoutEvents_none _ hB) (Gpu.layoutEvents_none _ hM)
      have s2 := Gpu.layoutEvents_step imgi.m_image s1.1 hI s1.2 (hIe rfl)
      have s3 := Gpu.layoutEvents_step imgi.m_image s2.1
        (transitionImageLayout_since imgi r.toTransferDst VK_IMAGE_LAYOUT_UNDEFINED
          VK_IMAGE_LAYOUT_TRANSFER_DST_OPTIMAL (fun _ h => h) (Gpu.since.refl Call.isCommand gi))
        s2.2 (transitionImageLayout_events imgi gi _ _ _ (Or.inl ⟨rfl, rfl⟩))
      have s4 := Gpu.layoutEvents_step imgi.m_image s3.1
        (copyBufferToImage_since imgi r.copy buf (fun _ h => h) (Gpu.since.refl Call.isCommand _))
        s3.2 (copyBufferToImage_events imgi _ _ _)
      have s5 := Gpu.layoutEvents_step imgi.m_image s4.1
        (transitionImageLayout_since imgi r.toShaderReadOnly VK_IMAGE_LAYOUT_TRANSFER_DST_OPTIMAL
          VK_IMAGE_LAYOUT_SHADER_READ_ONLY_OPTIMAL (fun _ h => h)
          (Gpu.since.refl Call.isCommand _))
        s4.2 (transitionImageLayout_events imgi _ _ _ _ (Or.inr ⟨rfl, rfl⟩))
      have s6 := Gpu.layoutEvents_step imgi.m_image s5.1 (destroyAndFree_buffer _ buf mem)
        s5.2 (Gpu.layoutEvents_none _ (destroyAndFree_buffer _ buf mem))
      rw [← hg]
      exact s6.2

theorem Model.createDescriptorSets_loop_sampled {g0 : Gpu} (uniform_buffers : List Handle)
    (vulkan_image : VulkanImage) (sets : List Handle) :
    ∀ (i : Nat) (g : Gpu), Gpu.since Call.samplesShaderReadOnly g0 g →
      Gpu.since Call.samplesShaderReadOnly g0
        (Model.createDescriptorSets_loop uniform_buffers vulkan_image i sets g) := by
  induction sets with
  | nil => intro i g h; exact h
  | cons set rest ih =>
    intro i g h
    simp only [Model.createDescriptorSets_loop]
    exact ih _ _ (Gpu.since.call h (by
      simp [Call.samplesShaderReadOnly, Model.createDescriptorSets_writes]))

theorem Model.createDescriptorSets_sampled (m : Model) (rd : Renderer) (ctx : VulkanContext)
    (tm : TextureManager) (g : Gpu) (result : VkResult) :
    Gpu.since Call.samplesShaderReadOnly g (m.createDescriptorSets rd ctx tm g result).2.2.2.1 := by
  simp only [Model.createDescriptorSets]
  split
  · exact Gpu.since.call (Gpu.since.refl _ g) (by rfl)
  · split
    · exact Gpu.since.mk (Gpu.since.call (Gpu.since.refl _ g) (by rfl)) _ _ _ _ _ _ _
    · exact Model.createDescriptorSets_loop_sampled _ _ _ _ _
        (Gpu.since.mk (Gpu.since.call (Gpu.since.refl _ g) (by rfl)) _ _ _ _ _ _ _)

theorem exists_of_map_fst {α β : Type} (x : Option (Bool × α × β))
    (h : x.map (fun res => res.1) = some true) : ∃ a b, x = some (true, a, b) := by
  cases x with
  | none => simp at h
  | some res =>
    obtain ⟨s, a, b⟩ := res
    simp only [Option.map_some', Option.some.injEq] at h
    exact ⟨a, b, by rw [h]⟩

/-- C26: when `createTextureImage` returns true, the calls it made that bear on
the layout of the new image are, in order: its creation (layout undefined), a
barrier from `UNDEFINED` to `TRANSFER_DST_OPTIMAL`, the buffer-to-image copy,
declared in `TRANSFER_DST_OPTIMAL`, and a barrier from `TRANSFER_DST_OPTIMAL`
to `SHADER_READ_ONLY_OPTIMAL`. Tracked along these events the image starts
undefined, is in `TRANSFER_DST_OPTIMAL` at the copy, every barrier starts from
the tracked layout, and the image ends in `SHADER_READ_ONLY_OPTIMAL`. Every
image descriptor that `Model::createDescriptorSets` writes, for any renderable
and whatever the driver answers, declares `SHADER_READ_ONLY_OPTIMAL`. -/
theorem texture_layout_tracking (memoryTypes : List Nat) (img img1 : VulkanImage)
    (g g1 : Gpu) (r : TextureResults) (texture_data : List Byte) (channels : Nat)
    (h : createTextureImage memoryTypes img g r texture_data channels = some (true, img1, g1))
    (m : Model) (rd : Renderer) (ctx : VulkanContext) (tm : TextureManager) (gm : Gpu)
    (result : VkResult) :
    Gpu.layoutEvents img1.m_image g1 g =
      [ .created,
        .transition VK_IMAGE_LAYOUT_UNDEFINED VK_IMAGE_LAYOUT_TRANSFER_DST_OPTIMAL,
        .copy VK_IMAGE_LAYOUT_TRANSFER_DST_OPTIMAL,
        .transition VK_IMAGE_LAYOUT_TRANSFER_DST_OPTIMAL
          VK_IMAGE_LAYOUT_SHADER_READ_ONLY_OPTIMAL ] ∧
    trackLayout none (Gpu.layoutEvents img1.m_image g1 g) =
      some VK_IMAGE_LAYOUT_SHADER_READ_ONLY_OPTIMAL ∧
    ∀ c ∈ (m.createDescriptorSets rd ctx tm gm result).2.2.2.1.callsSince gm,
      c.samplesShaderReadOnly = true := by
  have he := createTextureImage_events memoryTypes img img1 g g1 r texture_data channels h
  refine ⟨he, ?_, (Model.createDescriptorSets_sampled m rd ctx tm gm result).callsSince⟩
  rw [he]
  rfl

/-- The upload of a two-by-two texture on a driver on which every call
succeeds, and the descriptor sets of the example model. -/
theorem texture_layout_tracking_witness :
    ∃ img1 g1,
      createTextureImage Driver.nominal.memoryTypes
        (VulkanImage.new VK_FORMAT_R8G8B8A8_UNORM 2 2) Gpu.fresh TextureResults.ok
        (List.replicate 16 255) 4 = some (true, img1, g1) ∧
      Gpu.layoutEvents img1.m_image g1 Gpu.fresh =
        [ .created,
          .transition VK_IMAGE_LAYOUT_UNDEFINED VK_IMAGE_LAYOUT_TRANSFER_DST_OPTIMAL,
          .copy VK_IMAGE_LAYOUT_TRANSFER_DST_OPTIMAL,
          .transition VK_IMAGE_LAYOUT_TRANSFER_DST_OPTIMAL
            VK_IMAGE_LAYOUT_SHADER_READ_ONLY_OPTIMAL ] ∧
      trackLayout none (Gpu.layoutEvents img1.m_image g1 Gpu.fresh) =
        some VK_IMAGE_LAYOUT_SHADER_READ_ONLY_OPTIMAL ∧
      ∀ c ∈ (Model.example.createDescriptorSets Renderer.withDescriptors readyContext3
          TextureManager.example readyGpu VK_SUCCESS).2.2.2.1.callsSince readyGpu,
        c.samplesShaderReadOnly = true := by
  obtain ⟨img1, g1, h⟩ := exists_of_map_fst (createTextureImage Driver.nominal.memoryTypes
    (VulkanImage.new VK_FORMAT_R8G8B8A8_UNORM 2 2) Gpu.fresh TextureResults.ok
    (List.replicate 16 255) 4) (by decide)
  exact ⟨img1, g1, h, texture_layout_tracking _ _ _ _ _ _ _ _ h Model.example
    Renderer.withDescriptors readyContext3 TextureManager.example readyGpu VK_SUCCESS⟩

/-! ### The vertices of a mesh -/

theorem ModelManager.init_find_some (vertex : Vertex) :
    ∀ (vertices : List Vertex) (j0 j : Nat), ModelManager.init_find vertex j0 vertices = some j →
      j0 ≤ j ∧ ∃ other, vertices[j - j0]? = some other ∧
        ModelManager.init_equal vertex other = true := by
  intro vertices
  induction vertices with
  | nil => intro j0 j h; simp [ModelManager.init_find] at h
  | cons other rest ih =>
    intro j0 j h
    simp only [ModelManager.init_find] at h
    split at h
    next heq =>
      simp only [Option.some.injEq] at h
      subst h
      exact ⟨Nat.le_refl _, other, by simp, heq⟩
    next heq =>
      obtain ⟨hle, w, hw, hwe⟩ := ih (j0 + 1) j h
      refine ⟨by omega, w, ?_, hwe⟩
      have : j - j0 = (j - (j0 + 1)) + 1 := by omega
      rw [this, List.getElem?_cons_succ]
      exact hw

theorem ModelManager.init_find_none (vertex : Vertex) :
    ∀ (vertices : List Vertex) (j0 : Nat), ModelManager.init_find vertex j0 vertices = none →
      ∀ other ∈ vertices, ModelManager.init_equal vertex other = false := by
  intro vertices
  induction vertices with
  | nil => intro j0 _ other ho; simp at ho
  | cons head rest ih =>
    intro j0 h other ho
    simp only [ModelManager.init_find] at h
    split at h
    · simp at h
    next heq =>
      rcases List.mem_cons.mp ho with h1 | h1
      · subst h1; simpa using heq
      · exact ih (j0 + 1) h other h1

theorem ModelManager.init_add_spec (build : Nat → Vertex) (vertices : List Vertex)
    (indices done : List Nat) (index : Nat) (hsize : done.length < 2 ^ 32)
    (h : Deduplicated build vertices indices done) :
    ∃ vertices1 indices1,
      ModelManager.init_add (build index) vertices indices = some (vertices1, indices1) ∧
      Deduplicated build vertices1 indices1 (done ++ [index]) := by
  unfold ModelManager.init_add
  cases hf : ModelManager.init_find (build index) 0 vertices with
  | some j =>
    obtain ⟨-, other, hother, heq⟩ := ModelManager.init_find_some (build index) vertices 0 j hf
    simp only [Nat.sub_zero] at hother
    have hj : j < vertices.length := (List.getElem?_eq_some_iff.mp hother).1
    have hj32 : j < 2 ^ 32 := by have := h.length_le; omega
    refine ⟨vertices, indices ++ [j], by dsimp only; rw [if_pos hj32], ?_⟩
    refine ⟨by simp [h.length_eq], by have := h.length_le; simp; omega, ?_, ?_, h.distinct, ?_⟩
    · intro id hid
      rcases List.mem_append.mp hid with h1 | h1
      · exact h.bound id h1
      · simp only [List.mem_singleton] at h1; omega
    · intro k id idx hk hd
      by_cases hlt : k < indices.length
      · rw [List.getElem?_append_left hlt] at hk
        rw [List.getElem?_append_left (by rw [← h.length_eq]; exact hlt)] at hd
        exact h.value k id idx hk hd
      · have hge : indices.length ≤ k := Nat.le_of_not_lt hlt
        rw [List.getElem?_append_right hge] at hk
        rw [List.getElem?_append_right (by rw [← h.length_eq]; exact hge)] at hd
        have hk0 : k - indices.length = 0 := by
          by_contra hne
          have : k - indices.length = (k - indices.length - 1) + 1 := by omega
          rw [this] at hk
          simp at hk
        rw [hk0] at hk
        rw [← h.length_eq, hk0] at hd
        simp only [List.getElem?_cons_zero, Option.some.injEq] at hk hd
        subst hk hd
        exact ⟨other, hother, Or.inr heq⟩
    · intro vertex hv
      obtain ⟨idx, hidx, hb⟩ := h.built vertex hv
      exact ⟨idx, List.mem_append_left _ hidx, hb⟩
  | none =>
    have hnone := ModelManager.init_find_none (build index) vertices 0 hf
    have hlen : vertices.length < 2 ^ 32 := by have := h.length_le; omega
    refine ⟨vertices ++ [build index], indices ++ [vertices.length],
      by dsimp only; rw [if_pos hlen], ?_⟩
    refine ⟨by simp [h.length_eq], by have := h.length_le; simp; omega, ?_, ?_, ?_, ?_⟩
    · intro id hid
      rcases List.mem_append.mp hid with h1 | h1
      · have := h.bound id h1
        simp; omega
      · simp only [List.mem_singleton] at h1; simp; omega
    · intro k id idx hk hd
      by_cases hlt : k < indices.length
      · rw [List.getElem?_append_left hlt] at hk
        rw [List.getElem?_append_left (by rw [← h.length_eq]; exact hlt)] at hd
        obtain ⟨vertex, hv, hor⟩ := h.value k id idx hk hd
        have hid : id < vertices.length := (List.getElem?_eq_some_iff.mp hv).1
        exact ⟨vertex, by rw [List.getElem?_append_left hid]; exact hv, hor⟩
      · have hge : indices.length ≤ k := Nat.le_of_not_lt hlt
        rw [List.getElem?_append_right hge] at hk
        rw [List.getElem?_append_right (by rw [← h.length_eq]; exact hge)] at hd
        have hk0 : k - indices.length = 0 := by
          by_contra hne
          have : k - indices.length = (k - indices.length - 1) + 1 := by omega
          rw [this] at hk
          simp at hk
        rw [hk0] at hk
        rw [← h.length_eq, hk0] at hd
        simp only [List.getElem?_cons_zero, Option.some.injEq] at hk hd
        subst hk hd
        exact ⟨build index, by simp, Or.inl rfl⟩
    · rw [List.pairwise_append]
      refine ⟨h.distinct, by simp, ?_⟩
      intro a ha b hb
      simp only [List.mem_singleton] at hb
      subst hb
      exact hnone a ha
    · intro vertex hv
      rcases List.mem_append.mp hv with h1 | h1
      · obtain ⟨idx, hidx, hb⟩ := h.built vertex h1
        exact ⟨idx, List.mem_append_left _ hidx, hb⟩
      · simp only [List.mem_singleton] at h1
        exact ⟨index, by simp, h1⟩

theorem ModelManager.init_indices_spec (oneMinus : Nat → Nat) (mesh : Mesh) :
    ∀ (rest : List Nat) (vertices : List Vertex) (indices done : List Nat),
      done.length + rest.length ≤ 2 ^ 32 →
      Deduplicated (ModelManager.init_vertex oneMinus mesh) vertices indices done →
      ∃ vertices1 indices1,
        ModelManager.init_indices oneMinus mesh rest vertices indices =
          some (vertices1, indices1) ∧
        Deduplicated (ModelManager.init_vertex oneMinus mesh) vertices1 indices1
          (done ++ rest) := by
  intro rest
  induction rest with
  | nil =>
    intro vertices indices done _ h
    exact ⟨vertices, indices, rfl, by simpa using h⟩
  | cons index rest ih =>
    intro vertices indices done hsize h
    simp only [List.length_cons] at hsize
    obtain ⟨v1, i1, hadd, h1⟩ := ModelManager.init_add_spec
      (ModelManager.init_vertex oneMinus mesh) vertices indices done index (by omega) h
    obtain ⟨v2, i2, hrest, h2⟩ := ih v1 i1 (done ++ [index]) (by simp; omega) h1
    refine ⟨v2, i2, ?_, by simpa using h2⟩
    simp only [ModelManager.init_indices, hadd]
    exact hrest

theorem float_eq_comm (a b : Nat) : float_eq a b = float_eq b a := by
  simp only [float_eq]
  have hab : (a == b) = (b == a) := by
    by_cases h : a = b
    · subst h; rfl
    · have h1 : ¬ b = a := fun hba => h hba.symm
      simp [h, h1]
  rw [hab]
  cases float_isNaN a <;> cases float_isNaN b <;>
    simp [Bool.and_comm]

theorem ModelManager.init_equal_comm (vertex other : Vertex) :
    ModelManager.init_equal vertex other = ModelManager.init_equal other vertex := by
  simp only [ModelManager.init_equal, float_eq_comm vertex.pos.1, float_eq_comm vertex.pos.2.1,
    float_eq_comm vertex.pos.2.2, float_eq_comm vertex.color.1, float_eq_comm vertex.color.2.1,
    float_eq_comm vertex.color.2.2, float_eq_comm vertex.tex_coord.1,
    float_eq_comm vertex.tex_coord.2]

theorem ModelManager.init_find_unequal (vertex : Vertex)
    (hv : ∀ other, ModelManager.init_equal vertex other = false) :
    ∀ (vertices : List Vertex) (j : Nat), ModelManager.init_find vertex j vertices = none := by
  intro vertices
  induction vertices with
  | nil => intro j; rfl
  | cons other rest ih =>
    intro j
    simp only [ModelManager.init_find, hv other, Bool.false_eq_true, if_false]
    exact ih (j + 1)

theorem ModelManager.init_indices_endless (oneMinus : Nat → Nat) (mesh : Mesh)
    (hv : ∀ other,
      ModelManager.init_equal (ModelManager.init_vertex oneMinus mesh 0) other = false) :
    ∀ (n : Nat) (vertices : List Vertex) (indices : List Nat),
      vertices.length ≤ 2 ^ 32 → 2 ^ 32 < vertices.length + n →
      ModelManager.init_indices oneMinus mesh (List.replicate n 0) vertices indices = none := by
  intro n
  induction n with
  | zero => intro vertices indices h1 h2; omega
  | succ n ih =>
    intro vertices indices h1 h2
    simp only [List.replicate_succ, ModelManager.init_indices, ModelManager.init_add,
      ModelManager.init_find_unequal _ hv]
    by_cases hlt : vertices.length < 2 ^ 32
    · rw [if_pos hlt]
      exact ih _ _ (by simp; omega) (by simp; omega)
    · rw [if_neg hlt]

/-- C29, the claim as stated fails: with the index list 0, 1, 2, 0 over
positions of which the second differs from the first only in the sign of a
zero, output index 1 is 0 and the vertex found there is not the vertex built
from mesh index 1, although `==` finds them equal; with a single index whose
position holds a NaN the vertex at output index 0 is the one built from mesh
index 0 and `==` does not find it equal to that vertex; and for `2^32 + 1`
indices on a position that holds a NaN the loop never ends, so no lists are
produced. -/
theorem deduplicated_vertex_differs :
    (ModelManager.init_mesh id Mesh.example).map (fun res =>
      (res.2, decide (res.1[0]? = some (ModelManager.init_vertex id Mesh.example 1)),
        res.1.map (ModelManager.init_equal (ModelManager.init_vertex id Mesh.example 1)))) =
      some ([0, 0, 1, 0], false, [true, false]) ∧
    (ModelManager.init_mesh id Mesh.notANumber).map (fun res =>
      (res.2, decide (res.1[0]? = some (ModelManager.init_vertex id Mesh.notANumber 0)),
        res.1.map (ModelManager.init_equal (ModelManager.init_vertex id Mesh.notANumber 0)))) =
      some ([0], true, [false]) ∧
    ModelManager.init_mesh id Mesh.endless = none := by
  refine ⟨by decide, by decide, ?_⟩
  have hnan : float_isNaN 0x7FC00000 = true := by decide
  have hv : ∀ other,
      ModelManager.init_equal (ModelManager.init_vertex id Mesh.endless 0) other = false := by
    intro other
    have hpos : Mesh.endless.positions = [0x7FC00000, 0, 0] := rfl
    have htex : Mesh.endless.texcoords = [] := rfl
    simp [ModelManager.init_equal, ModelManager.init_vertex, hpos, htex, float_eq, hnan]
  exact ModelManager.init_indices_endless id Mesh.endless hv (2 ^ 32 + 1) [] []
    (by simp) (by simp)

/-- C29, amended: for a mesh of at most `2^32` indices the loop of
`ModelManager::init` ends and leaves a vertex list and an index list with: as many output indices
as the mesh has indices; every output index smaller than the number of
vertices; for every `k`, the vertex found at output index `k` is the vertex
built from mesh index `k` itself or one that `==` finds equal to it; no vertex
of the list compares equal to an earlier or a later one. When `==` is
reflexive on the vertices built from the mesh (none holds a NaN), the vertex at
output index `k` compares equal to the vertex built from mesh index `k` for
every `k`, and no two entries of the vertex list are the same vertex. -/
theorem mesh_deduplication (oneMinus : Nat → Nat) (mesh : Mesh)
    (hsize : mesh.indices.length ≤ 2 ^ 32) :
    ∃ vertices indices,
      ModelManager.init_mesh oneMinus mesh = some (vertices, indices) ∧
      indices.length = mesh.indices.length ∧
      (∀ id ∈ indices, id < vertices.length) ∧
      (∀ k, k < mesh.indices.length → ∃ id index vertex,
        indices[k]? = some id ∧ mesh.indices[k]? = some index ∧ vertices[id]? = some vertex ∧
        (vertex = ModelManager.init_vertex oneMinus mesh index ∨
          ModelManager.init_equal (ModelManager.init_vertex oneMinus mesh index) vertex = true)) ∧
      vertices.Pairwise (fun earlier later =>
        ModelManager.init_equal later earlier = false ∧
        ModelManager.init_equal earlier later = false) ∧
      ((∀ index ∈ mesh.indices, ModelManager.init_equal
          (ModelManager.init_vertex oneMinus mesh index)
          (ModelManager.init_vertex oneMinus mesh index) = true) →
        (∀ k, k < mesh.indices.length → ∃ id index vertex,
          indices[k]? = some id ∧ mesh.indices[k]? = some index ∧
          vertices[id]? = some vertex ∧
          ModelManager.init_equal (ModelManager.init_vertex oneMinus mesh index) vertex = true) ∧
        vertices.Nodup) := by
  obtain ⟨vertices, indices, hrun, h⟩ := ModelManager.init_indices_spec oneMinus mesh
    mesh.indices [] [] [] (by simpa using hsize)
    ⟨rfl, Nat.le_refl _, by simp, by simp, by simp, by simp⟩
  simp only [List.nil_append] at h
  have hvalue : ∀ k, k < mesh.indices.length → ∃ id index vertex,
      indices[k]? = some id ∧ mesh.indices[k]? = some index ∧ vertices[id]? = some vertex ∧
      (vertex = ModelManager.init_vertex oneMinus mesh index ∨
        ModelManager.init_equal (ModelManager.init_vertex oneMinus mesh index) vertex = true) := by
    intro k hk
    have hk1 : k < indices.length := by rw [h.length_eq]; exact hk
    obtain ⟨vertex, hv, hor⟩ := h.value k indices[k] mesh.indices[k]
      (List.getElem?_eq_getElem hk1) (List.getElem?_eq_getElem hk)
    exact ⟨indices[k], mesh.indices[k], vertex, List.getElem?_eq_getElem hk1,
      List.getElem?_eq_getElem hk, hv, hor⟩
  refine ⟨vertices, indices, hrun, h.length_eq, h.bound, hvalue, ?_, ?_⟩
  · exact h.distinct.imp (fun hab => ⟨hab, by rw [ModelManager.init_equal_comm]; exact hab⟩)
  · intro hrefl
    refine ⟨?_, ?_⟩
    · intro k hk
      obtain ⟨id, index, vertex, h1, h2, h3, hor⟩ := hvalue k hk
      refine ⟨id, index, vertex, h1, h2, h3, ?_⟩
      rcases hor with heq | heq
      · rw [heq]
        exact hrefl index (List.mem_iff_getElem?.mpr ⟨k, h2⟩)
      · exact heq
    · refine h.distinct.imp_of_mem ?_
      intro a b ha hb hab heq
      subst heq
      obtain ⟨index, hidx, hbuilt⟩ := h.built a ha
      rw [hbuilt, hrefl index hidx] at hab
      exact absurd hab (by simp)

/-- The example mesh: the position of index 1 differs from that of index 0 only
in the sign of a zero, so two vertices are kept and the output indices are
0, 0, 1, 0. -/
theorem mesh_deduplication_witness :
    Mesh.example.indices.length ≤ 2 ^ 32 ∧
    (ModelManager.init_mesh id Mesh.example).map (fun res => (res.1.length, res.2)) =
      some (2, [0, 0, 1, 0]) ∧
    ∃ vertices indices,
      ModelManager.init_mesh id Mesh.example = some (vertices, indices) ∧
      indices.length = Mesh.example.indices.length ∧
      (∀ id ∈ indices, id < vertices.length) ∧
      (∀ k, k < Mesh.example.indices.length → ∃ id index vertex,
        indices[k]? = some id ∧ Mesh.example.indices[k]? = some index ∧
        vertices[id]? = some vertex ∧
        (vertex = ModelManager.init_vertex id Mesh.example index ∨
          ModelManager.init_equal (ModelManager.init_vertex id Mesh.example index) vertex =
            true)) ∧
      vertices.Pairwise (fun earlier later =>
        ModelManager.init_equal later earlier = false ∧
        ModelManager.init_equal earlier later = false) ∧
      (∀ k, k < Mesh.example.indices.length → ∃ id index vertex,
        indices[k]? = some id ∧ Mesh.example.indices[k]? = some index ∧
        vertices[id]? = some vertex ∧
        ModelManager.init_equal (ModelManager.init_vertex id Mesh.example index) vertex = true) ∧
      vertices.Nodup := by
  obtain ⟨vertices, indices, h0, h1, h2, h3, h4, h5⟩ :=
    mesh_deduplication id Mesh.example (by decide)
  exact ⟨by decide, by decide, vertices, indices, h0, h1, h2, h3, h4,
    (h5 (by decide)).1, (h5 (by decide)).2⟩

/-! ### Pixel data handed to the upload -/

theorem createUniformBuffers_loop_length (memoryTypes : List Nat)
    (results : Nat → CreateBufferResults) :
    ∀ (remaining i : Nat) (rd : Renderer) (g : Gpu),
      (createUniformBuffers_loop memoryTypes results remaining i rd g).1 = true →
      (createUniformBuffers_loop memoryTypes results remaining i rd g).2.1.m_uniform_buffers.length
        = rd.m_uniform_buffers.length + remaining ∧
      (createUniformBuffers_loop memoryTypes results remaining i rd
        g).2.1.m_uniform_buffers_memory.length = rd.m_uniform_buffers_memory.length + remaining
  | 0, _, _, _, _ => ⟨rfl, rfl⟩
  | remaining + 1, i, rd, g, h => by
    revert h
    simp only [createUniformBuffers_loop]
    split
    · intro h
      simp at h
    · intro h
      have ih := createUniformBuffers_loop_length memoryTypes results remaining (i + 1) _ _ h
      rw [ih.1, ih.2]
      simp only [List.length_append, List.length_singleton]
      omega

/-- C9, the claim as stated fails: on a surface with `minImageCount = 2` and
`maxImageCount = 8` the formula gives 3, and a driver that creates one image
more than the minimum asked for leaves 4 as the image count that the rest of
the system reads; and on a surface with `minImageCount = 2^32 - 1` and
`maxImageCount = 0` the count computed and requested is 0, not
`minImageCount + 1`, since the sum is formed in 32 bits. -/
theorem images_count_not_formula :
    ((createSwapChain
        (VulkanContext.onSurface
          { Driver.nominal with swapchainImages := fun info => info.minImageCount + 1 })
        Gpu.fresh
        { Driver.nominal with swapchainImages := fun info => info.minImageCount + 1 }).1 = true ∧
      0 < Driver.nominal.surfaceCapabilities.maxImageCount ∧
      getSwapChainImagesCount (createSwapChain
          (VulkanContext.onSurface
            { Driver.nominal with swapchainImages := fun info => info.minImageCount + 1 })
          Gpu.fresh
          { Driver.nominal with swapchainImages := fun info => info.minImageCount + 1 }).2.1 ≠
        min (Driver.nominal.surfaceCapabilities.minImageCount + 1)
          Driver.nominal.surfaceCapabilities.maxImageCount) ∧
    (VkSurfaceCapabilitiesKHR.unbounded.maxImageCount = 0 ∧
      createSwapChain_images_count VkSurfaceCapabilitiesKHR.unbounded = 0 ∧
      (createSwapChain_create_info
        { VulkanContext.onSurface Driver.nominal with
          m_surface_capabilities := VkSurfaceCapabilitiesKHR.unbounded }).minImageCount = 0 ∧
      VkSurfaceCapabilitiesKHR.unbounded.minImageCount + 1 = 2 ^ 32) := by
  decide

/-- C9, amended: the image count that `createSwapChain` computes and requests
as `create_info.minImageCount` is `min(c, maxImageCount)` when
`maxImageCount > 0` and `c` when `maxImageCount = 0`, where `c` is
`minImageCount + 1` modulo `2^32`. Once `vkCreateSwapchainKHR` has succeeded,
the image count `N` that `getSwapChainImagesCount` returns is the number of
images the driver reports for the created swapchain, which is the number of
swapchain images the context holds; when the creation fails, `createSwapChain`
returns false and `N` is the requested count. In every context whose image
count is this `N`: a `createUniformBuffers` that returns true has pushed `N`
uniform buffers and `N` memories; a `createDescriptorSets` that returns true,
run with at least `N` uniform buffers, leaves `N` descriptor sets in the
model; and `createDescriptorPool` asks for a pool of `models_count * N` modulo
`2^32` sets and as many descriptors of each of the two types. -/
theorem createSwapChain_images_count_requested (ctx : VulkanContext) (g : Gpu) (d : Driver) :
    (createSwapChain_create_info ctx).minImageCount =
      (if ctx.m_surface_capabilities.maxImageCount > 0 then
        min ((ctx.m_surface_capabilities.minImageCount + 1) % 2 ^ 32)
          ctx.m_surface_capabilities.maxImageCount
       else (ctx.m_surface_capabilities.minImageCount + 1) % 2 ^ 32) ∧
    (d.vkCreateSwapchainKHR = VK_SUCCESS →
      getSwapChainImagesCount (createSwapChain ctx g d).2.1 =
        d.swapchainImages (createSwapChain_create_info ctx) ∧
      (createSwapChain ctx g d).2.1.m_swap_chain_images.length =
        getSwapChainImagesCount (createSwapChain ctx g d).2.1) ∧
    (d.vkCreateSwapchainKHR ≠ VK_SUCCESS →
      (createSwapChain ctx g d).1 = false ∧
      getSwapChainImagesCount (createSwapChain ctx g d).2.1 =
        (createSwapChain_create_info ctx).minImageCount) ∧
    ∀ ctx1 : VulkanContext,
      getSwapChainImagesCount ctx1 = getSwapChainImagesCount (createSwapChain ctx g d).2.1 →
      (∀ (rd : Renderer) (g1 : Gpu) (memoryTypes : List Nat)
          (results : Nat → CreateBufferResults),
        (createUniformBuffers rd ctx1 memoryTypes g1 results).1 = true →
        (createUniformBuffers rd ctx1 memoryTypes g1 results).2.1.m_uniform_buffers.length =
          rd.m_uniform_buffers.length +
            getSwapChainImagesCount (createSwapChain ctx g d).2.1 ∧
        (createUniformBuffers rd ctx1 memoryTypes g1
            results).2.1.m_uniform_buffers_memory.length =
          rd.m_uniform_buffers_memory.length +
            getSwapChainImagesCount (createSwapChain ctx g d).2.1) ∧
      (∀ (m : Model) (rd : Renderer) (tm : TextureManager) (g1 : Gpu) (result : VkResult),
        getSwapChainImagesCount (createSwapChain ctx g d).2.1 ≤ rd.m_uniform_buffers.length →
        (m.createDescriptorSets rd ctx1 tm g1 result).1 = true →
        (m.createDescriptorSets rd ctx1 tm g1 result).2.1.m_descriptor_sets.length =
          getSwapChainImagesCount (createSwapChain ctx g d).2.1) ∧
      (∀ (rd : Renderer) (g1 : Gpu) (models_count : Nat) (result : VkResult),
        (createDescriptorPool rd ctx1 g1 models_count result).2.2.callsSince g1 =
          [ .vkCreateDescriptorPool g1.next
              ((models_count * getSwapChainImagesCount (createSwapChain ctx g d).2.1) % 2 ^ 32)
              [ { type := VK_DESCRIPTOR_TYPE_UNIFORM_BUFFER,
                  descriptorCount :=
                    (models_count *
                      getSwapChainImagesCount (createSwapChain ctx g d).2.1) % 2 ^ 32 },
                { type := VK_DESCRIPTOR_TYPE_COMBINED_IMAGE_SAMPLER,
                  descriptorCount :=
                    (models_count *
                      getSwapChainImagesCount (createSwapChain ctx g d).2.1) % 2 ^ 32 } ] ]) := by
  refine ⟨?_, ?_, ?_, ?_⟩
  · simp only [createSwapChain_create_info, createSwapChain_create_info_of,
      createSwapChain_images_count]
  · intro h
    simp [createSwapChain, getSwapChainImagesCount, h, Gpu.newHandles]
  · intro h
    simp [createSwapChain, getSwapChainImagesCount, h, createSwapChain_create_info,
      createSwapChain_create_info_of]
  · intro ctx1 hcount
    rw [← hcount]
    refine ⟨?_, ?_, ?_⟩
    · intro rd g1 memoryTypes results h
      have hlen := createUniformBuffers_loop_length memoryTypes results
        (getSwapChainImagesCount ctx1) 0 rd g1 h
      exact hlen
    · intro m rd tm g1 result _ h
      obtain ⟨texture, -, -, hm, -⟩ := Model.createDescriptorSets_spec m _ rd ctx1 tm _ g1 _
        result _ (eq_of_fst_true _ h)
      rw [hm]
      simp [Gpu.newHandles_length]
    · intro rd g1 models_count result
      have hlog := (createDescriptorPool_log rd ctx1 g1 models_count result).1
      simp [Gpu.callsSince, hlog]

/-- The nominal driver: the surface asks for at least 2 and at most 8 images, 3
are requested and 3 are held; in the context of that swapchain
`createUniformBuffers` makes 3 uniform buffers, the pool for two models is
created for 6 sets, and a model that is then given its descriptor sets holds 3
of them. -/
theorem createSwapChain_images_count_requested_witness :
    (createSwapChain_create_info (VulkanContext.onSurface Driver.nominal)).minImageCount = 3 ∧
    Driver.nominal.vkCreateSwapchainKHR = VK_SUCCESS ∧
    getSwapChainImagesCount swapchainWorld.2.1 = 3 ∧
    swapchainWorld.2.1.m_swap_chain_images.length = 3 ∧
    uniformWorld.1 = true ∧
    uniformWorld.2.1.m_uniform_buffers = [9, 11, 13] ∧
    uniformWorld.2.1.m_uniform_buffers_memory = [10, 12, 14] ∧
    pooledWorld.2.2.callsSince uniformWorld.2.2 =
      [ .vkCreateDescriptorPool 15 6
          [ { type := VK_DESCRIPTOR_TYPE_UNIFORM_BUFFER, descriptorCount := 6 },
            { type := VK_DESCRIPTOR_TYPE_COMBINED_IMAGE_SAMPLER, descriptorCount := 6 } ] ] ∧
    (Model.example.createDescriptorSets pooledWorld.2.1 swapchainWorld.2.1
      TextureManager.example pooledWorld.2.2 VK_SUCCESS).1 = true ∧
    (Model.example.createDescriptorSets pooledWorld.2.1 swapchainWorld.2.1
      TextureManager.example pooledWorld.2.2 VK_SUCCESS).2.1.m_descriptor_sets.length = 3 := by
  have h := createSwapChain_images_count_requested (VulkanContext.onSurface Driver.nominal)
    Gpu.fresh Driver.nominal
  have hcount : getSwapChainImagesCount swapchainWorld.2.1 = 3 := by
    rw [swapchainWorld, (h.2.1 rfl).1]; decide
  have himages : swapchainWorld.2.1.m_swap_chain_images.length = 3 := by
    rw [swapchainWorld, (h.2.1 rfl).2]; exact hcount
  have huse := h.2.2.2 swapchainWorld.2.1 rfl
  have hbuffers : uniformWorld.1 = true := by decide
  have hsets : (Model.example.createDescriptorSets pooledWorld.2.1 swapchainWorld.2.1
      TextureManager.example pooledWorld.2.2 VK_SUCCESS).1 = true := by decide
  have hfilled : getSwapChainImagesCount
      (createSwapChain (VulkanContext.onSurface Driver.nominal) Gpu.fresh Driver.nominal).2.1 ≤
      pooledWorld.2.1.m_uniform_buffers.length := by decide
  refine ⟨?_, rfl, hcount, himages, hbuffers, by decide, by decide, ?_, hsets, ?_⟩
  · rw [h.1]; decide
  · rw [pooledWorld, huse.2.2 _ _ _ _]
    decide
  · rw [huse.2.1 _ _ _ _ _ hfilled hsets]
    exact hcount

/-! ### Two rebuilds in a row -/

end VulkanTest
